import Mathlib

/-!
# Fixed-shape depthwise convolution kernels

Shallow embedding of the device kernels under `src/Depthwise` and proofs that each
of them computes the reference depthwise convolution with affine fusion.

## Execution model

A kernel invocation is a grid of execution groups (`blockIdx_x`, `blockIdx_y`), each
with `blockDim_x` lanes (`threadIdx_x`).  Global buffers and the two group-local
scratch arrays are maps from a flat index to a scalar.  The two `__syncthreads()`
barriers split the lane program into three phases (`fillPhase`, `copyPhase`,
`convolve`); a phase is run lane after lane in the order of `threadIdx_x`, and the
groups of the grid are run one after the other.  Every group starts from scratch
contents that the caller of the model chooses (`shared`), so nothing is assumed
about uninitialised scratch memory.

`launchIn` is the same run with the orders made explicit: the groups in the order of a
list, and inside a group the lanes of each of the three phases in the order of a list
of their own.  A barrier is what separates two phases, so no lane starts a phase before
every lane has finished the previous one.

## Traces

`outputIdx`, `filterStores` and `inputLoads` list the indices a lane stores to in the
output buffer and in the filter scratch array, and the indices it reads from the input
buffer; each is tied to the lane program by a lemma (`_convolve_stores`,
`_filter_stores`, `k112_input_loads`).

## Translation

The lane programs are translated statement by statement: an assignment becomes a
`let` that shadows the variable, `a[i] = v` becomes `let a := write a i v`, a guarded
block becomes an `if` on the array it stores to, and a counted loop becomes `forLoop`.
The row loops of the kernels that have one act on `RowState`, the variables that are
live from one iteration to the next; `sum2` and the `inTemp` registers are assigned
in every iteration before they are read and stay local to the loop body.

Index arithmetic (`int` in the source) is exact: it is carried out in `Nat`, buffers
being far below `2^31` elements.  Subtractions under a guard (`threadIdx.x - 32` after
`threadIdx.x >= 32`) are `Nat` subtractions; the one index that is decremented before
it is incremented again (`inputLoadSrcIdx` of the 112 x 112 kernel) is computed in
`Int`.  The scalar type is a parameter: the definitions only use `+`, `*` and `0`;
the theorems about exact arithmetic are stated over an arbitrary commutative ring.
-/

set_option autoImplicit false
set_option linter.unusedVariables false

/-- The scalar arguments every kernel receives after its three buffers. -/
structure Shape where
  inputBatchNumber : Nat
  inputChannel : Nat
  inputHeight : Nat
  inputWidth : Nat
  filterLayerNumber : Nat
  filterHeight : Nat
  filterWidth : Nat
  outputBatchNumber : Nat
  outputChannel : Nat
  outputHeight : Nat
  outputWidth : Nat
  padding : Nat
  stride : Nat

/-- The two `__shared__` arrays of a group. -/
structure Shared (α : Type) where
  filterData : Nat → α
  inputData : Nat → α

/-- Array store `a[i] = v`. -/
def write {α : Type} (a : Nat → α) (i : Nat) (v : α) : Nat → α :=
  fun j => if j = i then v else a j

/-- Counted loop `for (int i = 0; i < n; i++) s = body i s`; also used to run the
lanes of a phase and the groups of a grid one after the other. -/
def forLoop {σ : Type} (n : Nat) (body : Nat → σ → σ) (s : σ) : σ :=
  (List.range n).foldl (fun s i => body i s) s

/-- A phase run by the listed lanes, one after the other in the order of the list. -/
def runLanes {σ : Type} (order : List Nat) (body : Nat → σ → σ) (s : σ) : σ :=
  order.foldl (fun s t => body t s) s

/-- The groups of a `gridDim_x` x `gridDim_y` grid, `blockIdx_x` major. -/
def gridGroups (gridDim_x gridDim_y : Nat) : List (Nat × Nat) :=
  List.product (List.range gridDim_x) (List.range gridDim_y)

/-! ## The kernels

The lane programs below are the source statements in source order.  Scratch indices and global
indices are natural numbers (integers where the source subtracts), computed exactly; the source
holds the global indices in 32-bit `int` variables.  `int32` gives the content of such a
variable, `IndexFits32` says that every global index of a launch is represented exactly, and
the statements about launches, global addresses and tile contents below are made for launches
of fewer than `2^31` input elements, for which this is proved (`k14s1_fits32` and the like). -/

/-- The registers a row loop carries from one iteration to the next. -/
structure RowState (α : Type) where
  sum0 : α
  sum1 : α
  inputAccessOffset : Nat
  outputIdx : Nat
  output : Nat → α

/-- Lane program of `Filter3x3_Input14x14_Stride1` up to the first barrier (source lines 27-39):
filter staging and zero fill of the tile border. -/
def Filter3x3_Input14x14_Stride1.fillPhase {α : Type} [Zero α] (filter : Nat → α) (p : Shape)
    (blockIdx_x blockIdx_y threadIdx_x : Nat) (sh : Shared α) : Shared α :=
  let filterData := sh.filterData
  let inputData := sh.inputData
  let channelGroupSize := 16
  let paddedWidth := p.inputWidth + 2 * p.padding
  let filterLoadSrcIdx := blockIdx_y * channelGroupSize * p.filterWidth * p.filterHeight + threadIdx_x
  let filterData := if threadIdx_x < 16 * 9 then write filterData (threadIdx_x) (filter (filterLoadSrcIdx)) else filterData
  let leftPaddingIdx := threadIdx_x * paddedWidth
  let inputData := write inputData (leftPaddingIdx) (0)
  let inputData := write inputData (leftPaddingIdx + 15) (0)
  { filterData := filterData, inputData := inputData }

/-- Lane program of `Filter3x3_Input14x14_Stride1` between the two barriers (source lines 43-62):
bulk copy of the input into the tile. -/
def Filter3x3_Input14x14_Stride1.copyPhase {α : Type} (input : Nat → α) (p : Shape)
    (blockIdx_x blockIdx_y threadIdx_x : Nat) (sh : Shared α) : Shared α :=
  let filterData := sh.filterData
  let inputData := sh.inputData
  let channelGroupSize := 16
  let inputLoadIdxBase := blockIdx_x * p.inputChannel * p.inputHeight * p.inputWidth + blockIdx_y * channelGroupSize * p.inputHeight * p.inputWidth
  let inputLoadSrcIdx := inputLoadIdxBase + threadIdx_x
  let inputLoadDstIdx := (threadIdx_x / p.inputWidth) * 2 + threadIdx_x + 1
  let inputData := write inputData (inputLoadDstIdx) (input (inputLoadSrcIdx))
  let inputData := write inputData (inputLoadDstIdx + 16 * 16 * 1) (input (inputLoadSrcIdx + 16 * 14 * 1))
  let inputData := write inputData (inputLoadDstIdx + 16 * 16 * 2) (input (inputLoadSrcIdx + 16 * 14 * 2))
  let inputData := write inputData (inputLoadDstIdx + 16 * 16 * 3) (input (inputLoadSrcIdx + 16 * 14 * 3))
  let inputData := write inputData (inputLoadDstIdx + 16 * 16 * 4) (input (inputLoadSrcIdx + 16 * 14 * 4))
  let inputData := write inputData (inputLoadDstIdx + 16 * 16 * 5) (input (inputLoadSrcIdx + 16 * 14 * 5))
  let inputData := write inputData (inputLoadDstIdx + 16 * 16 * 6) (input (inputLoadSrcIdx + 16 * 14 * 6))
  let inputData := write inputData (inputLoadDstIdx + 16 * 16 * 7) (input (inputLoadSrcIdx + 16 * 14 * 7))
  let inputData := write inputData (inputLoadDstIdx + 16 * 16 * 8) (input (inputLoadSrcIdx + 16 * 14 * 8))
  let inputData := write inputData (inputLoadDstIdx + 16 * 16 * 9) (input (inputLoadSrcIdx + 16 * 14 * 9))
  let inputData := write inputData (inputLoadDstIdx + 16 * 16 * 10) (input (inputLoadSrcIdx + 16 * 14 * 10))
  let inputData := write inputData (inputLoadDstIdx + 16 * 16 * 11) (input (inputLoadSrcIdx + 16 * 14 * 11))
  let inputData := write inputData (inputLoadDstIdx + 16 * 16 * 12) (input (inputLoadSrcIdx + 16 * 14 * 12))
  let inputData := write inputData (inputLoadDstIdx + 16 * 16 * 13) (input (inputLoadSrcIdx + 16 * 14 * 13))
  { filterData := filterData, inputData := inputData }

/-- Lane program of `Filter3x3_Input14x14_Stride1` after the second barrier (source lines 65-399):
rolling accumulation and the 14 stores of the lane. -/
def Filter3x3_Input14x14_Stride1.convolve {α : Type} [Add α] [Mul α] (p : Shape) (alpha beta : α)
    (blockIdx_x blockIdx_y threadIdx_x : Nat) (sh : Shared α) (output : Nat → α) : Nat → α :=
  let filterData := sh.filterData
  let inputData := sh.inputData
  let channelGroupSize := 16
  let paddedWidth := p.inputWidth + 2 * p.padding
  let outputIdx := blockIdx_x * p.outputChannel * p.outputHeight * p.outputWidth + blockIdx_y * channelGroupSize * p.outputHeight * p.outputWidth + (threadIdx_x / p.outputWidth) * p.outputHeight * p.outputWidth + threadIdx_x % p.outputWidth
  let inputAccessBase := (threadIdx_x / p.outputWidth) * paddedWidth * p.inputHeight + threadIdx_x % p.inputWidth
  let filterAccessBase := (threadIdx_x / p.inputWidth) * p.filterHeight * p.filterWidth
  let inputAccessOffset := 0
  let inTemp0 := inputData (inputAccessBase)
  let sum0 := filterData (filterAccessBase + 3) * inTemp0
  let sum1 := filterData (filterAccessBase + 0) * inTemp0
  let inTemp1 := inputData (inputAccessBase + 1)
  let sum0 := sum0 + filterData (filterAccessBase + 4) * inTemp1
  let sum1 := sum1 + filterData (filterAccessBase + 1) * inTemp1
  let inTemp2 := inputData (inputAccessBase + 2)
  let sum0 := sum0 + filterData (filterAccessBase + 5) * inTemp2
  let sum1 := sum1 + filterData (filterAccessBase + 2) * inTemp2
  let inputAccessOffset := inputAccessOffset + paddedWidth
  let inTemp0 := inputData (inputAccessBase + inputAccessOffset)
  let sum0 := sum0 + filterData (filterAccessBase + 6) * inTemp0
  let sum1 := sum1 + filterData (filterAccessBase + 3) * inTemp0
  let sum2 := filterData (filterAccessBase + 0) * inTemp0
  let inTemp1 := inputData (inputAccessBase + inputAccessOffset + 1)
  let sum0 := sum0 + filterData (filterAccessBase + 7) * inTemp1
  let sum1 := sum1 + filterData (filterAccessBase + 4) * inTemp1
  let sum2 := sum2 + filterData (filterAccessBase + 1) * inTemp1
  let inTemp2 := inputData (inputAccessBase + inputAccessOffset + 2)
  let sum0 := sum0 + filterData (filterAccessBase + 8) * inTemp2
  let sum1 := sum1 + filterData (filterAccessBase + 5) * inTemp2
  let sum2 := sum2 + filterData (filterAccessBase + 2) * inTemp2
  let output := write output (outputIdx) (sum0 * alpha + beta)
  let outputIdx := outputIdx + p.outputWidth
  let inputAccessOffset := inputAccessOffset + paddedWidth
  let inTemp0 := inputData (inputAccessBase + inputAccessOffset)
  let sum1 := sum1 + filterData (filterAccessBase + 6) * inTemp0
  let sum2 := sum2 + filterData (filterAccessBase + 3) * inTemp0
  let sum0 := filterData (filterAccessBase + 0) * inTemp0
  let inTemp1 := inputData (inputAccessBase + inputAccessOffset + 1)
  let sum1 := sum1 + filterData (filterAccessBase + 7) * inTemp1
  let sum2 := sum2 + filterData (filterAccessBase + 4) * inTemp1
  let sum0 := sum0 + filterData (filterAccessBase + 1) * inTemp1
  let inTemp2 := inputData (inputAccessBase + inputAccessOffset + 2)
  let sum1 := sum1 + filterData (filterAccessBase + 8) * inTemp2
  let sum2 := sum2 + filterData (filterAccessBase + 5) * inTemp2
  let sum0 := sum0 + filterData (filterAccessBase + 2) * inTemp2
  let output := write output (outputIdx) (sum1 * alpha + beta)
  let outputIdx := outputIdx + p.outputWidth
  let inputAccessOffset := inputAccessOffset + paddedWidth
  let inTemp0 := inputData (inputAccessBase + inputAccessOffset)
  let sum2 := sum2 + filterData (filterAccessBase + 6) * inTemp0
  let sum0 := sum0 + filterData (filterAccessBase + 3) * inTemp0
  let sum1 := filterData (filterAccessBase + 0) * inTemp0
  let inTemp1 := inputData (inputAccessBase + inputAccessOffset + 1)
  let sum2 := sum2 + filterData (filterAccessBase + 7) * inTemp1
  let sum0 := sum0 + filterData (filterAccessBase + 4) * inTemp1
  let sum1 := sum1 + filterData (filterAccessBase + 1) * inTemp1
  let inTemp2 := inputData (inputAccessBase + inputAccessOffset + 2)
  let sum2 := sum2 + filterData (filterAccessBase + 8) * inTemp2
  let sum0 := sum0 + filterData (filterAccessBase + 5) * inTemp2
  let sum1 := sum1 + filterData (filterAccessBase + 2) * inTemp2
  let output := write output (outputIdx) (sum2 * alpha + beta)
  let outputIdx := outputIdx + p.outputWidth
  let inputAccessOffset := inputAccessOffset + paddedWidth
  let inTemp0 := inputData (inputAccessBase + inputAccessOffset)
  let sum0 := sum0 + filterData (filterAccessBase + 6) * inTemp0
  let sum1 := sum1 + filterData (filterAccessBase + 3) * inTemp0
  let sum2 := filterData (filterAccessBase + 0) * inTemp0
  let inTemp1 := inputData (inputAccessBase + inputAccessOffset + 1)
  let sum0 := sum0 + filterData (filterAccessBase + 7) * inTemp1
  let sum1 := sum1 + filterData (filterAccessBase + 4) * inTemp1
  let sum2 := sum2 + filterData (filterAccessBase + 1) * inTemp1
  let inTemp2 := inputData (inputAccessBase + inputAccessOffset + 2)
  let sum0 := sum0 + filterData (filterAccessBase + 8) * inTemp2
  let sum1 := sum1 + filterData (filterAccessBase + 5) * inTemp2
  let sum2 := sum2 + filterData (filterAccessBase + 2) * inTemp2
  let output := write output (outputIdx) (sum0 * alpha + beta)
  let outputIdx := outputIdx + p.outputWidth
  let inputAccessOffset := inputAccessOffset + paddedWidth
  let inTemp0 := inputData (inputAccessBase + inputAccessOffset)
  let sum1 := sum1 + filterData (filterAccessBase + 6) * inTemp0
  let sum2 := sum2 + filterData (filterAccessBase + 3) * inTemp0
  let sum0 := filterData (filterAccessBase + 0) * inTemp0
  let inTemp1 := inputData (inputAccessBase + inputAccessOffset + 1)
  let sum1 := sum1 + filterData (filterAccessBase + 7) * inTemp1
  let sum2 := sum2 + filterData (filterAccessBase + 4) * inTemp1
  let sum0 := sum0 + filterData (filterAccessBase + 1) * inTemp1
  let inTemp2 := inputData (inputAccessBase + inputAccessOffset + 2)
  let sum1 := sum1 + filterData (filterAccessBase + 8) * inTemp2
  let sum2 := sum2 + filterData (filterAccessBase + 5) * inTemp2
  let sum0 := sum0 + filterData (filterAccessBase + 2) * inTemp2
  let output := write output (outputIdx) (sum1 * alpha + beta)
  let outputIdx := outputIdx + p.outputWidth
  let inputAccessOffset := inputAccessOffset + paddedWidth
  let inTemp0 := inputData (inputAccessBase + inputAccessOffset)
  let sum2 := sum2 + filterData (filterAccessBase + 6) * inTemp0
  let sum0 := sum0 + filterData (filterAccessBase + 3) * inTemp0
  let sum1 := filterData (filterAccessBase + 0) * inTemp0
  let inTemp1 := inputData (inputAccessBase + inputAccessOffset + 1)
  let sum2 := sum2 + filterData (filterAccessBase + 7) * inTemp1
  let sum0 := sum0 + filterData (filterAccessBase + 4) * inTemp1
  let sum1 := sum1 + filterData (filterAccessBase + 1) * inTemp1
  let inTemp2 := inputData (inputAccessBase + inputAccessOffset + 2)
  let sum2 := sum2 + filterData (filterAccessBase + 8) * inTemp2
  let sum0 := sum0 + filterData (filterAccessBase + 5) * inTemp2
  let sum1 := sum1 + filterData (filterAccessBase + 2) * inTemp2
  let output := write output (outputIdx) (sum2 * alpha + beta)
  let outputIdx := outputIdx + p.outputWidth
  let inputAccessOffset := inputAccessOffset + paddedWidth
  let inTemp0 := inputData (inputAccessBase + inputAccessOffset)
  let sum0 := sum0 + filterData (filterAccessBase + 6) * inTemp0
  let sum1 := sum1 + filterData (filterAccessBase + 3) * inTemp0
  let sum2 := filterData (filterAccessBase + 0) * inTemp0
  let inTemp1 := inputData (inputAccessBase + inputAccessOffset + 1)
  let sum0 := sum0 + filterData (filterAccessBase + 7) * inTemp1
  let sum1 := sum1 + filterData (filterAccessBase + 4) * inTemp1
  let sum2 := sum2 + filterData (filterAccessBase + 1) * inTemp1
  let inTemp2 := inputData (inputAccessBase + inputAccessOffset + 2)
  let sum0 := sum0 + filterData (filterAccessBase + 8) * inTemp2
  let sum1 := sum1 + filterData (filterAccessBase + 5) * inTemp2
  let sum2 := sum2 + filterData (filterAccessBase + 2) * inTemp2
  let output := write output (outputIdx) (sum0 * alpha + beta)
  let outputIdx := outputIdx + p.outputWidth
  let inputAccessOffset := inputAccessOffset + paddedWidth
  let inTemp0 := inputData (inputAccessBase + inputAccessOffset)
  let sum1 := sum1 + filterData (filterAccessBase + 6) * inTemp0
  let sum2 := sum2 + filterData (filterAccessBase + 3) * inTemp0
  let sum0 := filterData (filterAccessBase + 0) * inTemp0
  let inTemp1 := inputData (inputAccessBase + inputAccessOffset + 1)
  let sum1 := sum1 + filterData (filterAccessBase + 7) * inTemp1
  let sum2 := sum2 + filterData (filterAccessBase + 4) * inTemp1
  let sum0 := sum0 + filterData (filterAccessBase + 1) * inTemp1
  let inTemp2 := inputData (inputAccessBase + inputAccessOffset + 2)
  let sum1 := sum1 + filterData (filterAccessBase + 8) * inTemp2
  let sum2 := sum2 + filterData (filterAccessBase + 5) * inTemp2
  let sum0 := sum0 + filterData (filterAccessBase + 2) * inTemp2
  let output := write output (outputIdx) (sum1 * alpha + beta)
  let outputIdx := outputIdx + p.outputWidth
  let inputAccessOffset := inputAccessOffset + paddedWidth
  let inTemp0 := inputData (inputAccessBase + inputAccessOffset)
  let sum2 := sum2 + filterData (filterAccessBase + 6) * inTemp0
  let sum0 := sum0 + filterData (filterAccessBase + 3) * inTemp0
  let sum1 := filterData (filterAccessBase + 0) * inTemp0
  let inTemp1 := inputData (inputAccessBase + inputAccessOffset + 1)
  let sum2 := sum2 + filterData (filterAccessBase + 7) * inTemp1
  let sum0 := sum0 + filterData (filterAccessBase + 4) * inTemp1
  let sum1 := sum1 + filterData (filterAccessBase + 1) * inTemp1
  let inTemp2 := inputData (inputAccessBase + inputAccessOffset + 2)
  let sum2 := sum2 + filterData (filterAccessBase + 8) * inTemp2
  let sum0 := sum0 + filterData (filterAccessBase + 5) * inTemp2
  let sum1 := sum1 + filterData (filterAccessBase + 2) * inTemp2
  let output := write output (outputIdx) (sum2 * alpha + beta)
  let outputIdx := outputIdx + p.outputWidth
  let inputAccessOffset := inputAccessOffset + paddedWidth
  let inTemp0 := inputData (inputAccessBase + inputAccessOffset)
  let sum0 := sum0 + filterData (filterAccessBase + 6) * inTemp0
  let sum1 := sum1 + filterData (filterAccessBase + 3) * inTemp0
  let sum2 := filterData (filterAccessBase + 0) * inTemp0
  let inTemp1 := inputData (inputAccessBase + inputAccessOffset + 1)
  let sum0 := sum0 + filterData (filterAccessBase + 7) * inTemp1
  let sum1 := sum1 + filterData (filterAccessBase + 4) * inTemp1
  let sum2 := sum2 + filterData (filterAccessBase + 1) * inTemp1
  let inTemp2 := inputData (inputAccessBase + inputAccessOffset + 2)
  let sum0 := sum0 + filterData (filterAccessBase + 8) * inTemp2
  let sum1 := sum1 + filterData (filterAccessBase + 5) * inTemp2
  let sum2 := sum2 + filterData (filterAccessBase + 2) * inTemp2
  let output := write output (outputIdx) (sum0 * alpha + beta)
  let outputIdx := outputIdx + p.outputWidth
  let inputAccessOffset := inputAccessOffset + paddedWidth
  let inTemp0 := inputData (inputAccessBase + inputAccessOffset)
  let sum1 := sum1 + filterData (filterAccessBase + 6) * inTemp0
  let sum2 := sum2 + filterData (filterAccessBase + 3) * inTemp0
  let sum0 := filterData (filterAccessBase + 0) * inTemp0
  let inTemp1 := inputData (inputAccessBase + inputAccessOffset + 1)
  let sum1 := sum1 + filterData (filterAccessBase + 7) * inTemp1
  let sum2 := sum2 + filterData (filterAccessBase + 4) * inTemp1
  let sum0 := sum0 + filterData (filterAccessBase + 1) * inTemp1
  let inTemp2 := inputData (inputAccessBase + inputAccessOffset + 2)
  let sum1 := sum1 + filterData (filterAccessBase + 8) * inTemp2
  let sum2 := sum2 + filterData (filterAccessBase + 5) * inTemp2
  let sum0 := sum0 + filterData (filterAccessBase + 2) * inTemp2
  let output := write output (outputIdx) (sum1 * alpha + beta)
  let outputIdx := outputIdx + p.outputWidth
  let inputAccessOffset := inputAccessOffset + paddedWidth
  let inTemp0 := inputData (inputAccessBase + inputAccessOffset)
  let sum2 := sum2 + filterData (filterAccessBase + 6) * inTemp0
  let sum0 := sum0 + filterData (filterAccessBase + 3) * inTemp0
  let sum1 := filterData (filterAccessBase + 0) * inTemp0
  let inTemp1 := inputData (inputAccessBase + inputAccessOffset + 1)
  let sum2 := sum2 + filterData (filterAccessBase + 7) * inTemp1
  let sum0 := sum0 + filterData (filterAccessBase + 4) * inTemp1
  let sum1 := sum1 + filterData (filterAccessBase + 1) * inTemp1
  let inTemp2 := inputData (inputAccessBase + inputAccessOffset + 2)
  let sum2 := sum2 + filterData (filterAccessBase + 8) * inTemp2
  let sum0 := sum0 + filterData (filterAccessBase + 5) * inTemp2
  let sum1 := sum1 + filterData (filterAccessBase + 2) * inTemp2
  let output := write output (outputIdx) (sum2 * alpha + beta)
  let outputIdx := outputIdx + p.outputWidth
  let inputAccessOffset := inputAccessOffset + paddedWidth
  let inTemp0 := inputData (inputAccessBase + inputAccessOffset)
  let sum0 := sum0 + filterData (filterAccessBase + 6) * inTemp0
  let sum1 := sum1 + filterData (filterAccessBase + 3) * inTemp0
  let inTemp1 := inputData (inputAccessBase + inputAccessOffset + 1)
  let sum0 := sum0 + filterData (filterAccessBase + 7) * inTemp1
  let sum1 := sum1 + filterData (filterAccessBase + 4) * inTemp1
  let inTemp2 := inputData (inputAccessBase + inputAccessOffset + 2)
  let sum0 := sum0 + filterData (filterAccessBase + 8) * inTemp2
  let sum1 := sum1 + filterData (filterAccessBase + 5) * inTemp2
  let output := write output (outputIdx) (sum0 * alpha + beta)
  let outputIdx := outputIdx + p.outputWidth
  let output := write output (outputIdx) (sum1 * alpha + beta)
  output

/-- Scratch memory of a group of `Filter3x3_Input14x14_Stride1` at the second barrier: the fill phase run
by all `blockDim_x` lanes, then the copy phase run by all lanes. -/
def Filter3x3_Input14x14_Stride1.staged {α : Type} [Zero α] (blockDim_x : Nat) (input filter : Nat → α) (p : Shape)
    (blockIdx_x blockIdx_y : Nat) (sh : Shared α) : Shared α :=
  forLoop blockDim_x (fun threadIdx_x sh => Filter3x3_Input14x14_Stride1.copyPhase input p blockIdx_x blockIdx_y threadIdx_x sh)
    (forLoop blockDim_x (fun threadIdx_x sh => Filter3x3_Input14x14_Stride1.fillPhase filter p blockIdx_x blockIdx_y threadIdx_x sh) sh)

/-- Scratch memory of a group of `Filter3x3_Input14x14_Stride1` at the second barrier when the lanes of the fill
phase run in the order `fillOrder` and those of the copy phase in the order `copyOrder`. -/
def Filter3x3_Input14x14_Stride1.stagedIn {α : Type} [Zero α] (fillOrder copyOrder : List Nat) (input filter : Nat → α)
    (p : Shape) (blockIdx_x blockIdx_y : Nat) (sh : Shared α) : Shared α :=
  runLanes copyOrder (fun threadIdx_x sh => Filter3x3_Input14x14_Stride1.copyPhase input p blockIdx_x blockIdx_y threadIdx_x sh)
    (runLanes fillOrder (fun threadIdx_x sh => Filter3x3_Input14x14_Stride1.fillPhase filter p blockIdx_x blockIdx_y threadIdx_x sh) sh)

/-- One execution group of `Filter3x3_Input14x14_Stride1` with a chosen lane order in each of its three phases. -/
def Filter3x3_Input14x14_Stride1.blockIn {α : Type} [Add α] [Mul α] [Zero α] (fillOrder copyOrder convolveOrder : List Nat)
    (input filter : Nat → α) (p : Shape) (alpha beta : α)
    (blockIdx_x blockIdx_y : Nat) (sh : Shared α) (output : Nat → α) : Nat → α :=
  runLanes convolveOrder (fun threadIdx_x output =>
    Filter3x3_Input14x14_Stride1.convolve p alpha beta blockIdx_x blockIdx_y threadIdx_x
      (Filter3x3_Input14x14_Stride1.stagedIn fillOrder copyOrder input filter p blockIdx_x blockIdx_y sh) output) output

/-- Kernel `Filter3x3_Input14x14_Stride1` with the groups run in the order of the list `groups` and, in group
`(bx, b)`, the lanes of each phase run in the orders `fillOrder bx b`, `copyOrder bx b` and
`convolveOrder bx b`. -/
def Filter3x3_Input14x14_Stride1.launchIn {α : Type} [Add α] [Mul α] [Zero α] (groups : List (Nat × Nat))
    (fillOrder copyOrder convolveOrder : Nat → Nat → List Nat)
    (input filter output : Nat → α) (p : Shape) (alpha beta : α)
    (shared : Nat → Nat → Shared α) : Nat → α :=
  groups.foldl (fun output g =>
    Filter3x3_Input14x14_Stride1.blockIn (fillOrder g.1 g.2) (copyOrder g.1 g.2) (convolveOrder g.1 g.2)
      input filter p alpha beta g.1 g.2 (shared g.1 g.2) output) output

/-- One execution group of `Filter3x3_Input14x14_Stride1`: all lanes run `convolve` on the staged scratch memory. -/
def Filter3x3_Input14x14_Stride1.block {α : Type} [Add α] [Mul α] [Zero α] (blockDim_x : Nat)
    (input filter : Nat → α) (p : Shape) (alpha beta : α)
    (blockIdx_x blockIdx_y : Nat) (sh : Shared α) (output : Nat → α) : Nat → α :=
  forLoop blockDim_x (fun threadIdx_x output =>
    Filter3x3_Input14x14_Stride1.convolve p alpha beta blockIdx_x blockIdx_y threadIdx_x
      (Filter3x3_Input14x14_Stride1.staged blockDim_x input filter p blockIdx_x blockIdx_y sh) output) output

/-- Kernel `Filter3x3_Input14x14_Stride1` launched on a `gridDim_x` x `gridDim_y` grid of groups of
`blockDim_x` lanes; `shared bx b` is what the scratch memory of group `(bx, b)` holds
when the group starts. -/
def Filter3x3_Input14x14_Stride1 {α : Type} [Add α] [Mul α] [Zero α] (gridDim_x gridDim_y blockDim_x : Nat)
    (input filter output : Nat → α) (p : Shape) (alpha beta : α)
    (shared : Nat → Nat → Shared α) : Nat → α :=
  forLoop gridDim_x (fun blockIdx_x output =>
    forLoop gridDim_y (fun blockIdx_y output =>
      Filter3x3_Input14x14_Stride1.block blockDim_x input filter p alpha beta blockIdx_x blockIdx_y
        (shared blockIdx_x blockIdx_y) output) output) output

/-- Lane program of `Filter3x3_Input14x14_Stride2` up to the first barrier (source lines 25-41):
filter staging and zero fill of the tile border. -/
def Filter3x3_Input14x14_Stride2.fillPhase {α : Type} [Zero α] (filter : Nat → α) (p : Shape)
    (blockIdx_x blockIdx_y threadIdx_x : Nat) (sh : Shared α) : Shared α :=
  let filterData := sh.filterData
  let inputData := sh.inputData
  let channelGroupSize := 32
  let paddedWidth := p.inputWidth + 2 * p.padding
  let filterLoadSrcIdx := blockIdx_y * channelGroupSize * p.filterWidth * p.filterHeight + threadIdx_x
  let filterData := write filterData (threadIdx_x) (filter (filterLoadSrcIdx))
  let filterData := if threadIdx_x < 9 * 32 - 7 * 32 then write filterData (7 * 32 + threadIdx_x) (filter (7 * 32 + filterLoadSrcIdx)) else filterData
  let leftPaddingIdx := threadIdx_x * paddedWidth
  let inputData := write inputData (leftPaddingIdx) (0)
  let inputData := write inputData (leftPaddingIdx + 16 * p.inputHeight * paddedWidth) (0)
  let inputData := write inputData (leftPaddingIdx + 15) (0)
  let inputData := write inputData (leftPaddingIdx + 16 * p.inputHeight * paddedWidth + 15) (0)
  { filterData := filterData, inputData := inputData }

/-- Lane program of `Filter3x3_Input14x14_Stride2` between the two barriers (source lines 45-78):
bulk copy of the input into the tile. -/
def Filter3x3_Input14x14_Stride2.copyPhase {α : Type} (input : Nat → α) (p : Shape)
    (blockIdx_x blockIdx_y threadIdx_x : Nat) (sh : Shared α) : Shared α :=
  let filterData := sh.filterData
  let inputData := sh.inputData
  let channelGroupSize := 32
  let inputLoadIdxBase := blockIdx_x * p.inputChannel * p.inputHeight * p.inputWidth + blockIdx_y * channelGroupSize * p.inputHeight * p.inputWidth
  let inputLoadSrcIdx := inputLoadIdxBase + threadIdx_x
  let inputLoadDstIdx := (threadIdx_x / p.inputWidth) * 2 + threadIdx_x + 1
  let inputData := write inputData (inputLoadDstIdx) (input (inputLoadSrcIdx))
  let inputData := write inputData (inputLoadDstIdx + 16 * 16 * 1) (input (inputLoadSrcIdx + 16 * 14 * 1))
  let inputData := write inputData (inputLoadDstIdx + 16 * 16 * 2) (input (inputLoadSrcIdx + 16 * 14 * 2))
  let inputData := write inputData (inputLoadDstIdx + 16 * 16 * 3) (input (inputLoadSrcIdx + 16 * 14 * 3))
  let inputData := write inputData (inputLoadDstIdx + 16 * 16 * 4) (input (inputLoadSrcIdx + 16 * 14 * 4))
  let inputData := write inputData (inputLoadDstIdx + 16 * 16 * 5) (input (inputLoadSrcIdx + 16 * 14 * 5))
  let inputData := write inputData (inputLoadDstIdx + 16 * 16 * 6) (input (inputLoadSrcIdx + 16 * 14 * 6))
  let inputData := write inputData (inputLoadDstIdx + 16 * 16 * 7) (input (inputLoadSrcIdx + 16 * 14 * 7))
  let inputData := write inputData (inputLoadDstIdx + 16 * 16 * 8) (input (inputLoadSrcIdx + 16 * 14 * 8))
  let inputData := write inputData (inputLoadDstIdx + 16 * 16 * 9) (input (inputLoadSrcIdx + 16 * 14 * 9))
  let inputData := write inputData (inputLoadDstIdx + 16 * 16 * 10) (input (inputLoadSrcIdx + 16 * 14 * 10))
  let inputData := write inputData (inputLoadDstIdx + 16 * 16 * 11) (input (inputLoadSrcIdx + 16 * 14 * 11))
  let inputData := write inputData (inputLoadDstIdx + 16 * 16 * 12) (input (inputLoadSrcIdx + 16 * 14 * 12))
  let inputData := write inputData (inputLoadDstIdx + 16 * 16 * 13) (input (inputLoadSrcIdx + 16 * 14 * 13))
  let inputData := write inputData (inputLoadDstIdx + 16 * 16 * 14) (input (inputLoadSrcIdx + 16 * 14 * 14))
  let inputData := write inputData (inputLoadDstIdx + 16 * 16 * 15) (input (inputLoadSrcIdx + 16 * 14 * 15))
  let inputData := write inputData (inputLoadDstIdx + 16 * 16 * 16) (input (inputLoadSrcIdx + 16 * 14 * 16))
  let inputData := write inputData (inputLoadDstIdx + 16 * 16 * 17) (input (inputLoadSrcIdx + 16 * 14 * 17))
  let inputData := write inputData (inputLoadDstIdx + 16 * 16 * 18) (input (inputLoadSrcIdx + 16 * 14 * 18))
  let inputData := write inputData (inputLoadDstIdx + 16 * 16 * 19) (input (inputLoadSrcIdx + 16 * 14 * 19))
  let inputData := write inputData (inputLoadDstIdx + 16 * 16 * 20) (input (inputLoadSrcIdx + 16 * 14 * 20))
  let inputData := write inputData (inputLoadDstIdx + 16 * 16 * 21) (input (inputLoadSrcIdx + 16 * 14 * 21))
  let inputData := write inputData (inputLoadDstIdx + 16 * 16 * 22) (input (inputLoadSrcIdx + 16 * 14 * 22))
  let inputData := write inputData (inputLoadDstIdx + 16 * 16 * 23) (input (inputLoadSrcIdx + 16 * 14 * 23))
  let inputData := write inputData (inputLoadDstIdx + 16 * 16 * 24) (input (inputLoadSrcIdx + 16 * 14 * 24))
  let inputData := write inputData (inputLoadDstIdx + 16 * 16 * 25) (input (inputLoadSrcIdx + 16 * 14 * 25))
  let inputData := write inputData (inputLoadDstIdx + 16 * 16 * 26) (input (inputLoadSrcIdx + 16 * 14 * 26))
  let inputData := write inputData (inputLoadDstIdx + 16 * 16 * 27) (input (inputLoadSrcIdx + 16 * 14 * 27))
  { filterData := filterData, inputData := inputData }

/-- Lane program of `Filter3x3_Input14x14_Stride2` after the second barrier (source lines 81-326):
rolling accumulation and the 7 stores of the lane. -/
def Filter3x3_Input14x14_Stride2.convolve {α : Type} [Add α] [Mul α] (p : Shape) (alpha beta : α)
    (blockIdx_x blockIdx_y threadIdx_x : Nat) (sh : Shared α) (output : Nat → α) : Nat → α :=
  let filterData := sh.filterData
  let inputData := sh.inputData
  let channelGroupSize := 32
  let paddedWidth := p.inputWidth + 2 * p.padding
  let outputIdx := blockIdx_x * p.outputChannel * p.outputHeight * p.outputWidth + blockIdx_y * channelGroupSize * p.outputHeight * p.outputWidth + (threadIdx_x / p.outputWidth) * p.outputHeight * p.outputWidth + threadIdx_x % p.outputWidth
  let inputAccessBase := (threadIdx_x / p.outputWidth) * paddedWidth * p.inputHeight + threadIdx_x % p.outputWidth * 2
  let filterAccessBase := (threadIdx_x / p.outputWidth) * p.filterHeight * p.filterWidth
  let inputAccessOffset := 0
  let inTemp0 := inputData (inputAccessBase)
  let sum0 := filterData (filterAccessBase + 3) * inTemp0
  let inTemp1 := inputData (inputAccessBase + 1)
  let sum0 := sum0 + filterData (filterAccessBase + 4) * inTemp1
  let inTemp2 := inputData (inputAccessBase + 2)
  let sum0 := sum0 + filterData (filterAccessBase + 5) * inTemp2
  let inputAccessOffset := inputAccessOffset + paddedWidth
  let inTemp0 := inputData (inputAccessBase + inputAccessOffset)
  let sum0 := sum0 + filterData (filterAccessBase + 6) * inTemp0
  let sum1 := filterData (filterAccessBase + 0) * inTemp0
  let inTemp1 := inputData (inputAccessBase + inputAccessOffset + 1)
  let sum0 := sum0 + filterData (filterAccessBase + 7) * inTemp1
  let sum1 := sum1 + filterData (filterAccessBase + 1) * inTemp1
  let inTemp2 := inputData (inputAccessBase + inputAccessOffset + 2)
  let sum0 := sum0 + filterData (filterAccessBase + 8) * inTemp2
  let sum1 := sum1 + filterData (filterAccessBase + 2) * inTemp2
  let output := write output (outputIdx) (sum0 * alpha + beta)
  let outputIdx := outputIdx + p.outputWidth
  let inputAccessOffset := inputAccessOffset + paddedWidth
  let inTemp0 := inputData (inputAccessBase + inputAccessOffset)
  let sum1 := sum1 + filterData (filterAccessBase + 3) * inTemp0
  let inTemp1 := inputData (inputAccessBase + inputAccessOffset + 1)
  let sum1 := sum1 + filterData (filterAccessBase + 4) * inTemp1
  let inTemp2 := inputData (inputAccessBase + inputAccessOffset + 2)
  let sum1 := sum1 + filterData (filterAccessBase + 5) * inTemp2
  let inputAccessOffset := inputAccessOffset + paddedWidth
  let inTemp0 := inputData (inputAccessBase + inputAccessOffset)
  let sum1 := sum1 + filterData (filterAccessBase + 6) * inTemp0
  let sum0 := filterData (filterAccessBase + 0) * inTemp0
  let inTemp1 := inputData (inputAccessBase + inputAccessOffset + 1)
  let sum1 := sum1 + filterData (filterAccessBase + 7) * inTemp1
  let sum0 := sum0 + filterData (filterAccessBase + 1) * inTemp1
  let inTemp2 := inputData (inputAccessBase + inputAccessOffset + 2)
  let sum1 := sum1 + filterData (filterAccessBase + 8) * inTemp2
  let sum0 := sum0 + filterData (filterAccessBase + 2) * inTemp2
  let output := write output (outputIdx) (sum1 * alpha + beta)
  let outputIdx := outputIdx + p.outputWidth
  let inputAccessOffset := inputAccessOffset + paddedWidth
  let inTemp0 := inputData (inputAccessBase + inputAccessOffset)
  let sum0 := sum0 + filterData (filterAccessBase + 3) * inTemp0
  let inTemp1 := inputData (inputAccessBase + inputAccessOffset + 1)
  let sum0 := sum0 + filterData (filterAccessBase + 4) * inTemp1
  let inTemp2 := inputData (inputAccessBase + inputAccessOffset + 2)
  let sum0 := sum0 + filterData (filterAccessBase + 5) * inTemp2
  let inputAccessOffset := inputAccessOffset + paddedWidth
  let inTemp0 := inputData (inputAccessBase + inputAccessOffset)
  let sum0 := sum0 + filterData (filterAccessBase + 6) * inTemp0
  let sum1 := filterData (filterAccessBase + 0) * inTemp0
  let inTemp1 := inputData (inputAccessBase + inputAccessOffset + 1)
  let sum0 := sum0 + filterData (filterAccessBase + 7) * inTemp1
  let sum1 := sum1 + filterData (filterAccessBase + 1) * inTemp1
  let inTemp2 := inputData (inputAccessBase + inputAccessOffset + 2)
  let sum0 := sum0 + filterData (filterAccessBase + 8) * inTemp2
  let sum1 := sum1 + filterData (filterAccessBase + 2) * inTemp2
  let output := write output (outputIdx) (sum0 * alpha + beta)
  let outputIdx := outputIdx + p.outputWidth
  let inputAccessOffset := inputAccessOffset + paddedWidth
  let inTemp0 := inputData (inputAccessBase + inputAccessOffset)
  let sum1 := sum1 + filterData (filterAccessBase + 3) * inTemp0
  let inTemp1 := inputData (inputAccessBase + inputAccessOffset + 1)
  let sum1 := sum1 + filterData (filterAccessBase + 4) * inTemp1
  let inTemp2 := inputData (inputAccessBase + inputAccessOffset + 2)
  let sum1 := sum1 + filterData (filterAccessBase + 5) * inTemp2
  let inputAccessOffset := inputAccessOffset + paddedWidth
  let inTemp0 := inputData (inputAccessBase + inputAccessOffset)
  let sum1 := sum1 + filterData (filterAccessBase + 6) * inTemp0
  let sum0 := filterData (filterAccessBase + 0) * inTemp0
  let inTemp1 := inputData (inputAccessBase + inputAccessOffset + 1)
  let sum1 := sum1 + filterData (filterAccessBase + 7) * inTemp1
  let sum0 := sum0 + filterData (filterAccessBase + 1) * inTemp1
  let inTemp2 := inputData (inputAccessBase + inputAccessOffset + 2)
  let sum1 := sum1 + filterData (filterAccessBase + 8) * inTemp2
  let sum0 := sum0 + filterData (filterAccessBase + 2) * inTemp2
  let output := write output (outputIdx) (sum1 * alpha + beta)
  let outputIdx := outputIdx + p.outputWidth
  let inputAccessOffset := inputAccessOffset + paddedWidth
  let inTemp0 := inputData (inputAccessBase + inputAccessOffset)
  let sum0 := sum0 + filterData (filterAccessBase + 3) * inTemp0
  let inTemp1 := inputData (inputAccessBase + inputAccessOffset + 1)
  let sum0 := sum0 + filterData (filterAccessBase + 4) * inTemp1
  let inTemp2 := inputData (inputAccessBase + inputAccessOffset + 2)
  let sum0 := sum0 + filterData (filterAccessBase + 5) * inTemp2
  let inputAccessOffset := inputAccessOffset + paddedWidth
  let inTemp0 := inputData (inputAccessBase + inputAccessOffset)
  let sum0 := sum0 + filterData (filterAccessBase + 6) * inTemp0
  let sum1 := filterData (filterAccessBase + 0) * inTemp0
  let inTemp1 := inputData (inputAccessBase + inputAccessOffset + 1)
  let sum0 := sum0 + filterData (filterAccessBase + 7) * inTemp1
  let sum1 := sum1 + filterData (filterAccessBase + 1) * inTemp1
  let inTemp2 := inputData (inputAccessBase + inputAccessOffset + 2)
  let sum0 := sum0 + filterData (filterAccessBase + 8) * inTemp2
  let sum1 := sum1 + filterData (filterAccessBase + 2) * inTemp2
  let output := write output (outputIdx) (sum0 * alpha + beta)
  let outputIdx := outputIdx + p.outputWidth
  let inputAccessOffset := inputAccessOffset + paddedWidth
  let inTemp0 := inputData (inputAccessBase + inputAccessOffset)
  let sum1 := sum1 + filterData (filterAccessBase + 3) * inTemp0
  let inTemp1 := inputData (inputAccessBase + inputAccessOffset + 1)
  let sum1 := sum1 + filterData (filterAccessBase + 4) * inTemp1
  let inTemp2 := inputData (inputAccessBase + inputAccessOffset + 2)
  let sum1 := sum1 + filterData (filterAccessBase + 5) * inTemp2
  let inputAccessOffset := inputAccessOffset + paddedWidth
  let inTemp0 := inputData (inputAccessBase + inputAccessOffset)
  let sum1 := sum1 + filterData (filterAccessBase + 6) * inTemp0
  let sum0 := filterData (filterAccessBase + 0) * inTemp0
  let inTemp1 := inputData (inputAccessBase + inputAccessOffset + 1)
  let sum1 := sum1 + filterData (filterAccessBase + 7) * inTemp1
  let sum0 := sum0 + filterData (filterAccessBase + 1) * inTemp1
  let inTemp2 := inputData (inputAccessBase + inputAccessOffset + 2)
  let sum1 := sum1 + filterData (filterAccessBase + 8) * inTemp2
  let sum0 := sum0 + filterData (filterAccessBase + 2) * inTemp2
  let output := write output (outputIdx) (sum1 * alpha + beta)
  let outputIdx := outputIdx + p.outputWidth
  let inputAccessOffset := inputAccessOffset + paddedWidth
  let inTemp0 := inputData (inputAccessBase + inputAccessOffset)
  let sum0 := sum0 + filterData (filterAccessBase + 3) * inTemp0
  let inTemp1 := inputData (inputAccessBase + inputAccessOffset + 1)
  let sum0 := sum0 + filterData (filterAccessBase + 4) * inTemp1
  let inTemp2 := inputData (inputAccessBase + inputAccessOffset + 2)
  let sum0 := sum0 + filterData (filterAccessBase + 5) * inTemp2
  let inputAccessOffset := inputAccessOffset + paddedWidth
  let inTemp0 := inputData (inputAccessBase + inputAccessOffset)
  let sum0 := sum0 + filterData (filterAccessBase + 6) * inTemp0
  let inTemp1 := inputData (inputAccessBase + inputAccessOffset + 1)
  let sum0 := sum0 + filterData (filterAccessBase + 7) * inTemp1
  let inTemp2 := inputData (inputAccessBase + inputAccessOffset + 2)
  let sum0 := sum0 + filterData (filterAccessBase + 8) * inTemp2
  let output := write output (outputIdx) (sum0 * alpha + beta)
  output

/-- Scratch memory of a group of `Filter3x3_Input14x14_Stride2` at the second barrier: the fill phase run
by all `blockDim_x` lanes, then the copy phase run by all lanes. -/
def Filter3x3_Input14x14_Stride2.staged {α : Type} [Zero α] (blockDim_x : Nat) (input filter : Nat → α) (p : Shape)
    (blockIdx_x blockIdx_y : Nat) (sh : Shared α) : Shared α :=
  forLoop blockDim_x (fun threadIdx_x sh => Filter3x3_Input14x14_Stride2.copyPhase input p blockIdx_x blockIdx_y threadIdx_x sh)
    (forLoop blockDim_x (fun threadIdx_x sh => Filter3x3_Input14x14_Stride2.fillPhase filter p blockIdx_x blockIdx_y threadIdx_x sh) sh)

/-- Scratch memory of a group of `Filter3x3_Input14x14_Stride2` at the second barrier when the lanes of the fill
phase run in the order `fillOrder` and those of the copy phase in the order `copyOrder`. -/
def Filter3x3_Input14x14_Stride2.stagedIn {α : Type} [Zero α] (fillOrder copyOrder : List Nat) (input filter : Nat → α)
    (p : Shape) (blockIdx_x blockIdx_y : Nat) (sh : Shared α) : Shared α :=
  runLanes copyOrder (fun threadIdx_x sh => Filter3x3_Input14x14_Stride2.copyPhase input p blockIdx_x blockIdx_y threadIdx_x sh)
    (runLanes fillOrder (fun threadIdx_x sh => Filter3x3_Input14x14_Stride2.fillPhase filter p blockIdx_x blockIdx_y threadIdx_x sh) sh)

/-- One execution group of `Filter3x3_Input14x14_Stride2` with a chosen lane order in each of its three phases. -/
def Filter3x3_Input14x14_Stride2.blockIn {α : Type} [Add α] [Mul α] [Zero α] (fillOrder copyOrder convolveOrder : List Nat)
    (input filter : Nat → α) (p : Shape) (alpha beta : α)
    (blockIdx_x blockIdx_y : Nat) (sh : Shared α) (output : Nat → α) : Nat → α :=
  runLanes convolveOrder (fun threadIdx_x output =>
    Filter3x3_Input14x14_Stride2.convolve p alpha beta blockIdx_x blockIdx_y threadIdx_x
      (Filter3x3_Input14x14_Stride2.stagedIn fillOrder copyOrder input filter p blockIdx_x blockIdx_y sh) output) output

/-- Kernel `Filter3x3_Input14x14_Stride2` with the groups run in the order of the list `groups` and, in group
`(bx, b)`, the lanes of each phase run in the orders `fillOrder bx b`, `copyOrder bx b` and
`convolveOrder bx b`. -/
def Filter3x3_Input14x14_Stride2.launchIn {α : Type} [Add α] [Mul α] [Zero α] (groups : List (Nat × Nat))
    (fillOrder copyOrder convolveOrder : Nat → Nat → List Nat)
    (input filter output : Nat → α) (p : Shape) (alpha beta : α)
    (shared : Nat → Nat → Shared α) : Nat → α :=
  groups.foldl (fun output g =>
    Filter3x3_Input14x14_Stride2.blockIn (fillOrder g.1 g.2) (copyOrder g.1 g.2) (convolveOrder g.1 g.2)
      input filter p alpha beta g.1 g.2 (shared g.1 g.2) output) output

/-- One execution group of `Filter3x3_Input14x14_Stride2`: all lanes run `convolve` on the staged scratch memory. -/
def Filter3x3_Input14x14_Stride2.block {α : Type} [Add α] [Mul α] [Zero α] (blockDim_x : Nat)
    (input filter : Nat → α) (p : Shape) (alpha beta : α)
    (blockIdx_x blockIdx_y : Nat) (sh : Shared α) (output : Nat → α) : Nat → α :=
  forLoop blockDim_x (fun threadIdx_x output =>
    Filter3x3_Input14x14_Stride2.convolve p alpha beta blockIdx_x blockIdx_y threadIdx_x
      (Filter3x3_Input14x14_Stride2.staged blockDim_x input filter p blockIdx_x blockIdx_y sh) output) output

/-- Kernel `Filter3x3_Input14x14_Stride2` launched on a `gridDim_x` x `gridDim_y` grid of groups of
`blockDim_x` lanes; `shared bx b` is what the scratch memory of group `(bx, b)` holds
when the group starts. -/
def Filter3x3_Input14x14_Stride2 {α : Type} [Add α] [Mul α] [Zero α] (gridDim_x gridDim_y blockDim_x : Nat)
    (input filter output : Nat → α) (p : Shape) (alpha beta : α)
    (shared : Nat → Nat → Shared α) : Nat → α :=
  forLoop gridDim_x (fun blockIdx_x output =>
    forLoop gridDim_y (fun blockIdx_y output =>
      Filter3x3_Input14x14_Stride2.block blockDim_x input filter p alpha beta blockIdx_x blockIdx_y
        (shared blockIdx_x blockIdx_y) output) output) output

/-- Lane program of `Filter5x5_Input14x14_Stride2` up to the first barrier (source lines 24-50):
filter staging and zero fill of the tile border. -/
def Filter5x5_Input14x14_Stride2.fillPhase {α : Type} [Zero α] (filter : Nat → α) (p : Shape)
    (blockIdx_x blockIdx_y threadIdx_x : Nat) (sh : Shared α) : Shared α :=
  let filterData := sh.filterData
  let inputData := sh.inputData
  let channelGroupSize := 32
  let paddedWidth := p.inputWidth + 2 * p.padding
  let filterLoadSrcIdx := blockIdx_y * channelGroupSize * p.filterWidth * p.filterHeight + threadIdx_x
  let filterData := if threadIdx_x < 8 * 25 then
      let filterData := write filterData (threadIdx_x) (filter (filterLoadSrcIdx))
      let filterData := write filterData (threadIdx_x + 8 * 25) (filter (filterLoadSrcIdx + 8 * 25))
      let filterData := write filterData (threadIdx_x + 8 * 25 * 2) (filter (filterLoadSrcIdx + 8 * 25 * 2))
      let filterData := write filterData (threadIdx_x + 8 * 25 * 3) (filter (filterLoadSrcIdx + 8 * 25 * 3))
      filterData
    else filterData
  let leftPaddingIdx := threadIdx_x * paddedWidth
  let inputData := write inputData (leftPaddingIdx) (0)
  let inputData := write inputData (leftPaddingIdx + 1) (0)
  let inputData := write inputData (leftPaddingIdx + 16) (0)
  let inputData := write inputData (leftPaddingIdx + 17) (0)
  let inputData := write inputData (leftPaddingIdx + 16 * p.inputHeight * paddedWidth) (0)
  let inputData := write inputData (leftPaddingIdx + 16 * p.inputHeight * paddedWidth + 1) (0)
  let inputData := write inputData (leftPaddingIdx + 16 * p.inputHeight * paddedWidth + 16) (0)
  let inputData := write inputData (leftPaddingIdx + 16 * p.inputHeight * paddedWidth + 17) (0)
  { filterData := filterData, inputData := inputData }

/-- Lane program of `Filter5x5_Input14x14_Stride2` between the two barriers (source lines 54-87):
bulk copy of the input into the tile. -/
def Filter5x5_Input14x14_Stride2.copyPhase {α : Type} (input : Nat → α) (p : Shape)
    (blockIdx_x blockIdx_y threadIdx_x : Nat) (sh : Shared α) : Shared α :=
  let filterData := sh.filterData
  let inputData := sh.inputData
  let channelGroupSize := 32
  let inputLoadIdxBase := blockIdx_x * p.inputChannel * p.inputHeight * p.inputWidth + blockIdx_y * channelGroupSize * p.inputHeight * p.inputWidth
  let inputLoadSrcIdx := inputLoadIdxBase + threadIdx_x
  let inputLoadDstIdx := (threadIdx_x / p.inputWidth) * 4 + threadIdx_x + 2
  let inputData := write inputData (inputLoadDstIdx) (input (inputLoadSrcIdx))
  let inputData := write inputData (inputLoadDstIdx + 16 * 18 * 1) (input (inputLoadSrcIdx + 16 * 14 * 1))
  let inputData := write inputData (inputLoadDstIdx + 16 * 18 * 2) (input (inputLoadSrcIdx + 16 * 14 * 2))
  let inputData := write inputData (inputLoadDstIdx + 16 * 18 * 3) (input (inputLoadSrcIdx + 16 * 14 * 3))
  let inputData := write inputData (inputLoadDstIdx + 16 * 18 * 4) (input (inputLoadSrcIdx + 16 * 14 * 4))
  let inputData := write inputData (inputLoadDstIdx + 16 * 18 * 5) (input (inputLoadSrcIdx + 16 * 14 * 5))
  let inputData := write inputData (inputLoadDstIdx + 16 * 18 * 6) (input (inputLoadSrcIdx + 16 * 14 * 6))
  let inputData := write inputData (inputLoadDstIdx + 16 * 18 * 7) (input (inputLoadSrcIdx + 16 * 14 * 7))
  let inputData := write inputData (inputLoadDstIdx + 16 * 18 * 8) (input (inputLoadSrcIdx + 16 * 14 * 8))
  let inputData := write inputData (inputLoadDstIdx + 16 * 18 * 9) (input (inputLoadSrcIdx + 16 * 14 * 9))
  let inputData := write inputData (inputLoadDstIdx + 16 * 18 * 10) (input (inputLoadSrcIdx + 16 * 14 * 10))
  let inputData := write inputData (inputLoadDstIdx + 16 * 18 * 11) (input (inputLoadSrcIdx + 16 * 14 * 11))
  let inputData := write inputData (inputLoadDstIdx + 16 * 18 * 12) (input (inputLoadSrcIdx + 16 * 14 * 12))
  let inputData := write inputData (inputLoadDstIdx + 16 * 18 * 13) (input (inputLoadSrcIdx + 16 * 14 * 13))
  let inputData := write inputData (inputLoadDstIdx + 16 * 18 * 14) (input (inputLoadSrcIdx + 16 * 14 * 14))
  let inputData := write inputData (inputLoadDstIdx + 16 * 18 * 15) (input (inputLoadSrcIdx + 16 * 14 * 15))
  let inputData := write inputData (inputLoadDstIdx + 16 * 18 * 16) (input (inputLoadSrcIdx + 16 * 14 * 16))
  let inputData := write inputData (inputLoadDstIdx + 16 * 18 * 17) (input (inputLoadSrcIdx + 16 * 14 * 17))
  let inputData := write inputData (inputLoadDstIdx + 16 * 18 * 18) (input (inputLoadSrcIdx + 16 * 14 * 18))
  let inputData := write inputData (inputLoadDstIdx + 16 * 18 * 19) (input (inputLoadSrcIdx + 16 * 14 * 19))
  let inputData := write inputData (inputLoadDstIdx + 16 * 18 * 20) (input (inputLoadSrcIdx + 16 * 14 * 20))
  let inputData := write inputData (inputLoadDstIdx + 16 * 18 * 21) (input (inputLoadSrcIdx + 16 * 14 * 21))
  let inputData := write inputData (inputLoadDstIdx + 16 * 18 * 22) (input (inputLoadSrcIdx + 16 * 14 * 22))
  let inputData := write inputData (inputLoadDstIdx + 16 * 18 * 23) (input (inputLoadSrcIdx + 16 * 14 * 23))
  let inputData := write inputData (inputLoadDstIdx + 16 * 18 * 24) (input (inputLoadSrcIdx + 16 * 14 * 24))
  let inputData := write inputData (inputLoadDstIdx + 16 * 18 * 25) (input (inputLoadSrcIdx + 16 * 14 * 25))
  let inputData := write inputData (inputLoadDstIdx + 16 * 18 * 26) (input (inputLoadSrcIdx + 16 * 14 * 26))
  let inputData := write inputData (inputLoadDstIdx + 16 * 18 * 27) (input (inputLoadSrcIdx + 16 * 14 * 27))
  { filterData := filterData, inputData := inputData }

/-- Lane program of `Filter5x5_Input14x14_Stride2` after the second barrier (source lines 90-489):
rolling accumulation and the 7 stores of the lane. -/
def Filter5x5_Input14x14_Stride2.convolve {α : Type} [Add α] [Mul α] (p : Shape) (alpha beta : α)
    (blockIdx_x blockIdx_y threadIdx_x : Nat) (sh : Shared α) (output : Nat → α) : Nat → α :=
  let filterData := sh.filterData
  let inputData := sh.inputData
  let channelGroupSize := 32
  let paddedWidth := p.inputWidth + 2 * p.padding
  let outputIdx := blockIdx_x * p.outputChannel * p.outputHeight * p.outputWidth + blockIdx_y * channelGroupSize * p.outputHeight * p.outputWidth + (threadIdx_x / p.outputWidth) * p.outputHeight * p.outputWidth + threadIdx_x % p.outputWidth
  let inputAccessBase := (threadIdx_x / p.outputWidth) * paddedWidth * p.inputHeight + threadIdx_x % p.outputWidth * 2
  let filterAccessBase := (threadIdx_x / p.outputWidth) * p.filterHeight * p.filterWidth
  let inputAccessOffset := 0
  let inTemp0 := inputData (inputAccessBase + inputAccessOffset)
  let sum0 := filterData (filterAccessBase + 10) * inTemp0
  let sum1 := filterData (filterAccessBase + 0) * inTemp0
  let inTemp1 := inputData (inputAccessBase + 1 + inputAccessOffset)
  let sum0 := sum0 + filterData (filterAccessBase + 11) * inTemp1
  let sum1 := sum1 + filterData (filterAccessBase + 1) * inTemp1
  let inTemp2 := inputData (inputAccessBase + 2 + inputAccessOffset)
  let sum0 := sum0 + filterData (filterAccessBase + 12) * inTemp2
  let sum1 := sum1 + filterData (filterAccessBase + 2) * inTemp2
  let inTemp3 := inputData (inputAccessBase + 3 + inputAccessOffset)
  let sum0 := sum0 + filterData (filterAccessBase + 13) * inTemp3
  let sum1 := sum1 + filterData (filterAccessBase + 3) * inTemp3
  let inTemp4 := inputData (inputAccessBase + 4 + inputAccessOffset)
  let sum0 := sum0 + filterData (filterAccessBase + 14) * inTemp4
  let sum1 := sum1 + filterData (filterAccessBase + 4) * inTemp4
  let inputAccessOffset := inputAccessOffset + paddedWidth
  let inTemp0 := inputData (inputAccessBase + inputAccessOffset)
  let sum0 := sum0 + filterData (filterAccessBase + 15) * inTemp0
  let sum1 := sum1 + filterData (filterAccessBase + 5) * inTemp0
  let inTemp1 := inputData (inputAccessBase + 1 + inputAccessOffset)
  let sum0 := sum0 + filterData (filterAccessBase + 16) * inTemp1
  let sum1 := sum1 + filterData (filterAccessBase + 6) * inTemp1
  let inTemp2 := inputData (inputAccessBase + 2 + inputAccessOffset)
  let sum0 := sum0 + filterData (filterAccessBase + 17) * inTemp2
  let sum1 := sum1 + filterData (filterAccessBase + 7) * inTemp2
  let inTemp3 := inputData (inputAccessBase + 3 + inputAccessOffset)
  let sum0 := sum0 + filterData (filterAccessBase + 18) * inTemp3
  let sum1 := sum1 + filterData (filterAccessBase + 8) * inTemp3
  let inTemp4 := inputData (inputAccessBase + 4 + inputAccessOffset)
  let sum0 := sum0 + filterData (filterAccessBase + 19) * inTemp4
  let sum1 := sum1 + filterData (filterAccessBase + 9) * inTemp4
  let inputAccessOffset := inputAccessOffset + paddedWidth
  let inTemp0 := inputData (inputAccessBase + inputAccessOffset)
  let sum0 := sum0 + filterData (filterAccessBase + 20) * inTemp0
  let sum1 := sum1 + filterData (filterAccessBase + 10) * inTemp0
  let sum2 := filterData (filterAccessBase + 0) * inTemp0
  let inTemp1 := inputData (inputAccessBase + 1 + inputAccessOffset)
  let sum0 := sum0 + filterData (filterAccessBase + 21) * inTemp1
  let sum1 := sum1 + filterData (filterAccessBase + 11) * inTemp1
  let sum2 := sum2 + filterData (filterAccessBase + 1) * inTemp1
  let inTemp2 := inputData (inputAccessBase + 2 + inputAccessOffset)
  let sum0 := sum0 + filterData (filterAccessBase + 22) * inTemp2
  let sum1 := sum1 + filterData (filterAccessBase + 12) * inTemp2
  let sum2 := sum2 + filterData (filterAccessBase + 2) * inTemp2
  let inTemp3 := inputData (inputAccessBase + 3 + inputAccessOffset)
  let sum0 := sum0 + filterData (filterAccessBase + 23) * inTemp3
  let sum1 := sum1 + filterData (filterAccessBase + 13) * inTemp3
  let sum2 := sum2 + filterData (filterAccessBase + 3) * inTemp3
  let inTemp4 := inputData (inputAccessBase + 4 + inputAccessOffset)
  let sum0 := sum0 + filterData (filterAccessBase + 24) * inTemp4
  let sum1 := sum1 + filterData (filterAccessBase + 14) * inTemp4
  let sum2 := sum2 + filterData (filterAccessBase + 4) * inTemp4
  let output := write output (outputIdx) (sum0 * alpha + beta)
  let outputIdx := outputIdx + p.outputWidth
  let inputAccessOffset := inputAccessOffset + paddedWidth
  let inTemp0 := inputData (inputAccessBase + inputAccessOffset)
  let sum1 := sum1 + filterData (filterAccessBase + 15) * inTemp0
  let sum2 := sum2 + filterData (filterAccessBase + 5) * inTemp0
  let inTemp1 := inputData (inputAccessBase + 1 + inputAccessOffset)
  let sum1 := sum1 + filterData (filterAccessBase + 16) * inTemp1
  let sum2 := sum2 + filterData (filterAccessBase + 6) * inTemp1
  let inTemp2 := inputData (inputAccessBase + 2 + inputAccessOffset)
  let sum1 := sum1 + filterData (filterAccessBase + 17) * inTemp2
  let sum2 := sum2 + filterData (filterAccessBase + 7) * inTemp2
  let inTemp3 := inputData (inputAccessBase + 3 + inputAccessOffset)
  let sum1 := sum1 + filterData (filterAccessBase + 18) * inTemp3
  let sum2 := sum2 + filterData (filterAccessBase + 8) * inTemp3
  let inTemp4 := inputData (inputAccessBase + 4 + inputAccessOffset)
  let sum1 := sum1 + filterData (filterAccessBase + 19) * inTemp4
  let sum2 := sum2 + filterData (filterAccessBase + 9) * inTemp4
  let inputAccessOffset := inputAccessOffset + paddedWidth
  let inTemp0 := inputData (inputAccessBase + inputAccessOffset)
  let sum1 := sum1 + filterData (filterAccessBase + 20) * inTemp0
  let sum2 := sum2 + filterData (filterAccessBase + 10) * inTemp0
  let sum0 := filterData (filterAccessBase + 0) * inTemp0
  let inTemp1 := inputData (inputAccessBase + 1 + inputAccessOffset)
  let sum1 := sum1 + filterData (filterAccessBase + 21) * inTemp1
  let sum2 := sum2 + filterData (filterAccessBase + 11) * inTemp1
  let sum0 := sum0 + filterData (filterAccessBase + 1) * inTemp1
  let inTemp2 := inputData (inputAccessBase + 2 + inputAccessOffset)
  let sum1 := sum1 + filterData (filterAccessBase + 22) * inTemp2
  let sum2 := sum2 + filterData (filterAccessBase + 12) * inTemp2
  let sum0 := sum0 + filterData (filterAccessBase + 2) * inTemp2
  let inTemp3 := inputData (inputAccessBase + 3 + inputAccessOffset)
  let sum1 := sum1 + filterData (filterAccessBase + 23) * inTemp3
  let sum2 := sum2 + filterData (filterAccessBase + 13) * inTemp3
  let sum0 := sum0 + filterData (filterAccessBase + 3) * inTemp3
  let inTemp4 := inputData (inputAccessBase + 4 + inputAccessOffset)
  let sum1 := sum1 + filterData (filterAccessBase + 24) * inTemp4
  let sum2 := sum2 + filterData (filterAccessBase + 14) * inTemp4
  let sum0 := sum0 + filterData (filterAccessBase + 4) * inTemp4
  let output := write output (outputIdx) (sum1 * alpha + beta)
  let outputIdx := outputIdx + p.outputWidth
  let inputAccessOffset := inputAccessOffset + paddedWidth
  let inTemp0 := inputData (inputAccessBase + inputAccessOffset)
  let sum2 := sum2 + filterData (filterAccessBase + 15) * inTemp0
  let sum0 := sum0 + filterData (filterAccessBase + 5) * inTemp0
  let inTemp1 := inputData (inputAccessBase + 1 + inputAccessOffset)
  let sum2 := sum2 + filterData (filterAccessBase + 16) * inTemp1
  let sum0 := sum0 + filterData (filterAccessBase + 6) * inTemp1
  let inTemp2 := inputData (inputAccessBase + 2 + inputAccessOffset)
  let sum2 := sum2 + filterData (filterAccessBase + 17) * inTemp2
  let sum0 := sum0 + filterData (filterAccessBase + 7) * inTemp2
  let inTemp3 := inputData (inputAccessBase + 3 + inputAccessOffset)
  let sum2 := sum2 + filterData (filterAccessBase + 18) * inTemp3
  let sum0 := sum0 + filterData (filterAccessBase + 8) * inTemp3
  let inTemp4 := inputData (inputAccessBase + 4 + inputAccessOffset)
  let sum2 := sum2 + filterData (filterAccessBase + 19) * inTemp4
  let sum0 := sum0 + filterData (filterAccessBase + 9) * inTemp4
  let inputAccessOffset := inputAccessOffset + paddedWidth
  let inTemp0 := inputData (inputAccessBase + inputAccessOffset)
  let sum2 := sum2 + filterData (filterAccessBase + 20) * inTemp0
  let sum0 := sum0 + filterData (filterAccessBase + 10) * inTemp0
  let sum1 := filterData (filterAccessBase + 0) * inTemp0
  let inTemp1 := inputData (inputAccessBase + 1 + inputAccessOffset)
  let sum2 := sum2 + filterData (filterAccessBase + 21) * inTemp1
  let sum0 := sum0 + filterData (filterAccessBase + 11) * inTemp1
  let sum1 := sum1 + filterData (filterAccessBase + 1) * inTemp1
  let inTemp2 := inputData (inputAccessBase + 2 + inputAccessOffset)
  let sum2 := sum2 + filterData (filterAccessBase + 22) * inTemp2
  let sum0 := sum0 + filterData (filterAccessBase + 12) * inTemp2
  let sum1 := sum1 + filterData (filterAccessBase + 2) * inTemp2
  let inTemp3 := inputData (inputAccessBase + 3 + inputAccessOffset)
  let sum2 := sum2 + filterData (filterAccessBase + 23) * inTemp3
  let sum0 := sum0 + filterData (filterAccessBase + 13) * inTemp3
  let sum1 := sum1 + filterData (filterAccessBase + 3) * inTemp3
  let inTemp4 := inputData (inputAccessBase + 4 + inputAccessOffset)
  let sum2 := sum2 + filterData (filterAccessBase + 24) * inTemp4
  let sum0 := sum0 + filterData (filterAccessBase + 14) * inTemp4
  let sum1 := sum1 + filterData (filterAccessBase + 4) * inTemp4
  let output := write output (outputIdx) (sum2 * alpha + beta)
  let outputIdx := outputIdx + p.outputWidth
  let inputAccessOffset := inputAccessOffset + paddedWidth
  let inTemp0 := inputData (inputAccessBase + inputAccessOffset)
  let sum0 := sum0 + filterData (filterAccessBase + 15) * inTemp0
  let sum1 := sum1 + filterData (filterAccessBase + 5) * inTemp0
  let inTemp1 := inputData (inputAccessBase + 1 + inputAccessOffset)
  let sum0 := sum0 + filterData (filterAccessBase + 16) * inTemp1
  let sum1 := sum1 + filterData (filterAccessBase + 6) * inTemp1
  let inTemp2 := inputData (inputAccessBase + 2 + inputAccessOffset)
  let sum0 := sum0 + filterData (filterAccessBase + 17) * inTemp2
  let sum1 := sum1 + filterData (filterAccessBase + 7) * inTemp2
  let inTemp3 := inputData (inputAccessBase + 3 + inputAccessOffset)
  let sum0 := sum0 + filterData (filterAccessBase + 18) * inTemp3
  let sum1 := sum1 + filterData (filterAccessBase + 8) * inTemp3
  let inTemp4 := inputData (inputAccessBase + 4 + inputAccessOffset)
  let sum0 := sum0 + filterData (filterAccessBase + 19) * inTemp4
  let sum1 := sum1 + filterData (filterAccessBase + 9) * inTemp4
  let inputAccessOffset := inputAccessOffset + paddedWidth
  let inTemp0 := inputData (inputAccessBase + inputAccessOffset)
  let sum0 := sum0 + filterData (filterAccessBase + 20) * inTemp0
  let sum1 := sum1 + filterData (filterAccessBase + 10) * inTemp0
  let sum2 := filterData (filterAccessBase + 0) * inTemp0
  let inTemp1 := inputData (inputAccessBase + 1 + inputAccessOffset)
  let sum0 := sum0 + filterData (filterAccessBase + 21) * inTemp1
  let sum1 := sum1 + filterData (filterAccessBase + 11) * inTemp1
  let sum2 := sum2 + filterData (filterAccessBase + 1) * inTemp1
  let inTemp2 := inputData (inputAccessBase + 2 + inputAccessOffset)
  let sum0 := sum0 + filterData (filterAccessBase + 22) * inTemp2
  let sum1 := sum1 + filterData (filterAccessBase + 12) * inTemp2
  let sum2 := sum2 + filterData (filterAccessBase + 2) * inTemp2
  let inTemp3 := inputData (inputAccessBase + 3 + inputAccessOffset)
  let sum0 := sum0 + filterData (filterAccessBase + 23) * inTemp3
  let sum1 := sum1 + filterData (filterAccessBase + 13) * inTemp3
  let sum2 := sum2 + filterData (filterAccessBase + 3) * inTemp3
  let inTemp4 := inputData (inputAccessBase + 4 + inputAccessOffset)
  let sum0 := sum0 + filterData (filterAccessBase + 24) * inTemp4
  let sum1 := sum1 + filterData (filterAccessBase + 14) * inTemp4
  let sum2 := sum2 + filterData (filterAccessBase + 4) * inTemp4
  let output := write output (outputIdx) (sum0 * alpha + beta)
  let outputIdx := outputIdx + p.outputWidth
  let inputAccessOffset := inputAccessOffset + paddedWidth
  let inTemp0 := inputData (inputAccessBase + inputAccessOffset)
  let sum1 := sum1 + filterData (filterAccessBase + 15) * inTemp0
  let sum2 := sum2 + filterData (filterAccessBase + 5) * inTemp0
  let inTemp1 := inputData (inputAccessBase + 1 + inputAccessOffset)
  let sum1 := sum1 + filterData (filterAccessBase + 16) * inTemp1
  let sum2 := sum2 + filterData (filterAccessBase + 6) * inTemp1
  let inTemp2 := inputData (inputAccessBase + 2 + inputAccessOffset)
  let sum1 := sum1 + filterData (filterAccessBase + 17) * inTemp2
  let sum2 := sum2 + filterData (filterAccessBase + 7) * inTemp2
  let inTemp3 := inputData (inputAccessBase + 3 + inputAccessOffset)
  let sum1 := sum1 + filterData (filterAccessBase + 18) * inTemp3
  let sum2 := sum2 + filterData (filterAccessBase + 8) * inTemp3
  let inTemp4 := inputData (inputAccessBase + 4 + inputAccessOffset)
  let sum1 := sum1 + filterData (filterAccessBase + 19) * inTemp4
  let sum2 := sum2 + filterData (filterAccessBase + 9) * inTemp4
  let inputAccessOffset := inputAccessOffset + paddedWidth
  let inTemp0 := inputData (inputAccessBase + inputAccessOffset)
  let sum1 := sum1 + filterData (filterAccessBase + 20) * inTemp0
  let sum2 := sum2 + filterData (filterAccessBase + 10) * inTemp0
  let sum0 := filterData (filterAccessBase + 0) * inTemp0
  let inTemp1 := inputData (inputAccessBase + 1 + inputAccessOffset)
  let sum1 := sum1 + filterData (filterAccessBase + 21) * inTemp1
  let sum2 := sum2 + filterData (filterAccessBase + 11) * inTemp1
  let sum0 := sum0 + filterData (filterAccessBase + 1) * inTemp1
  let inTemp2 := inputData (inputAccessBase + 2 + inputAccessOffset)
  let sum1 := sum1 + filterData (filterAccessBase + 22) * inTemp2
  let sum2 := sum2 + filterData (filterAccessBase + 12) * inTemp2
  let sum0 := sum0 + filterData (filterAccessBase + 2) * inTemp2
  let inTemp3 := inputData (inputAccessBase + 3 + inputAccessOffset)
  let sum1 := sum1 + filterData (filterAccessBase + 23) * inTemp3
  let sum2 := sum2 + filterData (filterAccessBase + 13) * inTemp3
  let sum0 := sum0 + filterData (filterAccessBase + 3) * inTemp3
  let inTemp4 := inputData (inputAccessBase + 4 + inputAccessOffset)
  let sum1 := sum1 + filterData (filterAccessBase + 24) * inTemp4
  let sum2 := sum2 + filterData (filterAccessBase + 14) * inTemp4
  let sum0 := sum0 + filterData (filterAccessBase + 4) * inTemp4
  let output := write output (outputIdx) (sum1 * alpha + beta)
  let outputIdx := outputIdx + p.outputWidth
  let inputAccessOffset := inputAccessOffset + paddedWidth
  let inTemp0 := inputData (inputAccessBase + inputAccessOffset)
  let sum2 := sum2 + filterData (filterAccessBase + 15) * inTemp0
  let sum0 := sum0 + filterData (filterAccessBase + 5) * inTemp0
  let inTemp1 := inputData (inputAccessBase + 1 + inputAccessOffset)
  let sum2 := sum2 + filterData (filterAccessBase + 16) * inTemp1
  let sum0 := sum0 + filterData (filterAccessBase + 6) * inTemp1
  let inTemp2 := inputData (inputAccessBase + 2 + inputAccessOffset)
  let sum2 := sum2 + filterData (filterAccessBase + 17) * inTemp2
  let sum0 := sum0 + filterData (filterAccessBase + 7) * inTemp2
  let inTemp3 := inputData (inputAccessBase + 3 + inputAccessOffset)
  let sum2 := sum2 + filterData (filterAccessBase + 18) * inTemp3
  let sum0 := sum0 + filterData (filterAccessBase + 8) * inTemp3
  let inTemp4 := inputData (inputAccessBase + 4 + inputAccessOffset)
  let sum2 := sum2 + filterData (filterAccessBase + 19) * inTemp4
  let sum0 := sum0 + filterData (filterAccessBase + 9) * inTemp4
  let inputAccessOffset := inputAccessOffset + paddedWidth
  let inTemp0 := inputData (inputAccessBase + inputAccessOffset)
  let sum2 := sum2 + filterData (filterAccessBase + 20) * inTemp0
  let sum0 := sum0 + filterData (filterAccessBase + 10) * inTemp0
  let inTemp1 := inputData (inputAccessBase + 1 + inputAccessOffset)
  let sum2 := sum2 + filterData (filterAccessBase + 21) * inTemp1
  let sum0 := sum0 + filterData (filterAccessBase + 11) * inTemp1
  let inTemp2 := inputData (inputAccessBase + 2 + inputAccessOffset)
  let sum2 := sum2 + filterData (filterAccessBase + 22) * inTemp2
  let sum0 := sum0 + filterData (filterAccessBase + 12) * inTemp2
  let inTemp3 := inputData (inputAccessBase + 3 + inputAccessOffset)
  let sum2 := sum2 + filterData (filterAccessBase + 23) * inTemp3
  let sum0 := sum0 + filterData (filterAccessBase + 13) * inTemp3
  let inTemp4 := inputData (inputAccessBase + 4 + inputAccessOffset)
  let sum2 := sum2 + filterData (filterAccessBase + 24) * inTemp4
  let sum0 := sum0 + filterData (filterAccessBase + 14) * inTemp4
  let output := write output (outputIdx) (sum2 * alpha + beta)
  let outputIdx := outputIdx + p.outputWidth
  let inputAccessOffset := inputAccessOffset + paddedWidth
  let inTemp0 := inputData (inputAccessBase + inputAccessOffset)
  let sum0 := sum0 + filterData (filterAccessBase + 15) * inTemp0
  let inTemp1 := inputData (inputAccessBase + 1 + inputAccessOffset)
  let sum0 := sum0 + filterData (filterAccessBase + 16) * inTemp1
  let inTemp2 := inputData (inputAccessBase + 2 + inputAccessOffset)
  let sum0 := sum0 + filterData (filterAccessBase + 17) * inTemp2
  let inTemp3 := inputData (inputAccessBase + 3 + inputAccessOffset)
  let sum0 := sum0 + filterData (filterAccessBase + 18) * inTemp3
  let inTemp4 := inputData (inputAccessBase + 4 + inputAccessOffset)
  let sum0 := sum0 + filterData (filterAccessBase + 19) * inTemp4
  let output := write output (outputIdx) (sum0 * alpha + beta)
  let outputIdx := outputIdx + p.outputWidth
  output

/-- Scratch memory of a group of `Filter5x5_Input14x14_Stride2` at the second barrier: the fill phase run
by all `blockDim_x` lanes, then the copy phase run by all lanes. -/
def Filter5x5_Input14x14_Stride2.staged {α : Type} [Zero α] (blockDim_x : Nat) (input filter : Nat → α) (p : Shape)
    (blockIdx_x blockIdx_y : Nat) (sh : Shared α) : Shared α :=
  forLoop blockDim_x (fun threadIdx_x sh => Filter5x5_Input14x14_Stride2.copyPhase input p blockIdx_x blockIdx_y threadIdx_x sh)
    (forLoop blockDim_x (fun threadIdx_x sh => Filter5x5_Input14x14_Stride2.fillPhase filter p blockIdx_x blockIdx_y threadIdx_x sh) sh)

/-- Scratch memory of a group of `Filter5x5_Input14x14_Stride2` at the second barrier when the lanes of the fill
phase run in the order `fillOrder` and those of the copy phase in the order `copyOrder`. -/
def Filter5x5_Input14x14_Stride2.stagedIn {α : Type} [Zero α] (fillOrder copyOrder : List Nat) (input filter : Nat → α)
    (p : Shape) (blockIdx_x blockIdx_y : Nat) (sh : Shared α) : Shared α :=
  runLanes copyOrder (fun threadIdx_x sh => Filter5x5_Input14x14_Stride2.copyPhase input p blockIdx_x blockIdx_y threadIdx_x sh)
    (runLanes fillOrder (fun threadIdx_x sh => Filter5x5_Input14x14_Stride2.fillPhase filter p blockIdx_x blockIdx_y threadIdx_x sh) sh)

/-- One execution group of `Filter5x5_Input14x14_Stride2` with a chosen lane order in each of its three phases. -/
def Filter5x5_Input14x14_Stride2.blockIn {α : Type} [Add α] [Mul α] [Zero α] (fillOrder copyOrder convolveOrder : List Nat)
    (input filter : Nat → α) (p : Shape) (alpha beta : α)
    (blockIdx_x blockIdx_y : Nat) (sh : Shared α) (output : Nat → α) : Nat → α :=
  runLanes convolveOrder (fun threadIdx_x output =>
    Filter5x5_Input14x14_Stride2.convolve p alpha beta blockIdx_x blockIdx_y threadIdx_x
      (Filter5x5_Input14x14_Stride2.stagedIn fillOrder copyOrder input filter p blockIdx_x blockIdx_y sh) output) output

/-- Kernel `Filter5x5_Input14x14_Stride2` with the groups run in the order of the list `groups` and, in group
`(bx, b)`, the lanes of each phase run in the orders `fillOrder bx b`, `copyOrder bx b` and
`convolveOrder bx b`. -/
def Filter5x5_Input14x14_Stride2.launchIn {α : Type} [Add α] [Mul α] [Zero α] (groups : List (Nat × Nat))
    (fillOrder copyOrder convolveOrder : Nat → Nat → List Nat)
    (input filter output : Nat → α) (p : Shape) (alpha beta : α)
    (shared : Nat → Nat → Shared α) : Nat → α :=
  groups.foldl (fun output g =>
    Filter5x5_Input14x14_Stride2.blockIn (fillOrder g.1 g.2) (copyOrder g.1 g.2) (convolveOrder g.1 g.2)
      input filter p alpha beta g.1 g.2 (shared g.1 g.2) output) output

/-- One execution group of `Filter5x5_Input14x14_Stride2`: all lanes run `convolve` on the staged scratch memory. -/
def Filter5x5_Input14x14_Stride2.block {α : Type} [Add α] [Mul α] [Zero α] (blockDim_x : Nat)
    (input filter : Nat → α) (p : Shape) (alpha beta : α)
    (blockIdx_x blockIdx_y : Nat) (sh : Shared α) (output : Nat → α) : Nat → α :=
  forLoop blockDim_x (fun threadIdx_x output =>
    Filter5x5_Input14x14_Stride2.convolve p alpha beta blockIdx_x blockIdx_y threadIdx_x
      (Filter5x5_Input14x14_Stride2.staged blockDim_x input filter p blockIdx_x blockIdx_y sh) output) output

/-- Kernel `Filter5x5_Input14x14_Stride2` launched on a `gridDim_x` x `gridDim_y` grid of groups of
`blockDim_x` lanes; `shared bx b` is what the scratch memory of group `(bx, b)` holds
when the group starts. -/
def Filter5x5_Input14x14_Stride2 {α : Type} [Add α] [Mul α] [Zero α] (gridDim_x gridDim_y blockDim_x : Nat)
    (input filter output : Nat → α) (p : Shape) (alpha beta : α)
    (shared : Nat → Nat → Shared α) : Nat → α :=
  forLoop gridDim_x (fun blockIdx_x output =>
    forLoop gridDim_y (fun blockIdx_y output =>
      Filter5x5_Input14x14_Stride2.block blockDim_x input filter p alpha beta blockIdx_x blockIdx_y
        (shared blockIdx_x blockIdx_y) output) output) output

/-- Lane program of `Filter3x3_Input28x28_Stride1` up to the first barrier (source lines 24-36):
filter staging and zero fill of the tile border. -/
def Filter3x3_Input28x28_Stride1.fillPhase {α : Type} [Zero α] (filter : Nat → α) (p : Shape)
    (blockIdx_x blockIdx_y threadIdx_x : Nat) (sh : Shared α) : Shared α :=
  let filterData := sh.filterData
  let inputData := sh.inputData
  let channelGroupSize := 8
  let paddedWidth := p.inputWidth + 2 * p.padding
  let filterLoadSrcIdx := blockIdx_y * channelGroupSize * p.filterWidth * p.filterHeight + threadIdx_x
  let filterData := if threadIdx_x < 8 * 9 then write filterData (threadIdx_x) (filter (filterLoadSrcIdx)) else filterData
  let leftPaddingIdx := threadIdx_x * paddedWidth
  let inputData := write inputData (leftPaddingIdx) (0)
  let inputData := write inputData (leftPaddingIdx + 29) (0)
  { filterData := filterData, inputData := inputData }

/-- Lane program of `Filter3x3_Input28x28_Stride1` between the two barriers (source lines 40-73):
bulk copy of the input into the tile. -/
def Filter3x3_Input28x28_Stride1.copyPhase {α : Type} (input : Nat → α) (p : Shape)
    (blockIdx_x blockIdx_y threadIdx_x : Nat) (sh : Shared α) : Shared α :=
  let filterData := sh.filterData
  let inputData := sh.inputData
  let channelGroupSize := 8
  let inputLoadIdxBase := blockIdx_x * p.inputChannel * p.inputHeight * p.inputWidth + blockIdx_y * channelGroupSize * p.inputHeight * p.inputWidth
  let inputLoadSrcIdx := inputLoadIdxBase + threadIdx_x
  let inputLoadDstIdx := (threadIdx_x / p.inputWidth) * 2 + threadIdx_x + 1
  let inputData := write inputData (inputLoadDstIdx) (input (inputLoadSrcIdx))
  let inputData := write inputData (inputLoadDstIdx + 8 * 30 * 1) (input (inputLoadSrcIdx + 8 * 28 * 1))
  let inputData := write inputData (inputLoadDstIdx + 8 * 30 * 2) (input (inputLoadSrcIdx + 8 * 28 * 2))
  let inputData := write inputData (inputLoadDstIdx + 8 * 30 * 3) (input (inputLoadSrcIdx + 8 * 28 * 3))
  let inputData := write inputData (inputLoadDstIdx + 8 * 30 * 4) (input (inputLoadSrcIdx + 8 * 28 * 4))
  let inputData := write inputData (inputLoadDstIdx + 8 * 30 * 5) (input (inputLoadSrcIdx + 8 * 28 * 5))
  let inputData := write inputData (inputLoadDstIdx + 8 * 30 * 6) (input (inputLoadSrcIdx + 8 * 28 * 6))
  let inputData := write inputData (inputLoadDstIdx + 8 * 30 * 7) (input (inputLoadSrcIdx + 8 * 28 * 7))
  let inputData := write inputData (inputLoadDstIdx + 8 * 30 * 8) (input (inputLoadSrcIdx + 8 * 28 * 8))
  let inputData := write inputData (inputLoadDstIdx + 8 * 30 * 9) (input (inputLoadSrcIdx + 8 * 28 * 9))
  let inputData := write inputData (inputLoadDstIdx + 8 * 30 * 10) (input (inputLoadSrcIdx + 8 * 28 * 10))
  let inputData := write inputData (inputLoadDstIdx + 8 * 30 * 11) (input (inputLoadSrcIdx + 8 * 28 * 11))
  let inputData := write inputData (inputLoadDstIdx + 8 * 30 * 12) (input (inputLoadSrcIdx + 8 * 28 * 12))
  let inputData := write inputData (inputLoadDstIdx + 8 * 30 * 13) (input (inputLoadSrcIdx + 8 * 28 * 13))
  let inputData := write inputData (inputLoadDstIdx + 8 * 30 * 14) (input (inputLoadSrcIdx + 8 * 28 * 14))
  let inputData := write inputData (inputLoadDstIdx + 8 * 30 * 15) (input (inputLoadSrcIdx + 8 * 28 * 15))
  let inputData := write inputData (inputLoadDstIdx + 8 * 30 * 16) (input (inputLoadSrcIdx + 8 * 28 * 16))
  let inputData := write inputData (inputLoadDstIdx + 8 * 30 * 17) (input (inputLoadSrcIdx + 8 * 28 * 17))
  let inputData := write inputData (inputLoadDstIdx + 8 * 30 * 18) (input (inputLoadSrcIdx + 8 * 28 * 18))
  let inputData := write inputData (inputLoadDstIdx + 8 * 30 * 19) (input (inputLoadSrcIdx + 8 * 28 * 19))
  let inputData := write inputData (inputLoadDstIdx + 8 * 30 * 20) (input (inputLoadSrcIdx + 8 * 28 * 20))
  let inputData := write inputData (inputLoadDstIdx + 8 * 30 * 21) (input (inputLoadSrcIdx + 8 * 28 * 21))
  let inputData := write inputData (inputLoadDstIdx + 8 * 30 * 22) (input (inputLoadSrcIdx + 8 * 28 * 22))
  let inputData := write inputData (inputLoadDstIdx + 8 * 30 * 23) (input (inputLoadSrcIdx + 8 * 28 * 23))
  let inputData := write inputData (inputLoadDstIdx + 8 * 30 * 24) (input (inputLoadSrcIdx + 8 * 28 * 24))
  let inputData := write inputData (inputLoadDstIdx + 8 * 30 * 25) (input (inputLoadSrcIdx + 8 * 28 * 25))
  let inputData := write inputData (inputLoadDstIdx + 8 * 30 * 26) (input (inputLoadSrcIdx + 8 * 28 * 26))
  let inputData := write inputData (inputLoadDstIdx + 8 * 30 * 27) (input (inputLoadSrcIdx + 8 * 28 * 27))
  { filterData := filterData, inputData := inputData }

/-- Body of the row loop of `Filter3x3_Input28x28_Stride1` (source lines 103-175), on the registers the
loop carries from one iteration to the next. -/
def Filter3x3_Input28x28_Stride1.rowLoopBody {α : Type} [Add α] [Mul α] (p : Shape) (alpha beta : α)
    (filterData inputData : Nat → α) (paddedWidth inputAccessBase filterAccessBase : Nat)
    (s : RowState α) : RowState α :=
  let sum0 := s.sum0
  let sum1 := s.sum1
  let inputAccessOffset := s.inputAccessOffset
  let outputIdx := s.outputIdx
  let output := s.output
  let inputAccessOffset := inputAccessOffset + paddedWidth
  let inTemp0 := inputData (inputAccessBase + inputAccessOffset)
  let sum0 := sum0 + filterData (filterAccessBase + 6) * inTemp0
  let sum1 := sum1 + filterData (filterAccessBase + 3) * inTemp0
  let sum2 := filterData (filterAccessBase + 0) * inTemp0
  let inTemp1 := inputData (inputAccessBase + inputAccessOffset + 1)
  let sum0 := sum0 + filterData (filterAccessBase + 7) * inTemp1
  let sum1 := sum1 + filterData (filterAccessBase + 4) * inTemp1
  let sum2 := sum2 + filterData (filterAccessBase + 1) * inTemp1
  let inTemp2 := inputData (inputAccessBase + inputAccessOffset + 2)
  let sum0 := sum0 + filterData (filterAccessBase + 8) * inTemp2
  let sum1 := sum1 + filterData (filterAccessBase + 5) * inTemp2
  let sum2 := sum2 + filterData (filterAccessBase + 2) * inTemp2
  let output := write output (outputIdx) (sum0 * alpha + beta)
  let outputIdx := outputIdx + p.outputWidth
  let inputAccessOffset := inputAccessOffset + paddedWidth
  let inTemp0 := inputData (inputAccessBase + inputAccessOffset)
  let sum1 := sum1 + filterData (filterAccessBase + 6) * inTemp0
  let sum2 := sum2 + filterData (filterAccessBase + 3) * inTemp0
  let sum0 := filterData (filterAccessBase + 0) * inTemp0
  let inTemp1 := inputData (inputAccessBase + inputAccessOffset + 1)
  let sum1 := sum1 + filterData (filterAccessBase + 7) * inTemp1
  let sum2 := sum2 + filterData (filterAccessBase + 4) * inTemp1
  let sum0 := sum0 + filterData (filterAccessBase + 1) * inTemp1
  let inTemp2 := inputData (inputAccessBase + inputAccessOffset + 2)
  let sum1 := sum1 + filterData (filterAccessBase + 8) * inTemp2
  let sum2 := sum2 + filterData (filterAccessBase + 5) * inTemp2
  let sum0 := sum0 + filterData (filterAccessBase + 2) * inTemp2
  let output := write output (outputIdx) (sum1 * alpha + beta)
  let outputIdx := outputIdx + p.outputWidth
  let inputAccessOffset := inputAccessOffset + paddedWidth
  let inTemp0 := inputData (inputAccessBase + inputAccessOffset)
  let sum2 := sum2 + filterData (filterAccessBase + 6) * inTemp0
  let sum0 := sum0 + filterData (filterAccessBase + 3) * inTemp0
  let sum1 := filterData (filterAccessBase + 0) * inTemp0
  let inTemp1 := inputData (inputAccessBase + inputAccessOffset + 1)
  let sum2 := sum2 + filterData (filterAccessBase + 7) * inTemp1
  let sum0 := sum0 + filterData (filterAccessBase + 4) * inTemp1
  let sum1 := sum1 + filterData (filterAccessBase + 1) * inTemp1
  let inTemp2 := inputData (inputAccessBase + inputAccessOffset + 2)
  let sum2 := sum2 + filterData (filterAccessBase + 8) * inTemp2
  let sum0 := sum0 + filterData (filterAccessBase + 5) * inTemp2
  let sum1 := sum1 + filterData (filterAccessBase + 2) * inTemp2
  let output := write output (outputIdx) (sum2 * alpha + beta)
  let outputIdx := outputIdx + p.outputWidth
  { sum0 := sum0, sum1 := sum1, inputAccessOffset := inputAccessOffset,
    outputIdx := outputIdx, output := output }

/-- Lane program of `Filter3x3_Input28x28_Stride1` after the second barrier (source lines 76-234):
rolling accumulation and the 28 stores of the lane. -/
def Filter3x3_Input28x28_Stride1.convolve {α : Type} [Add α] [Mul α] (p : Shape) (alpha beta : α)
    (blockIdx_x blockIdx_y threadIdx_x : Nat) (sh : Shared α) (output : Nat → α) : Nat → α :=
  let filterData := sh.filterData
  let inputData := sh.inputData
  let channelGroupSize := 8
  let paddedWidth := p.inputWidth + 2 * p.padding
  let outputIdx := blockIdx_x * p.outputChannel * p.outputHeight * p.outputWidth + blockIdx_y * channelGroupSize * p.outputHeight * p.outputWidth + (threadIdx_x / p.outputWidth) * p.outputHeight * p.outputWidth + threadIdx_x % p.outputWidth
  let inputAccessBase := (threadIdx_x / p.outputWidth) * paddedWidth * p.inputHeight + threadIdx_x % p.outputWidth
  let filterAccessBase := (threadIdx_x / p.inputWidth) * p.filterHeight * p.filterWidth
  let inputAccessOffset := 0
  let inTemp0 := inputData (inputAccessBase)
  let sum0 := filterData (filterAccessBase + 3) * inTemp0
  let sum1 := filterData (filterAccessBase + 0) * inTemp0
  let inTemp1 := inputData (inputAccessBase + 1)
  let sum0 := sum0 + filterData (filterAccessBase + 4) * inTemp1
  let sum1 := sum1 + filterData (filterAccessBase + 1) * inTemp1
  let inTemp2 := inputData (inputAccessBase + 2)
  let sum0 := sum0 + filterData (filterAccessBase + 5) * inTemp2
  let sum1 := sum1 + filterData (filterAccessBase + 2) * inTemp2
  let s := forLoop 8 (fun _ s => Filter3x3_Input28x28_Stride1.rowLoopBody p alpha beta filterData inputData
      paddedWidth inputAccessBase filterAccessBase s)
    { sum0 := sum0, sum1 := sum1, inputAccessOffset := inputAccessOffset,
      outputIdx := outputIdx, output := output }
  let sum0 := s.sum0
  let sum1 := s.sum1
  let inputAccessOffset := s.inputAccessOffset
  let outputIdx := s.outputIdx
  let output := s.output
  let inputAccessOffset := inputAccessOffset + paddedWidth
  let inTemp0 := inputData (inputAccessBase + inputAccessOffset)
  let sum0 := sum0 + filterData (filterAccessBase + 6) * inTemp0
  let sum1 := sum1 + filterData (filterAccessBase + 3) * inTemp0
  let sum2 := filterData (filterAccessBase + 0) * inTemp0
  let inTemp1 := inputData (inputAccessBase + inputAccessOffset + 1)
  let sum0 := sum0 + filterData (filterAccessBase + 7) * inTemp1
  let sum1 := sum1 + filterData (filterAccessBase + 4) * inTemp1
  let sum2 := sum2 + filterData (filterAccessBase + 1) * inTemp1
  let inTemp2 := inputData (inputAccessBase + inputAccessOffset + 2)
  let sum0 := sum0 + filterData (filterAccessBase + 8) * inTemp2
  let sum1 := sum1 + filterData (filterAccessBase + 5) * inTemp2
  let sum2 := sum2 + filterData (filterAccessBase + 2) * inTemp2
  let output := write output (outputIdx) (sum0 * alpha + beta)
  let outputIdx := outputIdx + p.outputWidth
  let inputAccessOffset := inputAccessOffset + paddedWidth
  let inTemp0 := inputData (inputAccessBase + inputAccessOffset)
  let sum1 := sum1 + filterData (filterAccessBase + 6) * inTemp0
  let sum2 := sum2 + filterData (filterAccessBase + 3) * inTemp0
  let sum0 := filterData (filterAccessBase + 0) * inTemp0
  let inTemp1 := inputData (inputAccessBase + inputAccessOffset + 1)
  let sum1 := sum1 + filterData (filterAccessBase + 7) * inTemp1
  let sum2 := sum2 + filterData (filterAccessBase + 4) * inTemp1
  let sum0 := sum0 + filterData (filterAccessBase + 1) * inTemp1
  let inTemp2 := inputData (inputAccessBase + inputAccessOffset + 2)
  let sum1 := sum1 + filterData (filterAccessBase + 8) * inTemp2
  let sum2 := sum2 + filterData (filterAccessBase + 5) * inTemp2
  let sum0 := sum0 + filterData (filterAccessBase + 2) * inTemp2
  let output := write output (outputIdx) (sum1 * alpha + beta)
  let outputIdx := outputIdx + p.outputWidth
  let inputAccessOffset := inputAccessOffset + paddedWidth
  let inTemp0 := inputData (inputAccessBase + inputAccessOffset)
  let sum2 := sum2 + filterData (filterAccessBase + 6) * inTemp0
  let sum0 := sum0 + filterData (filterAccessBase + 3) * inTemp0
  let inTemp1 := inputData (inputAccessBase + inputAccessOffset + 1)
  let sum2 := sum2 + filterData (filterAccessBase + 7) * inTemp1
  let sum0 := sum0 + filterData (filterAccessBase + 4) * inTemp1
  let inTemp2 := inputData (inputAccessBase + inputAccessOffset + 2)
  let sum2 := sum2 + filterData (filterAccessBase + 8) * inTemp2
  let sum0 := sum0 + filterData (filterAccessBase + 5) * inTemp2
  let output := write output (outputIdx) (sum2 * alpha + beta)
  let outputIdx := outputIdx + p.outputWidth
  let output := write output (outputIdx) (sum0 * alpha + beta)
  output

/-- Scratch memory of a group of `Filter3x3_Input28x28_Stride1` at the second barrier: the fill phase run
by all `blockDim_x` lanes, then the copy phase run by all lanes. -/
def Filter3x3_Input28x28_Stride1.staged {α : Type} [Zero α] (blockDim_x : Nat) (input filter : Nat → α) (p : Shape)
    (blockIdx_x blockIdx_y : Nat) (sh : Shared α) : Shared α :=
  forLoop blockDim_x (fun threadIdx_x sh => Filter3x3_Input28x28_Stride1.copyPhase input p blockIdx_x blockIdx_y threadIdx_x sh)
    (forLoop blockDim_x (fun threadIdx_x sh => Filter3x3_Input28x28_Stride1.fillPhase filter p blockIdx_x blockIdx_y threadIdx_x sh) sh)

/-- Scratch memory of a group of `Filter3x3_Input28x28_Stride1` at the second barrier when the lanes of the fill
phase run in the order `fillOrder` and those of the copy phase in the order `copyOrder`. -/
def Filter3x3_Input28x28_Stride1.stagedIn {α : Type} [Zero α] (fillOrder copyOrder : List Nat) (input filter : Nat → α)
    (p : Shape) (blockIdx_x blockIdx_y : Nat) (sh : Shared α) : Shared α :=
  runLanes copyOrder (fun threadIdx_x sh => Filter3x3_Input28x28_Stride1.copyPhase input p blockIdx_x blockIdx_y threadIdx_x sh)
    (runLanes fillOrder (fun threadIdx_x sh => Filter3x3_Input28x28_Stride1.fillPhase filter p blockIdx_x blockIdx_y threadIdx_x sh) sh)

/-- One execution group of `Filter3x3_Input28x28_Stride1` with a chosen lane order in each of its three phases. -/
def Filter3x3_Input28x28_Stride1.blockIn {α : Type} [Add α] [Mul α] [Zero α] (fillOrder copyOrder convolveOrder : List Nat)
    (input filter : Nat → α) (p : Shape) (alpha beta : α)
    (blockIdx_x blockIdx_y : Nat) (sh : Shared α) (output : Nat → α) : Nat → α :=
  runLanes convolveOrder (fun threadIdx_x output =>
    Filter3x3_Input28x28_Stride1.convolve p alpha beta blockIdx_x blockIdx_y threadIdx_x
      (Filter3x3_Input28x28_Stride1.stagedIn fillOrder copyOrder input filter p blockIdx_x blockIdx_y sh) output) output

/-- Kernel `Filter3x3_Input28x28_Stride1` with the groups run in the order of the list `groups` and, in group
`(bx, b)`, the lanes of each phase run in the orders `fillOrder bx b`, `copyOrder bx b` and
`convolveOrder bx b`. -/
def Filter3x3_Input28x28_Stride1.launchIn {α : Type} [Add α] [Mul α] [Zero α] (groups : List (Nat × Nat))
    (fillOrder copyOrder convolveOrder : Nat → Nat → List Nat)
    (input filter output : Nat → α) (p : Shape) (alpha beta : α)
    (shared : Nat → Nat → Shared α) : Nat → α :=
  groups.foldl (fun output g =>
    Filter3x3_Input28x28_Stride1.blockIn (fillOrder g.1 g.2) (copyOrder g.1 g.2) (convolveOrder g.1 g.2)
      input filter p alpha beta g.1 g.2 (shared g.1 g.2) output) output

/-- One execution group of `Filter3x3_Input28x28_Stride1`: all lanes run `convolve` on the staged scratch memory. -/
def Filter3x3_Input28x28_Stride1.block {α : Type} [Add α] [Mul α] [Zero α] (blockDim_x : Nat)
    (input filter : Nat → α) (p : Shape) (alpha beta : α)
    (blockIdx_x blockIdx_y : Nat) (sh : Shared α) (output : Nat → α) : Nat → α :=
  forLoop blockDim_x (fun threadIdx_x output =>
    Filter3x3_Input28x28_Stride1.convolve p alpha beta blockIdx_x blockIdx_y threadIdx_x
      (Filter3x3_Input28x28_Stride1.staged blockDim_x input filter p blockIdx_x blockIdx_y sh) output) output

/-- Kernel `Filter3x3_Input28x28_Stride1` launched on a `gridDim_x` x `gridDim_y` grid of groups of
`blockDim_x` lanes; `shared bx b` is what the scratch memory of group `(bx, b)` holds
when the group starts. -/
def Filter3x3_Input28x28_Stride1 {α : Type} [Add α] [Mul α] [Zero α] (gridDim_x gridDim_y blockDim_x : Nat)
    (input filter output : Nat → α) (p : Shape) (alpha beta : α)
    (shared : Nat → Nat → Shared α) : Nat → α :=
  forLoop gridDim_x (fun blockIdx_x output =>
    forLoop gridDim_y (fun blockIdx_y output =>
      Filter3x3_Input28x28_Stride1.block blockDim_x input filter p alpha beta blockIdx_x blockIdx_y
        (shared blockIdx_x blockIdx_y) output) output) output

/-- Lane program of `Filter3x3_Input28x28_Stride2` up to the first barrier (source lines 25-39):
filter staging and zero fill of the tile border. -/
def Filter3x3_Input28x28_Stride2.fillPhase {α : Type} [Zero α] (filter : Nat → α) (p : Shape)
    (blockIdx_x blockIdx_y threadIdx_x : Nat) (sh : Shared α) : Shared α :=
  let filterData := sh.filterData
  let inputData := sh.inputData
  let channelGroupSize := 8
  let paddedWidth := p.inputWidth + 2 * p.padding
  let filterLoadSrcIdx := blockIdx_y * channelGroupSize * p.filterWidth * p.filterHeight + threadIdx_x
  let filterData := if threadIdx_x < 8 * 9 then write filterData (threadIdx_x) (filter (filterLoadSrcIdx)) else filterData
  let leftPaddingIdx := threadIdx_x * paddedWidth
  let inputData := write inputData (leftPaddingIdx) (0)
  let inputData := write inputData (leftPaddingIdx + 29) (0)
  let inputData := write inputData (leftPaddingIdx + (channelGroupSize / 2) * p.inputHeight * paddedWidth) (0)
  let inputData := write inputData (leftPaddingIdx + (channelGroupSize / 2) * p.inputHeight * paddedWidth + 29) (0)
  { filterData := filterData, inputData := inputData }

/-- Lane program of `Filter3x3_Input28x28_Stride2` between the two barriers (source lines 43-52):
bulk copy of the input into the tile. -/
def Filter3x3_Input28x28_Stride2.copyPhase {α : Type} (input : Nat → α) (p : Shape)
    (blockIdx_x blockIdx_y threadIdx_x : Nat) (sh : Shared α) : Shared α :=
  let filterData := sh.filterData
  let inputData := sh.inputData
  let channelGroupSize := 8
  let inputLoadIdxBase := blockIdx_x * p.inputChannel * p.inputHeight * p.inputWidth + blockIdx_y * channelGroupSize * p.inputHeight * p.inputWidth
  let inputLoadSrcIdx := inputLoadIdxBase + threadIdx_x
  let inputLoadDstIdx := (threadIdx_x / p.inputWidth) * 2 + threadIdx_x + 1
  let inputData := forLoop 56 (fun i inputData =>
    write inputData (inputLoadDstIdx + 4 * 30 * i) (input (inputLoadSrcIdx + 4 * 28 * i))) inputData
  { filterData := filterData, inputData := inputData }

/-- Body of the row loop of `Filter3x3_Input28x28_Stride2` (source lines 98-164), on the registers the
loop carries from one iteration to the next. -/
def Filter3x3_Input28x28_Stride2.rowLoopBody {α : Type} [Add α] [Mul α] (p : Shape) (alpha beta : α)
    (filterData inputData : Nat → α) (paddedWidth inputAccessBase filterAccessBase : Nat)
    (s : RowState α) : RowState α :=
  let sum0 := s.sum0
  let sum1 := s.sum1
  let inputAccessOffset := s.inputAccessOffset
  let outputIdx := s.outputIdx
  let output := s.output
  let inputAccessOffset := inputAccessOffset + paddedWidth
  let inTemp0 := inputData (inputAccessBase + inputAccessOffset)
  let sum1 := sum1 + filterData (filterAccessBase + 3) * inTemp0
  let inTemp1 := inputData (inputAccessBase + inputAccessOffset + 1)
  let sum1 := sum1 + filterData (filterAccessBase + 4) * inTemp1
  let inTemp2 := inputData (inputAccessBase + inputAccessOffset + 2)
  let sum1 := sum1 + filterData (filterAccessBase + 5) * inTemp2
  let inputAccessOffset := inputAccessOffset + paddedWidth
  let inTemp0 := inputData (inputAccessBase + inputAccessOffset)
  let sum1 := sum1 + filterData (filterAccessBase + 6) * inTemp0
  let sum0 := filterData (filterAccessBase + 0) * inTemp0
  let inTemp1 := inputData (inputAccessBase + inputAccessOffset + 1)
  let sum1 := sum1 + filterData (filterAccessBase + 7) * inTemp1
  let sum0 := sum0 + filterData (filterAccessBase + 1) * inTemp1
  let inTemp2 := inputData (inputAccessBase + inputAccessOffset + 2)
  let sum1 := sum1 + filterData (filterAccessBase + 8) * inTemp2
  let sum0 := sum0 + filterData (filterAccessBase + 2) * inTemp2
  let output := write output (outputIdx) (sum1 * alpha + beta)
  let outputIdx := outputIdx + p.outputWidth
  let inputAccessOffset := inputAccessOffset + paddedWidth
  let inTemp0 := inputData (inputAccessBase + inputAccessOffset)
  let sum0 := sum0 + filterData (filterAccessBase + 3) * inTemp0
  let inTemp1 := inputData (inputAccessBase + inputAccessOffset + 1)
  let sum0 := sum0 + filterData (filterAccessBase + 4) * inTemp1
  let inTemp2 := inputData (inputAccessBase + inputAccessOffset + 2)
  let sum0 := sum0 + filterData (filterAccessBase + 5) * inTemp2
  let inputAccessOffset := inputAccessOffset + paddedWidth
  let inTemp0 := inputData (inputAccessBase + inputAccessOffset)
  let sum0 := sum0 + filterData (filterAccessBase + 6) * inTemp0
  let sum1 := filterData (filterAccessBase + 0) * inTemp0
  let inTemp1 := inputData (inputAccessBase + inputAccessOffset + 1)
  let sum0 := sum0 + filterData (filterAccessBase + 7) * inTemp1
  let sum1 := sum1 + filterData (filterAccessBase + 1) * inTemp1
  let inTemp2 := inputData (inputAccessBase + inputAccessOffset + 2)
  let sum0 := sum0 + filterData (filterAccessBase + 8) * inTemp2
  let sum1 := sum1 + filterData (filterAccessBase + 2) * inTemp2
  let output := write output (outputIdx) (sum0 * alpha + beta)
  let outputIdx := outputIdx + p.outputWidth
  { sum0 := sum0, sum1 := sum1, inputAccessOffset := inputAccessOffset,
    outputIdx := outputIdx, output := output }

/-- Lane program of `Filter3x3_Input28x28_Stride2` after the second barrier (source lines 55-193):
rolling accumulation and the 14 stores of the lane. -/
def Filter3x3_Input28x28_Stride2.convolve {α : Type} [Add α] [Mul α] (p : Shape) (alpha beta : α)
    (blockIdx_x blockIdx_y threadIdx_x : Nat) (sh : Shared α) (output : Nat → α) : Nat → α :=
  let filterData := sh.filterData
  let inputData := sh.inputData
  let channelGroupSize := 8
  let paddedWidth := p.inputWidth + 2 * p.padding
  let outputIdx := blockIdx_x * p.outputChannel * p.outputHeight * p.outputWidth + blockIdx_y * channelGroupSize * p.outputHeight * p.outputWidth + (threadIdx_x / p.outputWidth) * p.outputHeight * p.outputWidth + threadIdx_x % p.outputWidth
  let inputAccessBase := (threadIdx_x / p.outputWidth) * paddedWidth * p.inputHeight + threadIdx_x % p.outputWidth * 2
  let filterAccessBase := (threadIdx_x / p.outputWidth) * p.filterHeight * p.filterWidth
  let inputAccessOffset := 0
  let inTemp0 := inputData (inputAccessBase)
  let sum0 := filterData (filterAccessBase + 3) * inTemp0
  let inTemp1 := inputData (inputAccessBase + 1)
  let sum0 := sum0 + filterData (filterAccessBase + 4) * inTemp1
  let inTemp2 := inputData (inputAccessBase + 2)
  let sum0 := sum0 + filterData (filterAccessBase + 5) * inTemp2
  let inputAccessOffset := inputAccessOffset + paddedWidth
  let inTemp0 := inputData (inputAccessBase + inputAccessOffset)
  let sum0 := sum0 + filterData (filterAccessBase + 6) * inTemp0
  let sum1 := filterData (filterAccessBase + 0) * inTemp0
  let inTemp1 := inputData (inputAccessBase + inputAccessOffset + 1)
  let sum0 := sum0 + filterData (filterAccessBase + 7) * inTemp1
  let sum1 := sum1 + filterData (filterAccessBase + 1) * inTemp1
  let inTemp2 := inputData (inputAccessBase + inputAccessOffset + 2)
  let sum0 := sum0 + filterData (filterAccessBase + 8) * inTemp2
  let sum1 := sum1 + filterData (filterAccessBase + 2) * inTemp2
  let output := write output (outputIdx) (sum0 * alpha + beta)
  let outputIdx := outputIdx + p.outputWidth
  let s := forLoop 6 (fun _ s => Filter3x3_Input28x28_Stride2.rowLoopBody p alpha beta filterData inputData
      paddedWidth inputAccessBase filterAccessBase s)
    { sum0 := sum0, sum1 := sum1, inputAccessOffset := inputAccessOffset,
      outputIdx := outputIdx, output := output }
  let sum0 := s.sum0
  let sum1 := s.sum1
  let inputAccessOffset := s.inputAccessOffset
  let outputIdx := s.outputIdx
  let output := s.output
  let inputAccessOffset := inputAccessOffset + paddedWidth
  let inTemp0 := inputData (inputAccessBase + inputAccessOffset)
  let sum1 := sum1 + filterData (filterAccessBase + 3) * inTemp0
  let inTemp1 := inputData (inputAccessBase + inputAccessOffset + 1)
  let sum1 := sum1 + filterData (filterAccessBase + 4) * inTemp1
  let inTemp2 := inputData (inputAccessBase + inputAccessOffset + 2)
  let sum1 := sum1 + filterData (filterAccessBase + 5) * inTemp2
  let inputAccessOffset := inputAccessOffset + paddedWidth
  let inTemp0 := inputData (inputAccessBase + inputAccessOffset)
  let sum1 := sum1 + filterData (filterAccessBase + 6) * inTemp0
  let inTemp1 := inputData (inputAccessBase + inputAccessOffset + 1)
  let sum1 := sum1 + filterData (filterAccessBase + 7) * inTemp1
  let inTemp2 := inputData (inputAccessBase + inputAccessOffset + 2)
  let sum1 := sum1 + filterData (filterAccessBase + 8) * inTemp2
  let output := write output (outputIdx) (sum1 * alpha + beta)
  let outputIdx := outputIdx + p.outputWidth
  output

/-- Scratch memory of a group of `Filter3x3_Input28x28_Stride2` at the second barrier: the fill phase run
by all `blockDim_x` lanes, then the copy phase run by all lanes. -/
def Filter3x3_Input28x28_Stride2.staged {α : Type} [Zero α] (blockDim_x : Nat) (input filter : Nat → α) (p : Shape)
    (blockIdx_x blockIdx_y : Nat) (sh : Shared α) : Shared α :=
  forLoop blockDim_x (fun threadIdx_x sh => Filter3x3_Input28x28_Stride2.copyPhase input p blockIdx_x blockIdx_y threadIdx_x sh)
    (forLoop blockDim_x (fun threadIdx_x sh => Filter3x3_Input28x28_Stride2.fillPhase filter p blockIdx_x blockIdx_y threadIdx_x sh) sh)

/-- Scratch memory of a group of `Filter3x3_Input28x28_Stride2` at the second barrier when the lanes of the fill
phase run in the order `fillOrder` and those of the copy phase in the order `copyOrder`. -/
def Filter3x3_Input28x28_Stride2.stagedIn {α : Type} [Zero α] (fillOrder copyOrder : List Nat) (input filter : Nat → α)
    (p : Shape) (blockIdx_x blockIdx_y : Nat) (sh : Shared α) : Shared α :=
  runLanes copyOrder (fun threadIdx_x sh => Filter3x3_Input28x28_Stride2.copyPhase input p blockIdx_x blockIdx_y threadIdx_x sh)
    (runLanes fillOrder (fun threadIdx_x sh => Filter3x3_Input28x28_Stride2.fillPhase filter p blockIdx_x blockIdx_y threadIdx_x sh) sh)

/-- One execution group of `Filter3x3_Input28x28_Stride2` with a chosen lane order in each of its three phases. -/
def Filter3x3_Input28x28_Stride2.blockIn {α : Type} [Add α] [Mul α] [Zero α] (fillOrder copyOrder convolveOrder : List Nat)
    (input filter : Nat → α) (p : Shape) (alpha beta : α)
    (blockIdx_x blockIdx_y : Nat) (sh : Shared α) (output : Nat → α) : Nat → α :=
  runLanes convolveOrder (fun threadIdx_x output =>
    Filter3x3_Input28x28_Stride2.convolve p alpha beta blockIdx_x blockIdx_y threadIdx_x
      (Filter3x3_Input28x28_Stride2.stagedIn fillOrder copyOrder input filter p blockIdx_x blockIdx_y sh) output) output

/-- Kernel `Filter3x3_Input28x28_Stride2` with the groups run in the order of the list `groups` and, in group
`(bx, b)`, the lanes of each phase run in the orders `fillOrder bx b`, `copyOrder bx b` and
`convolveOrder bx b`. -/
def Filter3x3_Input28x28_Stride2.launchIn {α : Type} [Add α] [Mul α] [Zero α] (groups : List (Nat × Nat))
    (fillOrder copyOrder convolveOrder : Nat → Nat → List Nat)
    (input filter output : Nat → α) (p : Shape) (alpha beta : α)
    (shared : Nat → Nat → Shared α) : Nat → α :=
  groups.foldl (fun output g =>
    Filter3x3_Input28x28_Stride2.blockIn (fillOrder g.1 g.2) (copyOrder g.1 g.2) (convolveOrder g.1 g.2)
      input filter p alpha beta g.1 g.2 (shared g.1 g.2) output) output

/-- One execution group of `Filter3x3_Input28x28_Stride2`: all lanes run `convolve` on the staged scratch memory. -/
def Filter3x3_Input28x28_Stride2.block {α : Type} [Add α] [Mul α] [Zero α] (blockDim_x : Nat)
    (input filter : Nat → α) (p : Shape) (alpha beta : α)
    (blockIdx_x blockIdx_y : Nat) (sh : Shared α) (output : Nat → α) : Nat → α :=
  forLoop blockDim_x (fun threadIdx_x output =>
    Filter3x3_Input28x28_Stride2.convolve p alpha beta blockIdx_x blockIdx_y threadIdx_x
      (Filter3x3_Input28x28_Stride2.staged blockDim_x input filter p blockIdx_x blockIdx_y sh) output) output

/-- Kernel `Filter3x3_Input28x28_Stride2` launched on a `gridDim_x` x `gridDim_y` grid of groups of
`blockDim_x` lanes; `shared bx b` is what the scratch memory of group `(bx, b)` holds
when the group starts. -/
def Filter3x3_Input28x28_Stride2 {α : Type} [Add α] [Mul α] [Zero α] (gridDim_x gridDim_y blockDim_x : Nat)
    (input filter output : Nat → α) (p : Shape) (alpha beta : α)
    (shared : Nat → Nat → Shared α) : Nat → α :=
  forLoop gridDim_x (fun blockIdx_x output =>
    forLoop gridDim_y (fun blockIdx_y output =>
      Filter3x3_Input28x28_Stride2.block blockDim_x input filter p alpha beta blockIdx_x blockIdx_y
        (shared blockIdx_x blockIdx_y) output) output) output

/-- Lane program of `Filter3x3_Input56x56_Stride1` up to the first barrier (source lines 23-43):
filter staging and zero fill of the tile border. -/
def Filter3x3_Input56x56_Stride1.fillPhase {α : Type} [Zero α] (filter : Nat → α) (p : Shape)
    (blockIdx_x blockIdx_y threadIdx_x : Nat) (sh : Shared α) : Shared α :=
  let filterData := sh.filterData
  let inputData := sh.inputData
  let channelGroupSize := 1
  let paddedWidth := p.inputWidth + 2 * p.padding
  let filterLoadSrcIdx := blockIdx_y * channelGroupSize * p.filterWidth * p.filterHeight + threadIdx_x
  let filterData := if threadIdx_x < 9 then write filterData (threadIdx_x) (filter (filterLoadSrcIdx)) else filterData
  let inputData := if threadIdx_x ≥ 32 ∧ threadIdx_x < 88 then
      let leftPaddingIdx := (threadIdx_x - 31) * 58
      let inputData := write inputData (leftPaddingIdx) (0)
      let inputData := write inputData (leftPaddingIdx + 57) (0)
      inputData
    else inputData
  let inputData := if threadIdx_x ≥ 96 ∧ threadIdx_x < 154 then
      let inputData := write inputData (threadIdx_x - 96) (0)
      inputData
    else inputData
  let inputData := if threadIdx_x ≥ 160 ∧ threadIdx_x < 218 then
      let inputData := write inputData (threadIdx_x - 160 + 58 * 57) (0)
      inputData
    else inputData
  { filterData := filterData, inputData := inputData }

/-- Lane program of `Filter3x3_Input56x56_Stride1` between the two barriers (source lines 46-55):
bulk copy of the input into the tile. -/
def Filter3x3_Input56x56_Stride1.copyPhase {α : Type} (input : Nat → α) (p : Shape)
    (blockIdx_x blockIdx_y threadIdx_x : Nat) (sh : Shared α) : Shared α :=
  let filterData := sh.filterData
  let inputData := sh.inputData
  let channelGroupSize := 1
  let paddedWidth := p.inputWidth + 2 * p.padding
  let inputLoadIdxBase := blockIdx_x * p.inputChannel * p.inputHeight * p.inputWidth + blockIdx_y * channelGroupSize * p.inputHeight * p.inputWidth
  let inputLoadSrcIdx := inputLoadIdxBase + threadIdx_x
  let inputLoadDstIdx := (threadIdx_x / p.inputWidth) * 2 + threadIdx_x + 1 + paddedWidth
  let inputData := forLoop 14 (fun i inputData =>
    write inputData (inputLoadDstIdx + 4 * 58 * i) (input (inputLoadSrcIdx + 4 * 56 * i))) inputData
  { filterData := filterData, inputData := inputData }

/-- Body of the row loop of `Filter3x3_Input56x56_Stride1` (source lines 97-154), on the registers the
loop carries from one iteration to the next. -/
def Filter3x3_Input56x56_Stride1.rowLoopBody {α : Type} [Add α] [Mul α] (p : Shape) (alpha beta : α)
    (filterData inputData : Nat → α) (paddedWidth inputAccessBase filterAccessBase : Nat)
    (s : RowState α) : RowState α :=
  let sum0 := s.sum0
  let sum1 := s.sum1
  let inputAccessOffset := s.inputAccessOffset
  let outputIdx := s.outputIdx
  let output := s.output
  let inputAccessOffset := inputAccessOffset + paddedWidth
  let inTemp0 := inputData (inputAccessBase + inputAccessOffset)
  let sum0 := sum0 + filterData (filterAccessBase + 6) * inTemp0
  let sum1 := sum1 + filterData (filterAccessBase + 3) * inTemp0
  let sum2 := filterData (filterAccessBase + 0) * inTemp0
  let inTemp1 := inputData (inputAccessBase + inputAccessOffset + 1)
  let sum0 := sum0 + filterData (filterAccessBase + 7) * inTemp1
  let sum1 := sum1 + filterData (filterAccessBase + 4) * inTemp1
  let sum2 := sum2 + filterData (filterAccessBase + 1) * inTemp1
  let inTemp2 := inputData (inputAccessBase + inputAccessOffset + 2)
  let sum0 := sum0 + filterData (filterAccessBase + 8) * inTemp2
  let sum1 := sum1 + filterData (filterAccessBase + 5) * inTemp2
  let sum2 := sum2 + filterData (filterAccessBase + 2) * inTemp2
  let output := write output (outputIdx) (sum0 * alpha + beta)
  let outputIdx := outputIdx + p.inputWidth
  let inputAccessOffset := inputAccessOffset + paddedWidth
  let inTemp0 := inputData (inputAccessBase + inputAccessOffset)
  let sum1 := sum1 + filterData (filterAccessBase + 6) * inTemp0
  let sum2 := sum2 + filterData (filterAccessBase + 3) * inTemp0
  let sum0 := filterData (filterAccessBase + 0) * inTemp0
  let inTemp1 := inputData (inputAccessBase + inputAccessOffset + 1)
  let sum1 := sum1 + filterData (filterAccessBase + 7) * inTemp1
  let sum2 := sum2 + filterData (filterAccessBase + 4) * inTemp1
  let sum0 := sum0 + filterData (filterAccessBase + 1) * inTemp1
  let inTemp2 := inputData (inputAccessBase + inputAccessOffset + 2)
  let sum1 := sum1 + filterData (filterAccessBase + 8) * inTemp2
  let sum2 := sum2 + filterData (filterAccessBase + 5) * inTemp2
  let sum0 := sum0 + filterData (filterAccessBase + 2) * inTemp2
  let output := write output (outputIdx) (sum1 * alpha + beta)
  let outputIdx := outputIdx + p.inputWidth
  let inputAccessOffset := inputAccessOffset + paddedWidth
  let inTemp0 := inputData (inputAccessBase + inputAccessOffset)
  let sum2 := sum2 + filterData (filterAccessBase + 6) * inTemp0
  let sum0 := sum0 + filterData (filterAccessBase + 3) * inTemp0
  let sum1 := filterData (filterAccessBase + 0) * inTemp0
  let inTemp1 := inputData (inputAccessBase + inputAccessOffset + 1)
  let sum2 := sum2 + filterData (filterAccessBase + 7) * inTemp1
  let sum0 := sum0 + filterData (filterAccessBase + 4) * inTemp1
  let sum1 := sum1 + filterData (filterAccessBase + 1) * inTemp1
  let inTemp2 := inputData (inputAccessBase + inputAccessOffset + 2)
  let sum2 := sum2 + filterData (filterAccessBase + 8) * inTemp2
  let sum0 := sum0 + filterData (filterAccessBase + 5) * inTemp2
  let sum1 := sum1 + filterData (filterAccessBase + 2) * inTemp2
  let output := write output (outputIdx) (sum2 * alpha + beta)
  let outputIdx := outputIdx + p.inputWidth
  { sum0 := sum0, sum1 := sum1, inputAccessOffset := inputAccessOffset,
    outputIdx := outputIdx, output := output }

/-- Lane program of `Filter3x3_Input56x56_Stride1` after the second barrier (source lines 59-181):
rolling accumulation and the 14 stores of the lane. -/
def Filter3x3_Input56x56_Stride1.convolve {α : Type} [Add α] [Mul α] (p : Shape) (alpha beta : α)
    (blockIdx_x blockIdx_y threadIdx_x : Nat) (sh : Shared α) (output : Nat → α) : Nat → α :=
  let filterData := sh.filterData
  let inputData := sh.inputData
  let channelGroupSize := 1
  let paddedWidth := p.inputWidth + 2 * p.padding
  let inputLoadIdxBase := blockIdx_x * p.inputChannel * p.inputHeight * p.inputWidth + blockIdx_y * channelGroupSize * p.inputHeight * p.inputWidth
  let outputIdx := inputLoadIdxBase + (threadIdx_x / p.inputWidth) * 14 * p.inputWidth + threadIdx_x % p.inputWidth
  let inputAccessBase := (threadIdx_x / p.inputWidth) * paddedWidth * 14 + threadIdx_x % p.inputWidth
  let filterAccessBase := 0
  let inputAccessOffset := 0
  let inTemp0 := inputData (inputAccessBase + inputAccessOffset)
  let sum0 := filterData (filterAccessBase) * inTemp0
  let inTemp1 := inputData (inputAccessBase + 1 + inputAccessOffset)
  let sum0 := sum0 + filterData (filterAccessBase + 1) * inTemp1
  let inTemp2 := inputData (inputAccessBase + 2 + inputAccessOffset)
  let sum0 := sum0 + filterData (filterAccessBase + 2) * inTemp2
  let inputAccessOffset := inputAccessOffset + paddedWidth
  let inTemp0 := inputData (inputAccessBase + inputAccessOffset)
  let sum0 := sum0 + filterData (filterAccessBase + 3) * inTemp0
  let sum1 := filterData (filterAccessBase + 0) * inTemp0
  let inTemp1 := inputData (inputAccessBase + 1 + inputAccessOffset)
  let sum0 := sum0 + filterData (filterAccessBase + 4) * inTemp1
  let sum1 := sum1 + filterData (filterAccessBase + 1) * inTemp1
  let inTemp2 := inputData (inputAccessBase + 2 + inputAccessOffset)
  let sum0 := sum0 + filterData (filterAccessBase + 5) * inTemp2
  let sum1 := sum1 + filterData (filterAccessBase + 2) * inTemp2
  let s := forLoop 4 (fun _ s => Filter3x3_Input56x56_Stride1.rowLoopBody p alpha beta filterData inputData
      paddedWidth inputAccessBase filterAccessBase s)
    { sum0 := sum0, sum1 := sum1, inputAccessOffset := inputAccessOffset,
      outputIdx := outputIdx, output := output }
  let sum0 := s.sum0
  let sum1 := s.sum1
  let inputAccessOffset := s.inputAccessOffset
  let outputIdx := s.outputIdx
  let output := s.output
  let inputAccessOffset := inputAccessOffset + paddedWidth
  let inTemp0 := inputData (inputAccessBase + inputAccessOffset)
  let sum0 := sum0 + filterData (filterAccessBase + 6) * inTemp0
  let sum1 := sum1 + filterData (filterAccessBase + 3) * inTemp0
  let inTemp1 := inputData (inputAccessBase + inputAccessOffset + 1)
  let sum0 := sum0 + filterData (filterAccessBase + 7) * inTemp1
  let sum1 := sum1 + filterData (filterAccessBase + 4) * inTemp1
  let inTemp2 := inputData (inputAccessBase + inputAccessOffset + 2)
  let sum0 := sum0 + filterData (filterAccessBase + 8) * inTemp2
  let sum1 := sum1 + filterData (filterAccessBase + 5) * inTemp2
  let output := write output (outputIdx) (sum0 * alpha + beta)
  let outputIdx := outputIdx + p.inputWidth
  let inputAccessOffset := inputAccessOffset + paddedWidth
  let inTemp0 := inputData (inputAccessBase + inputAccessOffset)
  let sum1 := sum1 + filterData (filterAccessBase + 6) * inTemp0
  let inTemp1 := inputData (inputAccessBase + inputAccessOffset + 1)
  let sum1 := sum1 + filterData (filterAccessBase + 7) * inTemp1
  let inTemp2 := inputData (inputAccessBase + inputAccessOffset + 2)
  let sum1 := sum1 + filterData (filterAccessBase + 8) * inTemp2
  let output := write output (outputIdx) (sum1 * alpha + beta)
  output

/-- Scratch memory of a group of `Filter3x3_Input56x56_Stride1` at the second barrier: the fill phase run
by all `blockDim_x` lanes, then the copy phase run by all lanes. -/
def Filter3x3_Input56x56_Stride1.staged {α : Type} [Zero α] (blockDim_x : Nat) (input filter : Nat → α) (p : Shape)
    (blockIdx_x blockIdx_y : Nat) (sh : Shared α) : Shared α :=
  forLoop blockDim_x (fun threadIdx_x sh => Filter3x3_Input56x56_Stride1.copyPhase input p blockIdx_x blockIdx_y threadIdx_x sh)
    (forLoop blockDim_x (fun threadIdx_x sh => Filter3x3_Input56x56_Stride1.fillPhase filter p blockIdx_x blockIdx_y threadIdx_x sh) sh)

/-- Scratch memory of a group of `Filter3x3_Input56x56_Stride1` at the second barrier when the lanes of the fill
phase run in the order `fillOrder` and those of the copy phase in the order `copyOrder`. -/
def Filter3x3_Input56x56_Stride1.stagedIn {α : Type} [Zero α] (fillOrder copyOrder : List Nat) (input filter : Nat → α)
    (p : Shape) (blockIdx_x blockIdx_y : Nat) (sh : Shared α) : Shared α :=
  runLanes copyOrder (fun threadIdx_x sh => Filter3x3_Input56x56_Stride1.copyPhase input p blockIdx_x blockIdx_y threadIdx_x sh)
    (runLanes fillOrder (fun threadIdx_x sh => Filter3x3_Input56x56_Stride1.fillPhase filter p blockIdx_x blockIdx_y threadIdx_x sh) sh)

/-- One execution group of `Filter3x3_Input56x56_Stride1` with a chosen lane order in each of its three phases. -/
def Filter3x3_Input56x56_Stride1.blockIn {α : Type} [Add α] [Mul α] [Zero α] (fillOrder copyOrder convolveOrder : List Nat)
    (input filter : Nat → α) (p : Shape) (alpha beta : α)
    (blockIdx_x blockIdx_y : Nat) (sh : Shared α) (output : Nat → α) : Nat → α :=
  runLanes convolveOrder (fun threadIdx_x output =>
    Filter3x3_Input56x56_Stride1.convolve p alpha beta blockIdx_x blockIdx_y threadIdx_x
      (Filter3x3_Input56x56_Stride1.stagedIn fillOrder copyOrder input filter p blockIdx_x blockIdx_y sh) output) output

/-- Kernel `Filter3x3_Input56x56_Stride1` with the groups run in the order of the list `groups` and, in group
`(bx, b)`, the lanes of each phase run in the orders `fillOrder bx b`, `copyOrder bx b` and
`convolveOrder bx b`. -/
def Filter3x3_Input56x56_Stride1.launchIn {α : Type} [Add α] [Mul α] [Zero α] (groups : List (Nat × Nat))
    (fillOrder copyOrder convolveOrder : Nat → Nat → List Nat)
    (input filter output : Nat → α) (p : Shape) (alpha beta : α)
    (shared : Nat → Nat → Shared α) : Nat → α :=
  groups.foldl (fun output g =>
    Filter3x3_Input56x56_Stride1.blockIn (fillOrder g.1 g.2) (copyOrder g.1 g.2) (convolveOrder g.1 g.2)
      input filter p alpha beta g.1 g.2 (shared g.1 g.2) output) output

/-- One execution group of `Filter3x3_Input56x56_Stride1`: all lanes run `convolve` on the staged scratch memory. -/
def Filter3x3_Input56x56_Stride1.block {α : Type} [Add α] [Mul α] [Zero α] (blockDim_x : Nat)
    (input filter : Nat → α) (p : Shape) (alpha beta : α)
    (blockIdx_x blockIdx_y : Nat) (sh : Shared α) (output : Nat → α) : Nat → α :=
  forLoop blockDim_x (fun threadIdx_x output =>
    Filter3x3_Input56x56_Stride1.convolve p alpha beta blockIdx_x blockIdx_y threadIdx_x
      (Filter3x3_Input56x56_Stride1.staged blockDim_x input filter p blockIdx_x blockIdx_y sh) output) output

/-- Kernel `Filter3x3_Input56x56_Stride1` launched on a `gridDim_x` x `gridDim_y` grid of groups of
`blockDim_x` lanes; `shared bx b` is what the scratch memory of group `(bx, b)` holds
when the group starts. -/
def Filter3x3_Input56x56_Stride1 {α : Type} [Add α] [Mul α] [Zero α] (gridDim_x gridDim_y blockDim_x : Nat)
    (input filter output : Nat → α) (p : Shape) (alpha beta : α)
    (shared : Nat → Nat → Shared α) : Nat → α :=
  forLoop gridDim_x (fun blockIdx_x output =>
    forLoop gridDim_y (fun blockIdx_y output =>
      Filter3x3_Input56x56_Stride1.block blockDim_x input filter p alpha beta blockIdx_x blockIdx_y
        (shared blockIdx_x blockIdx_y) output) output) output

/-- Lane program of `Filter3x3_Input112x112_Stride2` up to the first barrier (source lines 26-45):
filter staging and zero fill of the tile border. -/
def Filter3x3_Input112x112_Stride2.fillPhase {α : Type} [Zero α] (filter : Nat → α) (p : Shape)
    (blockIdx_x blockIdx_y threadIdx_x : Nat) (sh : Shared α) : Shared α :=
  let filterData := sh.filterData
  let inputData := sh.inputData
  let paddedWidth := p.inputWidth + 2 * p.padding
  let blockGroup := 2
  let filterLoadSrcIdx := blockIdx_y / blockGroup * p.filterHeight * p.filterWidth + threadIdx_x
  let filterData := if threadIdx_x < p.filterWidth * p.filterHeight then write filterData (threadIdx_x) (filter (filterLoadSrcIdx)) else filterData
  let leftPaddingIdx := 0
  let inputData := if threadIdx_x ≥ 32 ∧ threadIdx_x < 90 then
      let leftPaddingIdx := (threadIdx_x - 32) * paddedWidth
      let inputData := write inputData (leftPaddingIdx) (0)
      let inputData := write inputData (leftPaddingIdx + paddedWidth - 1) (0)
      inputData
    else inputData
  let inputData := if threadIdx_x ≥ 112 then
      let inputData := write inputData (threadIdx_x - 111) (0)
      let inputData := write inputData (threadIdx_x - 111 + 57 * paddedWidth) (0)
      inputData
    else inputData
  { filterData := filterData, inputData := inputData }

/-- Lane program of `Filter3x3_Input112x112_Stride2` between the two barriers (source lines 48-74):
bulk copy of the input into the tile. -/
def Filter3x3_Input112x112_Stride2.copyPhase {α : Type} (input : Nat → α) (p : Shape)
    (blockIdx_x blockIdx_y threadIdx_x : Nat) (sh : Shared α) : Shared α :=
  let filterData := sh.filterData
  let inputData := sh.inputData
  let paddedWidth := p.inputWidth + 2 * p.padding
  let blockGroup := 2
  let inputLoadIdxBase := blockIdx_x * p.inputHeight * p.inputWidth * p.inputChannel + blockIdx_y / blockGroup * p.inputHeight * p.inputWidth + (blockIdx_y &&& 1) * p.inputHeight / blockGroup * p.inputWidth
  let inputLoadSrcIdx : Int := (inputLoadIdxBase : Int) + (threadIdx_x : Int) - (p.inputWidth : Int)
  let inputLoadDstIdx := (threadIdx_x / p.inputWidth) * 2 + threadIdx_x + 1
  let inputLoadSrcIdx := if (blockIdx_y &&& 1) = 0 then inputLoadSrcIdx + (p.inputWidth : Int) else inputLoadSrcIdx
  let inputLoadDstIdx := if (blockIdx_y &&& 1) = 0 then inputLoadDstIdx + paddedWidth else inputLoadDstIdx
  let inputData := forLoop 28 (fun i inputData =>
    write inputData (inputLoadDstIdx + 2 * 114 * i) (input (inputLoadSrcIdx + 2 * 112 * i).toNat)) inputData
  let inputData := if (blockIdx_y &&& 1) ≠ 1 then
      write inputData (inputLoadDstIdx + 2 * 114 * 28) (input (inputLoadSrcIdx + 2 * 112 * 28).toNat)
    else
      if threadIdx_x < 112 then
        write inputData (inputLoadDstIdx + 2 * 114 * 28) (input (inputLoadSrcIdx + 2 * 112 * 28).toNat)
      else inputData
  { filterData := filterData, inputData := inputData }

/-- Lane program of `Filter3x3_Input112x112_Stride2` after the second barrier (source lines 77-257):
rolling accumulation and the 7 stores of the lane. -/
def Filter3x3_Input112x112_Stride2.convolve {α : Type} [Add α] [Mul α] (p : Shape) (alpha beta : α)
    (blockIdx_x blockIdx_y threadIdx_x : Nat) (sh : Shared α) (output : Nat → α) : Nat → α :=
  let filterData := sh.filterData
  let inputData := sh.inputData
  let paddedWidth := p.inputWidth + 2 * p.padding
  let blockGroup := 2
  let outputIdx := blockIdx_x * p.outputHeight * p.outputWidth * p.outputChannel + (blockIdx_y / blockGroup) * p.outputHeight * p.outputWidth + (blockIdx_y &&& 1) * (p.outputHeight / blockGroup) * p.outputWidth + (threadIdx_x / p.outputWidth) * 7 * p.outputWidth + threadIdx_x % p.outputWidth
  let inputAccessBase := (threadIdx_x / p.outputWidth) * 14 * paddedWidth + threadIdx_x % p.outputWidth * 2
  let inputAccessOffset := 0
  let intemp0 := inputData (inputAccessBase + inputAccessOffset)
  let sum0 := filterData (0) * intemp0
  let intemp1 := inputData (inputAccessBase + inputAccessOffset + 1)
  let sum0 := sum0 + filterData (1) * intemp1
  let intemp2 := inputData (inputAccessBase + inputAccessOffset + 2)
  let sum0 := sum0 + filterData (2) * intemp2
  let inputAccessOffset := inputAccessOffset + paddedWidth
  let intemp0 := inputData (inputAccessBase + inputAccessOffset)
  let sum0 := sum0 + filterData (3) * intemp0
  let intemp1 := inputData (inputAccessBase + inputAccessOffset + 1)
  let sum0 := sum0 + filterData (4) * intemp1
  let intemp2 := inputData (inputAccessBase + inputAccessOffset + 2)
  let sum0 := sum0 + filterData (5) * intemp2
  let inputAccessOffset := inputAccessOffset + paddedWidth
  let intemp0 := inputData (inputAccessBase + inputAccessOffset)
  let sum0 := sum0 + filterData (6) * intemp0
  let sum1 := filterData (0) * intemp0
  let intemp1 := inputData (inputAccessBase + inputAccessOffset + 1)
  let sum0 := sum0 + filterData (7) * intemp1
  let sum1 := sum1 + filterData (1) * intemp1
  let intemp2 := inputData (inputAccessBase + inputAccessOffset + 2)
  let sum0 := sum0 + filterData (8) * intemp2
  let sum1 := sum1 + filterData (2) * intemp2
  let output := write output (outputIdx) (sum0 * alpha + beta)
  let outputIdx := outputIdx + p.outputWidth
  let inputAccessOffset := inputAccessOffset + paddedWidth
  let intemp0 := inputData (inputAccessBase + inputAccessOffset)
  let sum1 := sum1 + filterData (3) * intemp0
  let intemp1 := inputData (inputAccessBase + inputAccessOffset + 1)
  let sum1 := sum1 + filterData (4) * intemp1
  let intemp2 := inputData (inputAccessBase + inputAccessOffset + 2)
  let sum1 := sum1 + filterData (5) * intemp2
  let inputAccessOffset := inputAccessOffset + paddedWidth
  let intemp0 := inputData (inputAccessBase + inputAccessOffset)
  let sum0 := filterData (0) * intemp0
  let sum1 := sum1 + filterData (6) * intemp0
  let intemp1 := inputData (inputAccessBase + inputAccessOffset + 1)
  let sum0 := sum0 + filterData (1) * intemp1
  let sum1 := sum1 + filterData (7) * intemp1
  let intemp2 := inputData (inputAccessBase + inputAccessOffset + 2)
  let sum0 := sum0 + filterData (2) * intemp2
  let sum1 := sum1 + filterData (8) * intemp2
  let output := write output (outputIdx) (sum1 * alpha + beta)
  let outputIdx := outputIdx + p.outputWidth
  let inputAccessOffset := inputAccessOffset + paddedWidth
  let intemp0 := inputData (inputAccessBase + inputAccessOffset)
  let sum0 := sum0 + filterData (3) * intemp0
  let intemp1 := inputData (inputAccessBase + inputAccessOffset + 1)
  let sum0 := sum0 + filterData (4) * intemp1
  let intemp2 := inputData (inputAccessBase + inputAccessOffset + 2)
  let sum0 := sum0 + filterData (5) * intemp2
  let inputAccessOffset := inputAccessOffset + paddedWidth
  let intemp0 := inputData (inputAccessBase + inputAccessOffset)
  let sum0 := sum0 + filterData (6) * intemp0
  let sum1 := filterData (0) * intemp0
  let intemp1 := inputData (inputAccessBase + inputAccessOffset + 1)
  let sum0 := sum0 + filterData (7) * intemp1
  let sum1 := sum1 + filterData (1) * intemp1
  let intemp2 := inputData (inputAccessBase + inputAccessOffset + 2)
  let sum0 := sum0 + filterData (8) * intemp2
  let sum1 := sum1 + filterData (2) * intemp2
  let output := write output (outputIdx) (sum0 * alpha + beta)
  let outputIdx := outputIdx + p.outputWidth
  let inputAccessOffset := inputAccessOffset + paddedWidth
  let intemp0 := inputData (inputAccessBase + inputAccessOffset)
  let sum1 := sum1 + filterData (3) * intemp0
  let intemp1 := inputData (inputAccessBase + inputAccessOffset + 1)
  let sum1 := sum1 + filterData (4) * intemp1
  let intemp2 := inputData (inputAccessBase + inputAccessOffset + 2)
  let sum1 := sum1 + filterData (5) * intemp2
  let inputAccessOffset := inputAccessOffset + paddedWidth
  let intemp0 := inputData (inputAccessBase + inputAccessOffset)
  let sum1 := sum1 + filterData (6) * intemp0
  let sum0 := filterData (0) * intemp0
  let intemp1 := inputData (inputAccessBase + inputAccessOffset + 1)
  let sum1 := sum1 + filterData (7) * intemp1
  let sum0 := sum0 + filterData (1) * intemp1
  let intemp2 := inputData (inputAccessBase + inputAccessOffset + 2)
  let sum1 := sum1 + filterData (8) * intemp2
  let sum0 := sum0 + filterData (2) * intemp2
  let output := write output (outputIdx) (sum1 * alpha + beta)
  let outputIdx := outputIdx + p.outputWidth
  let inputAccessOffset := inputAccessOffset + paddedWidth
  let intemp0 := inputData (inputAccessBase + inputAccessOffset)
  let sum0 := sum0 + filterData (3) * intemp0
  let intemp1 := inputData (inputAccessBase + inputAccessOffset + 1)
  let sum0 := sum0 + filterData (4) * intemp1
  let intemp2 := inputData (inputAccessBase + inputAccessOffset + 2)
  let sum0 := sum0 + filterData (5) * intemp2
  let inputAccessOffset := inputAccessOffset + paddedWidth
  let intemp0 := inputData (inputAccessBase + inputAccessOffset)
  let sum0 := sum0 + filterData (6) * intemp0
  let sum1 := filterData (0) * intemp0
  let intemp1 := inputData (inputAccessBase + inputAccessOffset + 1)
  let sum0 := sum0 + filterData (7) * intemp1
  let sum1 := sum1 + filterData (1) * intemp1
  let intemp2 := inputData (inputAccessBase + inputAccessOffset + 2)
  let sum0 := sum0 + filterData (8) * intemp2
  let sum1 := sum1 + filterData (2) * intemp2
  let output := write output (outputIdx) (sum0 * alpha + beta)
  let outputIdx := outputIdx + p.outputWidth
  let inputAccessOffset := inputAccessOffset + paddedWidth
  let intemp0 := inputData (inputAccessBase + inputAccessOffset)
  let sum1 := sum1 + filterData (3) * intemp0
  let intemp1 := inputData (inputAccessBase + inputAccessOffset + 1)
  let sum1 := sum1 + filterData (4) * intemp1
  let intemp2 := inputData (inputAccessBase + inputAccessOffset + 2)
  let sum1 := sum1 + filterData (5) * intemp2
  let inputAccessOffset := inputAccessOffset + paddedWidth
  let intemp0 := inputData (inputAccessBase + inputAccessOffset)
  let sum1 := sum1 + filterData (6) * intemp0
  let sum0 := filterData (0) * intemp0
  let intemp1 := inputData (inputAccessBase + inputAccessOffset + 1)
  let sum1 := sum1 + filterData (7) * intemp1
  let sum0 := sum0 + filterData (1) * intemp1
  let intemp2 := inputData (inputAccessBase + inputAccessOffset + 2)
  let sum1 := sum1 + filterData (8) * intemp2
  let sum0 := sum0 + filterData (2) * intemp2
  let output := write output (outputIdx) (sum1 * alpha + beta)
  let outputIdx := outputIdx + p.outputWidth
  let inputAccessOffset := inputAccessOffset + paddedWidth
  let intemp0 := inputData (inputAccessBase + inputAccessOffset)
  let sum0 := sum0 + filterData (3) * intemp0
  let intemp1 := inputData (inputAccessBase + inputAccessOffset + 1)
  let sum0 := sum0 + filterData (4) * intemp1
  let intemp2 := inputData (inputAccessBase + inputAccessOffset + 2)
  let sum0 := sum0 + filterData (5) * intemp2
  let inputAccessOffset := inputAccessOffset + paddedWidth
  let intemp0 := inputData (inputAccessBase + inputAccessOffset)
  let sum0 := sum0 + filterData (6) * intemp0
  let intemp1 := inputData (inputAccessBase + inputAccessOffset + 1)
  let sum0 := sum0 + filterData (7) * intemp1
  let intemp2 := inputData (inputAccessBase + inputAccessOffset + 2)
  let sum0 := sum0 + filterData (8) * intemp2
  let output := write output (outputIdx) (sum0 * alpha + beta)
  output

/-- Scratch memory of a group of `Filter3x3_Input112x112_Stride2` at the second barrier: the fill phase run
by all `blockDim_x` lanes, then the copy phase run by all lanes. -/
def Filter3x3_Input112x112_Stride2.staged {α : Type} [Zero α] (blockDim_x : Nat) (input filter : Nat → α) (p : Shape)
    (blockIdx_x blockIdx_y : Nat) (sh : Shared α) : Shared α :=
  forLoop blockDim_x (fun threadIdx_x sh => Filter3x3_Input112x112_Stride2.copyPhase input p blockIdx_x blockIdx_y threadIdx_x sh)
    (forLoop blockDim_x (fun threadIdx_x sh => Filter3x3_Input112x112_Stride2.fillPhase filter p blockIdx_x blockIdx_y threadIdx_x sh) sh)

/-- Scratch memory of a group of `Filter3x3_Input112x112_Stride2` at the second barrier when the lanes of the fill
phase run in the order `fillOrder` and those of the copy phase in the order `copyOrder`. -/
def Filter3x3_Input112x112_Stride2.stagedIn {α : Type} [Zero α] (fillOrder copyOrder : List Nat) (input filter : Nat → α)
    (p : Shape) (blockIdx_x blockIdx_y : Nat) (sh : Shared α) : Shared α :=
  runLanes copyOrder (fun threadIdx_x sh => Filter3x3_Input112x112_Stride2.copyPhase input p blockIdx_x blockIdx_y threadIdx_x sh)
    (runLanes fillOrder (fun threadIdx_x sh => Filter3x3_Input112x112_Stride2.fillPhase filter p blockIdx_x blockIdx_y threadIdx_x sh) sh)

/-- One execution group of `Filter3x3_Input112x112_Stride2` with a chosen lane order in each of its three phases. -/
def Filter3x3_Input112x112_Stride2.blockIn {α : Type} [Add α] [Mul α] [Zero α] (fillOrder copyOrder convolveOrder : List Nat)
    (input filter : Nat → α) (p : Shape) (alpha beta : α)
    (blockIdx_x blockIdx_y : Nat) (sh : Shared α) (output : Nat → α) : Nat → α :=
  runLanes convolveOrder (fun threadIdx_x output =>
    Filter3x3_Input112x112_Stride2.convolve p alpha beta blockIdx_x blockIdx_y threadIdx_x
      (Filter3x3_Input112x112_Stride2.stagedIn fillOrder copyOrder input filter p blockIdx_x blockIdx_y sh) output) output

/-- Kernel `Filter3x3_Input112x112_Stride2` with the groups run in the order of the list `groups` and, in group
`(bx, b)`, the lanes of each phase run in the orders `fillOrder bx b`, `copyOrder bx b` and
`convolveOrder bx b`. -/
def Filter3x3_Input112x112_Stride2.launchIn {α : Type} [Add α] [Mul α] [Zero α] (groups : List (Nat × Nat))
    (fillOrder copyOrder convolveOrder : Nat → Nat → List Nat)
    (input filter output : Nat → α) (p : Shape) (alpha beta : α)
    (shared : Nat → Nat → Shared α) : Nat → α :=
  groups.foldl (fun output g =>
    Filter3x3_Input112x112_Stride2.blockIn (fillOrder g.1 g.2) (copyOrder g.1 g.2) (convolveOrder g.1 g.2)
      input filter p alpha beta g.1 g.2 (shared g.1 g.2) output) output

/-- One execution group of `Filter3x3_Input112x112_Stride2`: all lanes run `convolve` on the staged scratch memory. -/
def Filter3x3_Input112x112_Stride2.block {α : Type} [Add α] [Mul α] [Zero α] (blockDim_x : Nat)
    (input filter : Nat → α) (p : Shape) (alpha beta : α)
    (blockIdx_x blockIdx_y : Nat) (sh : Shared α) (output : Nat → α) : Nat → α :=
  forLoop blockDim_x (fun threadIdx_x output =>
    Filter3x3_Input112x112_Stride2.convolve p alpha beta blockIdx_x blockIdx_y threadIdx_x
      (Filter3x3_Input112x112_Stride2.staged blockDim_x input filter p blockIdx_x blockIdx_y sh) output) output

/-- Kernel `Filter3x3_Input112x112_Stride2` launched on a `gridDim_x` x `gridDim_y` grid of groups of
`blockDim_x` lanes; `shared bx b` is what the scratch memory of group `(bx, b)` holds
when the group starts. -/
def Filter3x3_Input112x112_Stride2 {α : Type} [Add α] [Mul α] [Zero α] (gridDim_x gridDim_y blockDim_x : Nat)
    (input filter output : Nat → α) (p : Shape) (alpha beta : α)
    (shared : Nat → Nat → Shared α) : Nat → α :=
  forLoop gridDim_x (fun blockIdx_x output =>
    forLoop gridDim_y (fun blockIdx_y output =>
      Filter3x3_Input112x112_Stride2.block blockDim_x input filter p alpha beta blockIdx_x blockIdx_y
        (shared blockIdx_x blockIdx_y) output) output) output

/-! ## Store and load traces of the lanes -/

/-- Index of the `k`-th output store of a lane of `Filter3x3_Input14x14_Stride1`: `outputIdx` as the
convolution initialises it, advanced by `outputWidth` after each of the preceding stores. -/
def Filter3x3_Input14x14_Stride1.outputIdx (p : Shape) (blockIdx_x blockIdx_y threadIdx_x k : Nat) : Nat :=
  let channelGroupSize := 16
  let outputIdx := blockIdx_x * p.outputChannel * p.outputHeight * p.outputWidth + blockIdx_y * channelGroupSize * p.outputHeight * p.outputWidth + (threadIdx_x / p.outputWidth) * p.outputHeight * p.outputWidth + threadIdx_x % p.outputWidth
  outputIdx + k * p.outputWidth

/-- The stores to `filterData` of one lane of `Filter3x3_Input14x14_Stride1` (the "load filter" lines), as
pairs (scratch index, index into the filter bank), in program order. -/
def Filter3x3_Input14x14_Stride1.filterStores (p : Shape) (blockIdx_y threadIdx_x : Nat) : List (Nat × Nat) :=
  let channelGroupSize := 16
  let filterLoadSrcIdx := blockIdx_y * channelGroupSize * p.filterWidth * p.filterHeight + threadIdx_x
  if threadIdx_x < 16 * 9 then [(threadIdx_x, filterLoadSrcIdx)] else []

/-- Index of the `k`-th output store of a lane of `Filter3x3_Input14x14_Stride2`: `outputIdx` as the
convolution initialises it, advanced by `outputWidth` after each of the preceding stores. -/
def Filter3x3_Input14x14_Stride2.outputIdx (p : Shape) (blockIdx_x blockIdx_y threadIdx_x k : Nat) : Nat :=
  let channelGroupSize := 32
  let outputIdx := blockIdx_x * p.outputChannel * p.outputHeight * p.outputWidth + blockIdx_y * channelGroupSize * p.outputHeight * p.outputWidth + (threadIdx_x / p.outputWidth) * p.outputHeight * p.outputWidth + threadIdx_x % p.outputWidth
  outputIdx + k * p.outputWidth

/-- The stores to `filterData` of one lane of `Filter3x3_Input14x14_Stride2` (the "load filter" lines), as
pairs (scratch index, index into the filter bank), in program order. -/
def Filter3x3_Input14x14_Stride2.filterStores (p : Shape) (blockIdx_y threadIdx_x : Nat) : List (Nat × Nat) :=
  let channelGroupSize := 32
  let filterLoadSrcIdx := blockIdx_y * channelGroupSize * p.filterWidth * p.filterHeight + threadIdx_x
  (threadIdx_x, filterLoadSrcIdx) ::
    (if threadIdx_x < 9 * 32 - 7 * 32 then [(7 * 32 + threadIdx_x, 7 * 32 + filterLoadSrcIdx)] else [])

/-- Index of the `k`-th output store of a lane of `Filter5x5_Input14x14_Stride2`: `outputIdx` as the
convolution initialises it, advanced by `outputWidth` after each of the preceding stores. -/
def Filter5x5_Input14x14_Stride2.outputIdx (p : Shape) (blockIdx_x blockIdx_y threadIdx_x k : Nat) : Nat :=
  let channelGroupSize := 32
  let outputIdx := blockIdx_x * p.outputChannel * p.outputHeight * p.outputWidth + blockIdx_y * channelGroupSize * p.outputHeight * p.outputWidth + (threadIdx_x / p.outputWidth) * p.outputHeight * p.outputWidth + threadIdx_x % p.outputWidth
  outputIdx + k * p.outputWidth

/-- The stores to `filterData` of one lane of `Filter5x5_Input14x14_Stride2` (the "load filter" lines), as
pairs (scratch index, index into the filter bank), in program order. -/
def Filter5x5_Input14x14_Stride2.filterStores (p : Shape) (blockIdx_y threadIdx_x : Nat) : List (Nat × Nat) :=
  let channelGroupSize := 32
  let filterLoadSrcIdx := blockIdx_y * channelGroupSize * p.filterWidth * p.filterHeight + threadIdx_x
  if threadIdx_x < 8 * 25 then
    [(threadIdx_x, filterLoadSrcIdx), (threadIdx_x + 8 * 25, filterLoadSrcIdx + 8 * 25),
     (threadIdx_x + 8 * 25 * 2, filterLoadSrcIdx + 8 * 25 * 2),
     (threadIdx_x + 8 * 25 * 3, filterLoadSrcIdx + 8 * 25 * 3)]
  else []

/-- Index of the `k`-th output store of a lane of `Filter3x3_Input28x28_Stride1`: `outputIdx` as the
convolution initialises it, advanced by `outputWidth` after each of the preceding stores. -/
def Filter3x3_Input28x28_Stride1.outputIdx (p : Shape) (blockIdx_x blockIdx_y threadIdx_x k : Nat) : Nat :=
  let channelGroupSize := 8
  let outputIdx := blockIdx_x * p.outputChannel * p.outputHeight * p.outputWidth + blockIdx_y * channelGroupSize * p.outputHeight * p.outputWidth + (threadIdx_x / p.outputWidth) * p.outputHeight * p.outputWidth + threadIdx_x % p.outputWidth
  outputIdx + k * p.outputWidth

/-- The stores to `filterData` of one lane of `Filter3x3_Input28x28_Stride1` (the "load filter" lines), as
pairs (scratch index, index into the filter bank), in program order. -/
def Filter3x3_Input28x28_Stride1.filterStores (p : Shape) (blockIdx_y threadIdx_x : Nat) : List (Nat × Nat) :=
  let channelGroupSize := 8
  let filterLoadSrcIdx := blockIdx_y * channelGroupSize * p.filterWidth * p.filterHeight + threadIdx_x
  if threadIdx_x < 8 * 9 then [(threadIdx_x, filterLoadSrcIdx)] else []

/-- Index of the `k`-th output store of a lane of `Filter3x3_Input28x28_Stride2`: `outputIdx` as the
convolution initialises it, advanced by `outputWidth` after each of the preceding stores. -/
def Filter3x3_Input28x28_Stride2.outputIdx (p : Shape) (blockIdx_x blockIdx_y threadIdx_x k : Nat) : Nat :=
  let channelGroupSize := 8
  let outputIdx := blockIdx_x * p.outputChannel * p.outputHeight * p.outputWidth + blockIdx_y * channelGroupSize * p.outputHeight * p.outputWidth + (threadIdx_x / p.outputWidth) * p.outputHeight * p.outputWidth + threadIdx_x % p.outputWidth
  outputIdx + k * p.outputWidth

/-- The stores to `filterData` of one lane of `Filter3x3_Input28x28_Stride2` (the "load filter" lines), as
pairs (scratch index, index into the filter bank), in program order. -/
def Filter3x3_Input28x28_Stride2.filterStores (p : Shape) (blockIdx_y threadIdx_x : Nat) : List (Nat × Nat) :=
  let channelGroupSize := 8
  let filterLoadSrcIdx := blockIdx_y * channelGroupSize * p.filterWidth * p.filterHeight + threadIdx_x
  if threadIdx_x < 8 * 9 then [(threadIdx_x, filterLoadSrcIdx)] else []

/-- Index of the `k`-th output store of a lane of `Filter3x3_Input56x56_Stride1`: `outputIdx` as the
convolution initialises it, advanced by `inputWidth` after each of the preceding stores. -/
def Filter3x3_Input56x56_Stride1.outputIdx (p : Shape) (blockIdx_x blockIdx_y threadIdx_x k : Nat) : Nat :=
  let channelGroupSize := 1
  let inputLoadIdxBase := blockIdx_x * p.inputChannel * p.inputHeight * p.inputWidth + blockIdx_y * channelGroupSize * p.inputHeight * p.inputWidth
  let outputIdx := inputLoadIdxBase + (threadIdx_x / p.inputWidth) * 14 * p.inputWidth + threadIdx_x % p.inputWidth
  outputIdx + k * p.inputWidth

/-- The stores to `filterData` of one lane of `Filter3x3_Input56x56_Stride1` (the "load filter" lines), as
pairs (scratch index, index into the filter bank), in program order. -/
def Filter3x3_Input56x56_Stride1.filterStores (p : Shape) (blockIdx_y threadIdx_x : Nat) : List (Nat × Nat) :=
  let channelGroupSize := 1
  let filterLoadSrcIdx := blockIdx_y * channelGroupSize * p.filterWidth * p.filterHeight + threadIdx_x
  if threadIdx_x < 9 then [(threadIdx_x, filterLoadSrcIdx)] else []

/-- Index of the `k`-th output store of a lane of `Filter3x3_Input112x112_Stride2`: `outputIdx` as the
convolution initialises it, advanced by `outputWidth` after each of the preceding stores. -/
def Filter3x3_Input112x112_Stride2.outputIdx (p : Shape) (blockIdx_x blockIdx_y threadIdx_x k : Nat) : Nat :=
  let blockGroup := 2
  let outputIdx := blockIdx_x * p.outputHeight * p.outputWidth * p.outputChannel + (blockIdx_y / blockGroup) * p.outputHeight * p.outputWidth + (blockIdx_y &&& 1) * (p.outputHeight / blockGroup) * p.outputWidth + (threadIdx_x / p.outputWidth) * 7 * p.outputWidth + threadIdx_x % p.outputWidth
  outputIdx + k * p.outputWidth

/-- The stores to `filterData` of one lane of `Filter3x3_Input112x112_Stride2` (the "load filter" lines), as
pairs (scratch index, index into the filter bank), in program order. -/
def Filter3x3_Input112x112_Stride2.filterStores (p : Shape) (blockIdx_y threadIdx_x : Nat) : List (Nat × Nat) :=
  let blockGroup := 2
  let filterLoadSrcIdx := blockIdx_y / blockGroup * p.filterHeight * p.filterWidth + threadIdx_x
  if threadIdx_x < p.filterWidth * p.filterHeight then [(threadIdx_x, filterLoadSrcIdx)] else []

/-- The loads from the global input buffer of one lane of `Filter3x3_Input112x112_Stride2`
(source lines 48-74), as pairs (tile index stored to, input index read), in program order:
the 28 copy rounds, then the extra row, which the lanes 112..223 of an odd group skip. -/
def Filter3x3_Input112x112_Stride2.inputLoads (p : Shape)
    (blockIdx_x blockIdx_y threadIdx_x : Nat) : List (Nat × Int) :=
  let paddedWidth := p.inputWidth + 2 * p.padding
  let blockGroup := 2
  let inputLoadIdxBase := blockIdx_x * p.inputHeight * p.inputWidth * p.inputChannel + blockIdx_y / blockGroup * p.inputHeight * p.inputWidth + (blockIdx_y &&& 1) * p.inputHeight / blockGroup * p.inputWidth
  let inputLoadSrcIdx : Int := (inputLoadIdxBase : Int) + (threadIdx_x : Int) - (p.inputWidth : Int)
  let inputLoadDstIdx := (threadIdx_x / p.inputWidth) * 2 + threadIdx_x + 1
  let inputLoadSrcIdx := if (blockIdx_y &&& 1) = 0 then inputLoadSrcIdx + (p.inputWidth : Int) else inputLoadSrcIdx
  let inputLoadDstIdx := if (blockIdx_y &&& 1) = 0 then inputLoadDstIdx + paddedWidth else inputLoadDstIdx
  (List.range 28).map (fun (i : Nat) => (inputLoadDstIdx + 2 * 114 * i, inputLoadSrcIdx + 2 * 112 * i)) ++
    (if (blockIdx_y &&& 1) ≠ 1 then
      [(inputLoadDstIdx + 2 * 114 * 28, inputLoadSrcIdx + 2 * 112 * 28)]
    else
      if threadIdx_x < 112 then
        [(inputLoadDstIdx + 2 * 114 * 28, inputLoadSrcIdx + 2 * 112 * 28)]
      else [])

/-- The tile indices one lane of `Filter3x3_Input14x14_Stride1` sets to zero (the "set left and right
padding" lines), in program order. -/
def Filter3x3_Input14x14_Stride1.paddingStores (p : Shape) (threadIdx_x : Nat) : List Nat :=
  let channelGroupSize := 16
  let paddedWidth := p.inputWidth + 2 * p.padding
  let leftPaddingIdx := threadIdx_x * paddedWidth
  [leftPaddingIdx,
   leftPaddingIdx + 15]

/-- The input loads of one lane of `Filter3x3_Input14x14_Stride1` (the "load input" lines), as pairs
(tile index stored to, input index read), round after round. -/
def Filter3x3_Input14x14_Stride1.inputLoads (p : Shape) (blockIdx_x blockIdx_y threadIdx_x : Nat) : List (Nat × Nat) :=
  let channelGroupSize := 16
  let inputLoadIdxBase := blockIdx_x * p.inputChannel * p.inputHeight * p.inputWidth + blockIdx_y * channelGroupSize * p.inputHeight * p.inputWidth
  let inputLoadSrcIdx := inputLoadIdxBase + threadIdx_x
  let inputLoadDstIdx := (threadIdx_x / p.inputWidth) * 2 + threadIdx_x + 1
  (List.range 14).map (fun i =>
    (inputLoadDstIdx + 16 * 16 * i, inputLoadSrcIdx + 16 * 14 * i))

/-- The tile indices one lane of `Filter3x3_Input14x14_Stride2` sets to zero (the "set left and right
padding" lines), in program order. -/
def Filter3x3_Input14x14_Stride2.paddingStores (p : Shape) (threadIdx_x : Nat) : List Nat :=
  let channelGroupSize := 32
  let paddedWidth := p.inputWidth + 2 * p.padding
  let leftPaddingIdx := threadIdx_x * paddedWidth
  [leftPaddingIdx,
   leftPaddingIdx + 16 * p.inputHeight * paddedWidth,
   leftPaddingIdx + 15,
   leftPaddingIdx + 16 * p.inputHeight * paddedWidth + 15]

/-- The input loads of one lane of `Filter3x3_Input14x14_Stride2` (the "load input" lines), as pairs
(tile index stored to, input index read), round after round. -/
def Filter3x3_Input14x14_Stride2.inputLoads (p : Shape) (blockIdx_x blockIdx_y threadIdx_x : Nat) : List (Nat × Nat) :=
  let channelGroupSize := 32
  let inputLoadIdxBase := blockIdx_x * p.inputChannel * p.inputHeight * p.inputWidth + blockIdx_y * channelGroupSize * p.inputHeight * p.inputWidth
  let inputLoadSrcIdx := inputLoadIdxBase + threadIdx_x
  let inputLoadDstIdx := (threadIdx_x / p.inputWidth) * 2 + threadIdx_x + 1
  (List.range 28).map (fun i =>
    (inputLoadDstIdx + 16 * 16 * i, inputLoadSrcIdx + 16 * 14 * i))

/-- The tile indices one lane of `Filter5x5_Input14x14_Stride2` sets to zero (the "set left and right
padding" lines), in program order. -/
def Filter5x5_Input14x14_Stride2.paddingStores (p : Shape) (threadIdx_x : Nat) : List Nat :=
  let channelGroupSize := 32
  let paddedWidth := p.inputWidth + 2 * p.padding
  let leftPaddingIdx := threadIdx_x * paddedWidth
  [leftPaddingIdx,
   leftPaddingIdx + 1,
   leftPaddingIdx + 16,
   leftPaddingIdx + 17,
   leftPaddingIdx + 16 * p.inputHeight * paddedWidth,
   leftPaddingIdx + 16 * p.inputHeight * paddedWidth + 1,
   leftPaddingIdx + 16 * p.inputHeight * paddedWidth + 16,
   leftPaddingIdx + 16 * p.inputHeight * paddedWidth + 17]

/-- The input loads of one lane of `Filter5x5_Input14x14_Stride2` (the "load input" lines), as pairs
(tile index stored to, input index read), round after round. -/
def Filter5x5_Input14x14_Stride2.inputLoads (p : Shape) (blockIdx_x blockIdx_y threadIdx_x : Nat) : List (Nat × Nat) :=
  let channelGroupSize := 32
  let inputLoadIdxBase := blockIdx_x * p.inputChannel * p.inputHeight * p.inputWidth + blockIdx_y * channelGroupSize * p.inputHeight * p.inputWidth
  let inputLoadSrcIdx := inputLoadIdxBase + threadIdx_x
  let inputLoadDstIdx := (threadIdx_x / p.inputWidth) * 4 + threadIdx_x + 2
  (List.range 28).map (fun i =>
    (inputLoadDstIdx + 16 * 18 * i, inputLoadSrcIdx + 16 * 14 * i))

/-- The tile indices one lane of `Filter3x3_Input28x28_Stride1` sets to zero (the "set left and right
padding" lines), in program order. -/
def Filter3x3_Input28x28_Stride1.paddingStores (p : Shape) (threadIdx_x : Nat) : List Nat :=
  let channelGroupSize := 8
  let paddedWidth := p.inputWidth + 2 * p.padding
  let leftPaddingIdx := threadIdx_x * paddedWidth
  [leftPaddingIdx,
   leftPaddingIdx + 29]

/-- The input loads of one lane of `Filter3x3_Input28x28_Stride1` (the "load input" lines), as pairs
(tile index stored to, input index read), round after round. -/
def Filter3x3_Input28x28_Stride1.inputLoads (p : Shape) (blockIdx_x blockIdx_y threadIdx_x : Nat) : List (Nat × Nat) :=
  let channelGroupSize := 8
  let inputLoadIdxBase := blockIdx_x * p.inputChannel * p.inputHeight * p.inputWidth + blockIdx_y * channelGroupSize * p.inputHeight * p.inputWidth
  let inputLoadSrcIdx := inputLoadIdxBase + threadIdx_x
  let inputLoadDstIdx := (threadIdx_x / p.inputWidth) * 2 + threadIdx_x + 1
  (List.range 28).map (fun i =>
    (inputLoadDstIdx + 8 * 30 * i, inputLoadSrcIdx + 8 * 28 * i))

/-- The tile indices one lane of `Filter3x3_Input28x28_Stride2` sets to zero (the "set left and right
padding" lines), in program order. -/
def Filter3x3_Input28x28_Stride2.paddingStores (p : Shape) (threadIdx_x : Nat) : List Nat :=
  let channelGroupSize := 8
  let paddedWidth := p.inputWidth + 2 * p.padding
  let leftPaddingIdx := threadIdx_x * paddedWidth
  [leftPaddingIdx,
   leftPaddingIdx + 29,
   leftPaddingIdx + (channelGroupSize / 2) * p.inputHeight * paddedWidth,
   leftPaddingIdx + (channelGroupSize / 2) * p.inputHeight * paddedWidth + 29]

/-- The input loads of one lane of `Filter3x3_Input28x28_Stride2` (the "load input" lines), as pairs
(tile index stored to, input index read), round after round. -/
def Filter3x3_Input28x28_Stride2.inputLoads (p : Shape) (blockIdx_x blockIdx_y threadIdx_x : Nat) : List (Nat × Nat) :=
  let channelGroupSize := 8
  let inputLoadIdxBase := blockIdx_x * p.inputChannel * p.inputHeight * p.inputWidth + blockIdx_y * channelGroupSize * p.inputHeight * p.inputWidth
  let inputLoadSrcIdx := inputLoadIdxBase + threadIdx_x
  let inputLoadDstIdx := (threadIdx_x / p.inputWidth) * 2 + threadIdx_x + 1
  (List.range 56).map (fun i =>
    (inputLoadDstIdx + 4 * 30 * i, inputLoadSrcIdx + 4 * 28 * i))

/-- The tile indices one lane of `Filter3x3_Input56x56_Stride1` sets to zero (the "set padding"
lines): lanes 32..87 the left and right border of the rows 1..56, lanes 96..153 the top row,
lanes 160..217 the bottom row. -/
def Filter3x3_Input56x56_Stride1.paddingStores (p : Shape) (threadIdx_x : Nat) : List Nat :=
  (if threadIdx_x ≥ 32 ∧ threadIdx_x < 88 then
    let leftPaddingIdx := (threadIdx_x - 31) * 58
    [leftPaddingIdx, leftPaddingIdx + 57]
  else []) ++
  (if threadIdx_x ≥ 96 ∧ threadIdx_x < 154 then [threadIdx_x - 96] else []) ++
  (if threadIdx_x ≥ 160 ∧ threadIdx_x < 218 then [threadIdx_x - 160 + 58 * 57] else [])

/-- The input loads of one lane of `Filter3x3_Input56x56_Stride1` (the "load input" loop), as
pairs (tile index stored to, input index read). -/
def Filter3x3_Input56x56_Stride1.inputLoads (p : Shape) (blockIdx_x blockIdx_y threadIdx_x : Nat) :
    List (Nat × Nat) :=
  let channelGroupSize := 1
  let paddedWidth := p.inputWidth + 2 * p.padding
  let inputLoadIdxBase := blockIdx_x * p.inputChannel * p.inputHeight * p.inputWidth + blockIdx_y * channelGroupSize * p.inputHeight * p.inputWidth
  let inputLoadSrcIdx := inputLoadIdxBase + threadIdx_x
  let inputLoadDstIdx := (threadIdx_x / p.inputWidth) * 2 + threadIdx_x + 1 + paddedWidth
  (List.range 14).map (fun i =>
    (inputLoadDstIdx + 4 * 58 * i, inputLoadSrcIdx + 4 * 56 * i))

/-- The tile indices one lane of `Filter3x3_Input112x112_Stride2` sets to zero (the "set padding"
lines): lanes 32..89 the left and right border of the rows 0..57, lanes 112..223 the columns
1..112 of the rows 0 and 57. -/
def Filter3x3_Input112x112_Stride2.paddingStores (p : Shape) (threadIdx_x : Nat) : List Nat :=
  let paddedWidth := p.inputWidth + 2 * p.padding
  (if threadIdx_x ≥ 32 ∧ threadIdx_x < 90 then
    let leftPaddingIdx := (threadIdx_x - 32) * paddedWidth
    [leftPaddingIdx, leftPaddingIdx + paddedWidth - 1]
  else []) ++
  (if threadIdx_x ≥ 112 then [threadIdx_x - 111, threadIdx_x - 111 + 57 * paddedWidth] else [])


/-- The registers of a lane of `Filter3x3_Input28x28_Stride1` on entry to iteration `i` of the row loop:
the statements before the loop (source lines 77-101), then `i` runs of the loop body. -/
def Filter3x3_Input28x28_Stride1.rowLoopEntry {α : Type} [Add α] [Mul α] (p : Shape) (alpha beta : α)
    (blockIdx_x blockIdx_y threadIdx_x : Nat) (sh : Shared α) (output : Nat → α) (i : Nat) : RowState α :=
  let filterData := sh.filterData
  let inputData := sh.inputData
  let channelGroupSize := 8
  let paddedWidth := p.inputWidth + 2 * p.padding
  let outputIdx := blockIdx_x * p.outputChannel * p.outputHeight * p.outputWidth + blockIdx_y * channelGroupSize * p.outputHeight * p.outputWidth + (threadIdx_x / p.outputWidth) * p.outputHeight * p.outputWidth + threadIdx_x % p.outputWidth
  let inputAccessBase := (threadIdx_x / p.outputWidth) * paddedWidth * p.inputHeight + threadIdx_x % p.outputWidth
  let filterAccessBase := (threadIdx_x / p.inputWidth) * p.filterHeight * p.filterWidth
  let inputAccessOffset := 0
  let inTemp0 := inputData (inputAccessBase)
  let sum0 := filterData (filterAccessBase + 3) * inTemp0
  let sum1 := filterData (filterAccessBase + 0) * inTemp0
  let inTemp1 := inputData (inputAccessBase + 1)
  let sum0 := sum0 + filterData (filterAccessBase + 4) * inTemp1
  let sum1 := sum1 + filterData (filterAccessBase + 1) * inTemp1
  let inTemp2 := inputData (inputAccessBase + 2)
  let sum0 := sum0 + filterData (filterAccessBase + 5) * inTemp2
  let sum1 := sum1 + filterData (filterAccessBase + 2) * inTemp2
  forLoop i (fun _ s => Filter3x3_Input28x28_Stride1.rowLoopBody p alpha beta filterData inputData
      paddedWidth inputAccessBase filterAccessBase s)
    { sum0 := sum0, sum1 := sum1, inputAccessOffset := inputAccessOffset,
      outputIdx := outputIdx, output := output }

/-- The statements of a lane of `Filter3x3_Input28x28_Stride1` after the row loop (source lines 177-234),
from the registers `s` the loop leaves. -/
def Filter3x3_Input28x28_Stride1.afterLoop {α : Type} [Add α] [Mul α] (p : Shape) (alpha beta : α)
    (blockIdx_x blockIdx_y threadIdx_x : Nat) (sh : Shared α) (s : RowState α) : Nat → α :=
  let filterData := sh.filterData
  let inputData := sh.inputData
  let channelGroupSize := 8
  let paddedWidth := p.inputWidth + 2 * p.padding
  let inputAccessBase := (threadIdx_x / p.outputWidth) * paddedWidth * p.inputHeight + threadIdx_x % p.outputWidth
  let filterAccessBase := (threadIdx_x / p.inputWidth) * p.filterHeight * p.filterWidth
  let sum0 := s.sum0
  let sum1 := s.sum1
  let inputAccessOffset := s.inputAccessOffset
  let outputIdx := s.outputIdx
  let output := s.output
  let inputAccessOffset := inputAccessOffset + paddedWidth
  let inTemp0 := inputData (inputAccessBase + inputAccessOffset)
  let sum0 := sum0 + filterData (filterAccessBase + 6) * inTemp0
  let sum1 := sum1 + filterData (filterAccessBase + 3) * inTemp0
  let sum2 := filterData (filterAccessBase + 0) * inTemp0
  let inTemp1 := inputData (inputAccessBase + inputAccessOffset + 1)
  let sum0 := sum0 + filterData (filterAccessBase + 7) * inTemp1
  let sum1 := sum1 + filterData (filterAccessBase + 4) * inTemp1
  let sum2 := sum2 + filterData (filterAccessBase + 1) * inTemp1
  let inTemp2 := inputData (inputAccessBase + inputAccessOffset + 2)
  let sum0 := sum0 + filterData (filterAccessBase + 8) * inTemp2
  let sum1 := sum1 + filterData (filterAccessBase + 5) * inTemp2
  let sum2 := sum2 + filterData (filterAccessBase + 2) * inTemp2
  let output := write output (outputIdx) (sum0 * alpha + beta)
  let outputIdx := outputIdx + p.outputWidth
  let inputAccessOffset := inputAccessOffset + paddedWidth
  let inTemp0 := inputData (inputAccessBase + inputAccessOffset)
  let sum1 := sum1 + filterData (filterAccessBase + 6) * inTemp0
  let sum2 := sum2 + filterData (filterAccessBase + 3) * inTemp0
  let sum0 := filterData (filterAccessBase + 0) * inTemp0
  let inTemp1 := inputData (inputAccessBase + inputAccessOffset + 1)
  let sum1 := sum1 + filterData (filterAccessBase + 7) * inTemp1
  let sum2 := sum2 + filterData (filterAccessBase + 4) * inTemp1
  let sum0 := sum0 + filterData (filterAccessBase + 1) * inTemp1
  let inTemp2 := inputData (inputAccessBase + inputAccessOffset + 2)
  let sum1 := sum1 + filterData (filterAccessBase + 8) * inTemp2
  let sum2 := sum2 + filterData (filterAccessBase + 5) * inTemp2
  let sum0 := sum0 + filterData (filterAccessBase + 2) * inTemp2
  let output := write output (outputIdx) (sum1 * alpha + beta)
  let outputIdx := outputIdx + p.outputWidth
  let inputAccessOffset := inputAccessOffset + paddedWidth
  let inTemp0 := inputData (inputAccessBase + inputAccessOffset)
  let sum2 := sum2 + filterData (filterAccessBase + 6) * inTemp0
  let sum0 := sum0 + filterData (filterAccessBase + 3) * inTemp0
  let inTemp1 := inputData (inputAccessBase + inputAccessOffset + 1)
  let sum2 := sum2 + filterData (filterAccessBase + 7) * inTemp1
  let sum0 := sum0 + filterData (filterAccessBase + 4) * inTemp1
  let inTemp2 := inputData (inputAccessBase + inputAccessOffset + 2)
  let sum2 := sum2 + filterData (filterAccessBase + 8) * inTemp2
  let sum0 := sum0 + filterData (filterAccessBase + 5) * inTemp2
  let output := write output (outputIdx) (sum2 * alpha + beta)
  let outputIdx := outputIdx + p.outputWidth
  let output := write output (outputIdx) (sum0 * alpha + beta)
  output


/-- The registers of a lane of `Filter3x3_Input28x28_Stride2` on entry to iteration `i` of the row loop:
the statements before the loop (source lines 56-101), then `i` runs of the loop body. -/
def Filter3x3_Input28x28_Stride2.rowLoopEntry {α : Type} [Add α] [Mul α] (p : Shape) (alpha beta : α)
    (blockIdx_x blockIdx_y threadIdx_x : Nat) (sh : Shared α) (output : Nat → α) (i : Nat) : RowState α :=
  let filterData := sh.filterData
  let inputData := sh.inputData
  let channelGroupSize := 8
  let paddedWidth := p.inputWidth + 2 * p.padding
  let outputIdx := blockIdx_x * p.outputChannel * p.outputHeight * p.outputWidth + blockIdx_y * channelGroupSize * p.outputHeight * p.outputWidth + (threadIdx_x / p.outputWidth) * p.outputHeight * p.outputWidth + threadIdx_x % p.outputWidth
  let inputAccessBase := (threadIdx_x / p.outputWidth) * paddedWidth * p.inputHeight + threadIdx_x % p.outputWidth * 2
  let filterAccessBase := (threadIdx_x / p.outputWidth) * p.filterHeight * p.filterWidth
  let inputAccessOffset := 0
  let inTemp0 := inputData (inputAccessBase)
  let sum0 := filterData (filterAccessBase + 3) * inTemp0
  let inTemp1 := inputData (inputAccessBase + 1)
  let sum0 := sum0 + filterData (filterAccessBase + 4) * inTemp1
  let inTemp2 := inputData (inputAccessBase + 2)
  let sum0 := sum0 + filterData (filterAccessBase + 5) * inTemp2
  let inputAccessOffset := inputAccessOffset + paddedWidth
  let inTemp0 := inputData (inputAccessBase + inputAccessOffset)
  let sum0 := sum0 + filterData (filterAccessBase + 6) * inTemp0
  let sum1 := filterData (filterAccessBase + 0) * inTemp0
  let inTemp1 := inputData (inputAccessBase + inputAccessOffset + 1)
  let sum0 := sum0 + filterData (filterAccessBase + 7) * inTemp1
  let sum1 := sum1 + filterData (filterAccessBase + 1) * inTemp1
  let inTemp2 := inputData (inputAccessBase + inputAccessOffset + 2)
  let sum0 := sum0 + filterData (filterAccessBase + 8) * inTemp2
  let sum1 := sum1 + filterData (filterAccessBase + 2) * inTemp2
  let output := write output (outputIdx) (sum0 * alpha + beta)
  let outputIdx := outputIdx + p.outputWidth
  forLoop i (fun _ s => Filter3x3_Input28x28_Stride2.rowLoopBody p alpha beta filterData inputData
      paddedWidth inputAccessBase filterAccessBase s)
    { sum0 := sum0, sum1 := sum1, inputAccessOffset := inputAccessOffset,
      outputIdx := outputIdx, output := output }

/-- The statements of a lane of `Filter3x3_Input28x28_Stride2` after the row loop (source lines 172-193),
from the registers `s` the loop leaves. -/
def Filter3x3_Input28x28_Stride2.afterLoop {α : Type} [Add α] [Mul α] (p : Shape) (alpha beta : α)
    (blockIdx_x blockIdx_y threadIdx_x : Nat) (sh : Shared α) (s : RowState α) : Nat → α :=
  let filterData := sh.filterData
  let inputData := sh.inputData
  let channelGroupSize := 8
  let paddedWidth := p.inputWidth + 2 * p.padding
  let inputAccessBase := (threadIdx_x / p.outputWidth) * paddedWidth * p.inputHeight + threadIdx_x % p.outputWidth * 2
  let filterAccessBase := (threadIdx_x / p.outputWidth) * p.filterHeight * p.filterWidth
  let sum0 := s.sum0
  let sum1 := s.sum1
  let inputAccessOffset := s.inputAccessOffset
  let outputIdx := s.outputIdx
  let output := s.output
  let inputAccessOffset := inputAccessOffset + paddedWidth
  let inTemp0 := inputData (inputAccessBase + inputAccessOffset)
  let sum1 := sum1 + filterData (filterAccessBase + 3) * inTemp0
  let inTemp1 := inputData (inputAccessBase + inputAccessOffset + 1)
  let sum1 := sum1 + filterData (filterAccessBase + 4) * inTemp1
  let inTemp2 := inputData (inputAccessBase + inputAccessOffset + 2)
  let sum1 := sum1 + filterData (filterAccessBase + 5) * inTemp2
  let inputAccessOffset := inputAccessOffset + paddedWidth
  let inTemp0 := inputData (inputAccessBase + inputAccessOffset)
  let sum1 := sum1 + filterData (filterAccessBase + 6) * inTemp0
  let inTemp1 := inputData (inputAccessBase + inputAccessOffset + 1)
  let sum1 := sum1 + filterData (filterAccessBase + 7) * inTemp1
  let inTemp2 := inputData (inputAccessBase + inputAccessOffset + 2)
  let sum1 := sum1 + filterData (filterAccessBase + 8) * inTemp2
  let output := write output (outputIdx) (sum1 * alpha + beta)
  let outputIdx := outputIdx + p.outputWidth
  output

/-! ## Reference semantics and closed forms -/

/-- The argument bundle the host passes for a depthwise convolution: the filter
bank has one layer per channel and the output has the batch and channel counts
of the input. -/
def depthwiseShape (batch channel inH inW filterH filterW outH outW padding stride : Nat) : Shape :=
  { inputBatchNumber := batch, inputChannel := channel, inputHeight := inH, inputWidth := inW,
    filterLayerNumber := channel, filterHeight := filterH, filterWidth := filterW,
    outputBatchNumber := batch, outputChannel := channel, outputHeight := outH, outputWidth := outW,
    padding := padding, stride := stride }

/-- Reference view of the input: element `[n, c, h, w]` of the NCHW buffer, and
`0` at every position outside the `inH` x `inW` image. -/
def paddedInput {α : Type} [Zero α] (input : Nat → α) (channel inH inW n c : Nat) (h w : Int) : α :=
  if 0 ≤ h ∧ h < inH ∧ 0 ≤ w ∧ w < inW then
    input (((n * channel + c) * inH + h.toNat) * inW + w.toNat)
  else 0

/-- Plain depthwise convolution, as the specification writes it: the sum over
`kh`, `kw` of `filter[c,kh,kw] * paddedInput[n,c,oh*stride+kh-padding,ow*stride+kw-padding]`. -/
def depthwiseConv {α : Type} [CommRing α] (input filter : Nat → α)
    (channel inH inW filterH filterW padding stride : Nat) (n c oh ow : Nat) : α :=
  ∑ kh in Finset.range filterH, ∑ kw in Finset.range filterW,
    filter ((c * filterH + kh) * filterW + kw) *
      paddedInput input channel inH inW n c
        ((oh : Int) * stride + kh - padding) ((ow : Int) * stride + kw - padding)

/-- Reference output with affine fusion: `alpha * depthwiseConv + beta`. -/
def depthwiseRef {α : Type} [CommRing α] (input filter : Nat → α)
    (channel inH inW filterH filterW padding stride : Nat) (alpha beta : α) (n c oh ow : Nat) : α :=
  alpha * depthwiseConv input filter channel inH inW filterH filterW padding stride n c oh ow + beta

/-- Flat NCHW index of element `[n, c, h, w]`. -/
def nchw (channel height width n c h w : Nat) : Nat :=
  ((n * channel + c) * height + h) * width + w

/-- The stores `out[base + k * stride] = vs[k]`, `k = 0, 1, ...`, in this order. -/
def writeRows {α : Type} (base stride : Nat) : List α → (Nat → α) → (Nat → α)
  | [], out => out
  | v :: vs, out => writeRows (base + stride) stride vs (write out base v)

/-- A sequence of stores `a[i] = v`, given as (index, value) pairs, in this order. -/
def writeList {α : Type} : List (Nat × α) → (Nat → α) → (Nat → α)
  | [], a => a
  | q :: l, a => writeList l (write a q.1 q.2)

/-- Left-nested sum `((x0 + x1) + x2) + ...` of a list of products. -/
def nestSum {α : Type} [Add α] [Zero α] : List α → α
  | [] => 0
  | x :: xs => xs.foldl (fun s y => s + y) x

/-- The tap products of the listed (filter row, tile row) pairs, filter row by
filter row, and `kw` ascending inside a row. -/
def taps {α : Type} [Mul α] (filterW : Nat) (F : Nat → α) (rd : Nat → Nat → α) :
    List (Nat × Nat) → List α
  | [] => []
  | (kh, r) :: rows => (List.range filterW).map (fun kw => F (kh * filterW + kw) * rd r kw) ++ taps filterW F rd rows

/-- The (filter row, image row) pairs that meet a real image row for output row `oh`. -/
def tapRows (filterH inH padding stride oh : Nat) : List (Nat × Nat) :=
  (List.range filterH).filterMap (fun kh =>
    if padding ≤ oh * stride + kh ∧ oh * stride + kh < inH + padding then
      some (kh, oh * stride + kh - padding) else none)

/-- The value a lane stores for output column `ow` of plane `(n, c)`, written with the
global buffers instead of the scratch arrays: the left-nested sum of the tap products of the
listed (filter row, tile row) pairs, where tile row `r` shows image row `rowOf r` (padded
with zeros), then scaled and shifted.  No property of `+` and `*` is used. -/
def tapValue {α : Type} [Add α] [Mul α] [Zero α] (input filter : Nat → α)
    (channel inH inW filterH filterW padding stride : Nat) (alpha beta : α)
    (rows : List (Nat × Nat)) (rowOf : Nat → Int) (n c ow : Nat) : α :=
  nestSum (taps filterW (fun i => filter (c * filterH * filterW + i))
    (fun r kw => paddedInput input channel inH inW n c (rowOf r)
      ((ow : Int) * stride + kw - padding)) rows) * alpha + beta

/-- The lane program `lane` performs exactly `m` stores, the `k`-th one at index `idx k`,
and changes the buffer in no other way. -/
def StoresAt {α : Type} (lane : (Nat → α) → Nat → α) (m : Nat) (idx : Nat → Nat) : Prop :=
  ∃ vals : List α, vals.length = m ∧
    ∀ out, lane out = writeList (List.zip ((List.range m).map idx) vals) out

/-- The map from (group, lane, number of the store) to the stored index, on a grid of
`gx` x `gy` groups of `bd` lanes with `m` stores each, is a bijection onto the indices
below `size`. -/
def StoreBijection (gx gy bd m size : Nat) (idx : Nat → Nat → Nat → Nat → Nat) : Prop :=
  (∀ bx < gx, ∀ b < gy, ∀ t < bd, ∀ k < m, idx bx b t k < size) ∧
  (∀ bx < gx, ∀ b < gy, ∀ t < bd, ∀ k < m, ∀ bx' < gx, ∀ b' < gy, ∀ t' < bd, ∀ k' < m,
    idx bx b t k = idx bx' b' t' k' → bx = bx' ∧ b = b' ∧ t = t' ∧ k = k') ∧
  (∀ i < size, ∃ bx < gx, ∃ b < gy, ∃ t < bd, ∃ k < m, idx bx b t k = i)

/-- Output extent the specification prescribes: `floor((inH + 2 * padding - filterH) / stride) + 1`. -/
def outDim (inH padding filterH stride : Nat) : Nat :=
  (inH + 2 * padding - filterH) / stride + 1

/-- The stores of a launch write, in every one of the `batch * channel` planes, exactly
`rows` rows of `cols` columns: every store lands on an element `[n, c, oh, ow]` with
`oh < rows` and `ow < cols`, and every such element is the target of exactly one store. -/
def WritesPlanes (gx gy bd m : Nat) (idx : Nat → Nat → Nat → Nat → Nat)
    (batch channel rows cols : Nat) : Prop :=
  (∀ bx < gx, ∀ b < gy, ∀ t < bd, ∀ k < m, ∃ n < batch, ∃ c < channel, ∃ oh < rows, ∃ ow < cols,
    idx bx b t k = nchw channel rows cols n c oh ow) ∧
  (∀ n < batch, ∀ c < channel, ∀ oh < rows, ∀ ow < cols,
    ∃ bx < gx, ∃ b < gy, ∃ t < bd, ∃ k < m, idx bx b t k = nchw channel rows cols n c oh ow ∧
      ∀ bx' < gx, ∀ b' < gy, ∀ t' < bd, ∀ k' < m,
        idx bx' b' t' k' = nchw channel rows cols n c oh ow → bx' = bx ∧ b' = b ∧ t' = t ∧ k' = k)

/-- Every scratch index below `size` is the target of exactly one store of exactly one of the
`lanes` lanes, and no lane stores at or above `size`; `stores t` lists the stores of lane `t`
as pairs (scratch index, source index). -/
def WrittenOnce (lanes size : Nat) (stores : Nat → List (Nat × Nat)) : Prop :=
  (∀ t < lanes, ∀ q ∈ stores t, q.1 < size) ∧
  (∀ j < size, ∃ t < lanes, ∃ m < (stores t).length, ((stores t)[m]?).map Prod.fst = some j ∧
    ∀ t' < lanes, ∀ m' < (stores t').length,
      ((stores t')[m']?).map Prod.fst = some j → t' = t ∧ m' = m)

/-- A sequential schedule of a launch on a grid of `gx` x `gy` groups of `bd` lanes: the
groups in some order, and for every group an order of its lanes for each of the three steps
the two barriers of a kernel separate (filter staging and zero fill, bulk copy, convolution). -/
def IsSchedule (gx gy bd : Nat) (groups : List (Nat × Nat)) (fo co vo : Nat → Nat → List Nat) :
    Prop :=
  groups.Perm (gridGroups gx gy) ∧
  ∀ bx b, (fo bx b).Perm (List.range bd) ∧ (co bx b).Perm (List.range bd) ∧
    (vo bx b).Perm (List.range bd)

/-- Filter staging contract of one group: the lane program `fill` performs the stores listed
by `stores`; afterwards scratch entry `c * K + k` holds tap `k` of channel `g * G + c`; and
every scratch entry below `G * K` is written exactly once. -/
def FilterStaged {α : Type} (fill : Nat → Shared α → Shared α) (staged : Nat → α)
    (filter : Nat → α) (lanes G K g : Nat) (stores : Nat → List (Nat × Nat)) : Prop :=
  (∀ t sh, (fill t sh).filterData
    = writeList ((stores t).map (fun q => (q.1, filter q.2))) sh.filterData) ∧
  (∀ c < G, ∀ k < K, staged (c * K + k) = filter ((g * G + c) * K + k)) ∧
  WrittenOnce lanes (G * K) stores

/-- Index `a` is the target of exactly one of the stores listed by `stores t`, `t < lanes`:
one lane has it in its list, once, and no other lane has it. -/
def StoredOnce (lanes : Nat) (stores : Nat → List Nat) (a : Nat) : Prop :=
  ∃ t < lanes, (stores t).count a = 1 ∧ ∀ t' < lanes, a ∈ stores t' → t' = t

/-- No lane stores to index `a`. -/
def NeverStored (lanes : Nat) (stores : Nat → List Nat) (a : Nat) : Prop :=
  ∀ t < lanes, a ∉ stores t

/-- Every tile index below `size` is written exactly once by the load phase: by one store of
the zero fill and by no store of the bulk copy, or the other way round. -/
def TileWrittenOnce (lanes size : Nat) (zeroFill copy : Nat → List Nat) : Prop :=
  ∀ a < size, (StoredOnce lanes zeroFill a ∧ NeverStored lanes copy a) ∨
    (NeverStored lanes zeroFill a ∧ StoredOnce lanes copy a)

/-- Some lane stores to index `a`, in the zero fill or in the bulk copy. -/
def WrittenBy (lanes : Nat) (zeroFill copy : Nat → List Nat) (a : Nat) : Prop :=
  ∃ t < lanes, a ∈ zeroFill t ∨ a ∈ copy t

/-- The compute phase `conv` of a group reads the scratch arrays only where the load phase of
the group wrote them: every tile index below `tileSize` and every filter scratch index below
`filterSize` is the target of a store of some lane, and what a lane computes does not change
when the scratch arrays are changed elsewhere. -/
def ReadsOnlyWritten {α : Type} (lanes tileSize filterSize : Nat) (zeroFill copy : Nat → List Nat)
    (filterStores : Nat → List (Nat × Nat))
    (conv : Nat → Shared α → (Nat → α) → Nat → α) : Prop :=
  (∀ a < tileSize, WrittenBy lanes zeroFill copy a) ∧
  (∀ j < filterSize, ∃ t < lanes, ∃ q ∈ filterStores t, q.1 = j) ∧
  (∀ t < lanes, ∀ (sh sh' : Shared α) (out : Nat → α),
    (∀ a < tileSize, sh.inputData a = sh'.inputData a) →
    (∀ j < filterSize, sh.filterData j = sh'.filterData j) →
    conv t sh out = conv t sh' out)

/-- The 3-tap product sum `F(k) . R(r)` of filter row `k` with the window of tile row `r`:
`F (3 * k + kw)` are the taps of the row, `R r kw` the three tile elements under them. -/
def rowDot {α : Type} [CommRing α] (F : Nat → α) (R : Nat → Nat → α) (k r : Nat) : α :=
  ∑ kw in Finset.range 3, F (k * 3 + kw) * R r kw


/-- The load phase of a group performs exactly the listed stores: the zero fill of lane `t`
stores `0` at the tile indices `zeroFill t` and the values `filterStores t` into the filter
scratch, the bulk copy of lane `t` performs the tile stores `copyStores t` and leaves the
filter scratch alone. -/
def LoadTrace {α : Type} [Zero α] (fill copy : Nat → Shared α → Shared α)
    (zeroFill : Nat → List Nat) (copyStores filterStores : Nat → List (Nat × α)) : Prop :=
  (∀ t sh, (fill t sh).inputData = writeList ((zeroFill t).map (fun a => (a, (0 : α)))) sh.inputData) ∧
  (∀ t sh, (fill t sh).filterData = writeList (filterStores t) sh.filterData) ∧
  (∀ t sh, (copy t sh).inputData = writeList (copyStores t) sh.inputData) ∧
  (∀ t sh, (copy t sh).filterData = sh.filterData)

/-- On a grid of `gx` x `gy` groups of `bd` lanes, every index of the global input buffer a
lane reads (second components of `inputLoads`) is below `inSize`, every index of the filter
bank it reads (second components of `filterStores`) is below `filterSize`, and every index of
the output buffer it writes (`outputIdx`, `m` stores) is below `outSize`. -/
def AccessInBounds (gx gy bd m inSize filterSize outSize : Nat)
    (inputLoads : Nat → Nat → Nat → List (Nat × Nat))
    (filterStores : Nat → Nat → List (Nat × Nat))
    (outputIdx : Nat → Nat → Nat → Nat → Nat) : Prop :=
  ∀ bx < gx, ∀ b < gy, ∀ t < bd,
    (∀ q ∈ inputLoads bx b t, q.2 < inSize) ∧
    (∀ q ∈ filterStores b t, q.2 < filterSize) ∧
    (∀ k < m, outputIdx bx b t k < outSize)

/-- Every access of a group to its scratch arrays stays inside `tileSize` tile elements and
`filterSize` filter entries: the stores of the zero fill (`zeroFill t`), of the bulk copy
(`copy t`) and of the filter staging (first components of `filterStores t`) of every lane land
below these sizes, and what the compute phase `conv t` of a lane produces does not change when
the scratch arrays are changed at or above them. -/
def ScratchInBounds {α : Type} (lanes tileSize filterSize : Nat) (zeroFill copy : Nat → List Nat)
    (filterStores : Nat → List (Nat × Nat))
    (conv : Nat → Shared α → (Nat → α) → Nat → α) : Prop :=
  (∀ t < lanes, (∀ a ∈ zeroFill t, a < tileSize) ∧ (∀ a ∈ copy t, a < tileSize) ∧
    (∀ q ∈ filterStores t, q.1 < filterSize)) ∧
  (∀ t < lanes, ∀ (sh sh' : Shared α) (out : Nat → α),
    (∀ a < tileSize, sh.inputData a = sh'.inputData a) →
    (∀ j < filterSize, sh.filterData j = sh'.filterData j) →
    conv t sh out = conv t sh' out)

/-! ## 32-bit indices and binary32 scalars -/
/-- The value a 32-bit two's-complement `int` variable of the source holds when the exact
value of the index expression assigned to it is `x`: `x` wrapped into `[-2^31, 2^31)`.  The
expressions that initialise the index variables (`inputLoadIdxBase`, `inputLoadSrcIdx`,
`outputIdx`) combine `blockIdx` and `threadIdx`, which are unsigned 32-bit numbers, with the
`int` parameters by `+`, `-` and `*` (quotients and remainders are taken of lane numbers and of
`blockIdx.y` only): the arithmetic is 32-bit and wraps, and the result is stored in the `int`,
so wrapping the exact value once gives the variable's content. -/
def int32 (x : Int) : Int :=
  (x + 2147483648) % 4294967296 - 2147483648

/-- On a grid of `gx` x `gy` groups of `bd` lanes, the 32-bit `int` variables of the source
hold the exact indices: every index of the global input buffer a lane reads (`reads`) and
the index of each of its `m` output stores (`outputIdx`) is its own 32-bit value, so that
the buffers are accessed at the indices the definitions of this file compute in `Nat`. -/
def IndexFits32 (gx gy bd m : Nat) (reads : Nat → Nat → Nat → List Int)
    (outputIdx : Nat → Nat → Nat → Nat → Nat) : Prop :=
  ∀ bx < gx, ∀ b < gy, ∀ t < bd,
    (∀ i ∈ reads bx b t, int32 i = i) ∧
    (∀ k < m, int32 (outputIdx bx b t k) = outputIdx bx b t k)

/-- The integer-valued numbers of the IEEE 754 binary32 format (`float`), the two infinities
and NaN.  Sums and products of integer-valued numbers are integers, so `+` and `*` stay inside
this type; the sign of zero is not recorded. -/
inductive Flt where
  | fin (x : Int)
  | inf (negative : Bool)
  | nan
  deriving DecidableEq

/-- Spacing of the binary32 numbers at magnitude `m`: 1 below `2^24` (24 significant binary
digits) and doubling with every further binary digit of `m`; `fuel` bounds the number of
doublings. -/
def Flt.spacing : Nat → Nat → Nat
  | 0, _ => 1
  | fuel + 1, m => if m < 16777216 then 1 else 2 * Flt.spacing fuel (m / 2)

/-- Rounding of the exact integer result `x` to binary32: to the nearest representable number,
a tie to the one with the even significand, and to an infinity from `2^128`
(340282366920938463463374607431768211456) on. -/
def Flt.round (x : Int) : Flt :=
  let m := x.natAbs
  let q := Flt.spacing 128 m
  let lo := m / q
  let r := m % q
  let k := if 2 * r < q then lo else if q < 2 * r then lo + 1 else if lo % 2 = 0 then lo else lo + 1
  if 340282366920938463463374607431768211456 ≤ k * q then Flt.inf (decide (x < 0))
  else Flt.fin (if x < 0 then - ((k * q : Nat) : Int) else ((k * q : Nat) : Int))

/-- Addition of binary32: NaN is absorbing, opposite infinities give NaN, and a finite sum is
rounded. -/
def Flt.add : Flt → Flt → Flt
  | Flt.nan, _ => Flt.nan
  | _, Flt.nan => Flt.nan
  | Flt.inf s, Flt.inf s' => if s = s' then Flt.inf s else Flt.nan
  | Flt.inf s, Flt.fin _ => Flt.inf s
  | Flt.fin _, Flt.inf s => Flt.inf s
  | Flt.fin x, Flt.fin y => Flt.round (x + y)

/-- Multiplication of binary32: NaN is absorbing, zero times an infinity is NaN, and a finite
product is rounded. -/
def Flt.mul : Flt → Flt → Flt
  | Flt.nan, _ => Flt.nan
  | _, Flt.nan => Flt.nan
  | Flt.inf s, Flt.inf s' => Flt.inf (s != s')
  | Flt.inf s, Flt.fin y => if y = 0 then Flt.nan else Flt.inf (s != decide (y < 0))
  | Flt.fin x, Flt.inf s => if x = 0 then Flt.nan else Flt.inf (s != decide (x < 0))
  | Flt.fin x, Flt.fin y => Flt.round (x * y)

instance : Add Flt := ⟨Flt.add⟩

instance : Mul Flt := ⟨Flt.mul⟩

instance : Zero Flt := ⟨Flt.fin 0⟩

/-! ## Stores, loops and index arithmetic -/

section Generic
variable {α : Type}

theorem write_apply (a : Nat → α) (i j : Nat) (v : α) :
    write a i v j = if j = i then v else a j := rfl

theorem ite_write_apply (c : Prop) [Decidable c] (g : Nat → α) (i a : Nat) (v : α) :
    (if c then write g i v else g) a = if c ∧ a = i then v else g a := by
  by_cases h : c <;> by_cases e : a = i <;> simp [write_apply, h, e]

theorem ite_write2_apply (c : Prop) [Decidable c] (g : Nat → α) (i1 i2 a : Nat) (v1 v2 : α) :
    (if c then write (write g i1 v1) i2 v2 else g) a =
      if c ∧ a = i2 then v2 else if c ∧ a = i1 then v1 else g a := by
  by_cases h : c <;> by_cases e : a = i2 <;> by_cases e1 : a = i1 <;> simp [write_apply, h, e, e1]

theorem write_same (a : Nat → α) (i : Nat) (v : α) : write a i v i = v := by
  simp [write]

theorem write_other (a : Nat → α) (i j : Nat) (v : α) (h : j ≠ i) : write a i v j = a j := by
  simp [write, h]

/-- A sequence of steps each of which either stores `x` at the observed place or
leaves it alone does the same as a whole. -/
theorem foldl_keep {σ β ι : Type} (L : List ι) (body : ι → σ → σ) (obs : σ → β) (x : β)
    (h : ∀ t ∈ L, ∀ s, obs (body t s) = x ∨ obs (body t s) = obs s) (s : σ) :
    obs (L.foldl (fun s i => body i s) s) = x ∨ obs (L.foldl (fun s i => body i s) s) = obs s := by
  induction L generalizing s with
  | nil => exact Or.inr rfl
  | cons a L ih =>
    have ih2 := ih (fun t ht => h t (List.mem_cons_of_mem a ht)) (body a s)
    simp only [List.foldl_cons]
    rcases ih2 with h1 | h1
    · exact Or.inl h1
    · rcases h a (List.mem_cons_self a L) s with h2 | h2
      · exact Or.inl (h1.trans h2)
      · exact Or.inr (h1.trans h2)

/-- If moreover one step of the sequence always stores `x`, the observed place
holds `x` at the end, whatever the order of the steps. -/
theorem foldl_set {σ β ι : Type} (L : List ι) (body : ι → σ → σ) (obs : σ → β) (x : β)
    (t : ι) (ht : t ∈ L) (hset : ∀ s, obs (body t s) = x)
    (h : ∀ t ∈ L, ∀ s, obs (body t s) = x ∨ obs (body t s) = obs s) (s : σ) :
    obs (L.foldl (fun s i => body i s) s) = x := by
  induction L generalizing s with
  | nil => cases ht
  | cons a L ih =>
    simp only [List.foldl_cons]
    rcases List.mem_cons.1 ht with hta | htL
    · subst hta
      rcases foldl_keep L body obs x (fun t ht => h t (List.mem_cons_of_mem _ ht)) (body t s) with h1 | h1
      · exact h1
      · exact h1.trans (hset s)
    · exact ih htL (fun t ht => h t (List.mem_cons_of_mem a ht)) (body a s)

theorem foldl_frame {σ β ι : Type} (L : List ι) (body : ι → σ → σ) (obs : σ → β)
    (h : ∀ t ∈ L, ∀ s, obs (body t s) = obs s) (s : σ) :
    obs (L.foldl (fun s i => body i s) s) = obs s := by
  induction L generalizing s with
  | nil => rfl
  | cons a L ih =>
    simp only [List.foldl_cons]
    rw [ih (fun t ht => h t (List.mem_cons_of_mem a ht)), h a (List.mem_cons_self a L)]

theorem forLoop_keep {σ β : Type} (n : Nat) (body : Nat → σ → σ) (obs : σ → β) (x : β)
    (h : ∀ t < n, ∀ s, obs (body t s) = x ∨ obs (body t s) = obs s) (s : σ) :
    obs (forLoop n body s) = x ∨ obs (forLoop n body s) = obs s :=
  foldl_keep (List.range n) body obs x (fun t ht => h t (List.mem_range.1 ht)) s

theorem forLoop_set {σ β : Type} (n : Nat) (body : Nat → σ → σ) (obs : σ → β) (x : β)
    (t : Nat) (ht : t < n) (hset : ∀ s, obs (body t s) = x)
    (h : ∀ t < n, ∀ s, obs (body t s) = x ∨ obs (body t s) = obs s) (s : σ) :
    obs (forLoop n body s) = x :=
  foldl_set (List.range n) body obs x t (List.mem_range.2 ht) hset
    (fun t ht => h t (List.mem_range.1 ht)) s

theorem forLoop_frame {σ β : Type} (n : Nat) (body : Nat → σ → σ) (obs : σ → β)
    (h : ∀ t < n, ∀ s, obs (body t s) = obs s) (s : σ) :
    obs (forLoop n body s) = obs s :=
  foldl_frame (List.range n) body obs (fun t ht => h t (List.mem_range.1 ht)) s

theorem writeRows_frame (b s : Nat) (vs : List α) (out : Nat → α) (i : Nat)
    (h : ∀ k < vs.length, i ≠ b + k * s) : writeRows b s vs out i = out i := by
  induction vs generalizing b out with
  | nil => rfl
  | cons v vs ih =>
    simp only [writeRows]
    rw [ih]
    · apply write_other
      have := h 0 (by simp)
      simpa using this
    · intro k hk
      have := h (k + 1) (by simpa using hk)
      rw [Nat.add_mul, Nat.one_mul] at this
      omega

theorem writeRows_at (b s : Nat) (hs : 0 < s) (vs : List α) (out : Nat → α) (k : Nat) (x : α)
    (hk : vs[k]? = some x) : writeRows b s vs out (b + k * s) = x := by
  induction vs generalizing b out k with
  | nil => simp at hk
  | cons v vs ih =>
    simp only [writeRows]
    cases k with
    | zero =>
      simp only [List.getElem?_cons_zero, Option.some.injEq] at hk
      rw [writeRows_frame]
      · simp [write, hk]
      · intro k _
        have : 0 < (k + 1) * s := Nat.mul_pos (Nat.succ_pos k) hs
        rw [Nat.add_mul, Nat.one_mul] at this
        omega
    | succ k =>
      simp only [List.getElem?_cons_succ] at hk
      have := ih (b + s) (write out b v) k hk
      rw [Nat.add_mul, Nat.one_mul]
      rw [← this]
      congr 1
      omega

/-- A strided sequence of stores either hits index `i` at some position `k` or
leaves `i` alone. -/
theorem writeRows_cases (b s : Nat) (hs : 0 < s) (vs : List α) (out : Nat → α) (i : Nat) :
    (∃ k x, vs[k]? = some x ∧ i = b + k * s ∧ writeRows b s vs out i = x) ∨
      ((∀ k < vs.length, i ≠ b + k * s) ∧ writeRows b s vs out i = out i) := by
  by_cases h : ∃ k, k < vs.length ∧ i = b + k * s
  · obtain ⟨k, hk, hi⟩ := h
    refine Or.inl ⟨k, vs[k], ?_, hi, ?_⟩
    · simp [hk]
    · rw [hi]
      exact writeRows_at b s hs vs out k _ (by simp [hk])
  · refine Or.inr ⟨fun k hk hi => h ⟨k, hk, hi⟩, writeRows_frame b s vs out i (fun k hk hi => h ⟨k, hk, hi⟩)⟩

/-- A phase whose lanes each perform a strided sequence of stores: index `i` ends
up holding `x` when some lane stores there and every store to `i` stores `x`. -/
theorem forLoop_rows_set {σ : Type} (mem : σ → Nat → α) (n s : Nat) (hs : 0 < s) (body : Nat → σ → σ)
    (base : Nat → Nat) (vals : Nat → List α)
    (hbody : ∀ t < n, ∀ st, mem (body t st) = writeRows (base t) s (vals t) (mem st))
    (i : Nat) (x : α)
    (hval : ∀ t < n, ∀ k y, (vals t)[k]? = some y → base t + k * s = i → y = x)
    (hex : ∃ t < n, ∃ k < (vals t).length, base t + k * s = i) (st : σ) :
    mem (forLoop n body st) i = x := by
  obtain ⟨t, ht, k, hk, hi⟩ := hex
  have hkeep : ∀ t < n, ∀ st, mem (body t st) i = x ∨ mem (body t st) i = mem st i := by
    intro t ht st
    rw [hbody t ht]
    rcases writeRows_cases (base t) s hs (vals t) (mem st) i with ⟨k, y, hy, hi, hw⟩ | ⟨_, hw⟩
    · exact Or.inl (hw.trans (hval t ht k y hy hi.symm))
    · exact Or.inr hw
  refine forLoop_set n body (fun st => mem st i) x t ht ?_ hkeep st
  intro st
  show mem (body t st) i = x
  rw [hbody t ht, ← hi]
  apply writeRows_at _ _ hs
  have : (vals t)[k]? = some ((vals t)[k]) := by simp [hk]
  rw [this, hval t ht k _ this hi]

theorem forLoop_rows_frame {σ : Type} (mem : σ → Nat → α) (n s : Nat) (body : Nat → σ → σ)
    (base : Nat → Nat) (vals : Nat → List α)
    (hbody : ∀ t < n, ∀ st, mem (body t st) = writeRows (base t) s (vals t) (mem st))
    (i : Nat)
    (hno : ∀ t < n, ∀ k < (vals t).length, i ≠ base t + k * s) (st : σ) :
    mem (forLoop n body st) i = mem st i := by
  refine forLoop_frame n body (fun st => mem st i) ?_ st
  intro t ht st
  show mem (body t st) i = mem st i
  rw [hbody t ht]
  exact writeRows_frame _ _ _ _ _ (hno t ht)

theorem writeList_eq_foldl (l : List (Nat × α)) (a : Nat → α) :
    writeList l a = l.foldl (fun a q => write a q.1 q.2) a := by
  induction l generalizing a with
  | nil => rfl
  | cons q l ih => simp only [writeList, List.foldl_cons, ih]

theorem writeList_keep (l : List (Nat × α)) (a : Nat → α) (i : Nat) (x : α)
    (h : ∀ q ∈ l, q.1 = i → q.2 = x) : writeList l a i = x ∨ writeList l a i = a i := by
  rw [writeList_eq_foldl]
  refine foldl_keep l (fun q a => write a q.1 q.2) (fun a => a i) x ?_ a
  intro q hq a
  by_cases e : i = q.1
  · exact Or.inl (by simp only [write_apply, if_pos e]; exact h q hq e.symm)
  · exact Or.inr (by simp only [write_apply, if_neg e])

theorem writeList_set (l : List (Nat × α)) (a : Nat → α) (i : Nat) (x : α)
    (h : ∀ q ∈ l, q.1 = i → q.2 = x) (hex : ∃ q ∈ l, q.1 = i) : writeList l a i = x := by
  obtain ⟨q, hq, hi⟩ := hex
  rw [writeList_eq_foldl]
  refine foldl_set l (fun q a => write a q.1 q.2) (fun a => a i) x q hq ?_ ?_ a
  · intro a
    simp only [write_apply, if_pos hi.symm]
    exact h q hq hi
  · intro q hq a
    by_cases e : i = q.1
    · exact Or.inl (by simp only [write_apply, if_pos e]; exact h q hq e.symm)
    · exact Or.inr (by simp only [write_apply, if_neg e])

theorem writeList_frame (l : List (Nat × α)) (a : Nat → α) (i : Nat)
    (h : ∀ q ∈ l, q.1 ≠ i) : writeList l a i = a i := by
  rw [writeList_eq_foldl]
  refine foldl_frame l (fun q a => write a q.1 q.2) (fun a => a i) ?_ a
  intro q hq a
  simp only [write_apply, if_neg (fun e : i = q.1 => h q hq e.symm)]

/-- A phase whose lanes each perform a list of stores: index `i` ends up holding `x`
when some lane stores there and every store to `i` stores `x`. -/
theorem forLoop_stores_set {σ : Type} (mem : σ → Nat → α) (n : Nat) (body : Nat → σ → σ)
    (stores : Nat → List (Nat × α))
    (hbody : ∀ t < n, ∀ st, mem (body t st) = writeList (stores t) (mem st))
    (i : Nat) (x : α)
    (hval : ∀ t < n, ∀ q ∈ stores t, q.1 = i → q.2 = x)
    (hex : ∃ t < n, ∃ q ∈ stores t, q.1 = i) (st : σ) :
    mem (forLoop n body st) i = x := by
  obtain ⟨t, ht, hq⟩ := hex
  refine forLoop_set n body (fun st => mem st i) x t ht ?_ ?_ st
  · intro st
    show mem (body t st) i = x
    rw [hbody t ht]
    exact writeList_set _ _ _ _ (hval t ht) hq
  · intro t ht st
    show mem (body t st) i = x ∨ mem (body t st) i = mem st i
    rw [hbody t ht]
    exact writeList_keep _ _ _ _ (hval t ht)

theorem forLoop_stores_frame {σ : Type} (mem : σ → Nat → α) (n : Nat) (body : Nat → σ → σ)
    (stores : Nat → List (Nat × α))
    (hbody : ∀ t < n, ∀ st, mem (body t st) = writeList (stores t) (mem st))
    (i : Nat)
    (hno : ∀ t < n, ∀ q ∈ stores t, q.1 ≠ i) (st : σ) :
    mem (forLoop n body st) i = mem st i := by
  refine forLoop_frame n body (fun st => mem st i) ?_ st
  intro t ht st
  show mem (body t st) i = mem st i
  rw [hbody t ht]
  exact writeList_frame _ _ _ (hno t ht)

end Generic

section Generic2
variable {α : Type}

/-- Whole grid: every group runs its lanes, every lane performs a strided
sequence of stores.  Index `i` ends up holding `x` when some lane of some group
stores there and every store to `i` stores `x`. -/
theorem grid_rows_set (gx gy bd s : Nat) (hs : 0 < s)
    (block : Nat → Nat → (Nat → α) → Nat → α) (lane : Nat → Nat → Nat → (Nat → α) → Nat → α)
    (base : Nat → Nat → Nat → Nat) (vals : Nat → Nat → Nat → List α)
    (hblock : ∀ bx b out, block bx b out = forLoop bd (fun t out => lane bx b t out) out)
    (hlane : ∀ bx < gx, ∀ b < gy, ∀ t < bd, ∀ out,
      lane bx b t out = writeRows (base bx b t) s (vals bx b t) out)
    (i : Nat) (x : α)
    (hval : ∀ bx < gx, ∀ b < gy, ∀ t < bd, ∀ k y,
      (vals bx b t)[k]? = some y → base bx b t + k * s = i → y = x)
    (hex : ∃ bx < gx, ∃ b < gy, ∃ t < bd, ∃ k < (vals bx b t).length, base bx b t + k * s = i)
    (out : Nat → α) :
    forLoop gx (fun bx out => forLoop gy (fun b out => block bx b out) out) out i = x := by
  have hkeepB : ∀ bx < gx, ∀ b < gy, ∀ out, block bx b out i = x ∨ block bx b out i = out i := by
    intro bx hbx b hb out
    rw [hblock]
    refine forLoop_keep bd (fun t out => lane bx b t out) (fun out => out i) x ?_ out
    intro t ht out
    show lane bx b t out i = x ∨ lane bx b t out i = out i
    rw [hlane bx hbx b hb t ht]
    rcases writeRows_cases (base bx b t) s hs (vals bx b t) out i with ⟨k, y, hy, hi, hw⟩ | ⟨_, hw⟩
    · exact Or.inl (hw.trans (hval bx hbx b hb t ht k y hy hi.symm))
    · exact Or.inr hw
  have hkeepX : ∀ bx < gx, ∀ out, forLoop gy (fun b out => block bx b out) out i = x ∨
      forLoop gy (fun b out => block bx b out) out i = out i := by
    intro bx hbx out
    exact forLoop_keep gy (fun b out => block bx b out) (fun out => out i) x
      (fun b hb out => hkeepB bx hbx b hb out) out
  obtain ⟨bx, hbx, b, hb, t, ht, k, hk, hi⟩ := hex
  refine forLoop_set gx (fun bx out => forLoop gy (fun b out => block bx b out) out)
    (fun out => out i) x bx hbx ?_ (fun bx hbx out => hkeepX bx hbx out) out
  intro out
  refine forLoop_set gy (fun b out => block bx b out) (fun out => out i) x b hb ?_
    (fun b hb out => hkeepB bx hbx b hb out) out
  intro out
  show block bx b out i = x
  rw [hblock]
  exact forLoop_rows_set (fun out => out) bd s hs (fun t out => lane bx b t out)
    (base bx b) (vals bx b) (fun t ht out => hlane bx hbx b hb t ht out) i x
    (fun t ht k y hy hi => hval bx hbx b hb t ht k y hy hi) ⟨t, ht, k, hk, hi⟩ out

/-- Whole grid, frame part: an index no lane stores to keeps its value. -/
theorem grid_rows_frame (gx gy bd s : Nat)
    (block : Nat → Nat → (Nat → α) → Nat → α) (lane : Nat → Nat → Nat → (Nat → α) → Nat → α)
    (base : Nat → Nat → Nat → Nat) (vals : Nat → Nat → Nat → List α)
    (hblock : ∀ bx b out, block bx b out = forLoop bd (fun t out => lane bx b t out) out)
    (hlane : ∀ bx < gx, ∀ b < gy, ∀ t < bd, ∀ out,
      lane bx b t out = writeRows (base bx b t) s (vals bx b t) out)
    (i : Nat)
    (hno : ∀ bx < gx, ∀ b < gy, ∀ t < bd, ∀ k < (vals bx b t).length, i ≠ base bx b t + k * s)
    (out : Nat → α) :
    forLoop gx (fun bx out => forLoop gy (fun b out => block bx b out) out) out i = out i := by
  refine forLoop_frame gx (fun bx out => forLoop gy (fun b out => block bx b out) out)
    (fun out => out i) ?_ out
  intro bx hbx out
  refine forLoop_frame gy (fun b out => block bx b out) (fun out => out i) ?_ out
  intro b hb out
  show block bx b out i = out i
  rw [hblock]
  exact forLoop_rows_frame (fun out => out) bd s (fun t out => lane bx b t out)
    (base bx b) (vals bx b) (fun t ht out => hlane bx hbx b hb t ht out) i
    (fun t ht k hk => hno bx hbx b hb t ht k hk) out

theorem mul_add_unique {W a w a' w' : Nat} (hw : w < W) (hw' : w' < W)
    (e : a * W + w = a' * W + w') : a = a' ∧ w = w' := by
  have h1 : (a * W + w) / W = a := by
    rw [Nat.mul_comm, Nat.mul_add_div (by omega), Nat.div_eq_of_lt hw, Nat.add_zero]
  have h2 : (a' * W + w') / W = a' := by
    rw [Nat.mul_comm, Nat.mul_add_div (by omega), Nat.div_eq_of_lt hw', Nat.add_zero]
  have h3 : a = a' := by rw [← h1, ← h2, e]
  subst h3
  exact ⟨rfl, by omega⟩

/-- The flat NCHW index determines the element. -/
theorem nchw_inj {C H W n c h w n' c' h' w' : Nat} (hc : c < C) (hc' : c' < C) (hh : h < H)
    (hh' : h' < H) (hw : w < W) (hw' : w' < W)
    (e : nchw C H W n c h w = nchw C H W n' c' h' w') : n = n' ∧ c = c' ∧ h = h' ∧ w = w' := by
  unfold nchw at e
  obtain ⟨e1, e2⟩ := mul_add_unique hw hw' e
  obtain ⟨e3, e4⟩ := mul_add_unique hh hh' e1
  obtain ⟨e5, e6⟩ := mul_add_unique hc hc' e3
  exact ⟨e5, e6, e4, e2⟩

/-- Every index below the size of an NCHW buffer is the flat index of an element. -/
theorem nchw_surj (B C H W i : Nat) (hi : i < B * C * H * W) :
    ∃ n c h w, n < B ∧ c < C ∧ h < H ∧ w < W ∧ i = nchw C H W n c h w := by
  have hW : 0 < W := Nat.pos_of_ne_zero (fun h => by simp [h] at hi)
  have hH : 0 < H := Nat.pos_of_ne_zero (fun h => by simp [h] at hi)
  have hC : 0 < C := Nat.pos_of_ne_zero (fun h => by simp [h] at hi)
  refine ⟨i / W / H / C, i / W / H % C, i / W % H, i % W, ?_, Nat.mod_lt _ hC, Nat.mod_lt _ hH,
    Nat.mod_lt _ hW, ?_⟩
  · rw [Nat.div_div_eq_div_mul, Nat.div_div_eq_div_mul, Nat.div_lt_iff_lt_mul (by positivity)]
    calc i < B * C * H * W := hi
      _ = B * (W * (H * C)) := by ring
  · unfold nchw
    rw [Nat.div_add_mod', Nat.div_add_mod', Nat.div_add_mod']

theorem nestSum_eq_sum [AddCommMonoid α] (l : List α) : nestSum l = l.sum := by
  cases l with
  | nil => rfl
  | cons x xs =>
    simp only [nestSum, List.sum_cons]
    induction xs generalizing x with
    | nil => simp
    | cons y ys ih => simp only [List.foldl_cons, List.sum_cons, ih, add_assoc]

theorem sum_map_range [AddCommMonoid α] (g : Nat → α) (n : Nat) :
    ((List.range n).map g).sum = ∑ i in Finset.range n, g i := by
  induction n with
  | zero => simp
  | succ n ih => simp [List.range_succ, Finset.sum_range_succ, ih]

theorem sum_taps [Semiring α] (fw : Nat) (F : Nat → α) (rd : Nat → Nat → α) (rows : List (Nat × Nat)) :
    (taps fw F rd rows).sum =
      (rows.map (fun q => ∑ kw in Finset.range fw, F (q.1 * fw + kw) * rd q.2 kw)).sum := by
  induction rows with
  | nil => simp [taps]
  | cons q rows ih =>
    obtain ⟨kh, r⟩ := q
    simp only [taps, List.sum_append, sum_map_range, ih, List.map_cons, List.sum_cons]

theorem sum_filterMap_ite [AddCommMonoid α] {ι κ : Type} (L : List ι) (P : ι → Prop) [DecidablePred P]
    (h : ι → κ) (g : κ → α) :
    ((L.filterMap (fun a => if P a then some (h a) else none)).map g).sum =
      (L.map (fun a => if P a then g (h a) else 0)).sum := by
  induction L with
  | nil => simp
  | cons a L ih =>
    by_cases hp : P a
    · simp [List.filterMap_cons, hp, ih]
    · simp [List.filterMap_cons, hp, ih]

/-- Exact-arithmetic reading of a lane's accumulated value: when the staged filter
taps are the channel's taps and every tile read the lane applies is the padded
input at the tap position (and the taps the lane skips meet padding), the value
stored is the reference convolution. -/
theorem nestSum_taps_eq_ref [CommRing α] (input filter : Nat → α)
    (C inH inW fh fw pad stride : Nat) (alpha beta : α) (n c oh ow : Nat)
    (F : Nat → α) (rd : Nat → Nat → α) (tH tpad tstride toh : Nat)
    (hF : ∀ kh < fh, ∀ kw < fw, F (kh * fw + kw) = filter ((c * fh + kh) * fw + kw))
    (hrd : ∀ kh < fh, ∀ kw < fw,
      (if tpad ≤ toh * tstride + kh ∧ toh * tstride + kh < tH + tpad then
        rd (toh * tstride + kh - tpad) kw else 0) =
      paddedInput input C inH inW n c ((oh : Int) * stride + kh - pad) ((ow : Int) * stride + kw - pad)) :
    nestSum (taps fw F rd (tapRows fh tH tpad tstride toh)) * alpha + beta =
      depthwiseRef input filter C inH inW fh fw pad stride alpha beta n c oh ow := by
  rw [nestSum_eq_sum, sum_taps, tapRows, sum_filterMap_ite, sum_map_range, depthwiseRef, depthwiseConv,
    mul_comm]
  congr 2
  apply Finset.sum_congr rfl
  intro kh hkh
  rw [Finset.mem_range] at hkh
  by_cases hv : tpad ≤ toh * tstride + kh ∧ toh * tstride + kh < tH + tpad
  · rw [if_pos hv]
    apply Finset.sum_congr rfl
    intro kw hkw
    rw [Finset.mem_range] at hkw
    rw [hF kh hkh kw hkw, ← hrd kh hkh kw hkw, if_pos hv]
  · rw [if_neg hv]
    symm
    apply Finset.sum_eq_zero
    intro kw hkw
    rw [Finset.mem_range] at hkw
    rw [← hrd kh hkh kw hkw, if_neg hv, mul_zero]

end Generic2

/-! ## Schedules -/

section Orders
variable {α : Type}

theorem forLoop_eq_runLanes {σ : Type} (n : Nat) (body : Nat → σ → σ) (s : σ) :
    forLoop n body s = runLanes (List.range n) body s := rfl

theorem runLanes_keep {σ β : Type} (n : Nat) (L : List Nat) (hL : ∀ t, t ∈ L ↔ t < n)
    (body : Nat → σ → σ) (obs : σ → β) (x : β)
    (h : ∀ t < n, ∀ s, obs (body t s) = x ∨ obs (body t s) = obs s) (s : σ) :
    obs (runLanes L body s) = x ∨ obs (runLanes L body s) = obs s :=
  foldl_keep L body obs x (fun t ht => h t ((hL t).1 ht)) s

theorem runLanes_set {σ β : Type} (n : Nat) (L : List Nat) (hL : ∀ t, t ∈ L ↔ t < n)
    (body : Nat → σ → σ) (obs : σ → β) (x : β)
    (t : Nat) (ht : t < n) (hset : ∀ s, obs (body t s) = x)
    (h : ∀ t < n, ∀ s, obs (body t s) = x ∨ obs (body t s) = obs s) (s : σ) :
    obs (runLanes L body s) = x :=
  foldl_set L body obs x t ((hL t).2 ht) hset (fun t ht => h t ((hL t).1 ht)) s

theorem runLanes_frame {σ β : Type} (n : Nat) (L : List Nat) (hL : ∀ t, t ∈ L ↔ t < n)
    (body : Nat → σ → σ) (obs : σ → β)
    (h : ∀ t < n, ∀ s, obs (body t s) = obs s) (s : σ) :
    obs (runLanes L body s) = obs s :=
  foldl_frame L body obs (fun t ht => h t ((hL t).1 ht)) s

/-- A phase whose lanes each perform a list of stores, run in any order: index `i` ends up
holding `x` when some lane stores there and every store to `i` stores `x`. -/
theorem runLanes_stores_set {σ : Type} (mem : σ → Nat → α) (n : Nat) (L : List Nat)
    (hL : ∀ t, t ∈ L ↔ t < n) (body : Nat → σ → σ) (stores : Nat → List (Nat × α))
    (hbody : ∀ t < n, ∀ st, mem (body t st) = writeList (stores t) (mem st))
    (i : Nat) (x : α)
    (hval : ∀ t < n, ∀ q ∈ stores t, q.1 = i → q.2 = x)
    (hex : ∃ t < n, ∃ q ∈ stores t, q.1 = i) (st : σ) :
    mem (runLanes L body st) i = x := by
  obtain ⟨t, ht, hq⟩ := hex
  refine runLanes_set n L hL body (fun st => mem st i) x t ht ?_ ?_ st
  · intro st
    show mem (body t st) i = x
    rw [hbody t ht]
    exact writeList_set _ _ _ _ (hval t ht) hq
  · intro t ht st
    show mem (body t st) i = x ∨ mem (body t st) i = mem st i
    rw [hbody t ht]
    exact writeList_keep _ _ _ _ (hval t ht)

theorem runLanes_stores_frame {σ : Type} (mem : σ → Nat → α) (n : Nat) (L : List Nat)
    (hL : ∀ t, t ∈ L ↔ t < n) (body : Nat → σ → σ) (stores : Nat → List (Nat × α))
    (hbody : ∀ t < n, ∀ st, mem (body t st) = writeList (stores t) (mem st))
    (i : Nat)
    (hno : ∀ t < n, ∀ q ∈ stores t, q.1 ≠ i) (st : σ) :
    mem (runLanes L body st) i = mem st i := by
  refine runLanes_frame n L hL body (fun st => mem st i) ?_ st
  intro t ht st
  show mem (body t st) i = mem st i
  rw [hbody t ht]
  exact writeList_frame _ _ _ (hno t ht)

theorem mem_gridGroups (gx gy : Nat) (g : Nat × Nat) :
    g ∈ gridGroups gx gy ↔ g.1 < gx ∧ g.2 < gy := by
  obtain ⟨a, b⟩ := g
  simp [gridGroups, List.mem_product]

theorem foldl_product {σ A B : Type} (L1 : List A) (L2 : List B) (f : A → B → σ → σ) (s : σ) :
    (List.product L1 L2).foldl (fun s g => f g.1 g.2 s) s =
      L1.foldl (fun s a => L2.foldl (fun s b => f a b s) s) s := by
  induction L1 generalizing s with
  | nil => rfl
  | cons a L1 ih =>
    have e : List.product (a :: L1) L2 = L2.map (Prod.mk a) ++ List.product L1 L2 := rfl
    rw [e, List.foldl_append, List.foldl_map, List.foldl_cons, ih]

/-- The nested loops over the grid visit the groups in the order of `gridGroups`. -/
theorem forLoop_grid {σ : Type} (gx gy : Nat) (f : Nat → Nat → σ → σ) (s : σ) :
    forLoop gx (fun bx s => forLoop gy (fun b s => f bx b s) s) s =
      (gridGroups gx gy).foldl (fun s g => f g.1 g.2 s) s := by
  unfold gridGroups forLoop
  rw [foldl_product]

/-- Whole grid, groups and lanes in any order: every group runs its lanes, every lane performs
a strided sequence of stores.  Index `i` ends up holding `x` when some lane of some group
stores there and every store to `i` stores `x`. -/
theorem launch_rows_set (gx gy bd s : Nat) (hs : 0 < s) (groups : List (Nat × Nat))
    (hG : ∀ g, g ∈ groups ↔ g.1 < gx ∧ g.2 < gy)
    (order : Nat → Nat → List Nat) (hO : ∀ bx b t, t ∈ order bx b ↔ t < bd)
    (lane : Nat → Nat → Nat → (Nat → α) → Nat → α)
    (base : Nat → Nat → Nat → Nat) (vals : Nat → Nat → Nat → List α)
    (hlane : ∀ bx < gx, ∀ b < gy, ∀ t < bd, ∀ out,
      lane bx b t out = writeRows (base bx b t) s (vals bx b t) out)
    (i : Nat) (x : α)
    (hval : ∀ bx < gx, ∀ b < gy, ∀ t < bd, ∀ k y,
      (vals bx b t)[k]? = some y → base bx b t + k * s = i → y = x)
    (hex : ∃ bx < gx, ∃ b < gy, ∃ t < bd, ∃ k < (vals bx b t).length, base bx b t + k * s = i)
    (out : Nat → α) :
    groups.foldl (fun out g => runLanes (order g.1 g.2) (fun t out => lane g.1 g.2 t out) out) out i
      = x := by
  have hkeepL : ∀ bx < gx, ∀ b < gy, ∀ t < bd, ∀ out,
      lane bx b t out i = x ∨ lane bx b t out i = out i := by
    intro bx hbx b hb t ht out
    rw [hlane bx hbx b hb t ht]
    rcases writeRows_cases (base bx b t) s hs (vals bx b t) out i with ⟨k, y, hy, hi, hw⟩ | ⟨_, hw⟩
    · exact Or.inl (hw.trans (hval bx hbx b hb t ht k y hy hi.symm))
    · exact Or.inr hw
  have hkeepB : ∀ g ∈ groups, ∀ out,
      runLanes (order g.1 g.2) (fun t out => lane g.1 g.2 t out) out i = x ∨
      runLanes (order g.1 g.2) (fun t out => lane g.1 g.2 t out) out i = out i := by
    intro g hg out
    obtain ⟨hbx, hb⟩ := (hG g).1 hg
    exact runLanes_keep bd _ (hO g.1 g.2) (fun t out => lane g.1 g.2 t out) (fun out => out i) x
      (fun t ht out => hkeepL g.1 hbx g.2 hb t ht out) out
  obtain ⟨bx, hbx, b, hb, t, ht, k, hk, hi⟩ := hex
  refine foldl_set groups (fun g out => runLanes (order g.1 g.2) (fun t out => lane g.1 g.2 t out) out)
    (fun out => out i) x (bx, b) ((hG (bx, b)).2 ⟨hbx, hb⟩) ?_ hkeepB out
  intro out
  refine runLanes_set bd _ (hO bx b) (fun t out => lane bx b t out) (fun out => out i) x t ht ?_
    (fun t ht out => hkeepL bx hbx b hb t ht out) out
  intro out
  show lane bx b t out i = x
  rw [hlane bx hbx b hb t ht, ← hi]
  apply writeRows_at _ _ hs
  have : (vals bx b t)[k]? = some ((vals bx b t)[k]) := by simp [hk]
  rw [this, hval bx hbx b hb t ht k _ this hi]

/-- Whole grid in any order, frame part: an index no lane stores to keeps its value. -/
theorem launch_rows_frame (gx gy bd s : Nat) (groups : List (Nat × Nat))
    (hG : ∀ g, g ∈ groups ↔ g.1 < gx ∧ g.2 < gy)
    (order : Nat → Nat → List Nat) (hO : ∀ bx b t, t ∈ order bx b ↔ t < bd)
    (lane : Nat → Nat → Nat → (Nat → α) → Nat → α)
    (base : Nat → Nat → Nat → Nat) (vals : Nat → Nat → Nat → List α)
    (hlane : ∀ bx < gx, ∀ b < gy, ∀ t < bd, ∀ out,
      lane bx b t out = writeRows (base bx b t) s (vals bx b t) out)
    (i : Nat)
    (hno : ∀ bx < gx, ∀ b < gy, ∀ t < bd, ∀ k < (vals bx b t).length, i ≠ base bx b t + k * s)
    (out : Nat → α) :
    groups.foldl (fun out g => runLanes (order g.1 g.2) (fun t out => lane g.1 g.2 t out) out) out i
      = out i := by
  refine foldl_frame groups
    (fun g out => runLanes (order g.1 g.2) (fun t out => lane g.1 g.2 t out) out)
    (fun out => out i) ?_ out
  intro g hg out
  obtain ⟨hbx, hb⟩ := (hG g).1 hg
  refine runLanes_frame bd _ (hO g.1 g.2) (fun t out => lane g.1 g.2 t out) (fun out => out i) ?_ out
  intro t ht out
  show lane g.1 g.2 t out i = out i
  rw [hlane g.1 hbx g.2 hb t ht]
  exact writeRows_frame _ _ _ _ _ (hno g.1 hbx g.2 hb t ht)

theorem mul_add_lt (a A b B : Nat) (ha : a < A) (hb : b < B) : a * B + b < A * B := by
  have h : (a + 1) * B ≤ A * B := Nat.mul_le_mul_right B ha
  rw [Nat.add_mul, Nat.one_mul] at h
  omega

/-- Flat indices of elements of a `B x C x H x W` tensor are below its size. -/
theorem nchw_lt (B C H W n c h w : Nat) (hn : n < B) (hc : c < C) (hh : h < H) (hw : w < W) :
    nchw C H W n c h w < B * C * H * W := by
  unfold nchw
  exact mul_add_lt _ _ _ _ (mul_add_lt _ _ _ _ (mul_add_lt _ _ _ _ hn hc) hh) hw

theorem mem_tapRows (fh tH tpad ts toh : Nat) (q : Nat × Nat) :
    q ∈ tapRows fh tH tpad ts toh ↔
      q.1 < fh ∧ (tpad ≤ toh * ts + q.1 ∧ toh * ts + q.1 < tH + tpad) ∧ q.2 = toh * ts + q.1 - tpad := by
  obtain ⟨kh, r⟩ := q
  simp only [tapRows, List.mem_filterMap, List.mem_range]
  constructor
  · rintro ⟨a, ha, h⟩
    split_ifs at h with hv
    · simp only [Option.some.injEq, Prod.mk.injEq] at h
      obtain ⟨rfl, rfl⟩ := h
      exact ⟨ha, hv, rfl⟩
  · rintro ⟨h1, h2, h3⟩
    refine ⟨kh, h1, ?_⟩
    rw [if_pos h2, h3]

/-- The tap products only look at the taps and tile reads of the listed rows. -/
theorem taps_congr [Mul α] (fw : Nat) (F F' : Nat → α) (rd rd' : Nat → Nat → α)
    (rows : List (Nat × Nat))
    (h : ∀ q ∈ rows, ∀ kw < fw, F (q.1 * fw + kw) = F' (q.1 * fw + kw) ∧ rd q.2 kw = rd' q.2 kw) :
    taps fw F rd rows = taps fw F' rd' rows := by
  induction rows with
  | nil => rfl
  | cons q rows ih =>
    obtain ⟨kh, r⟩ := q
    simp only [taps]
    rw [ih (fun q hq => h q (List.mem_cons_of_mem _ hq))]
    congr 1
    apply List.map_congr_left
    intro kw hkw
    obtain ⟨h1, h2⟩ := h (kh, r) (List.mem_cons_self _ _) kw (List.mem_range.1 hkw)
    simp only at h1 h2
    rw [h1, h2]

/-- Exact-arithmetic reading of `tapValue`: when the listed tile rows show the image rows the
reference taps meet, and the filter rows that are not listed meet padding, the value is the
reference output. -/
theorem tapValue_eq_ref [CommRing α] (input filter : Nat → α)
    (C inH inW fh fw pad stride : Nat) (alpha beta : α) (n c oh ow : Nat)
    (rowOf : Nat → Int) (tH tpad tstride toh : Nat)
    (hrow : ∀ kh < fh,
      if tpad ≤ toh * tstride + kh ∧ toh * tstride + kh < tH + tpad then
        rowOf (toh * tstride + kh - tpad) = (oh : Int) * stride + kh - pad
      else ¬ (0 ≤ (oh : Int) * stride + kh - pad ∧ (oh : Int) * stride + kh - pad < inH)) :
    tapValue input filter C inH inW fh fw pad stride alpha beta
        (tapRows fh tH tpad tstride toh) rowOf n c ow
      = depthwiseRef input filter C inH inW fh fw pad stride alpha beta n c oh ow := by
  unfold tapValue
  apply nestSum_taps_eq_ref
  · intro kh _ kw _
    congr 1
    ring
  · intro kh hkh kw _
    have h := hrow kh hkh
    by_cases hv : tpad ≤ toh * tstride + kh ∧ toh * tstride + kh < tH + tpad
    · rw [if_pos hv] at h ⊢
      rw [h]
    · rw [if_neg hv] at h ⊢
      unfold paddedInput
      rw [if_neg (fun hh => h ⟨hh.1, hh.2.1⟩)]

end Orders

/-! ## Traces and the reference at the border -/

section Traces
variable {α : Type}

theorem writeList_append (l1 l2 : List (Nat × α)) (a : Nat → α) :
    writeList (l1 ++ l2) a = writeList l2 (writeList l1 a) := by
  induction l1 generalizing a with
  | nil => rfl
  | cons q l1 ih => exact ih _

/-- Strided stores written as a list of (index, value) pairs. -/
theorem writeRows_eq_writeList (base s : Nat) (vals : List α) (out : Nat → α) :
    writeRows base s vals out
      = writeList (List.zip ((List.range vals.length).map (fun k => base + k * s)) vals) out := by
  induction vals generalizing base out with
  | nil => rfl
  | cons v vs ih =>
    rw [List.length_cons, List.range_succ_eq_map, List.map_cons, List.zip_cons_cons, List.map_map]
    show writeRows (base + s) s vs (write out base v) = writeList _ (write out (base + 0 * s) v)
    rw [ih, Nat.zero_mul, Nat.add_zero]
    have e : List.map (fun k => base + s + k * s) (List.range vs.length)
        = List.map ((fun k => base + k * s) ∘ Nat.succ) (List.range vs.length) := by
      apply List.map_congr_left
      intro k _
      show base + s + k * s = base + (k + 1) * s
      rw [Nat.add_mul, Nat.one_mul]
      omega
    rw [e]

theorem storesAt_of_writeRows (lane : (Nat → α) → Nat → α) (m base s : Nat) (idx : Nat → Nat)
    (vals : List α) (hlen : vals.length = m) (hidx : ∀ k, idx k = base + k * s)
    (h : ∀ out, lane out = writeRows base s vals out) : StoresAt lane m idx := by
  refine ⟨vals, hlen, fun out => ?_⟩
  have e : (fun k => base + k * s) = idx := funext (fun k => (hidx k).symm)
  rw [h, writeRows_eq_writeList, hlen, e]

/-- A bijection onto the flat indices of a `batch x channel x rows x cols` tensor writes
every plane's `rows` rows of `cols` columns, each element once. -/
theorem writesPlanes_of_bijection (gx gy bd m : Nat) (idx : Nat → Nat → Nat → Nat → Nat)
    (batch channel rows cols : Nat)
    (h : StoreBijection gx gy bd m (batch * channel * rows * cols) idx) :
    WritesPlanes gx gy bd m idx batch channel rows cols := by
  obtain ⟨hlt, hinj, hsurj⟩ := h
  constructor
  · intro bx hbx b hb t ht k hk
    obtain ⟨n, c, oh, ow, hn, hc, hoh, how, e⟩ :=
      nchw_surj batch channel rows cols _ (hlt bx hbx b hb t ht k hk)
    exact ⟨n, hn, c, hc, oh, hoh, ow, how, e⟩
  · intro n hn c hc oh hoh ow how
    obtain ⟨bx, hbx, b, hb, t, ht, k, hk, e⟩ :=
      hsurj _ (nchw_lt batch channel rows cols n c oh ow hn hc hoh how)
    refine ⟨bx, hbx, b, hb, t, ht, k, hk, e, ?_⟩
    intro bx' hbx' b' hb' t' ht' k' hk' e'
    exact hinj bx' hbx' b' hb' t' ht' k' hk' bx hbx b hb t ht k hk (e'.trans e.symm)

/-- The value a lane stores only looks at plane `(n, c)` of the input and at the taps of
channel `c`. -/
theorem tapValue_congr [Add α] [Mul α] [Zero α] (input input' filter filter' : Nat → α)
    (C H W fh fw pad stride : Nat) (alpha beta : α) (rows : List (Nat × Nat)) (rowOf : Nat → Int)
    (n c ow : Nat) (hrows : ∀ q ∈ rows, q.1 < fh)
    (hin : ∀ h < H, ∀ w < W, input (nchw C H W n c h w) = input' (nchw C H W n c h w))
    (hf : ∀ i < fh * fw, filter (c * fh * fw + i) = filter' (c * fh * fw + i)) :
    tapValue input filter C H W fh fw pad stride alpha beta rows rowOf n c ow
      = tapValue input' filter' C H W fh fw pad stride alpha beta rows rowOf n c ow := by
  unfold tapValue
  congr 2
  apply congrArg
  apply taps_congr
  intro q hq kw hkw
  constructor
  · exact hf _ (mul_add_lt _ _ _ _ (hrows q hq) hkw)
  · unfold paddedInput
    split_ifs with hv
    · have h1 := Int.toNat_of_nonneg hv.1
      have h2 := Int.toNat_of_nonneg hv.2.2.1
      exact hin _ (by omega) _ (by omega)
    · rfl

/-- The reference output is `beta` when every tap either has weight zero or meets a zero of the
padded input. -/
theorem depthwiseRef_eq_beta [CommRing α] (input filter : Nat → α)
    (C H W fh fw pad stride : Nat) (alpha beta : α) (n c oh ow : Nat)
    (h : ∀ kh < fh, ∀ kw < fw, filter ((c * fh + kh) * fw + kw) = 0 ∨
      paddedInput input C H W n c ((oh : Int) * stride + kh - pad) ((ow : Int) * stride + kw - pad) = 0) :
    depthwiseRef input filter C H W fh fw pad stride alpha beta n c oh ow = beta := by
  unfold depthwiseRef depthwiseConv
  rw [Finset.sum_eq_zero, mul_zero, zero_add]
  intro kh hkh
  apply Finset.sum_eq_zero
  intro kw hkw
  rcases h kh (Finset.mem_range.1 hkh) kw (Finset.mem_range.1 hkw) with h0 | h0
  · rw [h0, zero_mul]
  · rw [h0, mul_zero]

/-- One pass: the lanes below `N` store one entry each, lane `t` at index `t`. -/
theorem writtenOnce_single (lanes N : Nat) (src : Nat → Nat) (hN : N ≤ lanes) :
    WrittenOnce lanes N (fun t => if t < N then [(t, src t)] else []) := by
  constructor
  · intro t ht q hq
    by_cases h : t < N
    · simp only [h, if_true, List.mem_singleton] at hq
      rw [hq]
      exact h
    · simp only [h, if_false, List.not_mem_nil] at hq
  · intro j hj
    refine ⟨j, by omega, 0, ?_, ?_, ?_⟩
    · simp only [hj, if_true, List.length_singleton]
      omega
    · simp only [hj, if_true]
      rfl
    · intro t' ht' m' hm' e
      by_cases h : t' < N
      · simp only [h, if_true, List.length_singleton] at e hm'
        have hm0 : m' = 0 := by omega
        subst hm0
        simp only [List.getElem?_cons_zero, Option.map_some', Option.some.injEq] at e
        exact ⟨e, rfl⟩
      · simp only [h, if_false, List.length_nil] at hm'
        omega

/-- Two passes: every one of the `L` lanes stores at its own index, and the lanes below `E`
store a second entry at `L + t`. -/
theorem writtenOnce_two (L E : Nat) (src src2 : Nat → Nat) (hE : E ≤ L) :
    WrittenOnce L (L + E)
      (fun t => (t, src t) :: (if t < E then [(L + t, src2 t)] else [])) := by
  constructor
  · intro t ht q hq
    by_cases h : t < E
    · simp only [h, if_true, List.mem_cons, List.mem_singleton, List.not_mem_nil, or_false] at hq
      rcases hq with hq | hq <;> rw [hq] <;> simp only <;> omega
    · simp only [h, if_false, List.mem_singleton] at hq
      rw [hq]
      simp only
      omega
  · intro j hj
    by_cases hjL : j < L
    · refine ⟨j, hjL, 0, by simp, by simp, ?_⟩
      intro t' ht' m' hm' e
      by_cases h : t' < E
      · simp only [h, if_true, List.length_cons, List.length_nil] at e hm'
        have hm : m' = 0 ∨ m' = 1 := by omega
        rcases hm with rfl | rfl
        · simp only [List.getElem?_cons_zero, Option.map_some', Option.some.injEq] at e
          exact ⟨e, rfl⟩
        · simp only [List.getElem?_cons_succ, List.getElem?_cons_zero, Option.map_some',
            Option.some.injEq] at e
          omega
      · simp only [h, if_false, List.length_singleton] at e hm'
        have hm : m' = 0 := by omega
        subst hm
        simp only [List.getElem?_cons_zero, Option.map_some', Option.some.injEq] at e
        exact ⟨e, rfl⟩
    · have hjE : j - L < E := by omega
      refine ⟨j - L, by omega, 1, by simp [hjE], ?_, ?_⟩
      · simp only [hjE, if_true, List.getElem?_cons_succ, List.getElem?_cons_zero, Option.map_some',
          Option.some.injEq]
        omega
      · intro t' ht' m' hm' e
        by_cases h : t' < E
        · simp only [h, if_true, List.length_cons, List.length_nil] at e hm'
          have hm : m' = 0 ∨ m' = 1 := by omega
          rcases hm with rfl | rfl
          · simp only [List.getElem?_cons_zero, Option.map_some', Option.some.injEq] at e
            omega
          · simp only [List.getElem?_cons_succ, List.getElem?_cons_zero, Option.map_some',
              Option.some.injEq] at e
            exact ⟨by omega, rfl⟩
        · simp only [h, if_false, List.length_singleton] at e hm'
          have hm : m' = 0 := by omega
          subst hm
          simp only [List.getElem?_cons_zero, Option.map_some', Option.some.injEq] at e
          omega

/-- Four passes of `P` lanes: lane `t < P` stores at `t`, `t + P`, `t + P * 2`, `t + P * 3`. -/
theorem writtenOnce_four (lanes P : Nat) (s0 s1 s2 s3 : Nat → Nat) (hP : P ≤ lanes) :
    WrittenOnce lanes (4 * P)
      (fun t => if t < P then [(t, s0 t), (t + P, s1 t), (t + P * 2, s2 t), (t + P * 3, s3 t)]
        else []) := by
  constructor
  · intro t ht q hq
    by_cases h : t < P
    · simp only [h, if_true, List.mem_cons, List.mem_singleton, List.not_mem_nil, or_false] at hq
      rcases hq with hq | hq | hq | hq <;> rw [hq] <;> simp only <;> omega
    · simp only [h, if_false, List.not_mem_nil] at hq
  · intro j hj
    have hP0 : 0 < P := by omega
    have hlt : j % P < P := Nat.mod_lt _ hP0
    have hdiv : j / P < 4 := Nat.div_lt_of_lt_mul (by omega)
    have hj' : j = j % P + P * (j / P) := (Nat.mod_add_div j P).symm
    refine ⟨j % P, by omega, j / P, by simp [hlt, hdiv], ?_, ?_⟩
    · simp only [hlt, if_true]
      generalize j / P = d at hdiv hj'
      generalize j % P = r at hj'
      have hd : d = 0 ∨ d = 1 ∨ d = 2 ∨ d = 3 := by omega
      rcases hd with rfl | rfl | rfl | rfl <;>
        simp only [List.getElem?_cons_succ, List.getElem?_cons_zero, Option.map_some',
          Option.some.injEq] <;> omega
    · intro t' ht' m' hm' e
      by_cases h : t' < P
      · simp only [h, if_true, List.length_cons, List.length_nil] at e hm'
        generalize j / P = d at hdiv hj'
        generalize j % P = r at hj' hlt
        have hm : m' = 0 ∨ m' = 1 ∨ m' = 2 ∨ m' = 3 := by omega
        have hd : d = 0 ∨ d = 1 ∨ d = 2 ∨ d = 3 := by omega
        rcases hm with rfl | rfl | rfl | rfl <;>
          simp only [List.getElem?_cons_succ, List.getElem?_cons_zero, Option.map_some',
            Option.some.injEq] at e <;>
          rcases hd with rfl | rfl | rfl | rfl <;> omega
      · simp only [h, if_false, List.length_nil] at hm'
        omega

theorem isSchedule_mem (gx gy bd : Nat) (groups : List (Nat × Nat)) (fo co vo : Nat → Nat → List Nat)
    (h : IsSchedule gx gy bd groups fo co vo) :
    (∀ g, g ∈ groups ↔ g.1 < gx ∧ g.2 < gy) ∧ (∀ bx b t, t ∈ fo bx b ↔ t < bd) ∧
      (∀ bx b t, t ∈ co bx b ↔ t < bd) ∧ (∀ bx b t, t ∈ vo bx b ↔ t < bd) :=
  ⟨fun g => (h.1.mem_iff).trans (mem_gridGroups gx gy g),
    fun bx b t => ((h.2 bx b).1.mem_iff).trans List.mem_range,
    fun bx b t => ((h.2 bx b).2.1.mem_iff).trans List.mem_range,
    fun bx b t => ((h.2 bx b).2.2.mem_iff).trans List.mem_range⟩

theorem isSchedule_grid (gx gy bd : Nat) :
    IsSchedule gx gy bd (gridGroups gx gy) (fun _ _ => List.range bd) (fun _ _ => List.range bd)
      (fun _ _ => List.range bd) :=
  ⟨List.Perm.refl _, fun _ _ => ⟨List.Perm.refl _, List.Perm.refl _, List.Perm.refl _⟩⟩

/-- A plane of a `B x C x H x W` tensor ends inside the tensor. -/
theorem nchw_plane_le (B C H W n c : Nat) (hn : n < B) (hc : c < C) :
    nchw C H W n c 0 0 + H * W ≤ B * C * H * W := by
  have h1 : n * C + c + 1 ≤ B * C := mul_add_lt n B c C hn hc
  have h2 : (n * C + c + 1) * (H * W) ≤ B * C * (H * W) := Nat.mul_le_mul_right _ h1
  have e1 : nchw C H W n c 0 0 + H * W = (n * C + c + 1) * (H * W) := by unfold nchw; ring
  have e2 : B * C * H * W = B * C * (H * W) := by ring
  rw [e1, e2]
  exact h2

end Traces

/-! ## Tile stores, input rows and tile layout -/

section Tiles
variable {α : Type}

theorem nodup_map_range (n : Nat) (f : Nat → Nat)
    (h : ∀ k < n, ∀ k' < n, f k = f k' → k = k') : ((List.range n).map f).Nodup :=
  List.Nodup.map_on (fun x hx y hy e => h x (List.mem_range.1 hx) y (List.mem_range.1 hy) e)
    (List.nodup_range n)

theorem storedOnce_of (lanes : Nat) (stores : Nat → List Nat) (a t : Nat) (ht : t < lanes)
    (hnd : (stores t).Nodup) (hm : a ∈ stores t)
    (hu : ∀ t' < lanes, a ∈ stores t' → t' = t) : StoredOnce lanes stores a :=
  ⟨t, ht, List.count_eq_one_of_mem hnd hm, hu⟩

theorem writtenBy_of_once (lanes size : Nat) (zeroFill copy : Nat → List Nat)
    (h : TileWrittenOnce lanes size zeroFill copy) (a : Nat) (ha : a < size) :
    WrittenBy lanes zeroFill copy a := by
  rcases h a ha with ⟨⟨t, ht, hc, _⟩, _⟩ | ⟨_, ⟨t, ht, hc, _⟩⟩
  · exact ⟨t, ht, Or.inl (List.count_pos_iff.1 (by omega))⟩
  · exact ⟨t, ht, Or.inr (List.count_pos_iff.1 (by omega))⟩

theorem writtenOnce_mem (lanes size : Nat) (stores : Nat → List (Nat × Nat))
    (h : WrittenOnce lanes size stores) (j : Nat) (hj : j < size) :
    ∃ t < lanes, ∃ q ∈ stores t, q.1 = j := by
  obtain ⟨t, ht, m, hm, e, _⟩ := h.2 j hj
  refine ⟨t, ht, (stores t)[m], List.getElem_mem _, ?_⟩
  rw [List.getElem?_eq_getElem hm] at e
  simpa using e

theorem mul_succ_le (bx batch channel : Nat) (h : bx < batch) :
    bx * channel + channel ≤ batch * channel := by
  have h1 : (bx + 1) * channel ≤ batch * channel := Nat.mul_le_mul_right _ h
  rw [Nat.add_mul, Nat.one_mul] at h1
  exact h1

end Tiles


section Rows
variable {α : Type}

theorem rowDot_eq [CommRing α] (F : Nat → α) (R : Nat → Nat → α) (k r : Nat) :
    rowDot F R k r = F (k * 3 + 0) * R r 0 + F (k * 3 + 1) * R r 1 + F (k * 3 + 2) * R r 2 := by
  simp [rowDot, Finset.sum_range_succ]

end Rows

section Layout
variable {α : Type}

theorem writeRows_append (b s : Nat) (l1 l2 : List α) (out : Nat → α) :
    writeRows b s (l1 ++ l2) out = writeRows (b + l1.length * s) s l2 (writeRows b s l1 out) := by
  induction l1 generalizing b out with
  | nil => simp [writeRows]
  | cons v vs ih =>
    show writeRows (b + s) s (vs ++ l2) (write out b v)
      = writeRows (b + (vs.length + 1) * s) s l2 (writeRows (b + s) s vs (write out b v))
    rw [ih]
    have e : b + s + vs.length * s = b + (vs.length + 1) * s := by ring
    rw [e]

/-- Writing three more rows after `n` rows. -/
theorem writeRows_range_three (b s n : Nat) (v : Nat → α) (out : Nat → α) :
    writeRows b s ((List.range (n + 3)).map v) out
      = writeRows (b + n * s) s [v n, v (n + 1), v (n + 2)]
          (writeRows b s ((List.range n).map v) out) := by
  have e : (List.range (n + 3)).map v = (List.range n).map v ++ [v n, v (n + 1), v (n + 2)] := by
    rw [show n + 3 = n + 1 + 1 + 1 from rfl, List.range_succ, List.range_succ, List.range_succ]
    simp
  rw [e, writeRows_append, List.length_map, List.length_range]

/-- Over a commutative ring the left-nested sum of the tap products of one row is the 3-tap
product sum of the row. -/
theorem nestSum_taps_one [CommRing α] (F : Nat → α) (R : Nat → Nat → α) (k r : Nat) :
    nestSum (taps 3 F R [(k, r)]) = rowDot F R k r := by
  rw [rowDot_eq]
  rfl

theorem nestSum_taps_two [CommRing α] (F : Nat → α) (R : Nat → Nat → α) (k r k' r' : Nat) :
    nestSum (taps 3 F R [(k, r), (k', r')]) = rowDot F R k r + rowDot F R k' r' := by
  rw [rowDot_eq, rowDot_eq]
  show F (k * 3 + 0) * R r 0 + F (k * 3 + 1) * R r 1 + F (k * 3 + 2) * R r 2
      + F (k' * 3 + 0) * R r' 0 + F (k' * 3 + 1) * R r' 1 + F (k' * 3 + 2) * R r' 2 = _
  ring

end Layout

section Additive
variable {α : Type}

end Additive

/-! ## Per-kernel staging and lane lemmas -/

section k14s1
variable {α : Type}

theorem k14s1_convolve_closed [Add α] [Mul α] [Zero α] (batch channel : Nat) (alpha beta : α) (bx b t : Nat)
    (sh : Shared α) (out : Nat → α) :
    Filter3x3_Input14x14_Stride1.convolve (depthwiseShape batch channel 14 14 3 3 14 14 1 1) alpha beta bx b t sh out
    = writeRows (bx * channel * 14 * 14 + b * 16 * 14 * 14 + t / 14 * 14 * 14 + t % 14) 14
        ((List.range 14).map (fun oh => nestSum (taps 3 (fun i => sh.filterData (t / 14 * 3 * 3 + i))
            (fun r kw => sh.inputData (t / 14 * 16 * 14 + t % 14 + r * 16 + kw)) (tapRows 3 14 1 1 oh)) * alpha + beta)) out := by
  rfl

theorem k14s1_copy_closed (batch channel : Nat) (input : Nat → α) (bx b t : Nat) (sh : Shared α) :
    (Filter3x3_Input14x14_Stride1.copyPhase input (depthwiseShape batch channel 14 14 3 3 14 14 1 1) bx b t sh).inputData
    = writeList ((List.range 14).map (fun k => (t / 14 * 2 + t + 1 + 16 * 16 * k,
        input (bx * channel * 14 * 14 + b * 16 * 14 * 14 + t + 16 * 14 * k)))) sh.inputData := by
  rfl

theorem k14s1_fill_closed [Zero α] (batch channel : Nat) (filter : Nat → α) (bx b t : Nat) (sh : Shared α) :
    (Filter3x3_Input14x14_Stride1.fillPhase filter (depthwiseShape batch channel 14 14 3 3 14 14 1 1) bx b t sh).inputData
    = writeList (([t * 16, t * 16 + 15]).map (fun a => (a, (0 : α)))) sh.inputData := by
  rfl

theorem k14s1_filterDataIn [Zero α] (batch channel : Nat) (fo co : List Nat)
    (hfo : ∀ t, t ∈ fo ↔ t < 224) (hco : ∀ t, t ∈ co ↔ t < 224)
    (input filter : Nat → α) (bx b : Nat) (sh : Shared α)
    (j : Nat) (hj : j < 16 * (3 * 3)) :
    (Filter3x3_Input14x14_Stride1.stagedIn fo co input filter (depthwiseShape batch channel 14 14 3 3 14 14 1 1) bx b sh).filterData j
      = filter (b * 16 * 3 * 3 + j) := by
  unfold Filter3x3_Input14x14_Stride1.stagedIn
  refine Eq.trans (runLanes_frame 224 co hco (fun t sh => Filter3x3_Input14x14_Stride1.copyPhase input
    (depthwiseShape batch channel 14 14 3 3 14 14 1 1) bx b t sh) (fun sh => sh.filterData j)
    (fun t _ s => rfl) _) ?_
  refine runLanes_set 224 fo hfo _ (fun sh => sh.filterData j) _ (j % 144) (by omega) ?_ ?_ sh
  · intro s
    simp only [Filter3x3_Input14x14_Stride1.fillPhase, depthwiseShape, ite_apply, write_apply]
    split_ifs <;> (congr 1; omega)
  · intro t _ s
    simp only [Filter3x3_Input14x14_Stride1.fillPhase, depthwiseShape, ite_apply, write_apply]
    split_ifs <;> first | exact Or.inr rfl | (left; congr 1; omega)

theorem k14s1_inputDataIn [Zero α] (batch channel : Nat) (fo co : List Nat)
    (hfo : ∀ t, t ∈ fo ↔ t < 224) (hco : ∀ t, t ∈ co ↔ t < 224)
    (input filter : Nat → α) (bx b : Nat) (sh : Shared α)
    (R j : Nat) (hR : R < 16 * 14) (hj : j < 16) :
    (Filter3x3_Input14x14_Stride1.stagedIn fo co input filter (depthwiseShape batch channel 14 14 3 3 14 14 1 1) bx b sh).inputData (R * 16 + j)
      = if 1 ≤ j ∧ j < 14 + 1 then input (bx * channel * 14 * 14 + b * 16 * 14 * 14 + R * 14 + (j - 1)) else 0 := by
  unfold Filter3x3_Input14x14_Stride1.stagedIn
  by_cases hc : 1 ≤ j ∧ j < 14 + 1
  · rw [if_pos hc]
    refine runLanes_stores_set (fun sh => sh.inputData) 224 co hco _ _
      (fun t _ st => k14s1_copy_closed batch channel input bx b t st) _ _ ?_ ?_ _
    · intro t ht q hq hi
      simp only [List.mem_map, List.mem_range] at hq
      obtain ⟨k, hk, rfl⟩ := hq
      simp only at hi ⊢
      congr 1
      omega
    · refine ⟨R % 16 * 14 + (j - 1), by omega, _,
        List.mem_map.2 ⟨R / 16, List.mem_range.2 (by omega), rfl⟩, ?_⟩
      simp only
      omega
  · rw [if_neg hc]
    refine Eq.trans (runLanes_stores_frame (fun sh => sh.inputData) 224 co hco _ _
      (fun t _ st => k14s1_copy_closed batch channel input bx b t st) (R * 16 + j) ?_ _) ?_
    rotate_left
    · refine runLanes_stores_set (fun sh => sh.inputData) 224 fo hfo _ _
        (fun t _ st => k14s1_fill_closed batch channel filter bx b t st) (R * 16 + j) 0 ?_ ?_ sh
      · intro t ht q hq _
        obtain ⟨a, _, rfl⟩ := List.mem_map.1 hq
        rfl
      · refine ⟨R % 224, by omega, (R * 16 + j, 0), List.mem_map.2 ⟨R * 16 + j, ?_, rfl⟩, rfl⟩
        simp only [List.mem_cons, List.mem_singleton, List.not_mem_nil, or_false]
        omega
    · intro t ht q hq
      simp only [List.mem_map, List.mem_range] at hq
      obtain ⟨k, hk, rfl⟩ := hq
      simp only
      omega

theorem k14s1_staged_eq [Zero α] (bd : Nat) (input filter : Nat → α) (p : Shape) (bx b : Nat)
    (sh : Shared α) :
    Filter3x3_Input14x14_Stride1.staged bd input filter p bx b sh
      = Filter3x3_Input14x14_Stride1.stagedIn (List.range bd) (List.range bd) input filter p bx b sh := rfl

theorem k14s1_filterData [Zero α] (batch channel : Nat) (input filter : Nat → α) (bx b : Nat) (sh : Shared α)
    (j : Nat) (hj : j < 16 * (3 * 3)) :
    (Filter3x3_Input14x14_Stride1.staged 224 input filter (depthwiseShape batch channel 14 14 3 3 14 14 1 1) bx b sh).filterData j
      = filter (b * 16 * 3 * 3 + j) := by
  rw [k14s1_staged_eq]
  exact k14s1_filterDataIn batch channel (List.range 224) (List.range 224)
    (fun _ => List.mem_range) (fun _ => List.mem_range) input filter bx b sh j hj

/-- The value lane `t` stores for output row `k`, with the scratch reads replaced by what the
staging put there; no property of `+` and `*` is used. -/
theorem k14s1_lane_value [Add α] [Mul α] [Zero α] (batch channel : Nat) (fo co : List Nat)
    (hfo : ∀ t, t ∈ fo ↔ t < 224) (hco : ∀ t, t ∈ co ↔ t < 224)
    (input filter : Nat → α) (alpha beta : α)
    (bx b t k : Nat) (sh : Shared α) (ht : t < 224) :
    nestSum (taps 3
      (fun i => (Filter3x3_Input14x14_Stride1.stagedIn fo co input filter
        (depthwiseShape batch channel 14 14 3 3 14 14 1 1) bx b sh).filterData (t / 14 * 3 * 3 + i))
      (fun r kw => (Filter3x3_Input14x14_Stride1.stagedIn fo co input filter
        (depthwiseShape batch channel 14 14 3 3 14 14 1 1) bx b sh).inputData (t / 14 * 16 * 14 + t % 14 + r * 16 + kw))
      (tapRows 3 14 1 1 k)) * alpha + beta
    = tapValue input filter channel 14 14 3 3 1 1 alpha beta
        (tapRows 3 14 1 1 k) (fun r => (r : Int)) bx (b * 16 + t / 14) (t % 14) := by
  unfold tapValue
  congr 2
  apply congrArg
  apply taps_congr
  intro q hq kw hkw
  obtain ⟨h1, h2, h3⟩ := (mem_tapRows _ _ _ _ _ q).1 hq
  constructor
  · rw [k14s1_filterDataIn batch channel fo co hfo hco input filter bx b sh _ (by omega)]
    congr 1
    omega
  · have e : t / 14 * 16 * 14 + t % 14 + q.2 * 16 + kw
        = (t / 14 * 14 + q.2) * 16 + (t % 14 * 1 + kw) := by omega
    simp only
    rw [e, k14s1_inputDataIn batch channel fo co hfo hco input filter bx b sh _ _ (by omega) (by omega)]
    unfold paddedInput
    by_cases hc : 1 ≤ t % 14 * 1 + kw ∧ t % 14 * 1 + kw < 14 + 1
    · rw [if_pos hc, if_pos (by omega)]
      congr 1
      omega
    · rw [if_neg hc, if_neg (by omega)]

theorem k14s1_rows (k kh : Nat) :
    if 1 ≤ k * 1 + kh ∧ k * 1 + kh < 14 + 1 then
      (fun r : Nat => (r : Int)) (k * 1 + kh - 1) = (k : Int) * (1 : Nat) + kh - (1 : Nat)
    else ¬ (0 ≤ (k : Int) * (1 : Nat) + kh - (1 : Nat) ∧ (k : Int) * (1 : Nat) + kh - (1 : Nat) < (14 : Nat)) := by
  split_ifs with h
  · simp only
    omega
  · omega

theorem k14s1_value [CommRing α] (batch channel : Nat) (input filter : Nat → α) (alpha beta : α)
    (bx b t k : Nat) (sh : Shared α) (ht : t < 224) :
    nestSum (taps 3
      (fun i => (Filter3x3_Input14x14_Stride1.staged 224 input filter
        (depthwiseShape batch channel 14 14 3 3 14 14 1 1) bx b sh).filterData (t / 14 * 3 * 3 + i))
      (fun r kw => (Filter3x3_Input14x14_Stride1.staged 224 input filter
        (depthwiseShape batch channel 14 14 3 3 14 14 1 1) bx b sh).inputData (t / 14 * 16 * 14 + t % 14 + r * 16 + kw))
      (tapRows 3 14 1 1 k)) * alpha + beta
    = depthwiseRef input filter channel 14 14 3 3 1 1 alpha beta bx (b * 16 + t / 14) k (t % 14) := by
  rw [k14s1_staged_eq]
  exact (k14s1_lane_value batch channel (List.range 224) (List.range 224)
    (fun _ => List.mem_range) (fun _ => List.mem_range) input filter alpha beta bx b t k sh ht).trans
    (tapValue_eq_ref input filter channel 14 14 3 3 1 1 alpha beta bx (b * 16 + t / 14) k (t % 14)
      (fun r => (r : Int)) 14 1 1 k (fun kh _ => k14s1_rows k kh))

/-- The index lane `t` of group `(bx, b)` stores to at its `k`-th store is the flat index of
element `[bx, b * 16 + t / 14, k, t % 14]`. -/
theorem k14s1_store_index (channel bx b t k : Nat) :
    bx * channel * 14 * 14 + b * 16 * 14 * 14 + t / 14 * 14 * 14 + t % 14 + k * 14
      = nchw channel 14 14 bx (b * 16 + t / 14) k (t % 14) := by
  unfold nchw; omega

/-- Output element `[n, c, oh, ow]` after `Filter3x3_Input14x14_Stride1`, for any order of the groups and any order
of the lanes inside each of the three phases of a group. -/
theorem k14s1_elemIn [Add α] [Mul α] [Zero α] (batch channel : Nat) (groups : List (Nat × Nat))
    (fo co vo : Nat → Nat → List Nat)
    (hG : ∀ g, g ∈ groups ↔ g.1 < batch ∧ g.2 < channel / 16)
    (hfo : ∀ bx b t, t ∈ fo bx b ↔ t < 224) (hco : ∀ bx b t, t ∈ co bx b ↔ t < 224)
    (hvo : ∀ bx b t, t ∈ vo bx b ↔ t < 224)
    (input filter output : Nat → α) (alpha beta : α)
    (shared : Nat → Nat → Shared α) (n c oh ow : Nat) (hch : channel % 16 = 0)
    (hn : n < batch) (hc : c < channel) (hoh : oh < 14) (how : ow < 14) :
    Filter3x3_Input14x14_Stride1.launchIn groups fo co vo input filter output
      (depthwiseShape batch channel 14 14 3 3 14 14 1 1) alpha beta shared (nchw channel 14 14 n c oh ow)
    = tapValue input filter channel 14 14 3 3 1 1 alpha beta
        (tapRows 3 14 1 1 oh) (fun r => (r : Int)) n c ow := by
  unfold Filter3x3_Input14x14_Stride1.launchIn
  refine launch_rows_set batch (channel / 16) 224 14 (by omega) groups hG vo hvo
    (fun bx b t out => Filter3x3_Input14x14_Stride1.convolve
      (depthwiseShape batch channel 14 14 3 3 14 14 1 1) alpha beta bx b t
      (Filter3x3_Input14x14_Stride1.stagedIn (fo bx b) (co bx b) input filter
        (depthwiseShape batch channel 14 14 3 3 14 14 1 1) bx b (shared bx b)) out)
    _ _
    (fun bx _ b _ t _ out => k14s1_convolve_closed batch channel alpha beta bx b t _ out)
    _ _ ?_ ?_ output
  · intro bx hbx b hb t ht k y hy hi
    simp only [List.getElem?_map, List.getElem?_range, Option.map_eq_some'] at hy
    obtain ⟨k', hk', rfl⟩ := hy
    rw [List.getElem?_eq_some] at hk'
    obtain ⟨hk, rfl⟩ := hk'
    simp only [List.length_range, List.getElem_range] at hk ⊢
    rw [k14s1_lane_value batch channel (fo bx b) (co bx b) (hfo bx b) (hco bx b) input filter alpha beta bx b t k _ ht]
    rw [k14s1_store_index] at hi
    obtain ⟨rfl, rfl, rfl, rfl⟩ := nchw_inj (by omega) hc hk hoh (Nat.mod_lt _ (by omega)) how hi
    rfl
  · refine ⟨n, hn, c / 16, by omega, c % 16 * 14 + ow, by omega, oh, by simpa using hoh, ?_⟩
    unfold nchw
    have h1 : (c % 16 * 14 + ow) / 14 = c % 16 := by omega
    have h2 : (c % 16 * 14 + ow) % 14 = ow := by omega
    rw [h1, h2]
    omega

/-- No lane of `Filter3x3_Input14x14_Stride1` stores outside the `batch * channel * 14 * 14` output elements. -/
theorem k14s1_frameIn [Add α] [Mul α] [Zero α] (batch channel : Nat) (groups : List (Nat × Nat))
    (fo co vo : Nat → Nat → List Nat)
    (hG : ∀ g, g ∈ groups ↔ g.1 < batch ∧ g.2 < channel / 16)
    (hvo : ∀ bx b t, t ∈ vo bx b ↔ t < 224)
    (input filter output : Nat → α) (alpha beta : α)
    (shared : Nat → Nat → Shared α) (i : Nat) (hch : channel % 16 = 0)
    (hi : batch * channel * 14 * 14 ≤ i) :
    Filter3x3_Input14x14_Stride1.launchIn groups fo co vo input filter output
      (depthwiseShape batch channel 14 14 3 3 14 14 1 1) alpha beta shared i
    = output i := by
  unfold Filter3x3_Input14x14_Stride1.launchIn
  refine launch_rows_frame batch (channel / 16) 224 14 groups hG vo hvo
    (fun bx b t out => Filter3x3_Input14x14_Stride1.convolve
      (depthwiseShape batch channel 14 14 3 3 14 14 1 1) alpha beta bx b t
      (Filter3x3_Input14x14_Stride1.stagedIn (fo bx b) (co bx b) input filter
        (depthwiseShape batch channel 14 14 3 3 14 14 1 1) bx b (shared bx b)) out)
    _ _
    (fun bx _ b _ t _ out => k14s1_convolve_closed batch channel alpha beta bx b t _ out)
    i ?_ output
  intro bx hbx b hb t ht k hk
  simp only [List.length_map, List.length_range] at hk
  rw [k14s1_store_index]
  have hlt := nchw_lt batch channel 14 14 bx (b * 16 + t / 14) k (t % 14) hbx (by omega) hk
    (Nat.mod_lt _ (by omega))
  omega

/-- The launch of `Filter3x3_Input14x14_Stride1` is the run with the groups in grid order and the lanes ascending. -/
theorem k14s1_launch_eq [Add α] [Mul α] [Zero α] (gx gy bd : Nat) (input filter output : Nat → α)
    (p : Shape) (alpha beta : α) (shared : Nat → Nat → Shared α) :
    Filter3x3_Input14x14_Stride1 gx gy bd input filter output p alpha beta shared
    = Filter3x3_Input14x14_Stride1.launchIn (gridGroups gx gy) (fun _ _ => List.range bd) (fun _ _ => List.range bd)
        (fun _ _ => List.range bd) input filter output p alpha beta shared :=
  forLoop_grid gx gy (fun bx b out => Filter3x3_Input14x14_Stride1.block bd input filter p alpha beta bx b (shared bx b) out) output

/-- Output element `[n, c, oh, ow]` after `Filter3x3_Input14x14_Stride1` is the reference value. -/
theorem k14s1_correct [CommRing α] (batch channel : Nat) (input filter output : Nat → α) (alpha beta : α)
    (shared : Nat → Nat → Shared α) (n c oh ow : Nat) (hch : channel % 16 = 0)
    (hn : n < batch) (hc : c < channel) (hoh : oh < 14) (how : ow < 14) :
    Filter3x3_Input14x14_Stride1 batch (channel / 16) 224 input filter output
      (depthwiseShape batch channel 14 14 3 3 14 14 1 1) alpha beta shared (nchw channel 14 14 n c oh ow)
    = depthwiseRef input filter channel 14 14 3 3 1 1 alpha beta n c oh ow := by
  rw [k14s1_launch_eq, k14s1_elemIn batch channel _ _ _ _ (mem_gridGroups _ _)
    (fun _ _ _ => List.mem_range) (fun _ _ _ => List.mem_range) (fun _ _ _ => List.mem_range)
    input filter output alpha beta shared n c oh ow hch hn hc hoh how]
  exact tapValue_eq_ref input filter channel 14 14 3 3 1 1 alpha beta n c oh ow
    (fun r => (r : Int)) 14 1 1 oh (fun kh _ => k14s1_rows oh kh)

end k14s1

section k14s1_trace
variable {α : Type}

/-- The output stores of a lane of `Filter3x3_Input14x14_Stride1` are exactly the 14 stores at
`outputIdx ... 0`, ..., `outputIdx ... 13`. -/
theorem k14s1_convolve_stores [Add α] [Mul α] [Zero α] (batch channel : Nat) (alpha beta : α)
    (bx b t : Nat) (sh : Shared α) :
    StoresAt (Filter3x3_Input14x14_Stride1.convolve (depthwiseShape batch channel 14 14 3 3 14 14 1 1) alpha beta bx b t sh) 14
      (Filter3x3_Input14x14_Stride1.outputIdx (depthwiseShape batch channel 14 14 3 3 14 14 1 1) bx b t) :=
  storesAt_of_writeRows _ 14 _ 14 _ _ (by simp) (fun k => rfl)
    (fun out => k14s1_convolve_closed batch channel alpha beta bx b t sh out)

theorem k14s1_outputIdx_eq (batch channel bx b t k : Nat) :
    Filter3x3_Input14x14_Stride1.outputIdx (depthwiseShape batch channel 14 14 3 3 14 14 1 1) bx b t k
      = nchw channel 14 14 bx (b * 16 + t / 14) (k) (t % 14) :=
  k14s1_store_index channel bx b t k

theorem k14s1_storeBijection (batch channel : Nat) (hch : channel % 16 = 0) :
    StoreBijection batch (channel / 16) 224 14 (batch * channel * 14 * 14)
      (Filter3x3_Input14x14_Stride1.outputIdx (depthwiseShape batch channel 14 14 3 3 14 14 1 1)) := by
  refine ⟨?_, ?_, ?_⟩
  · intro bx hbx b hb t ht k hk
    rw [k14s1_outputIdx_eq]
    exact nchw_lt batch channel 14 14 bx _ _ _ hbx (by omega) (by omega) (Nat.mod_lt _ (by omega))
  · intro bx hbx b hb t ht k hk bx' hbx' b' hb' t' ht' k' hk' e
    rw [k14s1_outputIdx_eq, k14s1_outputIdx_eq] at e
    obtain ⟨h1, h2, h3, h4⟩ := nchw_inj (C := channel) (by omega) (by omega) (by omega) (by omega)
      (Nat.mod_lt _ (by omega)) (Nat.mod_lt _ (by omega)) e
    refine ⟨h1, ?_, ?_, ?_⟩ <;> omega
  · intro i hi
    obtain ⟨n, c, oh, ow, hn, hc, hoh, how, rfl⟩ := nchw_surj batch channel 14 14 i hi
    refine ⟨n, hn, c / 16, by omega, c % 16 * 14 + ow, by omega, oh, by omega, ?_⟩
    rw [k14s1_outputIdx_eq]
    have h1 : (c % 16 * 14 + ow) / 14 = c % 16 := by omega
    have h2 : (c % 16 * 14 + ow) % 14 = ow := by omega
    rw [h1, h2]
    congr 1 <;> omega

/-- The filter staging lines of a lane of `Filter3x3_Input14x14_Stride1` perform exactly the stores
listed by `filterStores`. -/
theorem k14s1_filter_stores [Zero α] (batch channel : Nat) (filter : Nat → α) (bx b t : Nat)
    (sh : Shared α) :
    (Filter3x3_Input14x14_Stride1.fillPhase filter (depthwiseShape batch channel 14 14 3 3 14 14 1 1) bx b t sh).filterData
      = writeList ((Filter3x3_Input14x14_Stride1.filterStores (depthwiseShape batch channel 14 14 3 3 14 14 1 1) b t).map (fun q => (q.1, filter q.2)))
          sh.filterData := by
  simp only [Filter3x3_Input14x14_Stride1.fillPhase, Filter3x3_Input14x14_Stride1.filterStores, depthwiseShape]
  split_ifs <;> rfl

theorem k14s1_filter_once (batch channel b : Nat) :
    WrittenOnce 224 (16 * (3 * 3)) (Filter3x3_Input14x14_Stride1.filterStores (depthwiseShape batch channel 14 14 3 3 14 14 1 1) b) :=
  writtenOnce_single 224 (16 * 9) _ (by omega)

/-- Every sequential schedule of `Filter3x3_Input14x14_Stride1` produces the output buffer of the
launch in grid order with ascending lanes. -/
theorem k14s1_schedule_eq [Add α] [Mul α] [Zero α] (batch channel : Nat) (hch : channel % 16 = 0)
    (groups : List (Nat × Nat)) (fo co vo : Nat → Nat → List Nat)
    (hs : IsSchedule batch (channel / 16) 224 groups fo co vo)
    (input filter output : Nat → α) (alpha beta : α) (shared shared' : Nat → Nat → Shared α) :
    Filter3x3_Input14x14_Stride1.launchIn groups fo co vo input filter output (depthwiseShape batch channel 14 14 3 3 14 14 1 1) alpha beta shared
      = Filter3x3_Input14x14_Stride1 batch (channel / 16) 224 input filter output (depthwiseShape batch channel 14 14 3 3 14 14 1 1) alpha beta shared' := by
  obtain ⟨hG, hfo, hco, hvo⟩ := isSchedule_mem _ _ _ _ _ _ _ hs
  funext i
  rw [k14s1_launch_eq]
  by_cases hi : i < batch * channel * 14 * 14
  · obtain ⟨n, c, oh, ow, hn, hc, hoh, how, rfl⟩ := nchw_surj batch channel 14 14 i hi
    rw [k14s1_elemIn batch channel groups fo co vo hG hfo hco hvo input filter output alpha beta
        shared n c oh ow hch hn hc hoh how,
      k14s1_elemIn batch channel _ _ _ _ (mem_gridGroups _ _) (fun _ _ _ => List.mem_range)
        (fun _ _ _ => List.mem_range) (fun _ _ _ => List.mem_range) input filter output alpha beta
        shared' n c oh ow hch hn hc hoh how]
  · rw [k14s1_frameIn batch channel groups fo co vo hG hvo input filter output alpha beta
        shared i hch (by omega),
      k14s1_frameIn batch channel _ _ _ _ (mem_gridGroups _ _) (fun _ _ _ => List.mem_range)
        input filter output alpha beta shared' i hch (by omega)]

end k14s1_trace

section k14s2
variable {α : Type}

theorem k14s2_convolve_closed [Add α] [Mul α] [Zero α] (batch channel : Nat) (alpha beta : α) (bx b t : Nat)
    (sh : Shared α) (out : Nat → α) :
    Filter3x3_Input14x14_Stride2.convolve (depthwiseShape batch channel 14 14 3 3 7 7 1 2) alpha beta bx b t sh out
    = writeRows (bx * channel * 7 * 7 + b * 32 * 7 * 7 + t / 7 * 7 * 7 + t % 7) 7
        ((List.range 7).map (fun oh => nestSum (taps 3 (fun i => sh.filterData (t / 7 * 3 * 3 + i))
            (fun r kw => sh.inputData (t / 7 * 16 * 14 + t % 7 * 2 + r * 16 + kw)) (tapRows 3 14 1 2 oh)) * alpha + beta)) out := by
  rfl

theorem k14s2_copy_closed (batch channel : Nat) (input : Nat → α) (bx b t : Nat) (sh : Shared α) :
    (Filter3x3_Input14x14_Stride2.copyPhase input (depthwiseShape batch channel 14 14 3 3 7 7 1 2) bx b t sh).inputData
    = writeList ((List.range 28).map (fun k => (t / 14 * 2 + t + 1 + 16 * 16 * k,
        input (bx * channel * 14 * 14 + b * 32 * 14 * 14 + t + 16 * 14 * k)))) sh.inputData := by
  rfl

theorem k14s2_fill_closed [Zero α] (batch channel : Nat) (filter : Nat → α) (bx b t : Nat) (sh : Shared α) :
    (Filter3x3_Input14x14_Stride2.fillPhase filter (depthwiseShape batch channel 14 14 3 3 7 7 1 2) bx b t sh).inputData
    = writeList (([t * 16, t * 16 + 16 * 14 * 16, t * 16 + 15, t * 16 + 16 * 14 * 16 + 15]).map (fun a => (a, (0 : α)))) sh.inputData := by
  rfl

theorem k14s2_filterDataIn [Zero α] (batch channel : Nat) (fo co : List Nat)
    (hfo : ∀ t, t ∈ fo ↔ t < 224) (hco : ∀ t, t ∈ co ↔ t < 224)
    (input filter : Nat → α) (bx b : Nat) (sh : Shared α)
    (j : Nat) (hj : j < 32 * (3 * 3)) :
    (Filter3x3_Input14x14_Stride2.stagedIn fo co input filter (depthwiseShape batch channel 14 14 3 3 7 7 1 2) bx b sh).filterData j
      = filter (b * 32 * 3 * 3 + j) := by
  unfold Filter3x3_Input14x14_Stride2.stagedIn
  refine Eq.trans (runLanes_frame 224 co hco (fun t sh => Filter3x3_Input14x14_Stride2.copyPhase input
    (depthwiseShape batch channel 14 14 3 3 7 7 1 2) bx b t sh) (fun sh => sh.filterData j)
    (fun t _ s => rfl) _) ?_
  refine runLanes_set 224 fo hfo _ (fun sh => sh.filterData j) _ (j % 224) (by omega) ?_ ?_ sh
  · intro s
    simp only [Filter3x3_Input14x14_Stride2.fillPhase, depthwiseShape, ite_apply, write_apply]
    split_ifs <;> (congr 1; omega)
  · intro t _ s
    simp only [Filter3x3_Input14x14_Stride2.fillPhase, depthwiseShape, ite_apply, write_apply]
    split_ifs <;> first | exact Or.inr rfl | (left; congr 1; omega)

theorem k14s2_inputDataIn [Zero α] (batch channel : Nat) (fo co : List Nat)
    (hfo : ∀ t, t ∈ fo ↔ t < 224) (hco : ∀ t, t ∈ co ↔ t < 224)
    (input filter : Nat → α) (bx b : Nat) (sh : Shared α)
    (R j : Nat) (hR : R < 32 * 14) (hj : j < 16) :
    (Filter3x3_Input14x14_Stride2.stagedIn fo co input filter (depthwiseShape batch channel 14 14 3 3 7 7 1 2) bx b sh).inputData (R * 16 + j)
      = if 1 ≤ j ∧ j < 14 + 1 then input (bx * channel * 14 * 14 + b * 32 * 14 * 14 + R * 14 + (j - 1)) else 0 := by
  unfold Filter3x3_Input14x14_Stride2.stagedIn
  by_cases hc : 1 ≤ j ∧ j < 14 + 1
  · rw [if_pos hc]
    refine runLanes_stores_set (fun sh => sh.inputData) 224 co hco _ _
      (fun t _ st => k14s2_copy_closed batch channel input bx b t st) _ _ ?_ ?_ _
    · intro t ht q hq hi
      simp only [List.mem_map, List.mem_range] at hq
      obtain ⟨k, hk, rfl⟩ := hq
      simp only at hi ⊢
      congr 1
      omega
    · refine ⟨R % 16 * 14 + (j - 1), by omega, _,
        List.mem_map.2 ⟨R / 16, List.mem_range.2 (by omega), rfl⟩, ?_⟩
      simp only
      omega
  · rw [if_neg hc]
    refine Eq.trans (runLanes_stores_frame (fun sh => sh.inputData) 224 co hco _ _
      (fun t _ st => k14s2_copy_closed batch channel input bx b t st) (R * 16 + j) ?_ _) ?_
    rotate_left
    · refine runLanes_stores_set (fun sh => sh.inputData) 224 fo hfo _ _
        (fun t _ st => k14s2_fill_closed batch channel filter bx b t st) (R * 16 + j) 0 ?_ ?_ sh
      · intro t ht q hq _
        obtain ⟨a, _, rfl⟩ := List.mem_map.1 hq
        rfl
      · refine ⟨R % 224, by omega, (R * 16 + j, 0), List.mem_map.2 ⟨R * 16 + j, ?_, rfl⟩, rfl⟩
        simp only [List.mem_cons, List.mem_singleton, List.not_mem_nil, or_false]
        omega
    · intro t ht q hq
      simp only [List.mem_map, List.mem_range] at hq
      obtain ⟨k, hk, rfl⟩ := hq
      simp only
      omega

theorem k14s2_staged_eq [Zero α] (bd : Nat) (input filter : Nat → α) (p : Shape) (bx b : Nat)
    (sh : Shared α) :
    Filter3x3_Input14x14_Stride2.staged bd input filter p bx b sh
      = Filter3x3_Input14x14_Stride2.stagedIn (List.range bd) (List.range bd) input filter p bx b sh := rfl

theorem k14s2_filterData [Zero α] (batch channel : Nat) (input filter : Nat → α) (bx b : Nat) (sh : Shared α)
    (j : Nat) (hj : j < 32 * (3 * 3)) :
    (Filter3x3_Input14x14_Stride2.staged 224 input filter (depthwiseShape batch channel 14 14 3 3 7 7 1 2) bx b sh).filterData j
      = filter (b * 32 * 3 * 3 + j) := by
  rw [k14s2_staged_eq]
  exact k14s2_filterDataIn batch channel (List.range 224) (List.range 224)
    (fun _ => List.mem_range) (fun _ => List.mem_range) input filter bx b sh j hj

theorem k14s2_inputData [Zero α] (batch channel : Nat) (input filter : Nat → α) (bx b : Nat) (sh : Shared α)
    (R j : Nat) (hR : R < 32 * 14) (hj : j < 16) :
    (Filter3x3_Input14x14_Stride2.staged 224 input filter (depthwiseShape batch channel 14 14 3 3 7 7 1 2) bx b sh).inputData (R * 16 + j)
      = if 1 ≤ j ∧ j < 14 + 1 then input (bx * channel * 14 * 14 + b * 32 * 14 * 14 + R * 14 + (j - 1)) else 0 := by
  rw [k14s2_staged_eq]
  exact k14s2_inputDataIn batch channel (List.range 224) (List.range 224)
    (fun _ => List.mem_range) (fun _ => List.mem_range) input filter bx b sh R j hR hj

/-- The value lane `t` stores for output row `k`, with the scratch reads replaced by what the
staging put there; no property of `+` and `*` is used. -/
theorem k14s2_lane_value [Add α] [Mul α] [Zero α] (batch channel : Nat) (fo co : List Nat)
    (hfo : ∀ t, t ∈ fo ↔ t < 224) (hco : ∀ t, t ∈ co ↔ t < 224)
    (input filter : Nat → α) (alpha beta : α)
    (bx b t k : Nat) (sh : Shared α) (ht : t < 224) :
    nestSum (taps 3
      (fun i => (Filter3x3_Input14x14_Stride2.stagedIn fo co input filter
        (depthwiseShape batch channel 14 14 3 3 7 7 1 2) bx b sh).filterData (t / 7 * 3 * 3 + i))
      (fun r kw => (Filter3x3_Input14x14_Stride2.stagedIn fo co input filter
        (depthwiseShape batch channel 14 14 3 3 7 7 1 2) bx b sh).inputData (t / 7 * 16 * 14 + t % 7 * 2 + r * 16 + kw))
      (tapRows 3 14 1 2 k)) * alpha + beta
    = tapValue input filter channel 14 14 3 3 1 2 alpha beta
        (tapRows 3 14 1 2 k) (fun r => (r : Int)) bx (b * 32 + t / 7) (t % 7) := by
  unfold tapValue
  congr 2
  apply congrArg
  apply taps_congr
  intro q hq kw hkw
  obtain ⟨h1, h2, h3⟩ := (mem_tapRows _ _ _ _ _ q).1 hq
  constructor
  · rw [k14s2_filterDataIn batch channel fo co hfo hco input filter bx b sh _ (by omega)]
    congr 1
    omega
  · have e : t / 7 * 16 * 14 + t % 7 * 2 + q.2 * 16 + kw
        = (t / 7 * 14 + q.2) * 16 + (t % 7 * 2 + kw) := by omega
    simp only
    rw [e, k14s2_inputDataIn batch channel fo co hfo hco input filter bx b sh _ _ (by omega) (by omega)]
    unfold paddedInput
    by_cases hc : 1 ≤ t % 7 * 2 + kw ∧ t % 7 * 2 + kw < 14 + 1
    · rw [if_pos hc, if_pos (by omega)]
      congr 1
      omega
    · rw [if_neg hc, if_neg (by omega)]

theorem k14s2_rows (k kh : Nat) :
    if 1 ≤ k * 2 + kh ∧ k * 2 + kh < 14 + 1 then
      (fun r : Nat => (r : Int)) (k * 2 + kh - 1) = (k : Int) * (2 : Nat) + kh - (1 : Nat)
    else ¬ (0 ≤ (k : Int) * (2 : Nat) + kh - (1 : Nat) ∧ (k : Int) * (2 : Nat) + kh - (1 : Nat) < (14 : Nat)) := by
  split_ifs with h
  · simp only
    omega
  · omega

theorem k14s2_value [CommRing α] (batch channel : Nat) (input filter : Nat → α) (alpha beta : α)
    (bx b t k : Nat) (sh : Shared α) (ht : t < 224) :
    nestSum (taps 3
      (fun i => (Filter3x3_Input14x14_Stride2.staged 224 input filter
        (depthwiseShape batch channel 14 14 3 3 7 7 1 2) bx b sh).filterData (t / 7 * 3 * 3 + i))
      (fun r kw => (Filter3x3_Input14x14_Stride2.staged 224 input filter
        (depthwiseShape batch channel 14 14 3 3 7 7 1 2) bx b sh).inputData (t / 7 * 16 * 14 + t % 7 * 2 + r * 16 + kw))
      (tapRows 3 14 1 2 k)) * alpha + beta
    = depthwiseRef input filter channel 14 14 3 3 1 2 alpha beta bx (b * 32 + t / 7) k (t % 7) := by
  rw [k14s2_staged_eq]
  exact (k14s2_lane_value batch channel (List.range 224) (List.range 224)
    (fun _ => List.mem_range) (fun _ => List.mem_range) input filter alpha beta bx b t k sh ht).trans
    (tapValue_eq_ref input filter channel 14 14 3 3 1 2 alpha beta bx (b * 32 + t / 7) k (t % 7)
      (fun r => (r : Int)) 14 1 2 k (fun kh _ => k14s2_rows k kh))

/-- The index lane `t` of group `(bx, b)` stores to at its `k`-th store is the flat index of
element `[bx, b * 32 + t / 7, k, t % 7]`. -/
theorem k14s2_store_index (channel bx b t k : Nat) :
    bx * channel * 7 * 7 + b * 32 * 7 * 7 + t / 7 * 7 * 7 + t % 7 + k * 7
      = nchw channel 7 7 bx (b * 32 + t / 7) k (t % 7) := by
  unfold nchw; omega

/-- Output element `[n, c, oh, ow]` after `Filter3x3_Input14x14_Stride2`, for any order of the groups and any order
of the lanes inside each of the three phases of a group. -/
theorem k14s2_elemIn [Add α] [Mul α] [Zero α] (batch channel : Nat) (groups : List (Nat × Nat))
    (fo co vo : Nat → Nat → List Nat)
    (hG : ∀ g, g ∈ groups ↔ g.1 < batch ∧ g.2 < channel / 32)
    (hfo : ∀ bx b t, t ∈ fo bx b ↔ t < 224) (hco : ∀ bx b t, t ∈ co bx b ↔ t < 224)
    (hvo : ∀ bx b t, t ∈ vo bx b ↔ t < 224)
    (input filter output : Nat → α) (alpha beta : α)
    (shared : Nat → Nat → Shared α) (n c oh ow : Nat) (hch : channel % 32 = 0)
    (hn : n < batch) (hc : c < channel) (hoh : oh < 7) (how : ow < 7) :
    Filter3x3_Input14x14_Stride2.launchIn groups fo co vo input filter output
      (depthwiseShape batch channel 14 14 3 3 7 7 1 2) alpha beta shared (nchw channel 7 7 n c oh ow)
    = tapValue input filter channel 14 14 3 3 1 2 alpha beta
        (tapRows 3 14 1 2 oh) (fun r => (r : Int)) n c ow := by
  unfold Filter3x3_Input14x14_Stride2.launchIn
  refine launch_rows_set batch (channel / 32) 224 7 (by omega) groups hG vo hvo
    (fun bx b t out => Filter3x3_Input14x14_Stride2.convolve
      (depthwiseShape batch channel 14 14 3 3 7 7 1 2) alpha beta bx b t
      (Filter3x3_Input14x14_Stride2.stagedIn (fo bx b) (co bx b) input filter
        (depthwiseShape batch channel 14 14 3 3 7 7 1 2) bx b (shared bx b)) out)
    _ _
    (fun bx _ b _ t _ out => k14s2_convolve_closed batch channel alpha beta bx b t _ out)
    _ _ ?_ ?_ output
  · intro bx hbx b hb t ht k y hy hi
    simp only [List.getElem?_map, List.getElem?_range, Option.map_eq_some'] at hy
    obtain ⟨k', hk', rfl⟩ := hy
    rw [List.getElem?_eq_some] at hk'
    obtain ⟨hk, rfl⟩ := hk'
    simp only [List.length_range, List.getElem_range] at hk ⊢
    rw [k14s2_lane_value batch channel (fo bx b) (co bx b) (hfo bx b) (hco bx b) input filter alpha beta bx b t k _ ht]
    rw [k14s2_store_index] at hi
    obtain ⟨rfl, rfl, rfl, rfl⟩ := nchw_inj (by omega) hc hk hoh (Nat.mod_lt _ (by omega)) how hi
    rfl
  · refine ⟨n, hn, c / 32, by omega, c % 32 * 7 + ow, by omega, oh, by simpa using hoh, ?_⟩
    unfold nchw
    have h1 : (c % 32 * 7 + ow) / 7 = c % 32 := by omega
    have h2 : (c % 32 * 7 + ow) % 7 = ow := by omega
    rw [h1, h2]
    omega

/-- No lane of `Filter3x3_Input14x14_Stride2` stores outside the `batch * channel * 7 * 7` output elements. -/
theorem k14s2_frameIn [Add α] [Mul α] [Zero α] (batch channel : Nat) (groups : List (Nat × Nat))
    (fo co vo : Nat → Nat → List Nat)
    (hG : ∀ g, g ∈ groups ↔ g.1 < batch ∧ g.2 < channel / 32)
    (hvo : ∀ bx b t, t ∈ vo bx b ↔ t < 224)
    (input filter output : Nat → α) (alpha beta : α)
    (shared : Nat → Nat → Shared α) (i : Nat) (hch : channel % 32 = 0)
    (hi : batch * channel * 7 * 7 ≤ i) :
    Filter3x3_Input14x14_Stride2.launchIn groups fo co vo input filter output
      (depthwiseShape batch channel 14 14 3 3 7 7 1 2) alpha beta shared i
    = output i := by
  unfold Filter3x3_Input14x14_Stride2.launchIn
  refine launch_rows_frame batch (channel / 32) 224 7 groups hG vo hvo
    (fun bx b t out => Filter3x3_Input14x14_Stride2.convolve
      (depthwiseShape batch channel 14 14 3 3 7 7 1 2) alpha beta bx b t
      (Filter3x3_Input14x14_Stride2.stagedIn (fo bx b) (co bx b) input filter
        (depthwiseShape batch channel 14 14 3 3 7 7 1 2) bx b (shared bx b)) out)
    _ _
    (fun bx _ b _ t _ out => k14s2_convolve_closed batch channel alpha beta bx b t _ out)
    i ?_ output
  intro bx hbx b hb t ht k hk
  simp only [List.length_map, List.length_range] at hk
  rw [k14s2_store_index]
  have hlt := nchw_lt batch channel 7 7 bx (b * 32 + t / 7) k (t % 7) hbx (by omega) hk
    (Nat.mod_lt _ (by omega))
  omega

/-- The launch of `Filter3x3_Input14x14_Stride2` is the run with the groups in grid order and the lanes ascending. -/
theorem k14s2_launch_eq [Add α] [Mul α] [Zero α] (gx gy bd : Nat) (input filter output : Nat → α)
    (p : Shape) (alpha beta : α) (shared : Nat → Nat → Shared α) :
    Filter3x3_Input14x14_Stride2 gx gy bd input filter output p alpha beta shared
    = Filter3x3_Input14x14_Stride2.launchIn (gridGroups gx gy) (fun _ _ => List.range bd) (fun _ _ => List.range bd)
        (fun _ _ => List.range bd) input filter output p alpha beta shared :=
  forLoop_grid gx gy (fun bx b out => Filter3x3_Input14x14_Stride2.block bd input filter p alpha beta bx b (shared bx b) out) output

/-- Output element `[n, c, oh, ow]` after `Filter3x3_Input14x14_Stride2` is the reference value. -/
theorem k14s2_correct [CommRing α] (batch channel : Nat) (input filter output : Nat → α) (alpha beta : α)
    (shared : Nat → Nat → Shared α) (n c oh ow : Nat) (hch : channel % 32 = 0)
    (hn : n < batch) (hc : c < channel) (hoh : oh < 7) (how : ow < 7) :
    Filter3x3_Input14x14_Stride2 batch (channel / 32) 224 input filter output
      (depthwiseShape batch channel 14 14 3 3 7 7 1 2) alpha beta shared (nchw channel 7 7 n c oh ow)
    = depthwiseRef input filter channel 14 14 3 3 1 2 alpha beta n c oh ow := by
  rw [k14s2_launch_eq, k14s2_elemIn batch channel _ _ _ _ (mem_gridGroups _ _)
    (fun _ _ _ => List.mem_range) (fun _ _ _ => List.mem_range) (fun _ _ _ => List.mem_range)
    input filter output alpha beta shared n c oh ow hch hn hc hoh how]
  exact tapValue_eq_ref input filter channel 14 14 3 3 1 2 alpha beta n c oh ow
    (fun r => (r : Int)) 14 1 2 oh (fun kh _ => k14s2_rows oh kh)

end k14s2

section k14s2_trace
variable {α : Type}

/-- The output stores of a lane of `Filter3x3_Input14x14_Stride2` are exactly the 7 stores at
`outputIdx ... 0`, ..., `outputIdx ... 6`. -/
theorem k14s2_convolve_stores [Add α] [Mul α] [Zero α] (batch channel : Nat) (alpha beta : α)
    (bx b t : Nat) (sh : Shared α) :
    StoresAt (Filter3x3_Input14x14_Stride2.convolve (depthwiseShape batch channel 14 14 3 3 7 7 1 2) alpha beta bx b t sh) 7
      (Filter3x3_Input14x14_Stride2.outputIdx (depthwiseShape batch channel 14 14 3 3 7 7 1 2) bx b t) :=
  storesAt_of_writeRows _ 7 _ 7 _ _ (by simp) (fun k => rfl)
    (fun out => k14s2_convolve_closed batch channel alpha beta bx b t sh out)

theorem k14s2_outputIdx_eq (batch channel bx b t k : Nat) :
    Filter3x3_Input14x14_Stride2.outputIdx (depthwiseShape batch channel 14 14 3 3 7 7 1 2) bx b t k
      = nchw channel 7 7 bx (b * 32 + t / 7) (k) (t % 7) :=
  k14s2_store_index channel bx b t k

theorem k14s2_storeBijection (batch channel : Nat) (hch : channel % 32 = 0) :
    StoreBijection batch (channel / 32) 224 7 (batch * channel * 7 * 7)
      (Filter3x3_Input14x14_Stride2.outputIdx (depthwiseShape batch channel 14 14 3 3 7 7 1 2)) := by
  refine ⟨?_, ?_, ?_⟩
  · intro bx hbx b hb t ht k hk
    rw [k14s2_outputIdx_eq]
    exact nchw_lt batch channel 7 7 bx _ _ _ hbx (by omega) (by omega) (Nat.mod_lt _ (by omega))
  · intro bx hbx b hb t ht k hk bx' hbx' b' hb' t' ht' k' hk' e
    rw [k14s2_outputIdx_eq, k14s2_outputIdx_eq] at e
    obtain ⟨h1, h2, h3, h4⟩ := nchw_inj (C := channel) (by omega) (by omega) (by omega) (by omega)
      (Nat.mod_lt _ (by omega)) (Nat.mod_lt _ (by omega)) e
    refine ⟨h1, ?_, ?_, ?_⟩ <;> omega
  · intro i hi
    obtain ⟨n, c, oh, ow, hn, hc, hoh, how, rfl⟩ := nchw_surj batch channel 7 7 i hi
    refine ⟨n, hn, c / 32, by omega, c % 32 * 7 + ow, by omega, oh, by omega, ?_⟩
    rw [k14s2_outputIdx_eq]
    have h1 : (c % 32 * 7 + ow) / 7 = c % 32 := by omega
    have h2 : (c % 32 * 7 + ow) % 7 = ow := by omega
    rw [h1, h2]
    congr 1 <;> omega

/-- The filter staging lines of a lane of `Filter3x3_Input14x14_Stride2` perform exactly the stores
listed by `filterStores`. -/
theorem k14s2_filter_stores [Zero α] (batch channel : Nat) (filter : Nat → α) (bx b t : Nat)
    (sh : Shared α) :
    (Filter3x3_Input14x14_Stride2.fillPhase filter (depthwiseShape batch channel 14 14 3 3 7 7 1 2) bx b t sh).filterData
      = writeList ((Filter3x3_Input14x14_Stride2.filterStores (depthwiseShape batch channel 14 14 3 3 7 7 1 2) b t).map (fun q => (q.1, filter q.2)))
          sh.filterData := by
  simp only [Filter3x3_Input14x14_Stride2.fillPhase, Filter3x3_Input14x14_Stride2.filterStores, depthwiseShape]
  split_ifs <;> rfl

theorem k14s2_filter_once (batch channel b : Nat) :
    WrittenOnce 224 (32 * (3 * 3)) (Filter3x3_Input14x14_Stride2.filterStores (depthwiseShape batch channel 14 14 3 3 7 7 1 2) b) :=
  writtenOnce_two 224 64 (fun t => b * 32 * 3 * 3 + t) (fun t => 7 * 32 + (b * 32 * 3 * 3 + t)) (by omega)

/-- Every sequential schedule of `Filter3x3_Input14x14_Stride2` produces the output buffer of the
launch in grid order with ascending lanes. -/
theorem k14s2_schedule_eq [Add α] [Mul α] [Zero α] (batch channel : Nat) (hch : channel % 32 = 0)
    (groups : List (Nat × Nat)) (fo co vo : Nat → Nat → List Nat)
    (hs : IsSchedule batch (channel / 32) 224 groups fo co vo)
    (input filter output : Nat → α) (alpha beta : α) (shared shared' : Nat → Nat → Shared α) :
    Filter3x3_Input14x14_Stride2.launchIn groups fo co vo input filter output (depthwiseShape batch channel 14 14 3 3 7 7 1 2) alpha beta shared
      = Filter3x3_Input14x14_Stride2 batch (channel / 32) 224 input filter output (depthwiseShape batch channel 14 14 3 3 7 7 1 2) alpha beta shared' := by
  obtain ⟨hG, hfo, hco, hvo⟩ := isSchedule_mem _ _ _ _ _ _ _ hs
  funext i
  rw [k14s2_launch_eq]
  by_cases hi : i < batch * channel * 7 * 7
  · obtain ⟨n, c, oh, ow, hn, hc, hoh, how, rfl⟩ := nchw_surj batch channel 7 7 i hi
    rw [k14s2_elemIn batch channel groups fo co vo hG hfo hco hvo input filter output alpha beta
        shared n c oh ow hch hn hc hoh how,
      k14s2_elemIn batch channel _ _ _ _ (mem_gridGroups _ _) (fun _ _ _ => List.mem_range)
        (fun _ _ _ => List.mem_range) (fun _ _ _ => List.mem_range) input filter output alpha beta
        shared' n c oh ow hch hn hc hoh how]
  · rw [k14s2_frameIn batch channel groups fo co vo hG hvo input filter output alpha beta
        shared i hch (by omega),
      k14s2_frameIn batch channel _ _ _ _ (mem_gridGroups _ _) (fun _ _ _ => List.mem_range)
        input filter output alpha beta shared' i hch (by omega)]

end k14s2_trace

section k5x5
variable {α : Type}

theorem k5x5_convolve_closed [Add α] [Mul α] [Zero α] (batch channel : Nat) (alpha beta : α) (bx b t : Nat)
    (sh : Shared α) (out : Nat → α) :
    Filter5x5_Input14x14_Stride2.convolve (depthwiseShape batch channel 14 14 5 5 7 7 2 2) alpha beta bx b t sh out
    = writeRows (bx * channel * 7 * 7 + b * 32 * 7 * 7 + t / 7 * 7 * 7 + t % 7) 7
        ((List.range 7).map (fun oh => nestSum (taps 5 (fun i => sh.filterData (t / 7 * 5 * 5 + i))
            (fun r kw => sh.inputData (t / 7 * 18 * 14 + t % 7 * 2 + kw + r * 18)) (tapRows 5 14 2 2 oh)) * alpha + beta)) out := by
  rfl

theorem k5x5_copy_closed (batch channel : Nat) (input : Nat → α) (bx b t : Nat) (sh : Shared α) :
    (Filter5x5_Input14x14_Stride2.copyPhase input (depthwiseShape batch channel 14 14 5 5 7 7 2 2) bx b t sh).inputData
    = writeList ((List.range 28).map (fun k => (t / 14 * 4 + t + 2 + 16 * 18 * k,
        input (bx * channel * 14 * 14 + b * 32 * 14 * 14 + t + 16 * 14 * k)))) sh.inputData := by
  rfl

theorem k5x5_fill_closed [Zero α] (batch channel : Nat) (filter : Nat → α) (bx b t : Nat) (sh : Shared α) :
    (Filter5x5_Input14x14_Stride2.fillPhase filter (depthwiseShape batch channel 14 14 5 5 7 7 2 2) bx b t sh).inputData
    = writeList (([t * 18, t * 18 + 1, t * 18 + 16, t * 18 + 17, t * 18 + 16 * 14 * 18, t * 18 + 16 * 14 * 18 + 1, t * 18 + 16 * 14 * 18 + 16, t * 18 + 16 * 14 * 18 + 17]).map (fun a => (a, (0 : α)))) sh.inputData := by
  rfl

theorem k5x5_filterDataIn [Zero α] (batch channel : Nat) (fo co : List Nat)
    (hfo : ∀ t, t ∈ fo ↔ t < 224) (hco : ∀ t, t ∈ co ↔ t < 224)
    (input filter : Nat → α) (bx b : Nat) (sh : Shared α)
    (j : Nat) (hj : j < 32 * (5 * 5)) :
    (Filter5x5_Input14x14_Stride2.stagedIn fo co input filter (depthwiseShape batch channel 14 14 5 5 7 7 2 2) bx b sh).filterData j
      = filter (b * 32 * 5 * 5 + j) := by
  unfold Filter5x5_Input14x14_Stride2.stagedIn
  refine Eq.trans (runLanes_frame 224 co hco (fun t sh => Filter5x5_Input14x14_Stride2.copyPhase input
    (depthwiseShape batch channel 14 14 5 5 7 7 2 2) bx b t sh) (fun sh => sh.filterData j)
    (fun t _ s => rfl) _) ?_
  refine runLanes_set 224 fo hfo _ (fun sh => sh.filterData j) _ (j % 200) (by omega) ?_ ?_ sh
  · intro s
    simp only [Filter5x5_Input14x14_Stride2.fillPhase, depthwiseShape, ite_apply, write_apply]
    split_ifs <;> (congr 1; omega)
  · intro t _ s
    simp only [Filter5x5_Input14x14_Stride2.fillPhase, depthwiseShape, ite_apply, write_apply]
    split_ifs <;> first | exact Or.inr rfl | (left; congr 1; omega)

theorem k5x5_inputDataIn [Zero α] (batch channel : Nat) (fo co : List Nat)
    (hfo : ∀ t, t ∈ fo ↔ t < 224) (hco : ∀ t, t ∈ co ↔ t < 224)
    (input filter : Nat → α) (bx b : Nat) (sh : Shared α)
    (R j : Nat) (hR : R < 32 * 14) (hj : j < 18) :
    (Filter5x5_Input14x14_Stride2.stagedIn fo co input filter (depthwiseShape batch channel 14 14 5 5 7 7 2 2) bx b sh).inputData (R * 18 + j)
      = if 2 ≤ j ∧ j < 14 + 2 then input (bx * channel * 14 * 14 + b * 32 * 14 * 14 + R * 14 + (j - 2)) else 0 := by
  unfold Filter5x5_Input14x14_Stride2.stagedIn
  by_cases hc : 2 ≤ j ∧ j < 14 + 2
  · rw [if_pos hc]
    refine runLanes_stores_set (fun sh => sh.inputData) 224 co hco _ _
      (fun t _ st => k5x5_copy_closed batch channel input bx b t st) _ _ ?_ ?_ _
    · intro t ht q hq hi
      simp only [List.mem_map, List.mem_range] at hq
      obtain ⟨k, hk, rfl⟩ := hq
      simp only at hi ⊢
      congr 1
      omega
    · refine ⟨R % 16 * 14 + (j - 2), by omega, _,
        List.mem_map.2 ⟨R / 16, List.mem_range.2 (by omega), rfl⟩, ?_⟩
      simp only
      omega
  · rw [if_neg hc]
    refine Eq.trans (runLanes_stores_frame (fun sh => sh.inputData) 224 co hco _ _
      (fun t _ st => k5x5_copy_closed batch channel input bx b t st) (R * 18 + j) ?_ _) ?_
    rotate_left
    · refine runLanes_stores_set (fun sh => sh.inputData) 224 fo hfo _ _
        (fun t _ st => k5x5_fill_closed batch channel filter bx b t st) (R * 18 + j) 0 ?_ ?_ sh
      · intro t ht q hq _
        obtain ⟨a, _, rfl⟩ := List.mem_map.1 hq
        rfl
      · refine ⟨R % 224, by omega, (R * 18 + j, 0), List.mem_map.2 ⟨R * 18 + j, ?_, rfl⟩, rfl⟩
        simp only [List.mem_cons, List.mem_singleton, List.not_mem_nil, or_false]
        omega
    · intro t ht q hq
      simp only [List.mem_map, List.mem_range] at hq
      obtain ⟨k, hk, rfl⟩ := hq
      simp only
      omega

theorem k5x5_staged_eq [Zero α] (bd : Nat) (input filter : Nat → α) (p : Shape) (bx b : Nat)
    (sh : Shared α) :
    Filter5x5_Input14x14_Stride2.staged bd input filter p bx b sh
      = Filter5x5_Input14x14_Stride2.stagedIn (List.range bd) (List.range bd) input filter p bx b sh := rfl

theorem k5x5_filterData [Zero α] (batch channel : Nat) (input filter : Nat → α) (bx b : Nat) (sh : Shared α)
    (j : Nat) (hj : j < 32 * (5 * 5)) :
    (Filter5x5_Input14x14_Stride2.staged 224 input filter (depthwiseShape batch channel 14 14 5 5 7 7 2 2) bx b sh).filterData j
      = filter (b * 32 * 5 * 5 + j) := by
  rw [k5x5_staged_eq]
  exact k5x5_filterDataIn batch channel (List.range 224) (List.range 224)
    (fun _ => List.mem_range) (fun _ => List.mem_range) input filter bx b sh j hj

theorem k5x5_inputData [Zero α] (batch channel : Nat) (input filter : Nat → α) (bx b : Nat) (sh : Shared α)
    (R j : Nat) (hR : R < 32 * 14) (hj : j < 18) :
    (Filter5x5_Input14x14_Stride2.staged 224 input filter (depthwiseShape batch channel 14 14 5 5 7 7 2 2) bx b sh).inputData (R * 18 + j)
      = if 2 ≤ j ∧ j < 14 + 2 then input (bx * channel * 14 * 14 + b * 32 * 14 * 14 + R * 14 + (j - 2)) else 0 := by
  rw [k5x5_staged_eq]
  exact k5x5_inputDataIn batch channel (List.range 224) (List.range 224)
    (fun _ => List.mem_range) (fun _ => List.mem_range) input filter bx b sh R j hR hj

/-- The value lane `t` stores for output row `k`, with the scratch reads replaced by what the
staging put there; no property of `+` and `*` is used. -/
theorem k5x5_lane_value [Add α] [Mul α] [Zero α] (batch channel : Nat) (fo co : List Nat)
    (hfo : ∀ t, t ∈ fo ↔ t < 224) (hco : ∀ t, t ∈ co ↔ t < 224)
    (input filter : Nat → α) (alpha beta : α)
    (bx b t k : Nat) (sh : Shared α) (ht : t < 224) :
    nestSum (taps 5
      (fun i => (Filter5x5_Input14x14_Stride2.stagedIn fo co input filter
        (depthwiseShape batch channel 14 14 5 5 7 7 2 2) bx b sh).filterData (t / 7 * 5 * 5 + i))
      (fun r kw => (Filter5x5_Input14x14_Stride2.stagedIn fo co input filter
        (depthwiseShape batch channel 14 14 5 5 7 7 2 2) bx b sh).inputData (t / 7 * 18 * 14 + t % 7 * 2 + kw + r * 18))
      (tapRows 5 14 2 2 k)) * alpha + beta
    = tapValue input filter channel 14 14 5 5 2 2 alpha beta
        (tapRows 5 14 2 2 k) (fun r => (r : Int)) bx (b * 32 + t / 7) (t % 7) := by
  unfold tapValue
  congr 2
  apply congrArg
  apply taps_congr
  intro q hq kw hkw
  obtain ⟨h1, h2, h3⟩ := (mem_tapRows _ _ _ _ _ q).1 hq
  constructor
  · rw [k5x5_filterDataIn batch channel fo co hfo hco input filter bx b sh _ (by omega)]
    congr 1
    omega
  · have e : t / 7 * 18 * 14 + t % 7 * 2 + kw + q.2 * 18
        = (t / 7 * 14 + q.2) * 18 + (t % 7 * 2 + kw) := by omega
    simp only
    rw [e, k5x5_inputDataIn batch channel fo co hfo hco input filter bx b sh _ _ (by omega) (by omega)]
    unfold paddedInput
    by_cases hc : 2 ≤ t % 7 * 2 + kw ∧ t % 7 * 2 + kw < 14 + 2
    · rw [if_pos hc, if_pos (by omega)]
      congr 1
      omega
    · rw [if_neg hc, if_neg (by omega)]

theorem k5x5_rows (k kh : Nat) :
    if 2 ≤ k * 2 + kh ∧ k * 2 + kh < 14 + 2 then
      (fun r : Nat => (r : Int)) (k * 2 + kh - 2) = (k : Int) * (2 : Nat) + kh - (2 : Nat)
    else ¬ (0 ≤ (k : Int) * (2 : Nat) + kh - (2 : Nat) ∧ (k : Int) * (2 : Nat) + kh - (2 : Nat) < (14 : Nat)) := by
  split_ifs with h
  · simp only
    omega
  · omega

theorem k5x5_value [CommRing α] (batch channel : Nat) (input filter : Nat → α) (alpha beta : α)
    (bx b t k : Nat) (sh : Shared α) (ht : t < 224) :
    nestSum (taps 5
      (fun i => (Filter5x5_Input14x14_Stride2.staged 224 input filter
        (depthwiseShape batch channel 14 14 5 5 7 7 2 2) bx b sh).filterData (t / 7 * 5 * 5 + i))
      (fun r kw => (Filter5x5_Input14x14_Stride2.staged 224 input filter
        (depthwiseShape batch channel 14 14 5 5 7 7 2 2) bx b sh).inputData (t / 7 * 18 * 14 + t % 7 * 2 + kw + r * 18))
      (tapRows 5 14 2 2 k)) * alpha + beta
    = depthwiseRef input filter channel 14 14 5 5 2 2 alpha beta bx (b * 32 + t / 7) k (t % 7) := by
  rw [k5x5_staged_eq]
  exact (k5x5_lane_value batch channel (List.range 224) (List.range 224)
    (fun _ => List.mem_range) (fun _ => List.mem_range) input filter alpha beta bx b t k sh ht).trans
    (tapValue_eq_ref input filter channel 14 14 5 5 2 2 alpha beta bx (b * 32 + t / 7) k (t % 7)
      (fun r => (r : Int)) 14 2 2 k (fun kh _ => k5x5_rows k kh))

/-- The index lane `t` of group `(bx, b)` stores to at its `k`-th store is the flat index of
element `[bx, b * 32 + t / 7, k, t % 7]`. -/
theorem k5x5_store_index (channel bx b t k : Nat) :
    bx * channel * 7 * 7 + b * 32 * 7 * 7 + t / 7 * 7 * 7 + t % 7 + k * 7
      = nchw channel 7 7 bx (b * 32 + t / 7) k (t % 7) := by
  unfold nchw; omega

/-- Output element `[n, c, oh, ow]` after `Filter5x5_Input14x14_Stride2`, for any order of the groups and any order
of the lanes inside each of the three phases of a group. -/
theorem k5x5_elemIn [Add α] [Mul α] [Zero α] (batch channel : Nat) (groups : List (Nat × Nat))
    (fo co vo : Nat → Nat → List Nat)
    (hG : ∀ g, g ∈ groups ↔ g.1 < batch ∧ g.2 < channel / 32)
    (hfo : ∀ bx b t, t ∈ fo bx b ↔ t < 224) (hco : ∀ bx b t, t ∈ co bx b ↔ t < 224)
    (hvo : ∀ bx b t, t ∈ vo bx b ↔ t < 224)
    (input filter output : Nat → α) (alpha beta : α)
    (shared : Nat → Nat → Shared α) (n c oh ow : Nat) (hch : channel % 32 = 0)
    (hn : n < batch) (hc : c < channel) (hoh : oh < 7) (how : ow < 7) :
    Filter5x5_Input14x14_Stride2.launchIn groups fo co vo input filter output
      (depthwiseShape batch channel 14 14 5 5 7 7 2 2) alpha beta shared (nchw channel 7 7 n c oh ow)
    = tapValue input filter channel 14 14 5 5 2 2 alpha beta
        (tapRows 5 14 2 2 oh) (fun r => (r : Int)) n c ow := by
  unfold Filter5x5_Input14x14_Stride2.launchIn
  refine launch_rows_set batch (channel / 32) 224 7 (by omega) groups hG vo hvo
    (fun bx b t out => Filter5x5_Input14x14_Stride2.convolve
      (depthwiseShape batch channel 14 14 5 5 7 7 2 2) alpha beta bx b t
      (Filter5x5_Input14x14_Stride2.stagedIn (fo bx b) (co bx b) input filter
        (depthwiseShape batch channel 14 14 5 5 7 7 2 2) bx b (shared bx b)) out)
    _ _
    (fun bx _ b _ t _ out => k5x5_convolve_closed batch channel alpha beta bx b t _ out)
    _ _ ?_ ?_ output
  · intro bx hbx b hb t ht k y hy hi
    simp only [List.getElem?_map, List.getElem?_range, Option.map_eq_some'] at hy
    obtain ⟨k', hk', rfl⟩ := hy
    rw [List.getElem?_eq_some] at hk'
    obtain ⟨hk, rfl⟩ := hk'
    simp only [List.length_range, List.getElem_range] at hk ⊢
    rw [k5x5_lane_value batch channel (fo bx b) (co bx b) (hfo bx b) (hco bx b) input filter alpha beta bx b t k _ ht]
    rw [k5x5_store_index] at hi
    obtain ⟨rfl, rfl, rfl, rfl⟩ := nchw_inj (by omega) hc hk hoh (Nat.mod_lt _ (by omega)) how hi
    rfl
  · refine ⟨n, hn, c / 32, by omega, c % 32 * 7 + ow, by omega, oh, by simpa using hoh, ?_⟩
    unfold nchw
    have h1 : (c % 32 * 7 + ow) / 7 = c % 32 := by omega
    have h2 : (c % 32 * 7 + ow) % 7 = ow := by omega
    rw [h1, h2]
    omega

/-- No lane of `Filter5x5_Input14x14_Stride2` stores outside the `batch * channel * 7 * 7` output elements. -/
theorem k5x5_frameIn [Add α] [Mul α] [Zero α] (batch channel : Nat) (groups : List (Nat × Nat))
    (fo co vo : Nat → Nat → List Nat)
    (hG : ∀ g, g ∈ groups ↔ g.1 < batch ∧ g.2 < channel / 32)
    (hvo : ∀ bx b t, t ∈ vo bx b ↔ t < 224)
    (input filter output : Nat → α) (alpha beta : α)
    (shared : Nat → Nat → Shared α) (i : Nat) (hch : channel % 32 = 0)
    (hi : batch * channel * 7 * 7 ≤ i) :
    Filter5x5_Input14x14_Stride2.launchIn groups fo co vo input filter output
      (depthwiseShape batch channel 14 14 5 5 7 7 2 2) alpha beta shared i
    = output i := by
  unfold Filter5x5_Input14x14_Stride2.launchIn
  refine launch_rows_frame batch (channel / 32) 224 7 groups hG vo hvo
    (fun bx b t out => Filter5x5_Input14x14_Stride2.convolve
      (depthwiseShape batch channel 14 14 5 5 7 7 2 2) alpha beta bx b t
      (Filter5x5_Input14x14_Stride2.stagedIn (fo bx b) (co bx b) input filter
        (depthwiseShape batch channel 14 14 5 5 7 7 2 2) bx b (shared bx b)) out)
    _ _
    (fun bx _ b _ t _ out => k5x5_convolve_closed batch channel alpha beta bx b t _ out)
    i ?_ output
  intro bx hbx b hb t ht k hk
  simp only [List.length_map, List.length_range] at hk
  rw [k5x5_store_index]
  have hlt := nchw_lt batch channel 7 7 bx (b * 32 + t / 7) k (t % 7) hbx (by omega) hk
    (Nat.mod_lt _ (by omega))
  omega

/-- The launch of `Filter5x5_Input14x14_Stride2` is the run with the groups in grid order and the lanes ascending. -/
theorem k5x5_launch_eq [Add α] [Mul α] [Zero α] (gx gy bd : Nat) (input filter output : Nat → α)
    (p : Shape) (alpha beta : α) (shared : Nat → Nat → Shared α) :
    Filter5x5_Input14x14_Stride2 gx gy bd input filter output p alpha beta shared
    = Filter5x5_Input14x14_Stride2.launchIn (gridGroups gx gy) (fun _ _ => List.range bd) (fun _ _ => List.range bd)
        (fun _ _ => List.range bd) input filter output p alpha beta shared :=
  forLoop_grid gx gy (fun bx b out => Filter5x5_Input14x14_Stride2.block bd input filter p alpha beta bx b (shared bx b) out) output

/-- Output element `[n, c, oh, ow]` after `Filter5x5_Input14x14_Stride2` is the reference value. -/
theorem k5x5_correct [CommRing α] (batch channel : Nat) (input filter output : Nat → α) (alpha beta : α)
    (shared : Nat → Nat → Shared α) (n c oh ow : Nat) (hch : channel % 32 = 0)
    (hn : n < batch) (hc : c < channel) (hoh : oh < 7) (how : ow < 7) :
    Filter5x5_Input14x14_Stride2 batch (channel / 32) 224 input filter output
      (depthwiseShape batch channel 14 14 5 5 7 7 2 2) alpha beta shared (nchw channel 7 7 n c oh ow)
    = depthwiseRef input filter channel 14 14 5 5 2 2 alpha beta n c oh ow := by
  rw [k5x5_launch_eq, k5x5_elemIn batch channel _ _ _ _ (mem_gridGroups _ _)
    (fun _ _ _ => List.mem_range) (fun _ _ _ => List.mem_range) (fun _ _ _ => List.mem_range)
    input filter output alpha beta shared n c oh ow hch hn hc hoh how]
  exact tapValue_eq_ref input filter channel 14 14 5 5 2 2 alpha beta n c oh ow
    (fun r => (r : Int)) 14 2 2 oh (fun kh _ => k5x5_rows oh kh)

end k5x5

section k5x5_trace
variable {α : Type}

/-- The output stores of a lane of `Filter5x5_Input14x14_Stride2` are exactly the 7 stores at
`outputIdx ... 0`, ..., `outputIdx ... 6`. -/
theorem k5x5_convolve_stores [Add α] [Mul α] [Zero α] (batch channel : Nat) (alpha beta : α)
    (bx b t : Nat) (sh : Shared α) :
    StoresAt (Filter5x5_Input14x14_Stride2.convolve (depthwiseShape batch channel 14 14 5 5 7 7 2 2) alpha beta bx b t sh) 7
      (Filter5x5_Input14x14_Stride2.outputIdx (depthwiseShape batch channel 14 14 5 5 7 7 2 2) bx b t) :=
  storesAt_of_writeRows _ 7 _ 7 _ _ (by simp) (fun k => rfl)
    (fun out => k5x5_convolve_closed batch channel alpha beta bx b t sh out)

theorem k5x5_outputIdx_eq (batch channel bx b t k : Nat) :
    Filter5x5_Input14x14_Stride2.outputIdx (depthwiseShape batch channel 14 14 5 5 7 7 2 2) bx b t k
      = nchw channel 7 7 bx (b * 32 + t / 7) (k) (t % 7) :=
  k5x5_store_index channel bx b t k

theorem k5x5_storeBijection (batch channel : Nat) (hch : channel % 32 = 0) :
    StoreBijection batch (channel / 32) 224 7 (batch * channel * 7 * 7)
      (Filter5x5_Input14x14_Stride2.outputIdx (depthwiseShape batch channel 14 14 5 5 7 7 2 2)) := by
  refine ⟨?_, ?_, ?_⟩
  · intro bx hbx b hb t ht k hk
    rw [k5x5_outputIdx_eq]
    exact nchw_lt batch channel 7 7 bx _ _ _ hbx (by omega) (by omega) (Nat.mod_lt _ (by omega))
  · intro bx hbx b hb t ht k hk bx' hbx' b' hb' t' ht' k' hk' e
    rw [k5x5_outputIdx_eq, k5x5_outputIdx_eq] at e
    obtain ⟨h1, h2, h3, h4⟩ := nchw_inj (C := channel) (by omega) (by omega) (by omega) (by omega)
      (Nat.mod_lt _ (by omega)) (Nat.mod_lt _ (by omega)) e
    refine ⟨h1, ?_, ?_, ?_⟩ <;> omega
  · intro i hi
    obtain ⟨n, c, oh, ow, hn, hc, hoh, how, rfl⟩ := nchw_surj batch channel 7 7 i hi
    refine ⟨n, hn, c / 32, by omega, c % 32 * 7 + ow, by omega, oh, by omega, ?_⟩
    rw [k5x5_outputIdx_eq]
    have h1 : (c % 32 * 7 + ow) / 7 = c % 32 := by omega
    have h2 : (c % 32 * 7 + ow) % 7 = ow := by omega
    rw [h1, h2]
    congr 1 <;> omega

/-- The filter staging lines of a lane of `Filter5x5_Input14x14_Stride2` perform exactly the stores
listed by `filterStores`. -/
theorem k5x5_filter_stores [Zero α] (batch channel : Nat) (filter : Nat → α) (bx b t : Nat)
    (sh : Shared α) :
    (Filter5x5_Input14x14_Stride2.fillPhase filter (depthwiseShape batch channel 14 14 5 5 7 7 2 2) bx b t sh).filterData
      = writeList ((Filter5x5_Input14x14_Stride2.filterStores (depthwiseShape batch channel 14 14 5 5 7 7 2 2) b t).map (fun q => (q.1, filter q.2)))
          sh.filterData := by
  simp only [Filter5x5_Input14x14_Stride2.fillPhase, Filter5x5_Input14x14_Stride2.filterStores, depthwiseShape]
  split_ifs <;> rfl

theorem k5x5_filter_once (batch channel b : Nat) :
    WrittenOnce 224 (32 * (5 * 5)) (Filter5x5_Input14x14_Stride2.filterStores (depthwiseShape batch channel 14 14 5 5 7 7 2 2) b) :=
  writtenOnce_four 224 (8 * 25) _ _ _ _ (by omega)

/-- Every sequential schedule of `Filter5x5_Input14x14_Stride2` produces the output buffer of the
launch in grid order with ascending lanes. -/
theorem k5x5_schedule_eq [Add α] [Mul α] [Zero α] (batch channel : Nat) (hch : channel % 32 = 0)
    (groups : List (Nat × Nat)) (fo co vo : Nat → Nat → List Nat)
    (hs : IsSchedule batch (channel / 32) 224 groups fo co vo)
    (input filter output : Nat → α) (alpha beta : α) (shared shared' : Nat → Nat → Shared α) :
    Filter5x5_Input14x14_Stride2.launchIn groups fo co vo input filter output (depthwiseShape batch channel 14 14 5 5 7 7 2 2) alpha beta shared
      = Filter5x5_Input14x14_Stride2 batch (channel / 32) 224 input filter output (depthwiseShape batch channel 14 14 5 5 7 7 2 2) alpha beta shared' := by
  obtain ⟨hG, hfo, hco, hvo⟩ := isSchedule_mem _ _ _ _ _ _ _ hs
  funext i
  rw [k5x5_launch_eq]
  by_cases hi : i < batch * channel * 7 * 7
  · obtain ⟨n, c, oh, ow, hn, hc, hoh, how, rfl⟩ := nchw_surj batch channel 7 7 i hi
    rw [k5x5_elemIn batch channel groups fo co vo hG hfo hco hvo input filter output alpha beta
        shared n c oh ow hch hn hc hoh how,
      k5x5_elemIn batch channel _ _ _ _ (mem_gridGroups _ _) (fun _ _ _ => List.mem_range)
        (fun _ _ _ => List.mem_range) (fun _ _ _ => List.mem_range) input filter output alpha beta
        shared' n c oh ow hch hn hc hoh how]
  · rw [k5x5_frameIn batch channel groups fo co vo hG hvo input filter output alpha beta
        shared i hch (by omega),
      k5x5_frameIn batch channel _ _ _ _ (mem_gridGroups _ _) (fun _ _ _ => List.mem_range)
        input filter output alpha beta shared' i hch (by omega)]

end k5x5_trace

section k28s1
variable {α : Type}

theorem k28s1_convolve_closed [Add α] [Mul α] [Zero α] (batch channel : Nat) (alpha beta : α) (bx b t : Nat)
    (sh : Shared α) (out : Nat → α) :
    Filter3x3_Input28x28_Stride1.convolve (depthwiseShape batch channel 28 28 3 3 28 28 1 1) alpha beta bx b t sh out
    = writeRows (bx * channel * 28 * 28 + b * 8 * 28 * 28 + t / 28 * 28 * 28 + t % 28) 28
        ((List.range 28).map (fun oh => nestSum (taps 3 (fun i => sh.filterData (t / 28 * 3 * 3 + i))
            (fun r kw => sh.inputData (t / 28 * 30 * 28 + t % 28 + r * 30 + kw)) (tapRows 3 28 1 1 oh)) * alpha + beta)) out := by
  rfl

theorem k28s1_copy_closed (batch channel : Nat) (input : Nat → α) (bx b t : Nat) (sh : Shared α) :
    (Filter3x3_Input28x28_Stride1.copyPhase input (depthwiseShape batch channel 28 28 3 3 28 28 1 1) bx b t sh).inputData
    = writeList ((List.range 28).map (fun k => (t / 28 * 2 + t + 1 + 8 * 30 * k,
        input (bx * channel * 28 * 28 + b * 8 * 28 * 28 + t + 8 * 28 * k)))) sh.inputData := by
  rfl

theorem k28s1_fill_closed [Zero α] (batch channel : Nat) (filter : Nat → α) (bx b t : Nat) (sh : Shared α) :
    (Filter3x3_Input28x28_Stride1.fillPhase filter (depthwiseShape batch channel 28 28 3 3 28 28 1 1) bx b t sh).inputData
    = writeList (([t * 30, t * 30 + 29]).map (fun a => (a, (0 : α)))) sh.inputData := by
  rfl

theorem k28s1_filterDataIn [Zero α] (batch channel : Nat) (fo co : List Nat)
    (hfo : ∀ t, t ∈ fo ↔ t < 224) (hco : ∀ t, t ∈ co ↔ t < 224)
    (input filter : Nat → α) (bx b : Nat) (sh : Shared α)
    (j : Nat) (hj : j < 8 * (3 * 3)) :
    (Filter3x3_Input28x28_Stride1.stagedIn fo co input filter (depthwiseShape batch channel 28 28 3 3 28 28 1 1) bx b sh).filterData j
      = filter (b * 8 * 3 * 3 + j) := by
  unfold Filter3x3_Input28x28_Stride1.stagedIn
  refine Eq.trans (runLanes_frame 224 co hco (fun t sh => Filter3x3_Input28x28_Stride1.copyPhase input
    (depthwiseShape batch channel 28 28 3 3 28 28 1 1) bx b t sh) (fun sh => sh.filterData j)
    (fun t _ s => rfl) _) ?_
  refine runLanes_set 224 fo hfo _ (fun sh => sh.filterData j) _ (j % 72) (by omega) ?_ ?_ sh
  · intro s
    simp only [Filter3x3_Input28x28_Stride1.fillPhase, depthwiseShape, ite_apply, write_apply]
    split_ifs <;> (congr 1; omega)
  · intro t _ s
    simp only [Filter3x3_Input28x28_Stride1.fillPhase, depthwiseShape, ite_apply, write_apply]
    split_ifs <;> first | exact Or.inr rfl | (left; congr 1; omega)

theorem k28s1_inputDataIn [Zero α] (batch channel : Nat) (fo co : List Nat)
    (hfo : ∀ t, t ∈ fo ↔ t < 224) (hco : ∀ t, t ∈ co ↔ t < 224)
    (input filter : Nat → α) (bx b : Nat) (sh : Shared α)
    (R j : Nat) (hR : R < 8 * 28) (hj : j < 30) :
    (Filter3x3_Input28x28_Stride1.stagedIn fo co input filter (depthwiseShape batch channel 28 28 3 3 28 28 1 1) bx b sh).inputData (R * 30 + j)
      = if 1 ≤ j ∧ j < 28 + 1 then input (bx * channel * 28 * 28 + b * 8 * 28 * 28 + R * 28 + (j - 1)) else 0 := by
  unfold Filter3x3_Input28x28_Stride1.stagedIn
  by_cases hc : 1 ≤ j ∧ j < 28 + 1
  · rw [if_pos hc]
    refine runLanes_stores_set (fun sh => sh.inputData) 224 co hco _ _
      (fun t _ st => k28s1_copy_closed batch channel input bx b t st) _ _ ?_ ?_ _
    · intro t ht q hq hi
      simp only [List.mem_map, List.mem_range] at hq
      obtain ⟨k, hk, rfl⟩ := hq
      simp only at hi ⊢
      congr 1
      omega
    · refine ⟨R % 8 * 28 + (j - 1), by omega, _,
        List.mem_map.2 ⟨R / 8, List.mem_range.2 (by omega), rfl⟩, ?_⟩
      simp only
      omega
  · rw [if_neg hc]
    refine Eq.trans (runLanes_stores_frame (fun sh => sh.inputData) 224 co hco _ _
      (fun t _ st => k28s1_copy_closed batch channel input bx b t st) (R * 30 + j) ?_ _) ?_
    rotate_left
    · refine runLanes_stores_set (fun sh => sh.inputData) 224 fo hfo _ _
        (fun t _ st => k28s1_fill_closed batch channel filter bx b t st) (R * 30 + j) 0 ?_ ?_ sh
      · intro t ht q hq _
        obtain ⟨a, _, rfl⟩ := List.mem_map.1 hq
        rfl
      · refine ⟨R % 224, by omega, (R * 30 + j, 0), List.mem_map.2 ⟨R * 30 + j, ?_, rfl⟩, rfl⟩
        simp only [List.mem_cons, List.mem_singleton, List.not_mem_nil, or_false]
        omega
    · intro t ht q hq
      simp only [List.mem_map, List.mem_range] at hq
      obtain ⟨k, hk, rfl⟩ := hq
      simp only
      omega

theorem k28s1_staged_eq [Zero α] (bd : Nat) (input filter : Nat → α) (p : Shape) (bx b : Nat)
    (sh : Shared α) :
    Filter3x3_Input28x28_Stride1.staged bd input filter p bx b sh
      = Filter3x3_Input28x28_Stride1.stagedIn (List.range bd) (List.range bd) input filter p bx b sh := rfl

theorem k28s1_filterData [Zero α] (batch channel : Nat) (input filter : Nat → α) (bx b : Nat) (sh : Shared α)
    (j : Nat) (hj : j < 8 * (3 * 3)) :
    (Filter3x3_Input28x28_Stride1.staged 224 input filter (depthwiseShape batch channel 28 28 3 3 28 28 1 1) bx b sh).filterData j
      = filter (b * 8 * 3 * 3 + j) := by
  rw [k28s1_staged_eq]
  exact k28s1_filterDataIn batch channel (List.range 224) (List.range 224)
    (fun _ => List.mem_range) (fun _ => List.mem_range) input filter bx b sh j hj

theorem k28s1_inputData [Zero α] (batch channel : Nat) (input filter : Nat → α) (bx b : Nat) (sh : Shared α)
    (R j : Nat) (hR : R < 8 * 28) (hj : j < 30) :
    (Filter3x3_Input28x28_Stride1.staged 224 input filter (depthwiseShape batch channel 28 28 3 3 28 28 1 1) bx b sh).inputData (R * 30 + j)
      = if 1 ≤ j ∧ j < 28 + 1 then input (bx * channel * 28 * 28 + b * 8 * 28 * 28 + R * 28 + (j - 1)) else 0 := by
  rw [k28s1_staged_eq]
  exact k28s1_inputDataIn batch channel (List.range 224) (List.range 224)
    (fun _ => List.mem_range) (fun _ => List.mem_range) input filter bx b sh R j hR hj

/-- The value lane `t` stores for output row `k`, with the scratch reads replaced by what the
staging put there; no property of `+` and `*` is used. -/
theorem k28s1_lane_value [Add α] [Mul α] [Zero α] (batch channel : Nat) (fo co : List Nat)
    (hfo : ∀ t, t ∈ fo ↔ t < 224) (hco : ∀ t, t ∈ co ↔ t < 224)
    (input filter : Nat → α) (alpha beta : α)
    (bx b t k : Nat) (sh : Shared α) (ht : t < 224) :
    nestSum (taps 3
      (fun i => (Filter3x3_Input28x28_Stride1.stagedIn fo co input filter
        (depthwiseShape batch channel 28 28 3 3 28 28 1 1) bx b sh).filterData (t / 28 * 3 * 3 + i))
      (fun r kw => (Filter3x3_Input28x28_Stride1.stagedIn fo co input filter
        (depthwiseShape batch channel 28 28 3 3 28 28 1 1) bx b sh).inputData (t / 28 * 30 * 28 + t % 28 + r * 30 + kw))
      (tapRows 3 28 1 1 k)) * alpha + beta
    = tapValue input filter channel 28 28 3 3 1 1 alpha beta
        (tapRows 3 28 1 1 k) (fun r => (r : Int)) bx (b * 8 + t / 28) (t % 28) := by
  unfold tapValue
  congr 2
  apply congrArg
  apply taps_congr
  intro q hq kw hkw
  obtain ⟨h1, h2, h3⟩ := (mem_tapRows _ _ _ _ _ q).1 hq
  constructor
  · rw [k28s1_filterDataIn batch channel fo co hfo hco input filter bx b sh _ (by omega)]
    congr 1
    omega
  · have e : t / 28 * 30 * 28 + t % 28 + q.2 * 30 + kw
        = (t / 28 * 28 + q.2) * 30 + (t % 28 * 1 + kw) := by omega
    simp only
    rw [e, k28s1_inputDataIn batch channel fo co hfo hco input filter bx b sh _ _ (by omega) (by omega)]
    unfold paddedInput
    by_cases hc : 1 ≤ t % 28 * 1 + kw ∧ t % 28 * 1 + kw < 28 + 1
    · rw [if_pos hc, if_pos (by omega)]
      congr 1
      omega
    · rw [if_neg hc, if_neg (by omega)]

theorem k28s1_rows (k kh : Nat) :
    if 1 ≤ k * 1 + kh ∧ k * 1 + kh < 28 + 1 then
      (fun r : Nat => (r : Int)) (k * 1 + kh - 1) = (k : Int) * (1 : Nat) + kh - (1 : Nat)
    else ¬ (0 ≤ (k : Int) * (1 : Nat) + kh - (1 : Nat) ∧ (k : Int) * (1 : Nat) + kh - (1 : Nat) < (28 : Nat)) := by
  split_ifs with h
  · simp only
    omega
  · omega

theorem k28s1_value [CommRing α] (batch channel : Nat) (input filter : Nat → α) (alpha beta : α)
    (bx b t k : Nat) (sh : Shared α) (ht : t < 224) :
    nestSum (taps 3
      (fun i => (Filter3x3_Input28x28_Stride1.staged 224 input filter
        (depthwiseShape batch channel 28 28 3 3 28 28 1 1) bx b sh).filterData (t / 28 * 3 * 3 + i))
      (fun r kw => (Filter3x3_Input28x28_Stride1.staged 224 input filter
        (depthwiseShape batch channel 28 28 3 3 28 28 1 1) bx b sh).inputData (t / 28 * 30 * 28 + t % 28 + r * 30 + kw))
      (tapRows 3 28 1 1 k)) * alpha + beta
    = depthwiseRef input filter channel 28 28 3 3 1 1 alpha beta bx (b * 8 + t / 28) k (t % 28) := by
  rw [k28s1_staged_eq]
  exact (k28s1_lane_value batch channel (List.range 224) (List.range 224)
    (fun _ => List.mem_range) (fun _ => List.mem_range) input filter alpha beta bx b t k sh ht).trans
    (tapValue_eq_ref input filter channel 28 28 3 3 1 1 alpha beta bx (b * 8 + t / 28) k (t % 28)
      (fun r => (r : Int)) 28 1 1 k (fun kh _ => k28s1_rows k kh))

/-- The index lane `t` of group `(bx, b)` stores to at its `k`-th store is the flat index of
element `[bx, b * 8 + t / 28, k, t % 28]`. -/
theorem k28s1_store_index (channel bx b t k : Nat) :
    bx * channel * 28 * 28 + b * 8 * 28 * 28 + t / 28 * 28 * 28 + t % 28 + k * 28
      = nchw channel 28 28 bx (b * 8 + t / 28) k (t % 28) := by
  unfold nchw; omega

/-- Output element `[n, c, oh, ow]` after `Filter3x3_Input28x28_Stride1`, for any order of the groups and any order
of the lanes inside each of the three phases of a group. -/
theorem k28s1_elemIn [Add α] [Mul α] [Zero α] (batch channel : Nat) (groups : List (Nat × Nat))
    (fo co vo : Nat → Nat → List Nat)
    (hG : ∀ g, g ∈ groups ↔ g.1 < batch ∧ g.2 < channel / 8)
    (hfo : ∀ bx b t, t ∈ fo bx b ↔ t < 224) (hco : ∀ bx b t, t ∈ co bx b ↔ t < 224)
    (hvo : ∀ bx b t, t ∈ vo bx b ↔ t < 224)
    (input filter output : Nat → α) (alpha beta : α)
    (shared : Nat → Nat → Shared α) (n c oh ow : Nat) (hch : channel % 8 = 0)
    (hn : n < batch) (hc : c < channel) (hoh : oh < 28) (how : ow < 28) :
    Filter3x3_Input28x28_Stride1.launchIn groups fo co vo input filter output
      (depthwiseShape batch channel 28 28 3 3 28 28 1 1) alpha beta shared (nchw channel 28 28 n c oh ow)
    = tapValue input filter channel 28 28 3 3 1 1 alpha beta
        (tapRows 3 28 1 1 oh) (fun r => (r : Int)) n c ow := by
  unfold Filter3x3_Input28x28_Stride1.launchIn
  refine launch_rows_set batch (channel / 8) 224 28 (by omega) groups hG vo hvo
    (fun bx b t out => Filter3x3_Input28x28_Stride1.convolve
      (depthwiseShape batch channel 28 28 3 3 28 28 1 1) alpha beta bx b t
      (Filter3x3_Input28x28_Stride1.stagedIn (fo bx b) (co bx b) input filter
        (depthwiseShape batch channel 28 28 3 3 28 28 1 1) bx b (shared bx b)) out)
    _ _
    (fun bx _ b _ t _ out => k28s1_convolve_closed batch channel alpha beta bx b t _ out)
    _ _ ?_ ?_ output
  · intro bx hbx b hb t ht k y hy hi
    simp only [List.getElem?_map, List.getElem?_range, Option.map_eq_some'] at hy
    obtain ⟨k', hk', rfl⟩ := hy
    rw [List.getElem?_eq_some] at hk'
    obtain ⟨hk, rfl⟩ := hk'
    simp only [List.length_range, List.getElem_range] at hk ⊢
    rw [k28s1_lane_value batch channel (fo bx b) (co bx b) (hfo bx b) (hco bx b) input filter alpha beta bx b t k _ ht]
    rw [k28s1_store_index] at hi
    obtain ⟨rfl, rfl, rfl, rfl⟩ := nchw_inj (by omega) hc hk hoh (Nat.mod_lt _ (by omega)) how hi
    rfl
  · refine ⟨n, hn, c / 8, by omega, c % 8 * 28 + ow, by omega, oh, by simpa using hoh, ?_⟩
    unfold nchw
    have h1 : (c % 8 * 28 + ow) / 28 = c % 8 := by omega
    have h2 : (c % 8 * 28 + ow) % 28 = ow := by omega
    rw [h1, h2]
    omega

/-- No lane of `Filter3x3_Input28x28_Stride1` stores outside the `batch * channel * 28 * 28` output elements. -/
theorem k28s1_frameIn [Add α] [Mul α] [Zero α] (batch channel : Nat) (groups : List (Nat × Nat))
    (fo co vo : Nat → Nat → List Nat)
    (hG : ∀ g, g ∈ groups ↔ g.1 < batch ∧ g.2 < channel / 8)
    (hvo : ∀ bx b t, t ∈ vo bx b ↔ t < 224)
    (input filter output : Nat → α) (alpha beta : α)
    (shared : Nat → Nat → Shared α) (i : Nat) (hch : channel % 8 = 0)
    (hi : batch * channel * 28 * 28 ≤ i) :
    Filter3x3_Input28x28_Stride1.launchIn groups fo co vo input filter output
      (depthwiseShape batch channel 28 28 3 3 28 28 1 1) alpha beta shared i
    = output i := by
  unfold Filter3x3_Input28x28_Stride1.launchIn
  refine launch_rows_frame batch (channel / 8) 224 28 groups hG vo hvo
    (fun bx b t out => Filter3x3_Input28x28_Stride1.convolve
      (depthwiseShape batch channel 28 28 3 3 28 28 1 1) alpha beta bx b t
      (Filter3x3_Input28x28_Stride1.stagedIn (fo bx b) (co bx b) input filter
        (depthwiseShape batch channel 28 28 3 3 28 28 1 1) bx b (shared bx b)) out)
    _ _
    (fun bx _ b _ t _ out => k28s1_convolve_closed batch channel alpha beta bx b t _ out)
    i ?_ output
  intro bx hbx b hb t ht k hk
  simp only [List.length_map, List.length_range] at hk
  rw [k28s1_store_index]
  have hlt := nchw_lt batch channel 28 28 bx (b * 8 + t / 28) k (t % 28) hbx (by omega) hk
    (Nat.mod_lt _ (by omega))
  omega

/-- The launch of `Filter3x3_Input28x28_Stride1` is the run with the groups in grid order and the lanes ascending. -/
theorem k28s1_launch_eq [Add α] [Mul α] [Zero α] (gx gy bd : Nat) (input filter output : Nat → α)
    (p : Shape) (alpha beta : α) (shared : Nat → Nat → Shared α) :
    Filter3x3_Input28x28_Stride1 gx gy bd input filter output p alpha beta shared
    = Filter3x3_Input28x28_Stride1.launchIn (gridGroups gx gy) (fun _ _ => List.range bd) (fun _ _ => List.range bd)
        (fun _ _ => List.range bd) input filter output p alpha beta shared :=
  forLoop_grid gx gy (fun bx b out => Filter3x3_Input28x28_Stride1.block bd input filter p alpha beta bx b (shared bx b) out) output

/-- Output element `[n, c, oh, ow]` after `Filter3x3_Input28x28_Stride1` is the reference value. -/
theorem k28s1_correct [CommRing α] (batch channel : Nat) (input filter output : Nat → α) (alpha beta : α)
    (shared : Nat → Nat → Shared α) (n c oh ow : Nat) (hch : channel % 8 = 0)
    (hn : n < batch) (hc : c < channel) (hoh : oh < 28) (how : ow < 28) :
    Filter3x3_Input28x28_Stride1 batch (channel / 8) 224 input filter output
      (depthwiseShape batch channel 28 28 3 3 28 28 1 1) alpha beta shared (nchw channel 28 28 n c oh ow)
    = depthwiseRef input filter channel 28 28 3 3 1 1 alpha beta n c oh ow := by
  rw [k28s1_launch_eq, k28s1_elemIn batch channel _ _ _ _ (mem_gridGroups _ _)
    (fun _ _ _ => List.mem_range) (fun _ _ _ => List.mem_range) (fun _ _ _ => List.mem_range)
    input filter output alpha beta shared n c oh ow hch hn hc hoh how]
  exact tapValue_eq_ref input filter channel 28 28 3 3 1 1 alpha beta n c oh ow
    (fun r => (r : Int)) 28 1 1 oh (fun kh _ => k28s1_rows oh kh)

end k28s1

section k28s1_trace
variable {α : Type}

/-- The output stores of a lane of `Filter3x3_Input28x28_Stride1` are exactly the 28 stores at
`outputIdx ... 0`, ..., `outputIdx ... 27`. -/
theorem k28s1_convolve_stores [Add α] [Mul α] [Zero α] (batch channel : Nat) (alpha beta : α)
    (bx b t : Nat) (sh : Shared α) :
    StoresAt (Filter3x3_Input28x28_Stride1.convolve (depthwiseShape batch channel 28 28 3 3 28 28 1 1) alpha beta bx b t sh) 28
      (Filter3x3_Input28x28_Stride1.outputIdx (depthwiseShape batch channel 28 28 3 3 28 28 1 1) bx b t) :=
  storesAt_of_writeRows _ 28 _ 28 _ _ (by simp) (fun k => rfl)
    (fun out => k28s1_convolve_closed batch channel alpha beta bx b t sh out)

theorem k28s1_outputIdx_eq (batch channel bx b t k : Nat) :
    Filter3x3_Input28x28_Stride1.outputIdx (depthwiseShape batch channel 28 28 3 3 28 28 1 1) bx b t k
      = nchw channel 28 28 bx (b * 8 + t / 28) (k) (t % 28) :=
  k28s1_store_index channel bx b t k

theorem k28s1_storeBijection (batch channel : Nat) (hch : channel % 8 = 0) :
    StoreBijection batch (channel / 8) 224 28 (batch * channel * 28 * 28)
      (Filter3x3_Input28x28_Stride1.outputIdx (depthwiseShape batch channel 28 28 3 3 28 28 1 1)) := by
  refine ⟨?_, ?_, ?_⟩
  · intro bx hbx b hb t ht k hk
    rw [k28s1_outputIdx_eq]
    exact nchw_lt batch channel 28 28 bx _ _ _ hbx (by omega) (by omega) (Nat.mod_lt _ (by omega))
  · intro bx hbx b hb t ht k hk bx' hbx' b' hb' t' ht' k' hk' e
    rw [k28s1_outputIdx_eq, k28s1_outputIdx_eq] at e
    obtain ⟨h1, h2, h3, h4⟩ := nchw_inj (C := channel) (by omega) (by omega) (by omega) (by omega)
      (Nat.mod_lt _ (by omega)) (Nat.mod_lt _ (by omega)) e
    refine ⟨h1, ?_, ?_, ?_⟩ <;> omega
  · intro i hi
    obtain ⟨n, c, oh, ow, hn, hc, hoh, how, rfl⟩ := nchw_surj batch channel 28 28 i hi
    refine ⟨n, hn, c / 8, by omega, c % 8 * 28 + ow, by omega, oh, by omega, ?_⟩
    rw [k28s1_outputIdx_eq]
    have h1 : (c % 8 * 28 + ow) / 28 = c % 8 := by omega
    have h2 : (c % 8 * 28 + ow) % 28 = ow := by omega
    rw [h1, h2]
    congr 1 <;> omega

/-- The filter staging lines of a lane of `Filter3x3_Input28x28_Stride1` perform exactly the stores
listed by `filterStores`. -/
theorem k28s1_filter_stores [Zero α] (batch channel : Nat) (filter : Nat → α) (bx b t : Nat)
    (sh : Shared α) :
    (Filter3x3_Input28x28_Stride1.fillPhase filter (depthwiseShape batch channel 28 28 3 3 28 28 1 1) bx b t sh).filterData
      = writeList ((Filter3x3_Input28x28_Stride1.filterStores (depthwiseShape batch channel 28 28 3 3 28 28 1 1) b t).map (fun q => (q.1, filter q.2)))
          sh.filterData := by
  simp only [Filter3x3_Input28x28_Stride1.fillPhase, Filter3x3_Input28x28_Stride1.filterStores, depthwiseShape]
  split_ifs <;> rfl

theorem k28s1_filter_once (batch channel b : Nat) :
    WrittenOnce 224 (8 * (3 * 3)) (Filter3x3_Input28x28_Stride1.filterStores (depthwiseShape batch channel 28 28 3 3 28 28 1 1) b) :=
  writtenOnce_single 224 (8 * 9) _ (by omega)

/-- Every sequential schedule of `Filter3x3_Input28x28_Stride1` produces the output buffer of the
launch in grid order with ascending lanes. -/
theorem k28s1_schedule_eq [Add α] [Mul α] [Zero α] (batch channel : Nat) (hch : channel % 8 = 0)
    (groups : List (Nat × Nat)) (fo co vo : Nat → Nat → List Nat)
    (hs : IsSchedule batch (channel / 8) 224 groups fo co vo)
    (input filter output : Nat → α) (alpha beta : α) (shared shared' : Nat → Nat → Shared α) :
    Filter3x3_Input28x28_Stride1.launchIn groups fo co vo input filter output (depthwiseShape batch channel 28 28 3 3 28 28 1 1) alpha beta shared
      = Filter3x3_Input28x28_Stride1 batch (channel / 8) 224 input filter output (depthwiseShape batch channel 28 28 3 3 28 28 1 1) alpha beta shared' := by
  obtain ⟨hG, hfo, hco, hvo⟩ := isSchedule_mem _ _ _ _ _ _ _ hs
  funext i
  rw [k28s1_launch_eq]
  by_cases hi : i < batch * channel * 28 * 28
  · obtain ⟨n, c, oh, ow, hn, hc, hoh, how, rfl⟩ := nchw_surj batch channel 28 28 i hi
    rw [k28s1_elemIn batch channel groups fo co vo hG hfo hco hvo input filter output alpha beta
        shared n c oh ow hch hn hc hoh how,
      k28s1_elemIn batch channel _ _ _ _ (mem_gridGroups _ _) (fun _ _ _ => List.mem_range)
        (fun _ _ _ => List.mem_range) (fun _ _ _ => List.mem_range) input filter output alpha beta
        shared' n c oh ow hch hn hc hoh how]
  · rw [k28s1_frameIn batch channel groups fo co vo hG hvo input filter output alpha beta
        shared i hch (by omega),
      k28s1_frameIn batch channel _ _ _ _ (mem_gridGroups _ _) (fun _ _ _ => List.mem_range)
        input filter output alpha beta shared' i hch (by omega)]

end k28s1_trace

section k28s2
variable {α : Type}

theorem k28s2_convolve_closed [Add α] [Mul α] [Zero α] (batch channel : Nat) (alpha beta : α) (bx b t : Nat)
    (sh : Shared α) (out : Nat → α) :
    Filter3x3_Input28x28_Stride2.convolve (depthwiseShape batch channel 28 28 3 3 14 14 1 2) alpha beta bx b t sh out
    = writeRows (bx * channel * 14 * 14 + b * 8 * 14 * 14 + t / 14 * 14 * 14 + t % 14) 14
        ((List.range 14).map (fun oh => nestSum (taps 3 (fun i => sh.filterData (t / 14 * 3 * 3 + i))
            (fun r kw => sh.inputData (t / 14 * 30 * 28 + t % 14 * 2 + r * 30 + kw)) (tapRows 3 28 1 2 oh)) * alpha + beta)) out := by
  rfl

theorem k28s2_copy_closed (batch channel : Nat) (input : Nat → α) (bx b t : Nat) (sh : Shared α) :
    (Filter3x3_Input28x28_Stride2.copyPhase input (depthwiseShape batch channel 28 28 3 3 14 14 1 2) bx b t sh).inputData
    = writeList ((List.range 56).map (fun k => (t / 28 * 2 + t + 1 + 4 * 30 * k,
        input (bx * channel * 28 * 28 + b * 8 * 28 * 28 + t + 4 * 28 * k)))) sh.inputData := by
  rfl

theorem k28s2_fill_closed [Zero α] (batch channel : Nat) (filter : Nat → α) (bx b t : Nat) (sh : Shared α) :
    (Filter3x3_Input28x28_Stride2.fillPhase filter (depthwiseShape batch channel 28 28 3 3 14 14 1 2) bx b t sh).inputData
    = writeList (([t * 30, t * 30 + 29, t * 30 + 8 / 2 * 28 * 30, t * 30 + 8 / 2 * 28 * 30 + 29]).map (fun a => (a, (0 : α)))) sh.inputData := by
  rfl

theorem k28s2_filterDataIn [Zero α] (batch channel : Nat) (fo co : List Nat)
    (hfo : ∀ t, t ∈ fo ↔ t < 112) (hco : ∀ t, t ∈ co ↔ t < 112)
    (input filter : Nat → α) (bx b : Nat) (sh : Shared α)
    (j : Nat) (hj : j < 8 * (3 * 3)) :
    (Filter3x3_Input28x28_Stride2.stagedIn fo co input filter (depthwiseShape batch channel 28 28 3 3 14 14 1 2) bx b sh).filterData j
      = filter (b * 8 * 3 * 3 + j) := by
  unfold Filter3x3_Input28x28_Stride2.stagedIn
  refine Eq.trans (runLanes_frame 112 co hco (fun t sh => Filter3x3_Input28x28_Stride2.copyPhase input
    (depthwiseShape batch channel 28 28 3 3 14 14 1 2) bx b t sh) (fun sh => sh.filterData j)
    (fun t _ s => rfl) _) ?_
  refine runLanes_set 112 fo hfo _ (fun sh => sh.filterData j) _ (j % 72) (by omega) ?_ ?_ sh
  · intro s
    simp only [Filter3x3_Input28x28_Stride2.fillPhase, depthwiseShape, ite_apply, write_apply]
    split_ifs <;> (congr 1; omega)
  · intro t _ s
    simp only [Filter3x3_Input28x28_Stride2.fillPhase, depthwiseShape, ite_apply, write_apply]
    split_ifs <;> first | exact Or.inr rfl | (left; congr 1; omega)

theorem k28s2_inputDataIn [Zero α] (batch channel : Nat) (fo co : List Nat)
    (hfo : ∀ t, t ∈ fo ↔ t < 112) (hco : ∀ t, t ∈ co ↔ t < 112)
    (input filter : Nat → α) (bx b : Nat) (sh : Shared α)
    (R j : Nat) (hR : R < 8 * 28) (hj : j < 30) :
    (Filter3x3_Input28x28_Stride2.stagedIn fo co input filter (depthwiseShape batch channel 28 28 3 3 14 14 1 2) bx b sh).inputData (R * 30 + j)
      = if 1 ≤ j ∧ j < 28 + 1 then input (bx * channel * 28 * 28 + b * 8 * 28 * 28 + R * 28 + (j - 1)) else 0 := by
  unfold Filter3x3_Input28x28_Stride2.stagedIn
  by_cases hc : 1 ≤ j ∧ j < 28 + 1
  · rw [if_pos hc]
    refine runLanes_stores_set (fun sh => sh.inputData) 112 co hco _ _
      (fun t _ st => k28s2_copy_closed batch channel input bx b t st) _ _ ?_ ?_ _
    · intro t ht q hq hi
      simp only [List.mem_map, List.mem_range] at hq
      obtain ⟨k, hk, rfl⟩ := hq
      simp only at hi ⊢
      congr 1
      omega
    · refine ⟨R % 4 * 28 + (j - 1), by omega, _,
        List.mem_map.2 ⟨R / 4, List.mem_range.2 (by omega), rfl⟩, ?_⟩
      simp only
      omega
  · rw [if_neg hc]
    refine Eq.trans (runLanes_stores_frame (fun sh => sh.inputData) 112 co hco _ _
      (fun t _ st => k28s2_copy_closed batch channel input bx b t st) (R * 30 + j) ?_ _) ?_
    rotate_left
    · refine runLanes_stores_set (fun sh => sh.inputData) 112 fo hfo _ _
        (fun t _ st => k28s2_fill_closed batch channel filter bx b t st) (R * 30 + j) 0 ?_ ?_ sh
      · intro t ht q hq _
        obtain ⟨a, _, rfl⟩ := List.mem_map.1 hq
        rfl
      · refine ⟨R % 112, by omega, (R * 30 + j, 0), List.mem_map.2 ⟨R * 30 + j, ?_, rfl⟩, rfl⟩
        simp only [List.mem_cons, List.mem_singleton, List.not_mem_nil, or_false]
        omega
    · intro t ht q hq
      simp only [List.mem_map, List.mem_range] at hq
      obtain ⟨k, hk, rfl⟩ := hq
      simp only
      omega

theorem k28s2_staged_eq [Zero α] (bd : Nat) (input filter : Nat → α) (p : Shape) (bx b : Nat)
    (sh : Shared α) :
    Filter3x3_Input28x28_Stride2.staged bd input filter p bx b sh
      = Filter3x3_Input28x28_Stride2.stagedIn (List.range bd) (List.range bd) input filter p bx b sh := rfl

theorem k28s2_filterData [Zero α] (batch channel : Nat) (input filter : Nat → α) (bx b : Nat) (sh : Shared α)
    (j : Nat) (hj : j < 8 * (3 * 3)) :
    (Filter3x3_Input28x28_Stride2.staged 112 input filter (depthwiseShape batch channel 28 28 3 3 14 14 1 2) bx b sh).filterData j
      = filter (b * 8 * 3 * 3 + j) := by
  rw [k28s2_staged_eq]
  exact k28s2_filterDataIn batch channel (List.range 112) (List.range 112)
    (fun _ => List.mem_range) (fun _ => List.mem_range) input filter bx b sh j hj

theorem k28s2_inputData [Zero α] (batch channel : Nat) (input filter : Nat → α) (bx b : Nat) (sh : Shared α)
    (R j : Nat) (hR : R < 8 * 28) (hj : j < 30) :
    (Filter3x3_Input28x28_Stride2.staged 112 input filter (depthwiseShape batch channel 28 28 3 3 14 14 1 2) bx b sh).inputData (R * 30 + j)
      = if 1 ≤ j ∧ j < 28 + 1 then input (bx * channel * 28 * 28 + b * 8 * 28 * 28 + R * 28 + (j - 1)) else 0 := by
  rw [k28s2_staged_eq]
  exact k28s2_inputDataIn batch channel (List.range 112) (List.range 112)
    (fun _ => List.mem_range) (fun _ => List.mem_range) input filter bx b sh R j hR hj

/-- The value lane `t` stores for output row `k`, with the scratch reads replaced by what the
staging put there; no property of `+` and `*` is used. -/
theorem k28s2_lane_value [Add α] [Mul α] [Zero α] (batch channel : Nat) (fo co : List Nat)
    (hfo : ∀ t, t ∈ fo ↔ t < 112) (hco : ∀ t, t ∈ co ↔ t < 112)
    (input filter : Nat → α) (alpha beta : α)
    (bx b t k : Nat) (sh : Shared α) (ht : t < 112) :
    nestSum (taps 3
      (fun i => (Filter3x3_Input28x28_Stride2.stagedIn fo co input filter
        (depthwiseShape batch channel 28 28 3 3 14 14 1 2) bx b sh).filterData (t / 14 * 3 * 3 + i))
      (fun r kw => (Filter3x3_Input28x28_Stride2.stagedIn fo co input filter
        (depthwiseShape batch channel 28 28 3 3 14 14 1 2) bx b sh).inputData (t / 14 * 30 * 28 + t % 14 * 2 + r * 30 + kw))
      (tapRows 3 28 1 2 k)) * alpha + beta
    = tapValue input filter channel 28 28 3 3 1 2 alpha beta
        (tapRows 3 28 1 2 k) (fun r => (r : Int)) bx (b * 8 + t / 14) (t % 14) := by
  unfold tapValue
  congr 2
  apply congrArg
  apply taps_congr
  intro q hq kw hkw
  obtain ⟨h1, h2, h3⟩ := (mem_tapRows _ _ _ _ _ q).1 hq
  constructor
  · rw [k28s2_filterDataIn batch channel fo co hfo hco input filter bx b sh _ (by omega)]
    congr 1
    omega
  · have e : t / 14 * 30 * 28 + t % 14 * 2 + q.2 * 30 + kw
        = (t / 14 * 28 + q.2) * 30 + (t % 14 * 2 + kw) := by omega
    simp only
    rw [e, k28s2_inputDataIn batch channel fo co hfo hco input filter bx b sh _ _ (by omega) (by omega)]
    unfold paddedInput
    by_cases hc : 1 ≤ t % 14 * 2 + kw ∧ t % 14 * 2 + kw < 28 + 1
    · rw [if_pos hc, if_pos (by omega)]
      congr 1
      omega
    · rw [if_neg hc, if_neg (by omega)]

theorem k28s2_rows (k kh : Nat) :
    if 1 ≤ k * 2 + kh ∧ k * 2 + kh < 28 + 1 then
      (fun r : Nat => (r : Int)) (k * 2 + kh - 1) = (k : Int) * (2 : Nat) + kh - (1 : Nat)
    else ¬ (0 ≤ (k : Int) * (2 : Nat) + kh - (1 : Nat) ∧ (k : Int) * (2 : Nat) + kh - (1 : Nat) < (28 : Nat)) := by
  split_ifs with h
  · simp only
    omega
  · omega

theorem k28s2_value [CommRing α] (batch channel : Nat) (input filter : Nat → α) (alpha beta : α)
    (bx b t k : Nat) (sh : Shared α) (ht : t < 112) :
    nestSum (taps 3
      (fun i => (Filter3x3_Input28x28_Stride2.staged 112 input filter
        (depthwiseShape batch channel 28 28 3 3 14 14 1 2) bx b sh).filterData (t / 14 * 3 * 3 + i))
      (fun r kw => (Filter3x3_Input28x28_Stride2.staged 112 input filter
        (depthwiseShape batch channel 28 28 3 3 14 14 1 2) bx b sh).inputData (t / 14 * 30 * 28 + t % 14 * 2 + r * 30 + kw))
      (tapRows 3 28 1 2 k)) * alpha + beta
    = depthwiseRef input filter channel 28 28 3 3 1 2 alpha beta bx (b * 8 + t / 14) k (t % 14) := by
  rw [k28s2_staged_eq]
  exact (k28s2_lane_value batch channel (List.range 112) (List.range 112)
    (fun _ => List.mem_range) (fun _ => List.mem_range) input filter alpha beta bx b t k sh ht).trans
    (tapValue_eq_ref input filter channel 28 28 3 3 1 2 alpha beta bx (b * 8 + t / 14) k (t % 14)
      (fun r => (r : Int)) 28 1 2 k (fun kh _ => k28s2_rows k kh))

/-- The index lane `t` of group `(bx, b)` stores to at its `k`-th store is the flat index of
element `[bx, b * 8 + t / 14, k, t % 14]`. -/
theorem k28s2_store_index (channel bx b t k : Nat) :
    bx * channel * 14 * 14 + b * 8 * 14 * 14 + t / 14 * 14 * 14 + t % 14 + k * 14
      = nchw channel 14 14 bx (b * 8 + t / 14) k (t % 14) := by
  unfold nchw; omega

/-- Output element `[n, c, oh, ow]` after `Filter3x3_Input28x28_Stride2`, for any order of the groups and any order
of the lanes inside each of the three phases of a group. -/
theorem k28s2_elemIn [Add α] [Mul α] [Zero α] (batch channel : Nat) (groups : List (Nat × Nat))
    (fo co vo : Nat → Nat → List Nat)
    (hG : ∀ g, g ∈ groups ↔ g.1 < batch ∧ g.2 < channel / 8)
    (hfo : ∀ bx b t, t ∈ fo bx b ↔ t < 112) (hco : ∀ bx b t, t ∈ co bx b ↔ t < 112)
    (hvo : ∀ bx b t, t ∈ vo bx b ↔ t < 112)
    (input filter output : Nat → α) (alpha beta : α)
    (shared : Nat → Nat → Shared α) (n c oh ow : Nat) (hch : channel % 8 = 0)
    (hn : n < batch) (hc : c < channel) (hoh : oh < 14) (how : ow < 14) :
    Filter3x3_Input28x28_Stride2.launchIn groups fo co vo input filter output
      (depthwiseShape batch channel 28 28 3 3 14 14 1 2) alpha beta shared (nchw channel 14 14 n c oh ow)
    = tapValue input filter channel 28 28 3 3 1 2 alpha beta
        (tapRows 3 28 1 2 oh) (fun r => (r : Int)) n c ow := by
  unfold Filter3x3_Input28x28_Stride2.launchIn
  refine launch_rows_set batch (channel / 8) 112 14 (by omega) groups hG vo hvo
    (fun bx b t out => Filter3x3_Input28x28_Stride2.convolve
      (depthwiseShape batch channel 28 28 3 3 14 14 1 2) alpha beta bx b t
      (Filter3x3_Input28x28_Stride2.stagedIn (fo bx b) (co bx b) input filter
        (depthwiseShape batch channel 28 28 3 3 14 14 1 2) bx b (shared bx b)) out)
    _ _
    (fun bx _ b _ t _ out => k28s2_convolve_closed batch channel alpha beta bx b t _ out)
    _ _ ?_ ?_ output
  · intro bx hbx b hb t ht k y hy hi
    simp only [List.getElem?_map, List.getElem?_range, Option.map_eq_some'] at hy
    obtain ⟨k', hk', rfl⟩ := hy
    rw [List.getElem?_eq_some] at hk'
    obtain ⟨hk, rfl⟩ := hk'
    simp only [List.length_range, List.getElem_range] at hk ⊢
    rw [k28s2_lane_value batch channel (fo bx b) (co bx b) (hfo bx b) (hco bx b) input filter alpha beta bx b t k _ ht]
    rw [k28s2_store_index] at hi
    obtain ⟨rfl, rfl, rfl, rfl⟩ := nchw_inj (by omega) hc hk hoh (Nat.mod_lt _ (by omega)) how hi
    rfl
  · refine ⟨n, hn, c / 8, by omega, c % 8 * 14 + ow, by omega, oh, by simpa using hoh, ?_⟩
    unfold nchw
    have h1 : (c % 8 * 14 + ow) / 14 = c % 8 := by omega
    have h2 : (c % 8 * 14 + ow) % 14 = ow := by omega
    rw [h1, h2]
    omega

/-- No lane of `Filter3x3_Input28x28_Stride2` stores outside the `batch * channel * 14 * 14` output elements. -/
theorem k28s2_frameIn [Add α] [Mul α] [Zero α] (batch channel : Nat) (groups : List (Nat × Nat))
    (fo co vo : Nat → Nat → List Nat)
    (hG : ∀ g, g ∈ groups ↔ g.1 < batch ∧ g.2 < channel / 8)
    (hvo : ∀ bx b t, t ∈ vo bx b ↔ t < 112)
    (input filter output : Nat → α) (alpha beta : α)
    (shared : Nat → Nat → Shared α) (i : Nat) (hch : channel % 8 = 0)
    (hi : batch * channel * 14 * 14 ≤ i) :
    Filter3x3_Input28x28_Stride2.launchIn groups fo co vo input filter output
      (depthwiseShape batch channel 28 28 3 3 14 14 1 2) alpha beta shared i
    = output i := by
  unfold Filter3x3_Input28x28_Stride2.launchIn
  refine launch_rows_frame batch (channel / 8) 112 14 groups hG vo hvo
    (fun bx b t out => Filter3x3_Input28x28_Stride2.convolve
      (depthwiseShape batch channel 28 28 3 3 14 14 1 2) alpha beta bx b t
      (Filter3x3_Input28x28_Stride2.stagedIn (fo bx b) (co bx b) input filter
        (depthwiseShape batch channel 28 28 3 3 14 14 1 2) bx b (shared bx b)) out)
    _ _
    (fun bx _ b _ t _ out => k28s2_convolve_closed batch channel alpha beta bx b t _ out)
    i ?_ output
  intro bx hbx b hb t ht k hk
  simp only [List.length_map, List.length_range] at hk
  rw [k28s2_store_index]
  have hlt := nchw_lt batch channel 14 14 bx (b * 8 + t / 14) k (t % 14) hbx (by omega) hk
    (Nat.mod_lt _ (by omega))
  omega

/-- The launch of `Filter3x3_Input28x28_Stride2` is the run with the groups in grid order and the lanes ascending. -/
theorem k28s2_launch_eq [Add α] [Mul α] [Zero α] (gx gy bd : Nat) (input filter output : Nat → α)
    (p : Shape) (alpha beta : α) (shared : Nat → Nat → Shared α) :
    Filter3x3_Input28x28_Stride2 gx gy bd input filter output p alpha beta shared
    = Filter3x3_Input28x28_Stride2.launchIn (gridGroups gx gy) (fun _ _ => List.range bd) (fun _ _ => List.range bd)
        (fun _ _ => List.range bd) input filter output p alpha beta shared :=
  forLoop_grid gx gy (fun bx b out => Filter3x3_Input28x28_Stride2.block bd input filter p alpha beta bx b (shared bx b) out) output

/-- Output element `[n, c, oh, ow]` after `Filter3x3_Input28x28_Stride2` is the reference value. -/
theorem k28s2_correct [CommRing α] (batch channel : Nat) (input filter output : Nat → α) (alpha beta : α)
    (shared : Nat → Nat → Shared α) (n c oh ow : Nat) (hch : channel % 8 = 0)
    (hn : n < batch) (hc : c < channel) (hoh : oh < 14) (how : ow < 14) :
    Filter3x3_Input28x28_Stride2 batch (channel / 8) 112 input filter output
      (depthwiseShape batch channel 28 28 3 3 14 14 1 2) alpha beta shared (nchw channel 14 14 n c oh ow)
    = depthwiseRef input filter channel 28 28 3 3 1 2 alpha beta n c oh ow := by
  rw [k28s2_launch_eq, k28s2_elemIn batch channel _ _ _ _ (mem_gridGroups _ _)
    (fun _ _ _ => List.mem_range) (fun _ _ _ => List.mem_range) (fun _ _ _ => List.mem_range)
    input filter output alpha beta shared n c oh ow hch hn hc hoh how]
  exact tapValue_eq_ref input filter channel 28 28 3 3 1 2 alpha beta n c oh ow
    (fun r => (r : Int)) 28 1 2 oh (fun kh _ => k28s2_rows oh kh)

end k28s2

section k28s2_trace
variable {α : Type}

/-- The output stores of a lane of `Filter3x3_Input28x28_Stride2` are exactly the 14 stores at
`outputIdx ... 0`, ..., `outputIdx ... 13`. -/
theorem k28s2_convolve_stores [Add α] [Mul α] [Zero α] (batch channel : Nat) (alpha beta : α)
    (bx b t : Nat) (sh : Shared α) :
    StoresAt (Filter3x3_Input28x28_Stride2.convolve (depthwiseShape batch channel 28 28 3 3 14 14 1 2) alpha beta bx b t sh) 14
      (Filter3x3_Input28x28_Stride2.outputIdx (depthwiseShape batch channel 28 28 3 3 14 14 1 2) bx b t) :=
  storesAt_of_writeRows _ 14 _ 14 _ _ (by simp) (fun k => rfl)
    (fun out => k28s2_convolve_closed batch channel alpha beta bx b t sh out)

theorem k28s2_outputIdx_eq (batch channel bx b t k : Nat) :
    Filter3x3_Input28x28_Stride2.outputIdx (depthwiseShape batch channel 28 28 3 3 14 14 1 2) bx b t k
      = nchw channel 14 14 bx (b * 8 + t / 14) (k) (t % 14) :=
  k28s2_store_index channel bx b t k

theorem k28s2_storeBijection (batch channel : Nat) (hch : channel % 8 = 0) :
    StoreBijection batch (channel / 8) 112 14 (batch * channel * 14 * 14)
      (Filter3x3_Input28x28_Stride2.outputIdx (depthwiseShape batch channel 28 28 3 3 14 14 1 2)) := by
  refine ⟨?_, ?_, ?_⟩
  · intro bx hbx b hb t ht k hk
    rw [k28s2_outputIdx_eq]
    exact nchw_lt batch channel 14 14 bx _ _ _ hbx (by omega) (by omega) (Nat.mod_lt _ (by omega))
  · intro bx hbx b hb t ht k hk bx' hbx' b' hb' t' ht' k' hk' e
    rw [k28s2_outputIdx_eq, k28s2_outputIdx_eq] at e
    obtain ⟨h1, h2, h3, h4⟩ := nchw_inj (C := channel) (by omega) (by omega) (by omega) (by omega)
      (Nat.mod_lt _ (by omega)) (Nat.mod_lt _ (by omega)) e
    refine ⟨h1, ?_, ?_, ?_⟩ <;> omega
  · intro i hi
    obtain ⟨n, c, oh, ow, hn, hc, hoh, how, rfl⟩ := nchw_surj batch channel 14 14 i hi
    refine ⟨n, hn, c / 8, by omega, c % 8 * 14 + ow, by omega, oh, by omega, ?_⟩
    rw [k28s2_outputIdx_eq]
    have h1 : (c % 8 * 14 + ow) / 14 = c % 8 := by omega
    have h2 : (c % 8 * 14 + ow) % 14 = ow := by omega
    rw [h1, h2]
    congr 1 <;> omega

/-- The filter staging lines of a lane of `Filter3x3_Input28x28_Stride2` perform exactly the stores
listed by `filterStores`. -/
theorem k28s2_filter_stores [Zero α] (batch channel : Nat) (filter : Nat → α) (bx b t : Nat)
    (sh : Shared α) :
    (Filter3x3_Input28x28_Stride2.fillPhase filter (depthwiseShape batch channel 28 28 3 3 14 14 1 2) bx b t sh).filterData
      = writeList ((Filter3x3_Input28x28_Stride2.filterStores (depthwiseShape batch channel 28 28 3 3 14 14 1 2) b t).map (fun q => (q.1, filter q.2)))
          sh.filterData := by
  simp only [Filter3x3_Input28x28_Stride2.fillPhase, Filter3x3_Input28x28_Stride2.filterStores, depthwiseShape]
  split_ifs <;> rfl

theorem k28s2_filter_once (batch channel b : Nat) :
    WrittenOnce 112 (8 * (3 * 3)) (Filter3x3_Input28x28_Stride2.filterStores (depthwiseShape batch channel 28 28 3 3 14 14 1 2) b) :=
  writtenOnce_single 112 (8 * 9) _ (by omega)

/-- Every sequential schedule of `Filter3x3_Input28x28_Stride2` produces the output buffer of the
launch in grid order with ascending lanes. -/
theorem k28s2_schedule_eq [Add α] [Mul α] [Zero α] (batch channel : Nat) (hch : channel % 8 = 0)
    (groups : List (Nat × Nat)) (fo co vo : Nat → Nat → List Nat)
    (hs : IsSchedule batch (channel / 8) 112 groups fo co vo)
    (input filter output : Nat → α) (alpha beta : α) (shared shared' : Nat → Nat → Shared α) :
    Filter3x3_Input28x28_Stride2.launchIn groups fo co vo input filter output (depthwiseShape batch channel 28 28 3 3 14 14 1 2) alpha beta shared
      = Filter3x3_Input28x28_Stride2 batch (channel / 8) 112 input filter output (depthwiseShape batch channel 28 28 3 3 14 14 1 2) alpha beta shared' := by
  obtain ⟨hG, hfo, hco, hvo⟩ := isSchedule_mem _ _ _ _ _ _ _ hs
  funext i
  rw [k28s2_launch_eq]
  by_cases hi : i < batch * channel * 14 * 14
  · obtain ⟨n, c, oh, ow, hn, hc, hoh, how, rfl⟩ := nchw_surj batch channel 14 14 i hi
    rw [k28s2_elemIn batch channel groups fo co vo hG hfo hco hvo input filter output alpha beta
        shared n c oh ow hch hn hc hoh how,
      k28s2_elemIn batch channel _ _ _ _ (mem_gridGroups _ _) (fun _ _ _ => List.mem_range)
        (fun _ _ _ => List.mem_range) (fun _ _ _ => List.mem_range) input filter output alpha beta
        shared' n c oh ow hch hn hc hoh how]
  · rw [k28s2_frameIn batch channel groups fo co vo hG hvo input filter output alpha beta
        shared i hch (by omega),
      k28s2_frameIn batch channel _ _ _ _ (mem_gridGroups _ _) (fun _ _ _ => List.mem_range)
        input filter output alpha beta shared' i hch (by omega)]

end k28s2_trace

section k56
variable {α : Type}

theorem k56_convolve_closed [Add α] [Mul α] [Zero α] (batch channel : Nat) (alpha beta : α) (bx b t : Nat)
    (sh : Shared α) (out : Nat → α) :
    Filter3x3_Input56x56_Stride1.convolve (depthwiseShape batch channel 56 56 3 3 56 56 1 1) alpha beta bx b t sh out
    = writeRows (bx * channel * 56 * 56 + b * 1 * 56 * 56 + t / 56 * 14 * 56 + t % 56) 56
        ((List.range 14).map (fun k => nestSum (taps 3 (fun i => sh.filterData (0 + i))
            (fun r kw => sh.inputData (t / 56 * 58 * 14 + t % 56 + r * 58 + kw)) (tapRows 3 16 0 1 k)) * alpha + beta)) out := by
  rfl

theorem k56_copy_closed (batch channel : Nat) (input : Nat → α) (bx b t : Nat) (sh : Shared α) :
    (Filter3x3_Input56x56_Stride1.copyPhase input (depthwiseShape batch channel 56 56 3 3 56 56 1 1) bx b t sh).inputData
    = writeList ((List.range 14).map (fun k => (t / 56 * 2 + t + 1 + 58 + 4 * 58 * k,
        input (bx * channel * 56 * 56 + b * 1 * 56 * 56 + t + 4 * 56 * k)))) sh.inputData := by
  rfl

theorem k56_filterDataIn [Zero α] (batch channel : Nat) (fo co : List Nat)
    (hfo : ∀ t, t ∈ fo ↔ t < 224) (hco : ∀ t, t ∈ co ↔ t < 224)
    (input filter : Nat → α) (bx b : Nat) (sh : Shared α)
    (j : Nat) (hj : j < 9) :
    (Filter3x3_Input56x56_Stride1.stagedIn fo co input filter (depthwiseShape batch channel 56 56 3 3 56 56 1 1) bx b sh).filterData j
      = filter (b * 1 * 3 * 3 + j) := by
  unfold Filter3x3_Input56x56_Stride1.stagedIn
  refine Eq.trans (runLanes_frame 224 co hco (fun t sh => Filter3x3_Input56x56_Stride1.copyPhase input
    (depthwiseShape batch channel 56 56 3 3 56 56 1 1) bx b t sh) (fun sh => sh.filterData j)
    (fun t _ s => rfl) _) ?_
  refine runLanes_set 224 fo hfo _ (fun sh => sh.filterData j) _ j (by omega) ?_ ?_ sh
  · intro s
    simp only [Filter3x3_Input56x56_Stride1.fillPhase, depthwiseShape, ite_apply, write_apply]
    rw [if_pos hj, if_pos trivial]
  · intro t _ s
    simp only [Filter3x3_Input56x56_Stride1.fillPhase, depthwiseShape, ite_apply, write_apply]
    split_ifs <;> first | exact Or.inr rfl | (left; congr 1; omega)

theorem k56_fill_keep [Zero α] (batch channel : Nat) (filter : Nat → α) (bx b t a : Nat) (s : Shared α) :
    (Filter3x3_Input56x56_Stride1.fillPhase filter (depthwiseShape batch channel 56 56 3 3 56 56 1 1) bx b t s).inputData a = 0 ∨
    (Filter3x3_Input56x56_Stride1.fillPhase filter (depthwiseShape batch channel 56 56 3 3 56 56 1 1) bx b t s).inputData a = s.inputData a := by
  simp only [Filter3x3_Input56x56_Stride1.fillPhase, depthwiseShape, ite_write2_apply, ite_write_apply]
  split_ifs <;> first | exact Or.inl rfl | exact Or.inr rfl

theorem k56_fill_set [Zero α] (batch channel : Nat) (filter : Nat → α) (bx b r j : Nat)
    (hr : r < 58) (hj : j < 58) (hc : ¬((1 ≤ r ∧ r < 57) ∧ (1 ≤ j ∧ j < 57))) :
    ∃ t, t < 224 ∧ ∀ s : Shared α,
      (Filter3x3_Input56x56_Stride1.fillPhase filter (depthwiseShape batch channel 56 56 3 3 56 56 1 1) bx b t s).inputData (r * 58 + j) = 0 := by
  by_cases h0 : r = 0
  · refine ⟨96 + j, by omega, fun s => ?_⟩
    simp only [Filter3x3_Input56x56_Stride1.fillPhase, depthwiseShape, ite_write2_apply, ite_write_apply]
    split_ifs <;> first | rfl | omega
  · by_cases h57 : r = 57
    · refine ⟨160 + j, by omega, fun s => ?_⟩
      simp only [Filter3x3_Input56x56_Stride1.fillPhase, depthwiseShape, ite_write2_apply, ite_write_apply]
      split_ifs <;> first | rfl | omega
    · refine ⟨31 + r, by omega, fun s => ?_⟩
      simp only [Filter3x3_Input56x56_Stride1.fillPhase, depthwiseShape, ite_write2_apply, ite_write_apply]
      split_ifs <;> first | rfl | omega

theorem k56_inputData_interiorIn [Zero α] (batch channel : Nat) (fo co : List Nat)
    (hfo : ∀ t, t ∈ fo ↔ t < 224) (hco : ∀ t, t ∈ co ↔ t < 224)
    (input filter : Nat → α) (bx b : Nat) (sh : Shared α)
    (r j : Nat) (hc : (1 ≤ r ∧ r < 57) ∧ (1 ≤ j ∧ j < 57)) :
    (Filter3x3_Input56x56_Stride1.stagedIn fo co input filter (depthwiseShape batch channel 56 56 3 3 56 56 1 1) bx b sh).inputData (r * 58 + j)
      = input (bx * channel * 56 * 56 + b * 1 * 56 * 56 + (r - 1) * 56 + (j - 1)) := by
  unfold Filter3x3_Input56x56_Stride1.stagedIn
  refine runLanes_stores_set (fun sh => sh.inputData) 224 co hco _ _
    (fun t _ st => k56_copy_closed batch channel input bx b t st) _ _ ?_ ?_ _
  · intro t ht q hq hi
    simp only [List.mem_map, List.mem_range] at hq
    obtain ⟨k, hk, rfl⟩ := hq
    simp only at hi ⊢
    congr 1
    omega
  · refine ⟨(r - 1) % 4 * 56 + (j - 1), by omega, _,
      List.mem_map.2 ⟨(r - 1) / 4, List.mem_range.2 (by omega), rfl⟩, ?_⟩
    simp only
    omega

theorem k56_inputData_borderIn [Zero α] (batch channel : Nat) (fo co : List Nat)
    (hfo : ∀ t, t ∈ fo ↔ t < 224) (hco : ∀ t, t ∈ co ↔ t < 224)
    (input filter : Nat → α) (bx b : Nat) (sh : Shared α)
    (r j : Nat) (hr : r < 58) (hj : j < 58) (hc : ¬((1 ≤ r ∧ r < 57) ∧ (1 ≤ j ∧ j < 57))) :
    (Filter3x3_Input56x56_Stride1.stagedIn fo co input filter (depthwiseShape batch channel 56 56 3 3 56 56 1 1) bx b sh).inputData (r * 58 + j)
      = 0 := by
  unfold Filter3x3_Input56x56_Stride1.stagedIn
  refine Eq.trans (runLanes_stores_frame (fun sh => sh.inputData) 224 co hco _ _
    (fun t _ st => k56_copy_closed batch channel input bx b t st) (r * 58 + j) ?_ _) ?_
  rotate_left
  · obtain ⟨t, ht, hset⟩ := k56_fill_set batch channel filter bx b r j hr hj hc
    exact runLanes_set 224 fo hfo _ (fun sh => sh.inputData (r * 58 + j)) _ t ht hset
      (fun t _ s => k56_fill_keep batch channel filter bx b t _ s) sh
  · intro t ht q hq
    simp only [List.mem_map, List.mem_range] at hq
    obtain ⟨k, hk, rfl⟩ := hq
    simp only
    omega

theorem k56_inputDataIn [Zero α] (batch channel : Nat) (fo co : List Nat)
    (hfo : ∀ t, t ∈ fo ↔ t < 224) (hco : ∀ t, t ∈ co ↔ t < 224)
    (input filter : Nat → α) (bx b : Nat) (sh : Shared α)
    (r j : Nat) (hr : r < 58) (hj : j < 58) :
    (Filter3x3_Input56x56_Stride1.stagedIn fo co input filter (depthwiseShape batch channel 56 56 3 3 56 56 1 1) bx b sh).inputData (r * 58 + j)
      = if (1 ≤ r ∧ r < 57) ∧ (1 ≤ j ∧ j < 57) then
          input (bx * channel * 56 * 56 + b * 1 * 56 * 56 + (r - 1) * 56 + (j - 1)) else 0 := by
  by_cases hc : (1 ≤ r ∧ r < 57) ∧ (1 ≤ j ∧ j < 57)
  · rw [if_pos hc]
    exact k56_inputData_interiorIn batch channel fo co hfo hco input filter bx b sh r j hc
  · rw [if_neg hc]
    exact k56_inputData_borderIn batch channel fo co hfo hco input filter bx b sh r j hr hj hc

theorem k56_staged_eq [Zero α] (bd : Nat) (input filter : Nat → α) (p : Shape) (bx b : Nat)
    (sh : Shared α) :
    Filter3x3_Input56x56_Stride1.staged bd input filter p bx b sh
      = Filter3x3_Input56x56_Stride1.stagedIn (List.range bd) (List.range bd) input filter p bx b sh := rfl

theorem k56_filterData [Zero α] (batch channel : Nat) (input filter : Nat → α) (bx b : Nat) (sh : Shared α)
    (j : Nat) (hj : j < 9) :
    (Filter3x3_Input56x56_Stride1.staged 224 input filter (depthwiseShape batch channel 56 56 3 3 56 56 1 1) bx b sh).filterData j
      = filter (b * 1 * 3 * 3 + j) := by
  rw [k56_staged_eq]
  exact k56_filterDataIn batch channel (List.range 224) (List.range 224)
    (fun _ => List.mem_range) (fun _ => List.mem_range) input filter bx b sh j hj

theorem k56_inputData_interior [Zero α] (batch channel : Nat) (input filter : Nat → α) (bx b : Nat) (sh : Shared α)
    (r j : Nat) (hc : (1 ≤ r ∧ r < 57) ∧ (1 ≤ j ∧ j < 57)) :
    (Filter3x3_Input56x56_Stride1.staged 224 input filter (depthwiseShape batch channel 56 56 3 3 56 56 1 1) bx b sh).inputData (r * 58 + j)
      = input (bx * channel * 56 * 56 + b * 1 * 56 * 56 + (r - 1) * 56 + (j - 1)) := by
  rw [k56_staged_eq]
  exact k56_inputData_interiorIn batch channel (List.range 224) (List.range 224)
    (fun _ => List.mem_range) (fun _ => List.mem_range) input filter bx b sh r j hc

theorem k56_inputData_border [Zero α] (batch channel : Nat) (input filter : Nat → α) (bx b : Nat) (sh : Shared α)
    (r j : Nat) (hr : r < 58) (hj : j < 58) (hc : ¬((1 ≤ r ∧ r < 57) ∧ (1 ≤ j ∧ j < 57))) :
    (Filter3x3_Input56x56_Stride1.staged 224 input filter (depthwiseShape batch channel 56 56 3 3 56 56 1 1) bx b sh).inputData (r * 58 + j)
      = 0 := by
  rw [k56_staged_eq]
  exact k56_inputData_borderIn batch channel (List.range 224) (List.range 224)
    (fun _ => List.mem_range) (fun _ => List.mem_range) input filter bx b sh r j hr hj hc

theorem k56_inputData [Zero α] (batch channel : Nat) (input filter : Nat → α) (bx b : Nat) (sh : Shared α)
    (r j : Nat) (hr : r < 58) (hj : j < 58) :
    (Filter3x3_Input56x56_Stride1.staged 224 input filter (depthwiseShape batch channel 56 56 3 3 56 56 1 1) bx b sh).inputData (r * 58 + j)
      = if (1 ≤ r ∧ r < 57) ∧ (1 ≤ j ∧ j < 57) then
          input (bx * channel * 56 * 56 + b * 1 * 56 * 56 + (r - 1) * 56 + (j - 1)) else 0 := by
  rw [k56_staged_eq]
  exact k56_inputDataIn batch channel (List.range 224) (List.range 224)
    (fun _ => List.mem_range) (fun _ => List.mem_range) input filter bx b sh r j hr hj

/-- The value lane `t` stores at its `k`-th store, with the scratch reads replaced by what the
staging put there: tile row `r` of the lane's band shows image row `t / 56 * 14 + r - 1`. -/
theorem k56_lane_value [Add α] [Mul α] [Zero α] (batch channel : Nat) (fo co : List Nat)
    (hfo : ∀ t, t ∈ fo ↔ t < 224) (hco : ∀ t, t ∈ co ↔ t < 224)
    (input filter : Nat → α) (alpha beta : α)
    (bx b t k : Nat) (sh : Shared α) (ht : t < 224) (hk : k < 14) :
    nestSum (taps 3
      (fun i => (Filter3x3_Input56x56_Stride1.stagedIn fo co input filter
        (depthwiseShape batch channel 56 56 3 3 56 56 1 1) bx b sh).filterData (0 + i))
      (fun r kw => (Filter3x3_Input56x56_Stride1.stagedIn fo co input filter
        (depthwiseShape batch channel 56 56 3 3 56 56 1 1) bx b sh).inputData (t / 56 * 58 * 14 + t % 56 + r * 58 + kw))
      (tapRows 3 16 0 1 k)) * alpha + beta
    = tapValue input filter channel 56 56 3 3 1 1 alpha beta
        (tapRows 3 16 0 1 k) (fun r => ((t / 56 * 14 + r : Nat) : Int) - 1) bx b (t % 56) := by
  unfold tapValue
  congr 2
  apply congrArg
  apply taps_congr
  intro q hq kw hkw
  obtain ⟨h1, h2, h3⟩ := (mem_tapRows _ _ _ _ _ q).1 hq
  constructor
  · rw [k56_filterDataIn batch channel fo co hfo hco input filter bx b sh _ (by omega)]
    congr 1
    omega
  · have e : t / 56 * 58 * 14 + t % 56 + q.2 * 58 + kw
        = (t / 56 * 14 + q.2) * 58 + (t % 56 + kw) := by omega
    simp only
    rw [e, k56_inputDataIn batch channel fo co hfo hco input filter bx b sh _ _ (by omega) (by omega)]
    unfold paddedInput
    by_cases hc : (1 ≤ t / 56 * 14 + q.2 ∧ t / 56 * 14 + q.2 < 57) ∧ (1 ≤ t % 56 + kw ∧ t % 56 + kw < 57)
    · rw [if_pos hc, if_pos (by push_cast; omega)]
      congr 1
      push_cast
      omega
    · rw [if_neg hc, if_neg (by push_cast; omega)]

theorem k56_rows (oh kh : Nat) (hkh : kh < 3) :
    if 0 ≤ oh % 14 * 1 + kh ∧ oh % 14 * 1 + kh < 16 + 0 then
      (fun r : Nat => ((oh / 14 * 14 + r : Nat) : Int) - 1) (oh % 14 * 1 + kh - 0)
        = (oh : Int) * (1 : Nat) + kh - (1 : Nat)
    else ¬ (0 ≤ (oh : Int) * (1 : Nat) + kh - (1 : Nat) ∧ (oh : Int) * (1 : Nat) + kh - (1 : Nat) < (56 : Nat)) := by
  rw [if_pos (by omega)]
  simp only
  push_cast
  omega

theorem k56_value [CommRing α] (batch channel : Nat) (input filter : Nat → α) (alpha beta : α)
    (bx b t k : Nat) (sh : Shared α) (ht : t < 224) (hk : k < 14) :
    nestSum (taps 3
      (fun i => (Filter3x3_Input56x56_Stride1.staged 224 input filter
        (depthwiseShape batch channel 56 56 3 3 56 56 1 1) bx b sh).filterData (0 + i))
      (fun r kw => (Filter3x3_Input56x56_Stride1.staged 224 input filter
        (depthwiseShape batch channel 56 56 3 3 56 56 1 1) bx b sh).inputData (t / 56 * 58 * 14 + t % 56 + r * 58 + kw))
      (tapRows 3 16 0 1 k)) * alpha + beta
    = depthwiseRef input filter channel 56 56 3 3 1 1 alpha beta bx b (t / 56 * 14 + k) (t % 56) := by
  rw [k56_staged_eq, k56_lane_value batch channel (List.range 224) (List.range 224)
    (fun _ => List.mem_range) (fun _ => List.mem_range) input filter alpha beta bx b t k sh ht hk]
  have h1 : (t / 56 * 14 + k) % 14 = k := by omega
  have h2 : (t / 56 * 14 + k) / 14 * 14 = t / 56 * 14 := by omega
  have h := tapValue_eq_ref input filter channel 56 56 3 3 1 1 alpha beta bx b (t / 56 * 14 + k) (t % 56)
    (fun r => (((t / 56 * 14 + k) / 14 * 14 + r : Nat) : Int) - 1) 16 0 1 ((t / 56 * 14 + k) % 14)
    (fun kh hkh => k56_rows (t / 56 * 14 + k) kh hkh)
  rw [h1, h2] at h
  exact h

/-- The index lane `t` of group `(bx, b)` stores to at its `k`-th store is the flat index of
element `[bx, b, t / 56 * 14 + k, t % 56]`. -/
theorem k56_store_index (channel bx b t k : Nat) :
    bx * channel * 56 * 56 + b * 1 * 56 * 56 + t / 56 * 14 * 56 + t % 56 + k * 56
      = nchw channel 56 56 bx b (t / 56 * 14 + k) (t % 56) := by
  unfold nchw; omega

/-- Output element `[n, c, oh, ow]` after `Filter3x3_Input56x56_Stride1`, for any order of the
groups and any order of the lanes inside each of the three phases of a group. -/
theorem k56_elemIn [Add α] [Mul α] [Zero α] (batch channel : Nat) (groups : List (Nat × Nat))
    (fo co vo : Nat → Nat → List Nat)
    (hG : ∀ g, g ∈ groups ↔ g.1 < batch ∧ g.2 < channel)
    (hfo : ∀ bx b t, t ∈ fo bx b ↔ t < 224) (hco : ∀ bx b t, t ∈ co bx b ↔ t < 224)
    (hvo : ∀ bx b t, t ∈ vo bx b ↔ t < 224)
    (input filter output : Nat → α) (alpha beta : α)
    (shared : Nat → Nat → Shared α) (n c oh ow : Nat)
    (hn : n < batch) (hc : c < channel) (hoh : oh < 56) (how : ow < 56) :
    Filter3x3_Input56x56_Stride1.launchIn groups fo co vo input filter output
      (depthwiseShape batch channel 56 56 3 3 56 56 1 1) alpha beta shared (nchw channel 56 56 n c oh ow)
    = tapValue input filter channel 56 56 3 3 1 1 alpha beta
        (tapRows 3 16 0 1 (oh % 14)) (fun r => ((oh / 14 * 14 + r : Nat) : Int) - 1) n c ow := by
  unfold Filter3x3_Input56x56_Stride1.launchIn
  refine launch_rows_set batch channel 224 56 (by omega) groups hG vo hvo
    (fun bx b t out => Filter3x3_Input56x56_Stride1.convolve
      (depthwiseShape batch channel 56 56 3 3 56 56 1 1) alpha beta bx b t
      (Filter3x3_Input56x56_Stride1.stagedIn (fo bx b) (co bx b) input filter
        (depthwiseShape batch channel 56 56 3 3 56 56 1 1) bx b (shared bx b)) out)
    _ _
    (fun bx _ b _ t _ out => k56_convolve_closed batch channel alpha beta bx b t _ out)
    _ _ ?_ ?_ output
  · intro bx hbx b hb t ht k y hy hi
    simp only [List.getElem?_map, List.getElem?_range, Option.map_eq_some'] at hy
    obtain ⟨k', hk', rfl⟩ := hy
    rw [List.getElem?_eq_some] at hk'
    obtain ⟨hk, rfl⟩ := hk'
    simp only [List.length_range, List.getElem_range] at hk ⊢
    rw [k56_lane_value batch channel (fo bx b) (co bx b) (hfo bx b) (hco bx b) input filter alpha beta bx b t k _ ht hk]
    rw [k56_store_index] at hi
    obtain ⟨rfl, rfl, rfl, rfl⟩ := nchw_inj hb hc (by omega) hoh (Nat.mod_lt _ (by omega)) how hi
    have h1 : (t / 56 * 14 + k) % 14 = k := by omega
    have h2 : (t / 56 * 14 + k) / 14 * 14 = t / 56 * 14 := by omega
    rw [h1, h2]
  · refine ⟨n, hn, c, hc, oh / 14 * 56 + ow, by omega, oh % 14, by simp; omega, ?_⟩
    unfold nchw
    have h1 : (oh / 14 * 56 + ow) / 56 = oh / 14 := by omega
    have h2 : (oh / 14 * 56 + ow) % 56 = ow := by omega
    rw [h1, h2]
    omega

/-- No lane of `Filter3x3_Input56x56_Stride1` stores outside the `batch * channel * 56 * 56`
output elements. -/
theorem k56_frameIn [Add α] [Mul α] [Zero α] (batch channel : Nat) (groups : List (Nat × Nat))
    (fo co vo : Nat → Nat → List Nat)
    (hG : ∀ g, g ∈ groups ↔ g.1 < batch ∧ g.2 < channel)
    (hvo : ∀ bx b t, t ∈ vo bx b ↔ t < 224)
    (input filter output : Nat → α) (alpha beta : α)
    (shared : Nat → Nat → Shared α) (i : Nat)
    (hi : batch * channel * 56 * 56 ≤ i) :
    Filter3x3_Input56x56_Stride1.launchIn groups fo co vo input filter output
      (depthwiseShape batch channel 56 56 3 3 56 56 1 1) alpha beta shared i
    = output i := by
  unfold Filter3x3_Input56x56_Stride1.launchIn
  refine launch_rows_frame batch channel 224 56 groups hG vo hvo
    (fun bx b t out => Filter3x3_Input56x56_Stride1.convolve
      (depthwiseShape batch channel 56 56 3 3 56 56 1 1) alpha beta bx b t
      (Filter3x3_Input56x56_Stride1.stagedIn (fo bx b) (co bx b) input filter
        (depthwiseShape batch channel 56 56 3 3 56 56 1 1) bx b (shared bx b)) out)
    _ _
    (fun bx _ b _ t _ out => k56_convolve_closed batch channel alpha beta bx b t _ out)
    i ?_ output
  intro bx hbx b hb t ht k hk
  simp only [List.length_map, List.length_range] at hk
  rw [k56_store_index]
  have hlt := nchw_lt batch channel 56 56 bx b (t / 56 * 14 + k) (t % 56) hbx hb (by omega)
    (Nat.mod_lt _ (by omega))
  omega

/-- The launch of `Filter3x3_Input56x56_Stride1` is the run with the groups in grid order and the
lanes ascending. -/
theorem k56_launch_eq [Add α] [Mul α] [Zero α] (gx gy bd : Nat) (input filter output : Nat → α)
    (p : Shape) (alpha beta : α) (shared : Nat → Nat → Shared α) :
    Filter3x3_Input56x56_Stride1 gx gy bd input filter output p alpha beta shared
    = Filter3x3_Input56x56_Stride1.launchIn (gridGroups gx gy) (fun _ _ => List.range bd)
        (fun _ _ => List.range bd) (fun _ _ => List.range bd) input filter output p alpha beta shared :=
  forLoop_grid gx gy (fun bx b out =>
    Filter3x3_Input56x56_Stride1.block bd input filter p alpha beta bx b (shared bx b) out) output

/-- Output element `[n, c, oh, ow]` after `Filter3x3_Input56x56_Stride1` is the reference value. -/
theorem k56_correct [CommRing α] (batch channel : Nat) (input filter output : Nat → α) (alpha beta : α)
    (shared : Nat → Nat → Shared α) (n c oh ow : Nat)
    (hn : n < batch) (hc : c < channel) (hoh : oh < 56) (how : ow < 56) :
    Filter3x3_Input56x56_Stride1 batch channel 224 input filter output
      (depthwiseShape batch channel 56 56 3 3 56 56 1 1) alpha beta shared (nchw channel 56 56 n c oh ow)
    = depthwiseRef input filter channel 56 56 3 3 1 1 alpha beta n c oh ow := by
  rw [k56_launch_eq, k56_elemIn batch channel _ _ _ _ (mem_gridGroups _ _)
    (fun _ _ _ => List.mem_range) (fun _ _ _ => List.mem_range) (fun _ _ _ => List.mem_range)
    input filter output alpha beta shared n c oh ow hn hc hoh how]
  exact tapValue_eq_ref input filter channel 56 56 3 3 1 1 alpha beta n c oh ow
    (fun r => ((oh / 14 * 14 + r : Nat) : Int) - 1) 16 0 1 (oh % 14) (fun kh hkh => k56_rows oh kh hkh)

end k56

section k56_trace
variable {α : Type}

/-- The output stores of a lane of `Filter3x3_Input56x56_Stride1` are exactly the 14 stores at
`outputIdx ... 0`, ..., `outputIdx ... 13`. -/
theorem k56_convolve_stores [Add α] [Mul α] [Zero α] (batch channel : Nat) (alpha beta : α)
    (bx b t : Nat) (sh : Shared α) :
    StoresAt (Filter3x3_Input56x56_Stride1.convolve (depthwiseShape batch channel 56 56 3 3 56 56 1 1) alpha beta bx b t sh) 14
      (Filter3x3_Input56x56_Stride1.outputIdx (depthwiseShape batch channel 56 56 3 3 56 56 1 1) bx b t) :=
  storesAt_of_writeRows _ 14 _ 56 _ _ (by simp) (fun k => rfl)
    (fun out => k56_convolve_closed batch channel alpha beta bx b t sh out)

theorem k56_outputIdx_eq (batch channel bx b t k : Nat) :
    Filter3x3_Input56x56_Stride1.outputIdx (depthwiseShape batch channel 56 56 3 3 56 56 1 1) bx b t k
      = nchw channel 56 56 bx (b) (t / 56 * 14 + k) (t % 56) :=
  k56_store_index channel bx b t k

theorem k56_storeBijection (batch channel : Nat) :
    StoreBijection batch (channel) 224 14 (batch * channel * 56 * 56)
      (Filter3x3_Input56x56_Stride1.outputIdx (depthwiseShape batch channel 56 56 3 3 56 56 1 1)) := by
  refine ⟨?_, ?_, ?_⟩
  · intro bx hbx b hb t ht k hk
    rw [k56_outputIdx_eq]
    exact nchw_lt batch channel 56 56 bx _ _ _ hbx (by omega) (by omega) (Nat.mod_lt _ (by omega))
  · intro bx hbx b hb t ht k hk bx' hbx' b' hb' t' ht' k' hk' e
    rw [k56_outputIdx_eq, k56_outputIdx_eq] at e
    obtain ⟨h1, h2, h3, h4⟩ := nchw_inj (C := channel) (by omega) (by omega) (by omega) (by omega)
      (Nat.mod_lt _ (by omega)) (Nat.mod_lt _ (by omega)) e
    refine ⟨h1, ?_, ?_, ?_⟩ <;> omega
  · intro i hi
    obtain ⟨n, c, oh, ow, hn, hc, hoh, how, rfl⟩ := nchw_surj batch channel 56 56 i hi
    refine ⟨n, hn, c, by omega, oh / 14 * 56 + ow, by omega, oh % 14, by omega, ?_⟩
    rw [k56_outputIdx_eq]
    have h1 : (oh / 14 * 56 + ow) / 56 = oh / 14 := by omega
    have h2 : (oh / 14 * 56 + ow) % 56 = ow := by omega
    rw [h1, h2]
    congr 1 <;> omega

/-- The filter staging lines of a lane of `Filter3x3_Input56x56_Stride1` perform exactly the stores
listed by `filterStores`. -/
theorem k56_filter_stores [Zero α] (batch channel : Nat) (filter : Nat → α) (bx b t : Nat)
    (sh : Shared α) :
    (Filter3x3_Input56x56_Stride1.fillPhase filter (depthwiseShape batch channel 56 56 3 3 56 56 1 1) bx b t sh).filterData
      = writeList ((Filter3x3_Input56x56_Stride1.filterStores (depthwiseShape batch channel 56 56 3 3 56 56 1 1) b t).map (fun q => (q.1, filter q.2)))
          sh.filterData := by
  simp only [Filter3x3_Input56x56_Stride1.fillPhase, Filter3x3_Input56x56_Stride1.filterStores, depthwiseShape]
  split_ifs <;> rfl

theorem k56_filter_once (batch channel b : Nat) :
    WrittenOnce 224 (1 * (3 * 3)) (Filter3x3_Input56x56_Stride1.filterStores (depthwiseShape batch channel 56 56 3 3 56 56 1 1) b) :=
  writtenOnce_single 224 9 _ (by omega)

/-- Every sequential schedule of `Filter3x3_Input56x56_Stride1` produces the output buffer of the
launch in grid order with ascending lanes. -/
theorem k56_schedule_eq [Add α] [Mul α] [Zero α] (batch channel : Nat)
    (groups : List (Nat × Nat)) (fo co vo : Nat → Nat → List Nat)
    (hs : IsSchedule batch (channel) 224 groups fo co vo)
    (input filter output : Nat → α) (alpha beta : α) (shared shared' : Nat → Nat → Shared α) :
    Filter3x3_Input56x56_Stride1.launchIn groups fo co vo input filter output (depthwiseShape batch channel 56 56 3 3 56 56 1 1) alpha beta shared
      = Filter3x3_Input56x56_Stride1 batch (channel) 224 input filter output (depthwiseShape batch channel 56 56 3 3 56 56 1 1) alpha beta shared' := by
  obtain ⟨hG, hfo, hco, hvo⟩ := isSchedule_mem _ _ _ _ _ _ _ hs
  funext i
  rw [k56_launch_eq]
  by_cases hi : i < batch * channel * 56 * 56
  · obtain ⟨n, c, oh, ow, hn, hc, hoh, how, rfl⟩ := nchw_surj batch channel 56 56 i hi
    rw [k56_elemIn batch channel groups fo co vo hG hfo hco hvo input filter output alpha beta
        shared n c oh ow hn hc hoh how,
      k56_elemIn batch channel _ _ _ _ (mem_gridGroups _ _) (fun _ _ _ => List.mem_range)
        (fun _ _ _ => List.mem_range) (fun _ _ _ => List.mem_range) input filter output alpha beta
        shared' n c oh ow hn hc hoh how]
  · rw [k56_frameIn batch channel groups fo co vo hG hvo input filter output alpha beta
        shared i (by omega),
      k56_frameIn batch channel _ _ _ _ (mem_gridGroups _ _) (fun _ _ _ => List.mem_range)
        input filter output alpha beta shared' i (by omega)]

end k56_trace

section k112
variable {α : Type}

theorem k112_convolve_closed [Add α] [Mul α] [Zero α] (batch channel : Nat) (alpha beta : α) (bx b t : Nat)
    (sh : Shared α) (out : Nat → α) :
    Filter3x3_Input112x112_Stride2.convolve (depthwiseShape batch channel 112 112 3 3 56 56 1 2) alpha beta bx b t sh out
    = writeRows (bx * 56 * 56 * channel + b / 2 * 56 * 56 + (b &&& 1) * (56 / 2) * 56 + t / 56 * 7 * 56 + t % 56) 56
        ((List.range 7).map (fun k => nestSum (taps 3 (fun i => sh.filterData i)
            (fun r kw => sh.inputData (t / 56 * 14 * 114 + t % 56 * 2 + r * 114 + kw)) (tapRows 3 15 0 2 k)) * alpha + beta)) out := by
  rfl

/-- Copy phase of a lane of an even group (upper half of the image): 29 stores. -/
theorem k112_copy_closed_even (batch channel : Nat) (input : Nat → α) (bx b t : Nat) (sh : Shared α)
    (hb : b % 2 = 0) :
    (Filter3x3_Input112x112_Stride2.copyPhase input (depthwiseShape batch channel 112 112 3 3 56 56 1 2) bx b t sh).inputData
    = writeList ((List.range 29).map (fun (i : Nat) => (t / 112 * 2 + t + 1 + 114 + 2 * 114 * i,
        input ((((bx * 112 * 112 * channel + b / 2 * 112 * 112 + 0 * 112 / 2 * 112 : Nat) : Int)
            + (t : Int) - ((112 : Nat) : Int) + ((112 : Nat) : Int) + 2 * 112 * (i : Int)).toNat)))) sh.inputData := by
  simp only [Filter3x3_Input112x112_Stride2.copyPhase, depthwiseShape, Nat.and_one_is_mod, hb]
  rfl

/-- Copy phase of a lane of an odd group (lower half): 28 stores, and a 29th for lanes below 112. -/
theorem k112_copy_closed_odd (batch channel : Nat) (input : Nat → α) (bx b t : Nat) (sh : Shared α)
    (hb : b % 2 = 1) :
    (Filter3x3_Input112x112_Stride2.copyPhase input (depthwiseShape batch channel 112 112 3 3 56 56 1 2) bx b t sh).inputData
    = writeList ((List.range (if t < 112 then 29 else 28)).map (fun (i : Nat) => (t / 112 * 2 + t + 1 + 2 * 114 * i,
        input ((((bx * 112 * 112 * channel + b / 2 * 112 * 112 + 1 * 112 / 2 * 112 : Nat) : Int)
            + (t : Int) - ((112 : Nat) : Int) + 2 * 112 * (i : Int)).toNat)))) sh.inputData := by
  simp only [Filter3x3_Input112x112_Stride2.copyPhase, depthwiseShape, Nat.and_one_is_mod, hb]
  by_cases ht : t < 112
  · simp only [ht, if_true]
    rfl
  · simp only [ht, if_false]
    rfl

theorem k112_filterDataIn [Zero α] (batch channel : Nat) (fo co : List Nat)
    (hfo : ∀ t, t ∈ fo ↔ t < 224) (hco : ∀ t, t ∈ co ↔ t < 224)
    (input filter : Nat → α) (bx b : Nat) (sh : Shared α)
    (j : Nat) (hj : j < 9) :
    (Filter3x3_Input112x112_Stride2.stagedIn fo co input filter (depthwiseShape batch channel 112 112 3 3 56 56 1 2) bx b sh).filterData j
      = filter (b / 2 * 3 * 3 + j) := by
  unfold Filter3x3_Input112x112_Stride2.stagedIn
  refine Eq.trans (runLanes_frame 224 co hco (fun t sh => Filter3x3_Input112x112_Stride2.copyPhase input
    (depthwiseShape batch channel 112 112 3 3 56 56 1 2) bx b t sh) (fun sh => sh.filterData j)
    (fun t _ s => rfl) _) ?_
  refine runLanes_set 224 fo hfo _ (fun sh => sh.filterData j) _ j (by omega) ?_ ?_ sh
  · intro s
    simp only [Filter3x3_Input112x112_Stride2.fillPhase, depthwiseShape, ite_apply, write_apply]
    rw [if_pos (by omega), if_pos trivial]
  · intro t _ s
    simp only [Filter3x3_Input112x112_Stride2.fillPhase, depthwiseShape, ite_apply, write_apply]
    split_ifs <;> first | exact Or.inr rfl | (left; congr 1; omega)

theorem k112_fill_keep [Zero α] (batch channel : Nat) (filter : Nat → α) (bx b t a : Nat) (s : Shared α) :
    (Filter3x3_Input112x112_Stride2.fillPhase filter (depthwiseShape batch channel 112 112 3 3 56 56 1 2) bx b t s).inputData a = 0 ∨
    (Filter3x3_Input112x112_Stride2.fillPhase filter (depthwiseShape batch channel 112 112 3 3 56 56 1 2) bx b t s).inputData a = s.inputData a := by
  simp only [Filter3x3_Input112x112_Stride2.fillPhase, depthwiseShape, ite_write2_apply, ite_write_apply]
  split_ifs <;> first | exact Or.inl rfl | exact Or.inr rfl

theorem k112_fill_set [Zero α] (batch channel : Nat) (filter : Nat → α) (bx b T j : Nat)
    (hT : T < 57) (hj : j < 113) (hc : j = 0 ∨ T = 0) :
    ∃ t, t < 224 ∧ ∀ s : Shared α,
      (Filter3x3_Input112x112_Stride2.fillPhase filter (depthwiseShape batch channel 112 112 3 3 56 56 1 2) bx b t s).inputData (T * 114 + j) = 0 := by
  by_cases h0 : j = 0
  · refine ⟨32 + T, by omega, fun s => ?_⟩
    simp only [Filter3x3_Input112x112_Stride2.fillPhase, depthwiseShape, ite_write2_apply, ite_write_apply]
    split_ifs <;> first | rfl | omega
  · refine ⟨111 + j, by omega, fun s => ?_⟩
    simp only [Filter3x3_Input112x112_Stride2.fillPhase, depthwiseShape, ite_write2_apply, ite_write_apply]
    split_ifs <;> first | rfl | omega

theorem k112_inputData_evenIn [Zero α] (batch channel : Nat) (fo co : List Nat)
    (hfo : ∀ t, t ∈ fo ↔ t < 224) (hco : ∀ t, t ∈ co ↔ t < 224)
    (input filter : Nat → α) (bx b : Nat) (sh : Shared α)
    (T j : Nat) (hb : b % 2 = 0) (hT : T < 57) (hj : j < 113) :
    (Filter3x3_Input112x112_Stride2.stagedIn fo co input filter (depthwiseShape batch channel 112 112 3 3 56 56 1 2) bx b sh).inputData (T * 114 + j)
      = if 1 ≤ T ∧ 1 ≤ j then
          input (bx * 112 * 112 * channel + b / 2 * 112 * 112 + (T - 1) * 112 + (j - 1)) else 0 := by
  unfold Filter3x3_Input112x112_Stride2.stagedIn
  by_cases hc : 1 ≤ T ∧ 1 ≤ j
  · rw [if_pos hc]
    refine runLanes_stores_set (fun sh => sh.inputData) 224 co hco _ _
      (fun t _ st => k112_copy_closed_even batch channel input bx b t st hb) _ _ ?_ ?_ _
    · intro t ht q hq hi
      simp only [List.mem_map, List.mem_range] at hq
      obtain ⟨k, hk, rfl⟩ := hq
      simp only at hi ⊢
      congr 1
      omega
    · refine ⟨(T - 1) % 2 * 112 + (j - 1), by omega, _,
        List.mem_map.2 ⟨(T - 1) / 2, List.mem_range.2 (by omega), rfl⟩, ?_⟩
      simp only
      omega
  · rw [if_neg hc]
    refine Eq.trans (runLanes_stores_frame (fun sh => sh.inputData) 224 co hco _ _
      (fun t _ st => k112_copy_closed_even batch channel input bx b t st hb) (T * 114 + j) ?_ _) ?_
    rotate_left
    · obtain ⟨t, ht, hset⟩ := k112_fill_set batch channel filter bx b T j hT hj (by omega)
      exact runLanes_set 224 fo hfo _ (fun sh => sh.inputData (T * 114 + j)) _ t ht hset
        (fun t _ s => k112_fill_keep batch channel filter bx b t _ s) sh
    · intro t ht q hq
      simp only [List.mem_map, List.mem_range] at hq
      obtain ⟨k, hk, rfl⟩ := hq
      simp only
      omega

theorem k112_inputData_oddIn [Zero α] (batch channel : Nat) (fo co : List Nat)
    (hfo : ∀ t, t ∈ fo ↔ t < 224) (hco : ∀ t, t ∈ co ↔ t < 224)
    (input filter : Nat → α) (bx b : Nat) (sh : Shared α)
    (T j : Nat) (hb : b % 2 = 1) (hT : T < 57) (hj : j < 113) :
    (Filter3x3_Input112x112_Stride2.stagedIn fo co input filter (depthwiseShape batch channel 112 112 3 3 56 56 1 2) bx b sh).inputData (T * 114 + j)
      = if 1 ≤ j then
          input (bx * 112 * 112 * channel + b / 2 * 112 * 112 + (T + 55) * 112 + (j - 1)) else 0 := by
  unfold Filter3x3_Input112x112_Stride2.stagedIn
  by_cases hc : 1 ≤ j
  · rw [if_pos hc]
    refine runLanes_stores_set (fun sh => sh.inputData) 224 co hco _ _
      (fun t _ st => k112_copy_closed_odd batch channel input bx b t st hb) _ _ ?_ ?_ _
    · intro t ht q hq hi
      simp only [List.mem_map, List.mem_range] at hq
      obtain ⟨k, hk, rfl⟩ := hq
      simp only at hi ⊢
      congr 1
      omega
    · refine ⟨T % 2 * 112 + (j - 1), by omega, _,
        List.mem_map.2 ⟨T / 2, List.mem_range.2 ?_, rfl⟩, ?_⟩
      · split_ifs <;> omega
      · simp only
        omega
  · rw [if_neg hc]
    refine Eq.trans (runLanes_stores_frame (fun sh => sh.inputData) 224 co hco _ _
      (fun t _ st => k112_copy_closed_odd batch channel input bx b t st hb) (T * 114 + j) ?_ _) ?_
    rotate_left
    · obtain ⟨t, ht, hset⟩ := k112_fill_set batch channel filter bx b T j hT hj (by omega)
      exact runLanes_set 224 fo hfo _ (fun sh => sh.inputData (T * 114 + j)) _ t ht hset
        (fun t _ s => k112_fill_keep batch channel filter bx b t _ s) sh
    · intro t ht q hq
      simp only [List.mem_map, List.mem_range] at hq
      obtain ⟨k, hk, rfl⟩ := hq
      simp only
      omega

theorem k112_staged_eq [Zero α] (bd : Nat) (input filter : Nat → α) (p : Shape) (bx b : Nat)
    (sh : Shared α) :
    Filter3x3_Input112x112_Stride2.staged bd input filter p bx b sh
      = Filter3x3_Input112x112_Stride2.stagedIn (List.range bd) (List.range bd) input filter p bx b sh := rfl

theorem k112_filterData [Zero α] (batch channel : Nat) (input filter : Nat → α) (bx b : Nat) (sh : Shared α)
    (j : Nat) (hj : j < 9) :
    (Filter3x3_Input112x112_Stride2.staged 224 input filter (depthwiseShape batch channel 112 112 3 3 56 56 1 2) bx b sh).filterData j
      = filter (b / 2 * 3 * 3 + j) := by
  rw [k112_staged_eq]
  exact k112_filterDataIn batch channel (List.range 224) (List.range 224)
    (fun _ => List.mem_range) (fun _ => List.mem_range) input filter bx b sh j hj

theorem k112_inputData_even [Zero α] (batch channel : Nat) (input filter : Nat → α) (bx b : Nat) (sh : Shared α)
    (T j : Nat) (hb : b % 2 = 0) (hT : T < 57) (hj : j < 113) :
    (Filter3x3_Input112x112_Stride2.staged 224 input filter (depthwiseShape batch channel 112 112 3 3 56 56 1 2) bx b sh).inputData (T * 114 + j)
      = if 1 ≤ T ∧ 1 ≤ j then
          input (bx * 112 * 112 * channel + b / 2 * 112 * 112 + (T - 1) * 112 + (j - 1)) else 0 := by
  rw [k112_staged_eq]
  exact k112_inputData_evenIn batch channel (List.range 224) (List.range 224)
    (fun _ => List.mem_range) (fun _ => List.mem_range) input filter bx b sh T j hb hT hj

theorem k112_inputData_odd [Zero α] (batch channel : Nat) (input filter : Nat → α) (bx b : Nat) (sh : Shared α)
    (T j : Nat) (hb : b % 2 = 1) (hT : T < 57) (hj : j < 113) :
    (Filter3x3_Input112x112_Stride2.staged 224 input filter (depthwiseShape batch channel 112 112 3 3 56 56 1 2) bx b sh).inputData (T * 114 + j)
      = if 1 ≤ j then
          input (bx * 112 * 112 * channel + b / 2 * 112 * 112 + (T + 55) * 112 + (j - 1)) else 0 := by
  rw [k112_staged_eq]
  exact k112_inputData_oddIn batch channel (List.range 224) (List.range 224)
    (fun _ => List.mem_range) (fun _ => List.mem_range) input filter bx b sh T j hb hT hj

/-- The value lane `t` of group `(bx, b)` stores at its `k`-th store, with the scratch reads
replaced by what the staging put there: tile row `r` of the lane's band shows image row
`b % 2 * 56 + t / 56 * 14 + r - 1`. -/
theorem k112_lane_value [Add α] [Mul α] [Zero α] (batch channel : Nat) (fo co : List Nat)
    (hfo : ∀ t, t ∈ fo ↔ t < 224) (hco : ∀ t, t ∈ co ↔ t < 224)
    (input filter : Nat → α) (alpha beta : α)
    (bx b t k : Nat) (sh : Shared α) (ht : t < 224) (hk : k < 7) :
    nestSum (taps 3
      (fun i => (Filter3x3_Input112x112_Stride2.stagedIn fo co input filter
        (depthwiseShape batch channel 112 112 3 3 56 56 1 2) bx b sh).filterData i)
      (fun r kw => (Filter3x3_Input112x112_Stride2.stagedIn fo co input filter
        (depthwiseShape batch channel 112 112 3 3 56 56 1 2) bx b sh).inputData (t / 56 * 14 * 114 + t % 56 * 2 + r * 114 + kw))
      (tapRows 3 15 0 2 k)) * alpha + beta
    = tapValue input filter channel 112 112 3 3 1 2 alpha beta
        (tapRows 3 15 0 2 k) (fun r => ((b % 2 * 56 + t / 56 * 14 + r : Nat) : Int) - 1) bx (b / 2) (t % 56) := by
  have hbc : bx * 112 * 112 * channel = bx * channel * 112 * 112 := by ring
  unfold tapValue
  congr 2
  apply congrArg
  apply taps_congr
  intro q hq kw hkw
  obtain ⟨h1, h2, h3⟩ := (mem_tapRows _ _ _ _ _ q).1 hq
  constructor
  · rw [k112_filterDataIn batch channel fo co hfo hco input filter bx b sh _ (by omega)]
  · have e : t / 56 * 14 * 114 + t % 56 * 2 + q.2 * 114 + kw
        = (t / 56 * 14 + q.2) * 114 + (t % 56 * 2 + kw) := by omega
    simp only
    rw [e]
    unfold paddedInput
    rcases Nat.mod_two_eq_zero_or_one b with hb | hb
    · rw [k112_inputData_evenIn batch channel fo co hfo hco input filter bx b sh _ _ hb (by omega) (by omega)]
      by_cases hc : 1 ≤ t / 56 * 14 + q.2 ∧ 1 ≤ t % 56 * 2 + kw
      · rw [if_pos hc, if_pos (by push_cast; omega)]
        congr 1
        push_cast
        omega
      · rw [if_neg hc, if_neg (by push_cast; omega)]
    · rw [k112_inputData_oddIn batch channel fo co hfo hco input filter bx b sh _ _ hb (by omega) (by omega)]
      by_cases hc : 1 ≤ t % 56 * 2 + kw
      · rw [if_pos hc, if_pos (by push_cast; omega)]
        congr 1
        push_cast
        omega
      · rw [if_neg hc, if_neg (by push_cast; omega)]

theorem k112_rows (oh kh : Nat) (hoh : oh < 56) (hkh : kh < 3) :
    if 0 ≤ oh % 7 * 2 + kh ∧ oh % 7 * 2 + kh < 15 + 0 then
      (fun r : Nat => ((oh / 7 * 14 + r : Nat) : Int) - 1) (oh % 7 * 2 + kh - 0)
        = (oh : Int) * (2 : Nat) + kh - (1 : Nat)
    else ¬ (0 ≤ (oh : Int) * (2 : Nat) + kh - (1 : Nat) ∧ (oh : Int) * (2 : Nat) + kh - (1 : Nat) < (112 : Nat)) := by
  rw [if_pos (by omega)]
  simp only
  push_cast
  omega

theorem k112_value [CommRing α] (batch channel : Nat) (input filter : Nat → α) (alpha beta : α)
    (bx b t k : Nat) (sh : Shared α) (ht : t < 224) (hk : k < 7) :
    nestSum (taps 3
      (fun i => (Filter3x3_Input112x112_Stride2.staged 224 input filter
        (depthwiseShape batch channel 112 112 3 3 56 56 1 2) bx b sh).filterData i)
      (fun r kw => (Filter3x3_Input112x112_Stride2.staged 224 input filter
        (depthwiseShape batch channel 112 112 3 3 56 56 1 2) bx b sh).inputData (t / 56 * 14 * 114 + t % 56 * 2 + r * 114 + kw))
      (tapRows 3 15 0 2 k)) * alpha + beta
    = depthwiseRef input filter channel 112 112 3 3 1 2 alpha beta bx (b / 2) (b % 2 * 28 + t / 56 * 7 + k) (t % 56) := by
  rw [k112_staged_eq, k112_lane_value batch channel (List.range 224) (List.range 224)
    (fun _ => List.mem_range) (fun _ => List.mem_range) input filter alpha beta bx b t k sh ht hk]
  have h1 : (b % 2 * 28 + t / 56 * 7 + k) % 7 = k := by omega
  have h2 : (b % 2 * 28 + t / 56 * 7 + k) / 7 * 14 = b % 2 * 56 + t / 56 * 14 := by omega
  have h := tapValue_eq_ref input filter channel 112 112 3 3 1 2 alpha beta bx (b / 2)
    (b % 2 * 28 + t / 56 * 7 + k) (t % 56)
    (fun r => (((b % 2 * 28 + t / 56 * 7 + k) / 7 * 14 + r : Nat) : Int) - 1) 15 0 2
    ((b % 2 * 28 + t / 56 * 7 + k) % 7)
    (fun kh hkh => k112_rows (b % 2 * 28 + t / 56 * 7 + k) kh (by omega) hkh)
  rw [h1, h2] at h
  exact h

/-- The index lane `t` of group `(bx, b)` stores to at its `k`-th store is the flat index of
element `[bx, b / 2, b % 2 * 28 + t / 56 * 7 + k, t % 56]`. -/
theorem k112_store_index (channel bx b t k : Nat) :
    bx * 56 * 56 * channel + b / 2 * 56 * 56 + (b &&& 1) * (56 / 2) * 56 + t / 56 * 7 * 56 + t % 56 + k * 56
      = nchw channel 56 56 bx (b / 2) (b % 2 * 28 + t / 56 * 7 + k) (t % 56) := by
  have hbc : bx * 56 * 56 * channel = bx * channel * 56 * 56 := by ring
  rw [Nat.and_one_is_mod]
  unfold nchw; omega

/-- Output element `[n, c, oh, ow]` after `Filter3x3_Input112x112_Stride2`, for any order of the
groups and any order of the lanes inside each of the three phases of a group. -/
theorem k112_elemIn [Add α] [Mul α] [Zero α] (batch channel : Nat) (groups : List (Nat × Nat))
    (fo co vo : Nat → Nat → List Nat)
    (hG : ∀ g, g ∈ groups ↔ g.1 < batch ∧ g.2 < 2 * channel)
    (hfo : ∀ bx b t, t ∈ fo bx b ↔ t < 224) (hco : ∀ bx b t, t ∈ co bx b ↔ t < 224)
    (hvo : ∀ bx b t, t ∈ vo bx b ↔ t < 224)
    (input filter output : Nat → α) (alpha beta : α)
    (shared : Nat → Nat → Shared α) (n c oh ow : Nat)
    (hn : n < batch) (hc : c < channel) (hoh : oh < 56) (how : ow < 56) :
    Filter3x3_Input112x112_Stride2.launchIn groups fo co vo input filter output
      (depthwiseShape batch channel 112 112 3 3 56 56 1 2) alpha beta shared (nchw channel 56 56 n c oh ow)
    = tapValue input filter channel 112 112 3 3 1 2 alpha beta
        (tapRows 3 15 0 2 (oh % 7)) (fun r => ((oh / 7 * 14 + r : Nat) : Int) - 1) n c ow := by
  unfold Filter3x3_Input112x112_Stride2.launchIn
  refine launch_rows_set batch (2 * channel) 224 56 (by omega) groups hG vo hvo
    (fun bx b t out => Filter3x3_Input112x112_Stride2.convolve
      (depthwiseShape batch channel 112 112 3 3 56 56 1 2) alpha beta bx b t
      (Filter3x3_Input112x112_Stride2.stagedIn (fo bx b) (co bx b) input filter
        (depthwiseShape batch channel 112 112 3 3 56 56 1 2) bx b (shared bx b)) out)
    _ _
    (fun bx _ b _ t _ out => k112_convolve_closed batch channel alpha beta bx b t _ out)
    _ _ ?_ ?_ output
  · intro bx hbx b hb t ht k y hy hi
    simp only [List.getElem?_map, List.getElem?_range, Option.map_eq_some'] at hy
    obtain ⟨k', hk', rfl⟩ := hy
    rw [List.getElem?_eq_some] at hk'
    obtain ⟨hk, rfl⟩ := hk'
    simp only [List.length_range, List.getElem_range] at hk ⊢
    rw [k112_lane_value batch channel (fo bx b) (co bx b) (hfo bx b) (hco bx b) input filter alpha beta bx b t k _ ht hk]
    rw [k112_store_index] at hi
    obtain ⟨rfl, rfl, rfl, rfl⟩ := nchw_inj (by omega) hc (by omega) hoh (Nat.mod_lt _ (by omega)) how hi
    have h1 : (b % 2 * 28 + t / 56 * 7 + k) % 7 = k := by omega
    have h2 : (b % 2 * 28 + t / 56 * 7 + k) / 7 * 14 = b % 2 * 56 + t / 56 * 14 := by omega
    rw [h1, h2]
  · refine ⟨n, hn, 2 * c + oh / 28, by omega, oh % 28 / 7 * 56 + ow, by omega, oh % 7, by simp; omega, ?_⟩
    have hbc : n * 56 * 56 * channel = n * channel * 56 * 56 := by ring
    rw [Nat.and_one_is_mod]
    unfold nchw
    have h1 : (oh % 28 / 7 * 56 + ow) / 56 = oh % 28 / 7 := by omega
    have h2 : (oh % 28 / 7 * 56 + ow) % 56 = ow := by omega
    rw [h1, h2]
    omega

/-- No lane of `Filter3x3_Input112x112_Stride2` stores outside the `batch * channel * 56 * 56`
output elements. -/
theorem k112_frameIn [Add α] [Mul α] [Zero α] (batch channel : Nat) (groups : List (Nat × Nat))
    (fo co vo : Nat → Nat → List Nat)
    (hG : ∀ g, g ∈ groups ↔ g.1 < batch ∧ g.2 < 2 * channel)
    (hvo : ∀ bx b t, t ∈ vo bx b ↔ t < 224)
    (input filter output : Nat → α) (alpha beta : α)
    (shared : Nat → Nat → Shared α) (i : Nat)
    (hi : batch * channel * 56 * 56 ≤ i) :
    Filter3x3_Input112x112_Stride2.launchIn groups fo co vo input filter output
      (depthwiseShape batch channel 112 112 3 3 56 56 1 2) alpha beta shared i
    = output i := by
  unfold Filter3x3_Input112x112_Stride2.launchIn
  refine launch_rows_frame batch (2 * channel) 224 56 groups hG vo hvo
    (fun bx b t out => Filter3x3_Input112x112_Stride2.convolve
      (depthwiseShape batch channel 112 112 3 3 56 56 1 2) alpha beta bx b t
      (Filter3x3_Input112x112_Stride2.stagedIn (fo bx b) (co bx b) input filter
        (depthwiseShape batch channel 112 112 3 3 56 56 1 2) bx b (shared bx b)) out)
    _ _
    (fun bx _ b _ t _ out => k112_convolve_closed batch channel alpha beta bx b t _ out)
    i ?_ output
  intro bx hbx b hb t ht k hk
  simp only [List.length_map, List.length_range] at hk
  rw [k112_store_index]
  have hlt := nchw_lt batch channel 56 56 bx (b / 2) (b % 2 * 28 + t / 56 * 7 + k) (t % 56) hbx
    (by omega) (by omega) (Nat.mod_lt _ (by omega))
  omega

/-- The launch of `Filter3x3_Input112x112_Stride2` is the run with the groups in grid order and
the lanes ascending. -/
theorem k112_launch_eq [Add α] [Mul α] [Zero α] (gx gy bd : Nat) (input filter output : Nat → α)
    (p : Shape) (alpha beta : α) (shared : Nat → Nat → Shared α) :
    Filter3x3_Input112x112_Stride2 gx gy bd input filter output p alpha beta shared
    = Filter3x3_Input112x112_Stride2.launchIn (gridGroups gx gy) (fun _ _ => List.range bd)
        (fun _ _ => List.range bd) (fun _ _ => List.range bd) input filter output p alpha beta shared :=
  forLoop_grid gx gy (fun bx b out =>
    Filter3x3_Input112x112_Stride2.block bd input filter p alpha beta bx b (shared bx b) out) output

/-- Output element `[n, c, oh, ow]` after `Filter3x3_Input112x112_Stride2` is the reference value. -/
theorem k112_correct [CommRing α] (batch channel : Nat) (input filter output : Nat → α) (alpha beta : α)
    (shared : Nat → Nat → Shared α) (n c oh ow : Nat)
    (hn : n < batch) (hc : c < channel) (hoh : oh < 56) (how : ow < 56) :
    Filter3x3_Input112x112_Stride2 batch (2 * channel) 224 input filter output
      (depthwiseShape batch channel 112 112 3 3 56 56 1 2) alpha beta shared (nchw channel 56 56 n c oh ow)
    = depthwiseRef input filter channel 112 112 3 3 1 2 alpha beta n c oh ow := by
  rw [k112_launch_eq, k112_elemIn batch channel _ _ _ _ (mem_gridGroups _ _)
    (fun _ _ _ => List.mem_range) (fun _ _ _ => List.mem_range) (fun _ _ _ => List.mem_range)
    input filter output alpha beta shared n c oh ow hn hc hoh how]
  exact tapValue_eq_ref input filter channel 112 112 3 3 1 2 alpha beta n c oh ow
    (fun r => ((oh / 7 * 14 + r : Nat) : Int) - 1) 15 0 2 (oh % 7) (fun kh hkh => k112_rows oh kh hoh hkh)

end k112

section k112_trace
variable {α : Type}

/-- The output stores of a lane of `Filter3x3_Input112x112_Stride2` are exactly the 7 stores at
`outputIdx ... 0`, ..., `outputIdx ... 6`. -/
theorem k112_convolve_stores [Add α] [Mul α] [Zero α] (batch channel : Nat) (alpha beta : α)
    (bx b t : Nat) (sh : Shared α) :
    StoresAt (Filter3x3_Input112x112_Stride2.convolve (depthwiseShape batch channel 112 112 3 3 56 56 1 2) alpha beta bx b t sh) 7
      (Filter3x3_Input112x112_Stride2.outputIdx (depthwiseShape batch channel 112 112 3 3 56 56 1 2) bx b t) :=
  storesAt_of_writeRows _ 7 _ 56 _ _ (by simp) (fun k => rfl)
    (fun out => k112_convolve_closed batch channel alpha beta bx b t sh out)

theorem k112_outputIdx_eq (batch channel bx b t k : Nat) :
    Filter3x3_Input112x112_Stride2.outputIdx (depthwiseShape batch channel 112 112 3 3 56 56 1 2) bx b t k
      = nchw channel 56 56 bx (b / 2) (b % 2 * 28 + t / 56 * 7 + k) (t % 56) :=
  k112_store_index channel bx b t k

theorem k112_storeBijection (batch channel : Nat) :
    StoreBijection batch (2 * channel) 224 7 (batch * channel * 56 * 56)
      (Filter3x3_Input112x112_Stride2.outputIdx (depthwiseShape batch channel 112 112 3 3 56 56 1 2)) := by
  refine ⟨?_, ?_, ?_⟩
  · intro bx hbx b hb t ht k hk
    rw [k112_outputIdx_eq]
    exact nchw_lt batch channel 56 56 bx _ _ _ hbx (by omega) (by omega) (Nat.mod_lt _ (by omega))
  · intro bx hbx b hb t ht k hk bx' hbx' b' hb' t' ht' k' hk' e
    rw [k112_outputIdx_eq, k112_outputIdx_eq] at e
    obtain ⟨h1, h2, h3, h4⟩ := nchw_inj (C := channel) (by omega) (by omega) (by omega) (by omega)
      (Nat.mod_lt _ (by omega)) (Nat.mod_lt _ (by omega)) e
    refine ⟨h1, ?_, ?_, ?_⟩ <;> omega
  · intro i hi
    obtain ⟨n, c, oh, ow, hn, hc, hoh, how, rfl⟩ := nchw_surj batch channel 56 56 i hi
    refine ⟨n, hn, 2 * c + oh / 28, by omega, oh % 28 / 7 * 56 + ow, by omega, oh % 7, by omega, ?_⟩
    rw [k112_outputIdx_eq]
    have h1 : (oh % 28 / 7 * 56 + ow) / 56 = oh % 28 / 7 := by omega
    have h2 : (oh % 28 / 7 * 56 + ow) % 56 = ow := by omega
    rw [h1, h2]
    congr 1 <;> omega

/-- The filter staging lines of a lane of `Filter3x3_Input112x112_Stride2` perform exactly the stores
listed by `filterStores`. -/
theorem k112_filter_stores [Zero α] (batch channel : Nat) (filter : Nat → α) (bx b t : Nat)
    (sh : Shared α) :
    (Filter3x3_Input112x112_Stride2.fillPhase filter (depthwiseShape batch channel 112 112 3 3 56 56 1 2) bx b t sh).filterData
      = writeList ((Filter3x3_Input112x112_Stride2.filterStores (depthwiseShape batch channel 112 112 3 3 56 56 1 2) b t).map (fun q => (q.1, filter q.2)))
          sh.filterData := by
  simp only [Filter3x3_Input112x112_Stride2.fillPhase, Filter3x3_Input112x112_Stride2.filterStores, depthwiseShape]
  split_ifs <;> rfl

theorem k112_filter_once (batch channel b : Nat) :
    WrittenOnce 224 (1 * (3 * 3)) (Filter3x3_Input112x112_Stride2.filterStores (depthwiseShape batch channel 112 112 3 3 56 56 1 2) b) :=
  writtenOnce_single 224 (3 * 3) _ (by omega)

/-- Every sequential schedule of `Filter3x3_Input112x112_Stride2` produces the output buffer of the
launch in grid order with ascending lanes. -/
theorem k112_schedule_eq [Add α] [Mul α] [Zero α] (batch channel : Nat)
    (groups : List (Nat × Nat)) (fo co vo : Nat → Nat → List Nat)
    (hs : IsSchedule batch (2 * channel) 224 groups fo co vo)
    (input filter output : Nat → α) (alpha beta : α) (shared shared' : Nat → Nat → Shared α) :
    Filter3x3_Input112x112_Stride2.launchIn groups fo co vo input filter output (depthwiseShape batch channel 112 112 3 3 56 56 1 2) alpha beta shared
      = Filter3x3_Input112x112_Stride2 batch (2 * channel) 224 input filter output (depthwiseShape batch channel 112 112 3 3 56 56 1 2) alpha beta shared' := by
  obtain ⟨hG, hfo, hco, hvo⟩ := isSchedule_mem _ _ _ _ _ _ _ hs
  funext i
  rw [k112_launch_eq]
  by_cases hi : i < batch * channel * 56 * 56
  · obtain ⟨n, c, oh, ow, hn, hc, hoh, how, rfl⟩ := nchw_surj batch channel 56 56 i hi
    rw [k112_elemIn batch channel groups fo co vo hG hfo hco hvo input filter output alpha beta
        shared n c oh ow hn hc hoh how,
      k112_elemIn batch channel _ _ _ _ (mem_gridGroups _ _) (fun _ _ _ => List.mem_range)
        (fun _ _ _ => List.mem_range) (fun _ _ _ => List.mem_range) input filter output alpha beta
        shared' n c oh ow hn hc hoh how]
  · rw [k112_frameIn batch channel groups fo co vo hG hvo input filter output alpha beta
        shared i (by omega),
      k112_frameIn batch channel _ _ _ _ (mem_gridGroups _ _) (fun _ _ _ => List.mem_range)
        input filter output alpha beta shared' i (by omega)]

end k112_trace

section k112_loads
variable {α : Type}

theorem forLoop_write_eq_writeList (n : Nat) (dst : Nat → Nat) (val : Nat → α) (a : Nat → α) :
    forLoop n (fun i a => write a (dst i) (val i)) a
      = writeList ((List.range n).map (fun i => (dst i, val i))) a := by
  rw [writeList_eq_foldl, List.foldl_map]
  rfl

/-- The copy phase of a lane of `Filter3x3_Input112x112_Stride2` reads the input buffer exactly
at the indices listed by `inputLoads`, and stores what it reads at the listed tile indices. -/
theorem k112_input_loads (batch channel : Nat) (input : Nat → α) (bx b t : Nat) (sh : Shared α) :
    (Filter3x3_Input112x112_Stride2.copyPhase input (depthwiseShape batch channel 112 112 3 3 56 56 1 2) bx b t sh).inputData
    = writeList ((Filter3x3_Input112x112_Stride2.inputLoads
        (depthwiseShape batch channel 112 112 3 3 56 56 1 2) bx b t).map
          (fun q => (q.1, input q.2.toNat))) sh.inputData := by
  simp only [Filter3x3_Input112x112_Stride2.copyPhase, Filter3x3_Input112x112_Stride2.inputLoads,
    forLoop_write_eq_writeList, List.map_append, writeList_append, List.map_map]
  split_ifs <;> rfl

theorem k112_input_loads_length (batch channel bx b t : Nat) :
    (Filter3x3_Input112x112_Stride2.inputLoads
        (depthwiseShape batch channel 112 112 3 3 56 56 1 2) bx b t).length
      = if b % 2 = 1 ∧ 112 ≤ t then 28 else 29 := by
  simp only [Filter3x3_Input112x112_Stride2.inputLoads, depthwiseShape, Nat.and_one_is_mod,
    List.length_append, List.length_map, List.length_range]
  split_ifs <;> simp <;> omega

/-- Every input index a lane of a group of the `batch` x `2 * channel` grid reads lies inside
the plane of the group's channel, hence inside the input buffer. -/
theorem k112_input_loads_bound (batch channel bx b t : Nat) (hbx : bx < batch)
    (hb : b < 2 * channel) (ht : t < 224) (q : Nat × Int)
    (hq : q ∈ Filter3x3_Input112x112_Stride2.inputLoads
        (depthwiseShape batch channel 112 112 3 3 56 56 1 2) bx b t) :
    (nchw channel 112 112 bx (b / 2) 0 0 : Int) ≤ q.2 ∧
      q.2 < (nchw channel 112 112 bx (b / 2) 0 0 : Int) + 112 * 112 := by
  have hbc : (bx : Int) * 112 * 112 * channel = bx * channel * 112 * 112 := by ring
  unfold nchw
  rcases Nat.mod_two_eq_zero_or_one b with h2 | h2
  · simp only [Filter3x3_Input112x112_Stride2.inputLoads, depthwiseShape, Nat.and_one_is_mod, h2,
      List.mem_append, List.mem_map, List.mem_range, if_true, ne_eq, zero_ne_one, not_false_eq_true,
      List.mem_singleton] at hq
    rcases hq with ⟨i, hi, rfl⟩ | rfl
    · simp only
      push_cast
      omega
    · simp only
      push_cast
      omega
  · by_cases h1 : t < 112
    · simp only [Filter3x3_Input112x112_Stride2.inputLoads, depthwiseShape, Nat.and_one_is_mod, h2,
        List.mem_append, List.mem_map, List.mem_range, if_true, if_false, ne_eq, one_ne_zero,
        not_true_eq_false, h1, List.mem_singleton] at hq
      rcases hq with ⟨i, hi, rfl⟩ | rfl
      · simp only
        push_cast
        omega
      · simp only
        push_cast
        omega
    · simp only [Filter3x3_Input112x112_Stride2.inputLoads, depthwiseShape, Nat.and_one_is_mod, h2,
        List.mem_append, List.mem_map, List.mem_range, if_true, if_false, ne_eq, one_ne_zero,
        not_true_eq_false, h1, List.not_mem_nil, or_false] at hq
      obtain ⟨i, hi, rfl⟩ := hq
      simp only
      push_cast
      omega

end k112_loads

/-! ## What the load phase writes and what the compute phase reads -/

section k14s1_tile
variable {α : Type}

theorem k14s1_paddingStores_eq (batch channel t : Nat) :
    Filter3x3_Input14x14_Stride1.paddingStores (depthwiseShape batch channel 14 14 3 3 14 14 1 1) t = [t * 16, t * 16 + 15] := rfl

theorem k14s1_inputLoads_eq (batch channel bx b t : Nat) :
    Filter3x3_Input14x14_Stride1.inputLoads (depthwiseShape batch channel 14 14 3 3 14 14 1 1) bx b t
      = (List.range 14).map (fun k => (t / 14 * 2 + t + 1 + 16 * 16 * k,
          bx * channel * 14 * 14 + b * 16 * 14 * 14 + t + 16 * 14 * k)) := rfl

theorem k14s1_copy_targets (batch channel bx b t : Nat) :
    (Filter3x3_Input14x14_Stride1.inputLoads (depthwiseShape batch channel 14 14 3 3 14 14 1 1) bx b t).map Prod.fst
      = (List.range 14).map (fun k => t / 14 * 2 + t + 1 + 16 * 16 * k) := by
  rw [k14s1_inputLoads_eq, List.map_map]
  rfl

/-- The zero fill of a lane of `Filter3x3_Input14x14_Stride1` performs exactly the stores listed by
`paddingStores`. -/
theorem k14s1_padding_stores [Zero α] (batch channel : Nat) (filter : Nat → α) (bx b t : Nat)
    (sh : Shared α) :
    (Filter3x3_Input14x14_Stride1.fillPhase filter (depthwiseShape batch channel 14 14 3 3 14 14 1 1) bx b t sh).inputData
      = writeList ((Filter3x3_Input14x14_Stride1.paddingStores (depthwiseShape batch channel 14 14 3 3 14 14 1 1) t).map (fun a => (a, (0 : α)))) sh.inputData :=
  rfl

/-- The bulk copy of a lane of `Filter3x3_Input14x14_Stride1` performs exactly the loads and stores listed
by `inputLoads`. -/
theorem k14s1_input_loads (batch channel : Nat) (input : Nat → α) (bx b t : Nat) (sh : Shared α) :
    (Filter3x3_Input14x14_Stride1.copyPhase input (depthwiseShape batch channel 14 14 3 3 14 14 1 1) bx b t sh).inputData
      = writeList ((Filter3x3_Input14x14_Stride1.inputLoads (depthwiseShape batch channel 14 14 3 3 14 14 1 1) bx b t).map (fun q => (q.1, input q.2)))
          sh.inputData :=
  rfl

/-- Every element of the tile of a group of `Filter3x3_Input14x14_Stride1` is written exactly once. -/
theorem k14s1_tile_once (batch channel bx b : Nat) :
    TileWrittenOnce 224 (16 * 14 * 16) (Filter3x3_Input14x14_Stride1.paddingStores (depthwiseShape batch channel 14 14 3 3 14 14 1 1))
      (fun t => (Filter3x3_Input14x14_Stride1.inputLoads (depthwiseShape batch channel 14 14 3 3 14 14 1 1) bx b t).map Prod.fst) := by
  intro a ha
  by_cases hc : 1 ≤ a % 16 ∧ a % 16 < 14 + 1
  · right
    constructor
    · intro t ht hm
      rw [k14s1_paddingStores_eq] at hm
      simp only [List.mem_cons, List.mem_singleton, List.not_mem_nil, or_false] at hm
      omega
    · refine storedOnce_of _ _ a (a / 16 % 16 * 14 + (a % 16 - 1)) (by omega) ?_ ?_ ?_
      · simp only [k14s1_copy_targets]
        exact nodup_map_range _ _ (fun k _ k' _ e => by omega)
      · simp only [k14s1_copy_targets]
        exact List.mem_map.2 ⟨a / 16 / 16, List.mem_range.2 (by omega), by omega⟩
      · intro t' ht' hm
        simp only [k14s1_copy_targets] at hm
        obtain ⟨k, hk, e⟩ := List.mem_map.1 hm
        rw [List.mem_range] at hk
        omega
  · left
    constructor
    · refine storedOnce_of _ _ a (a / 16 % 224) (by omega) ?_ ?_ ?_
      · rw [k14s1_paddingStores_eq]
        simp only [List.nodup_cons, List.mem_cons, List.mem_singleton, List.not_mem_nil,
          List.nodup_nil, or_false, and_true, not_false_eq_true]
        omega
      · rw [k14s1_paddingStores_eq]
        simp only [List.mem_cons, List.mem_singleton, List.not_mem_nil, or_false]
        omega
      · intro t' ht' hm
        rw [k14s1_paddingStores_eq] at hm
        simp only [List.mem_cons, List.mem_singleton, List.not_mem_nil, or_false] at hm
        omega
    · intro t ht hm
      simp only [k14s1_copy_targets] at hm
      obtain ⟨k, hk, e⟩ := List.mem_map.1 hm
      rw [List.mem_range] at hk
      omega

theorem k14s1_padding_bound (batch channel t : Nat) (ht : t < 224) (a : Nat)
    (ha : a ∈ Filter3x3_Input14x14_Stride1.paddingStores (depthwiseShape batch channel 14 14 3 3 14 14 1 1) t) : a < 16 * 14 * 16 := by
  rw [k14s1_paddingStores_eq] at ha
  simp only [List.mem_cons, List.mem_singleton, List.not_mem_nil, or_false] at ha
  omega

/-- Every input index a lane of `Filter3x3_Input14x14_Stride1` reads lies inside the input buffer. -/
theorem k14s1_loads_bound (batch channel bx b t : Nat) (hch : channel % 16 = 0) (hbx : bx < batch)
    (hb : b < channel / 16) (ht : t < 224) (q : Nat × Nat)
    (hq : q ∈ Filter3x3_Input14x14_Stride1.inputLoads (depthwiseShape batch channel 14 14 3 3 14 14 1 1) bx b t) :
    q.2 < batch * channel * 14 * 14 := by
  rw [k14s1_inputLoads_eq] at hq
  obtain ⟨k, hk, rfl⟩ := List.mem_map.1 hq
  rw [List.mem_range] at hk
  have h1 := mul_succ_le bx batch channel hbx
  simp only
  omega

/-- Every filter index a lane of `Filter3x3_Input14x14_Stride1` reads lies inside the filter bank. -/
theorem k14s1_filter_bound (batch channel b t : Nat) (hch : channel % 16 = 0)
    (hb : b < channel / 16) (ht : t < 224) (q : Nat × Nat)
    (hq : q ∈ Filter3x3_Input14x14_Stride1.filterStores (depthwiseShape batch channel 14 14 3 3 14 14 1 1) b t) :
    q.2 < channel * 3 * 3 := by
  simp only [Filter3x3_Input14x14_Stride1.filterStores, depthwiseShape] at hq
  split_ifs at hq <;>
    simp only [List.mem_cons, List.mem_singleton, List.not_mem_nil, or_false] at hq <;>
    (rcases hq with rfl | rfl | rfl | rfl <;> simp only <;> omega)

/-- What a lane of `Filter3x3_Input14x14_Stride1` computes depends on the scratch arrays only inside the
tile and the staged taps. -/
theorem k14s1_convolve_congr [Add α] [Mul α] [Zero α] (batch channel : Nat) (alpha beta : α)
    (bx b t : Nat) (ht : t < 224) (sh sh' : Shared α) (out : Nat → α)
    (hi : ∀ a < 16 * 14 * 16, sh.inputData a = sh'.inputData a)
    (hf : ∀ j < 16 * (3 * 3), sh.filterData j = sh'.filterData j) :
    Filter3x3_Input14x14_Stride1.convolve (depthwiseShape batch channel 14 14 3 3 14 14 1 1) alpha beta bx b t sh out
      = Filter3x3_Input14x14_Stride1.convolve (depthwiseShape batch channel 14 14 3 3 14 14 1 1) alpha beta bx b t sh' out := by
  have e : ∀ oh : Nat,
      taps 3 (fun i => sh.filterData (t / 14 * 3 * 3 + i))
        (fun r kw => sh.inputData (t / 14 * 16 * 14 + t % 14 + r * 16 + kw)) (tapRows 3 14 1 1 oh)
      = taps 3 (fun i => sh'.filterData (t / 14 * 3 * 3 + i))
        (fun r kw => sh'.inputData (t / 14 * 16 * 14 + t % 14 + r * 16 + kw)) (tapRows 3 14 1 1 oh) := by
    intro oh
    apply taps_congr
    intro q hq kw hkw
    obtain ⟨h1, h2, h3⟩ := (mem_tapRows _ _ _ _ _ q).1 hq
    exact ⟨hf _ (by omega), hi _ (by omega)⟩
  rw [k14s1_convolve_closed, k14s1_convolve_closed]
  simp only [e]

theorem k14s1_reads_only_written [Add α] [Mul α] [Zero α] (batch channel : Nat) (alpha beta : α)
    (bx b : Nat) :
    ReadsOnlyWritten 224 (16 * 14 * 16) (16 * (3 * 3))
      (Filter3x3_Input14x14_Stride1.paddingStores (depthwiseShape batch channel 14 14 3 3 14 14 1 1))
      (fun t => (Filter3x3_Input14x14_Stride1.inputLoads (depthwiseShape batch channel 14 14 3 3 14 14 1 1) bx b t).map Prod.fst)
      (Filter3x3_Input14x14_Stride1.filterStores (depthwiseShape batch channel 14 14 3 3 14 14 1 1) b)
      (fun t sh out => Filter3x3_Input14x14_Stride1.convolve (depthwiseShape batch channel 14 14 3 3 14 14 1 1) alpha beta bx b t sh (out : Nat → α)) :=
  ⟨writtenBy_of_once _ _ _ _ (k14s1_tile_once batch channel bx b),
    writtenOnce_mem _ _ _ (k14s1_filter_once batch channel b),
    fun t ht sh sh' out hi hf =>
      k14s1_convolve_congr batch channel alpha beta bx b t ht sh sh' out hi hf⟩

/-- The value of the `k`-th store of a lane of `Filter3x3_Input14x14_Stride1`: the left-nested sum of
the tap products, filter row by filter row and `kw` ascending inside a row, scaled and shifted. -/
theorem k14s1_stored_value [Add α] [Mul α] [Zero α] (batch channel : Nat) (alpha beta : α)
    (bx b t k : Nat) (hk : k < 14) (sh : Shared α) (out : Nat → α) :
    Filter3x3_Input14x14_Stride1.convolve (depthwiseShape batch channel 14 14 3 3 14 14 1 1) alpha beta bx b t sh out
        (Filter3x3_Input14x14_Stride1.outputIdx (depthwiseShape batch channel 14 14 3 3 14 14 1 1) bx b t k)
      = nestSum (taps 3 (fun i => sh.filterData (t / 14 * 3 * 3 + i))
          (fun r kw => sh.inputData (t / 14 * 16 * 14 + t % 14 + r * 16 + kw)) (tapRows 3 14 1 1 k)) * alpha + beta := by
  rw [k14s1_convolve_closed]
  refine writeRows_at _ 14 (by omega) _ out k _ ?_
  rw [List.getElem?_map, List.getElem?_range hk]
  rfl

end k14s1_tile

section k14s2_tile
variable {α : Type}

theorem k14s2_paddingStores_eq (batch channel t : Nat) :
    Filter3x3_Input14x14_Stride2.paddingStores (depthwiseShape batch channel 14 14 3 3 7 7 1 2) t = [t * 16, t * 16 + 16 * 14 * 16, t * 16 + 15, t * 16 + 16 * 14 * 16 + 15] := rfl

theorem k14s2_inputLoads_eq (batch channel bx b t : Nat) :
    Filter3x3_Input14x14_Stride2.inputLoads (depthwiseShape batch channel 14 14 3 3 7 7 1 2) bx b t
      = (List.range 28).map (fun k => (t / 14 * 2 + t + 1 + 16 * 16 * k,
          bx * channel * 14 * 14 + b * 32 * 14 * 14 + t + 16 * 14 * k)) := rfl

theorem k14s2_copy_targets (batch channel bx b t : Nat) :
    (Filter3x3_Input14x14_Stride2.inputLoads (depthwiseShape batch channel 14 14 3 3 7 7 1 2) bx b t).map Prod.fst
      = (List.range 28).map (fun k => t / 14 * 2 + t + 1 + 16 * 16 * k) := by
  rw [k14s2_inputLoads_eq, List.map_map]
  rfl

/-- The zero fill of a lane of `Filter3x3_Input14x14_Stride2` performs exactly the stores listed by
`paddingStores`. -/
theorem k14s2_padding_stores [Zero α] (batch channel : Nat) (filter : Nat → α) (bx b t : Nat)
    (sh : Shared α) :
    (Filter3x3_Input14x14_Stride2.fillPhase filter (depthwiseShape batch channel 14 14 3 3 7 7 1 2) bx b t sh).inputData
      = writeList ((Filter3x3_Input14x14_Stride2.paddingStores (depthwiseShape batch channel 14 14 3 3 7 7 1 2) t).map (fun a => (a, (0 : α)))) sh.inputData :=
  rfl

/-- The bulk copy of a lane of `Filter3x3_Input14x14_Stride2` performs exactly the loads and stores listed
by `inputLoads`. -/
theorem k14s2_input_loads (batch channel : Nat) (input : Nat → α) (bx b t : Nat) (sh : Shared α) :
    (Filter3x3_Input14x14_Stride2.copyPhase input (depthwiseShape batch channel 14 14 3 3 7 7 1 2) bx b t sh).inputData
      = writeList ((Filter3x3_Input14x14_Stride2.inputLoads (depthwiseShape batch channel 14 14 3 3 7 7 1 2) bx b t).map (fun q => (q.1, input q.2)))
          sh.inputData :=
  rfl

/-- Every element of the tile of a group of `Filter3x3_Input14x14_Stride2` is written exactly once. -/
theorem k14s2_tile_once (batch channel bx b : Nat) :
    TileWrittenOnce 224 (32 * 14 * 16) (Filter3x3_Input14x14_Stride2.paddingStores (depthwiseShape batch channel 14 14 3 3 7 7 1 2))
      (fun t => (Filter3x3_Input14x14_Stride2.inputLoads (depthwiseShape batch channel 14 14 3 3 7 7 1 2) bx b t).map Prod.fst) := by
  intro a ha
  by_cases hc : 1 ≤ a % 16 ∧ a % 16 < 14 + 1
  · right
    constructor
    · intro t ht hm
      rw [k14s2_paddingStores_eq] at hm
      simp only [List.mem_cons, List.mem_singleton, List.not_mem_nil, or_false] at hm
      omega
    · refine storedOnce_of _ _ a (a / 16 % 16 * 14 + (a % 16 - 1)) (by omega) ?_ ?_ ?_
      · simp only [k14s2_copy_targets]
        exact nodup_map_range _ _ (fun k _ k' _ e => by omega)
      · simp only [k14s2_copy_targets]
        exact List.mem_map.2 ⟨a / 16 / 16, List.mem_range.2 (by omega), by omega⟩
      · intro t' ht' hm
        simp only [k14s2_copy_targets] at hm
        obtain ⟨k, hk, e⟩ := List.mem_map.1 hm
        rw [List.mem_range] at hk
        omega
  · left
    constructor
    · refine storedOnce_of _ _ a (a / 16 % 224) (by omega) ?_ ?_ ?_
      · rw [k14s2_paddingStores_eq]
        simp only [List.nodup_cons, List.mem_cons, List.mem_singleton, List.not_mem_nil,
          List.nodup_nil, or_false, and_true, not_false_eq_true]
        omega
      · rw [k14s2_paddingStores_eq]
        simp only [List.mem_cons, List.mem_singleton, List.not_mem_nil, or_false]
        omega
      · intro t' ht' hm
        rw [k14s2_paddingStores_eq] at hm
        simp only [List.mem_cons, List.mem_singleton, List.not_mem_nil, or_false] at hm
        omega
    · intro t ht hm
      simp only [k14s2_copy_targets] at hm
      obtain ⟨k, hk, e⟩ := List.mem_map.1 hm
      rw [List.mem_range] at hk
      omega

theorem k14s2_padding_bound (batch channel t : Nat) (ht : t < 224) (a : Nat)
    (ha : a ∈ Filter3x3_Input14x14_Stride2.paddingStores (depthwiseShape batch channel 14 14 3 3 7 7 1 2) t) : a < 32 * 14 * 16 := by
  rw [k14s2_paddingStores_eq] at ha
  simp only [List.mem_cons, List.mem_singleton, List.not_mem_nil, or_false] at ha
  omega

/-- Every input index a lane of `Filter3x3_Input14x14_Stride2` reads lies inside the input buffer. -/
theorem k14s2_loads_bound (batch channel bx b t : Nat) (hch : channel % 32 = 0) (hbx : bx < batch)
    (hb : b < channel / 32) (ht : t < 224) (q : Nat × Nat)
    (hq : q ∈ Filter3x3_Input14x14_Stride2.inputLoads (depthwiseShape batch channel 14 14 3 3 7 7 1 2) bx b t) :
    q.2 < batch * channel * 14 * 14 := by
  rw [k14s2_inputLoads_eq] at hq
  obtain ⟨k, hk, rfl⟩ := List.mem_map.1 hq
  rw [List.mem_range] at hk
  have h1 := mul_succ_le bx batch channel hbx
  simp only
  omega

/-- Every filter index a lane of `Filter3x3_Input14x14_Stride2` reads lies inside the filter bank. -/
theorem k14s2_filter_bound (batch channel b t : Nat) (hch : channel % 32 = 0)
    (hb : b < channel / 32) (ht : t < 224) (q : Nat × Nat)
    (hq : q ∈ Filter3x3_Input14x14_Stride2.filterStores (depthwiseShape batch channel 14 14 3 3 7 7 1 2) b t) :
    q.2 < channel * 3 * 3 := by
  simp only [Filter3x3_Input14x14_Stride2.filterStores, depthwiseShape] at hq
  split_ifs at hq <;>
    simp only [List.mem_cons, List.mem_singleton, List.not_mem_nil, or_false] at hq <;>
    (rcases hq with rfl | rfl | rfl | rfl <;> simp only <;> omega)

/-- What a lane of `Filter3x3_Input14x14_Stride2` computes depends on the scratch arrays only inside the
tile and the staged taps. -/
theorem k14s2_convolve_congr [Add α] [Mul α] [Zero α] (batch channel : Nat) (alpha beta : α)
    (bx b t : Nat) (ht : t < 224) (sh sh' : Shared α) (out : Nat → α)
    (hi : ∀ a < 32 * 14 * 16, sh.inputData a = sh'.inputData a)
    (hf : ∀ j < 32 * (3 * 3), sh.filterData j = sh'.filterData j) :
    Filter3x3_Input14x14_Stride2.convolve (depthwiseShape batch channel 14 14 3 3 7 7 1 2) alpha beta bx b t sh out
      = Filter3x3_Input14x14_Stride2.convolve (depthwiseShape batch channel 14 14 3 3 7 7 1 2) alpha beta bx b t sh' out := by
  have e : ∀ oh : Nat,
      taps 3 (fun i => sh.filterData (t / 7 * 3 * 3 + i))
        (fun r kw => sh.inputData (t / 7 * 16 * 14 + t % 7 * 2 + r * 16 + kw)) (tapRows 3 14 1 2 oh)
      = taps 3 (fun i => sh'.filterData (t / 7 * 3 * 3 + i))
        (fun r kw => sh'.inputData (t / 7 * 16 * 14 + t % 7 * 2 + r * 16 + kw)) (tapRows 3 14 1 2 oh) := by
    intro oh
    apply taps_congr
    intro q hq kw hkw
    obtain ⟨h1, h2, h3⟩ := (mem_tapRows _ _ _ _ _ q).1 hq
    exact ⟨hf _ (by omega), hi _ (by omega)⟩
  rw [k14s2_convolve_closed, k14s2_convolve_closed]
  simp only [e]

theorem k14s2_reads_only_written [Add α] [Mul α] [Zero α] (batch channel : Nat) (alpha beta : α)
    (bx b : Nat) :
    ReadsOnlyWritten 224 (32 * 14 * 16) (32 * (3 * 3))
      (Filter3x3_Input14x14_Stride2.paddingStores (depthwiseShape batch channel 14 14 3 3 7 7 1 2))
      (fun t => (Filter3x3_Input14x14_Stride2.inputLoads (depthwiseShape batch channel 14 14 3 3 7 7 1 2) bx b t).map Prod.fst)
      (Filter3x3_Input14x14_Stride2.filterStores (depthwiseShape batch channel 14 14 3 3 7 7 1 2) b)
      (fun t sh out => Filter3x3_Input14x14_Stride2.convolve (depthwiseShape batch channel 14 14 3 3 7 7 1 2) alpha beta bx b t sh (out : Nat → α)) :=
  ⟨writtenBy_of_once _ _ _ _ (k14s2_tile_once batch channel bx b),
    writtenOnce_mem _ _ _ (k14s2_filter_once batch channel b),
    fun t ht sh sh' out hi hf =>
      k14s2_convolve_congr batch channel alpha beta bx b t ht sh sh' out hi hf⟩

/-- The value of the `k`-th store of a lane of `Filter3x3_Input14x14_Stride2`: the left-nested sum of
the tap products, filter row by filter row and `kw` ascending inside a row, scaled and shifted. -/
theorem k14s2_stored_value [Add α] [Mul α] [Zero α] (batch channel : Nat) (alpha beta : α)
    (bx b t k : Nat) (hk : k < 7) (sh : Shared α) (out : Nat → α) :
    Filter3x3_Input14x14_Stride2.convolve (depthwiseShape batch channel 14 14 3 3 7 7 1 2) alpha beta bx b t sh out
        (Filter3x3_Input14x14_Stride2.outputIdx (depthwiseShape batch channel 14 14 3 3 7 7 1 2) bx b t k)
      = nestSum (taps 3 (fun i => sh.filterData (t / 7 * 3 * 3 + i))
          (fun r kw => sh.inputData (t / 7 * 16 * 14 + t % 7 * 2 + r * 16 + kw)) (tapRows 3 14 1 2 k)) * alpha + beta := by
  rw [k14s2_convolve_closed]
  refine writeRows_at _ 7 (by omega) _ out k _ ?_
  rw [List.getElem?_map, List.getElem?_range hk]
  rfl

end k14s2_tile

section k5x5_tile
variable {α : Type}

theorem k5x5_paddingStores_eq (batch channel t : Nat) :
    Filter5x5_Input14x14_Stride2.paddingStores (depthwiseShape batch channel 14 14 5 5 7 7 2 2) t = [t * 18, t * 18 + 1, t * 18 + 16, t * 18 + 17, t * 18 + 16 * 14 * 18, t * 18 + 16 * 14 * 18 + 1, t * 18 + 16 * 14 * 18 + 16, t * 18 + 16 * 14 * 18 + 17] := rfl

theorem k5x5_inputLoads_eq (batch channel bx b t : Nat) :
    Filter5x5_Input14x14_Stride2.inputLoads (depthwiseShape batch channel 14 14 5 5 7 7 2 2) bx b t
      = (List.range 28).map (fun k => (t / 14 * 4 + t + 2 + 16 * 18 * k,
          bx * channel * 14 * 14 + b * 32 * 14 * 14 + t + 16 * 14 * k)) := rfl

theorem k5x5_copy_targets (batch channel bx b t : Nat) :
    (Filter5x5_Input14x14_Stride2.inputLoads (depthwiseShape batch channel 14 14 5 5 7 7 2 2) bx b t).map Prod.fst
      = (List.range 28).map (fun k => t / 14 * 4 + t + 2 + 16 * 18 * k) := by
  rw [k5x5_inputLoads_eq, List.map_map]
  rfl

/-- The zero fill of a lane of `Filter5x5_Input14x14_Stride2` performs exactly the stores listed by
`paddingStores`. -/
theorem k5x5_padding_stores [Zero α] (batch channel : Nat) (filter : Nat → α) (bx b t : Nat)
    (sh : Shared α) :
    (Filter5x5_Input14x14_Stride2.fillPhase filter (depthwiseShape batch channel 14 14 5 5 7 7 2 2) bx b t sh).inputData
      = writeList ((Filter5x5_Input14x14_Stride2.paddingStores (depthwiseShape batch channel 14 14 5 5 7 7 2 2) t).map (fun a => (a, (0 : α)))) sh.inputData :=
  rfl

/-- The bulk copy of a lane of `Filter5x5_Input14x14_Stride2` performs exactly the loads and stores listed
by `inputLoads`. -/
theorem k5x5_input_loads (batch channel : Nat) (input : Nat → α) (bx b t : Nat) (sh : Shared α) :
    (Filter5x5_Input14x14_Stride2.copyPhase input (depthwiseShape batch channel 14 14 5 5 7 7 2 2) bx b t sh).inputData
      = writeList ((Filter5x5_Input14x14_Stride2.inputLoads (depthwiseShape batch channel 14 14 5 5 7 7 2 2) bx b t).map (fun q => (q.1, input q.2)))
          sh.inputData :=
  rfl

/-- Every element of the tile of a group of `Filter5x5_Input14x14_Stride2` is written exactly once. -/
theorem k5x5_tile_once (batch channel bx b : Nat) :
    TileWrittenOnce 224 (32 * 14 * 18) (Filter5x5_Input14x14_Stride2.paddingStores (depthwiseShape batch channel 14 14 5 5 7 7 2 2))
      (fun t => (Filter5x5_Input14x14_Stride2.inputLoads (depthwiseShape batch channel 14 14 5 5 7 7 2 2) bx b t).map Prod.fst) := by
  intro a ha
  by_cases hc : 2 ≤ a % 18 ∧ a % 18 < 14 + 2
  · right
    constructor
    · intro t ht hm
      rw [k5x5_paddingStores_eq] at hm
      simp only [List.mem_cons, List.mem_singleton, List.not_mem_nil, or_false] at hm
      omega
    · refine storedOnce_of _ _ a (a / 18 % 16 * 14 + (a % 18 - 2)) (by omega) ?_ ?_ ?_
      · simp only [k5x5_copy_targets]
        exact nodup_map_range _ _ (fun k _ k' _ e => by omega)
      · simp only [k5x5_copy_targets]
        exact List.mem_map.2 ⟨a / 18 / 16, List.mem_range.2 (by omega), by omega⟩
      · intro t' ht' hm
        simp only [k5x5_copy_targets] at hm
        obtain ⟨k, hk, e⟩ := List.mem_map.1 hm
        rw [List.mem_range] at hk
        omega
  · left
    constructor
    · refine storedOnce_of _ _ a (a / 18 % 224) (by omega) ?_ ?_ ?_
      · rw [k5x5_paddingStores_eq]
        simp only [List.nodup_cons, List.mem_cons, List.mem_singleton, List.not_mem_nil,
          List.nodup_nil, or_false, and_true, not_false_eq_true]
        omega
      · rw [k5x5_paddingStores_eq]
        simp only [List.mem_cons, List.mem_singleton, List.not_mem_nil, or_false]
        omega
      · intro t' ht' hm
        rw [k5x5_paddingStores_eq] at hm
        simp only [List.mem_cons, List.mem_singleton, List.not_mem_nil, or_false] at hm
        omega
    · intro t ht hm
      simp only [k5x5_copy_targets] at hm
      obtain ⟨k, hk, e⟩ := List.mem_map.1 hm
      rw [List.mem_range] at hk
      omega

theorem k5x5_padding_bound (batch channel t : Nat) (ht : t < 224) (a : Nat)
    (ha : a ∈ Filter5x5_Input14x14_Stride2.paddingStores (depthwiseShape batch channel 14 14 5 5 7 7 2 2) t) : a < 32 * 14 * 18 := by
  rw [k5x5_paddingStores_eq] at ha
  simp only [List.mem_cons, List.mem_singleton, List.not_mem_nil, or_false] at ha
  omega

/-- Every input index a lane of `Filter5x5_Input14x14_Stride2` reads lies inside the input buffer. -/
theorem k5x5_loads_bound (batch channel bx b t : Nat) (hch : channel % 32 = 0) (hbx : bx < batch)
    (hb : b < channel / 32) (ht : t < 224) (q : Nat × Nat)
    (hq : q ∈ Filter5x5_Input14x14_Stride2.inputLoads (depthwiseShape batch channel 14 14 5 5 7 7 2 2) bx b t) :
    q.2 < batch * channel * 14 * 14 := by
  rw [k5x5_inputLoads_eq] at hq
  obtain ⟨k, hk, rfl⟩ := List.mem_map.1 hq
  rw [List.mem_range] at hk
  have h1 := mul_succ_le bx batch channel hbx
  simp only
  omega

/-- Every filter index a lane of `Filter5x5_Input14x14_Stride2` reads lies inside the filter bank. -/
theorem k5x5_filter_bound (batch channel b t : Nat) (hch : channel % 32 = 0)
    (hb : b < channel / 32) (ht : t < 224) (q : Nat × Nat)
    (hq : q ∈ Filter5x5_Input14x14_Stride2.filterStores (depthwiseShape batch channel 14 14 5 5 7 7 2 2) b t) :
    q.2 < channel * 5 * 5 := by
  simp only [Filter5x5_Input14x14_Stride2.filterStores, depthwiseShape] at hq
  split_ifs at hq <;>
    simp only [List.mem_cons, List.mem_singleton, List.not_mem_nil, or_false] at hq <;>
    (rcases hq with rfl | rfl | rfl | rfl <;> simp only <;> omega)

/-- What a lane of `Filter5x5_Input14x14_Stride2` computes depends on the scratch arrays only inside the
tile and the staged taps. -/
theorem k5x5_convolve_congr [Add α] [Mul α] [Zero α] (batch channel : Nat) (alpha beta : α)
    (bx b t : Nat) (ht : t < 224) (sh sh' : Shared α) (out : Nat → α)
    (hi : ∀ a < 32 * 14 * 18, sh.inputData a = sh'.inputData a)
    (hf : ∀ j < 32 * (5 * 5), sh.filterData j = sh'.filterData j) :
    Filter5x5_Input14x14_Stride2.convolve (depthwiseShape batch channel 14 14 5 5 7 7 2 2) alpha beta bx b t sh out
      = Filter5x5_Input14x14_Stride2.convolve (depthwiseShape batch channel 14 14 5 5 7 7 2 2) alpha beta bx b t sh' out := by
  have e : ∀ oh : Nat,
      taps 5 (fun i => sh.filterData (t / 7 * 5 * 5 + i))
        (fun r kw => sh.inputData (t / 7 * 18 * 14 + t % 7 * 2 + kw + r * 18)) (tapRows 5 14 2 2 oh)
      = taps 5 (fun i => sh'.filterData (t / 7 * 5 * 5 + i))
        (fun r kw => sh'.inputData (t / 7 * 18 * 14 + t % 7 * 2 + kw + r * 18)) (tapRows 5 14 2 2 oh) := by
    intro oh
    apply taps_congr
    intro q hq kw hkw
    obtain ⟨h1, h2, h3⟩ := (mem_tapRows _ _ _ _ _ q).1 hq
    exact ⟨hf _ (by omega), hi _ (by omega)⟩
  rw [k5x5_convolve_closed, k5x5_convolve_closed]
  simp only [e]

theorem k5x5_reads_only_written [Add α] [Mul α] [Zero α] (batch channel : Nat) (alpha beta : α)
    (bx b : Nat) :
    ReadsOnlyWritten 224 (32 * 14 * 18) (32 * (5 * 5))
      (Filter5x5_Input14x14_Stride2.paddingStores (depthwiseShape batch channel 14 14 5 5 7 7 2 2))
      (fun t => (Filter5x5_Input14x14_Stride2.inputLoads (depthwiseShape batch channel 14 14 5 5 7 7 2 2) bx b t).map Prod.fst)
      (Filter5x5_Input14x14_Stride2.filterStores (depthwiseShape batch channel 14 14 5 5 7 7 2 2) b)
      (fun t sh out => Filter5x5_Input14x14_Stride2.convolve (depthwiseShape batch channel 14 14 5 5 7 7 2 2) alpha beta bx b t sh (out : Nat → α)) :=
  ⟨writtenBy_of_once _ _ _ _ (k5x5_tile_once batch channel bx b),
    writtenOnce_mem _ _ _ (k5x5_filter_once batch channel b),
    fun t ht sh sh' out hi hf =>
      k5x5_convolve_congr batch channel alpha beta bx b t ht sh sh' out hi hf⟩

/-- The value of the `k`-th store of a lane of `Filter5x5_Input14x14_Stride2`: the left-nested sum of
the tap products, filter row by filter row and `kw` ascending inside a row, scaled and shifted. -/
theorem k5x5_stored_value [Add α] [Mul α] [Zero α] (batch channel : Nat) (alpha beta : α)
    (bx b t k : Nat) (hk : k < 7) (sh : Shared α) (out : Nat → α) :
    Filter5x5_Input14x14_Stride2.convolve (depthwiseShape batch channel 14 14 5 5 7 7 2 2) alpha beta bx b t sh out
        (Filter5x5_Input14x14_Stride2.outputIdx (depthwiseShape batch channel 14 14 5 5 7 7 2 2) bx b t k)
      = nestSum (taps 5 (fun i => sh.filterData (t / 7 * 5 * 5 + i))
          (fun r kw => sh.inputData (t / 7 * 18 * 14 + t % 7 * 2 + kw + r * 18)) (tapRows 5 14 2 2 k)) * alpha + beta := by
  rw [k5x5_convolve_closed]
  refine writeRows_at _ 7 (by omega) _ out k _ ?_
  rw [List.getElem?_map, List.getElem?_range hk]
  rfl

end k5x5_tile

section k28s1_tile
variable {α : Type}

theorem k28s1_paddingStores_eq (batch channel t : Nat) :
    Filter3x3_Input28x28_Stride1.paddingStores (depthwiseShape batch channel 28 28 3 3 28 28 1 1) t = [t * 30, t * 30 + 29] := rfl

theorem k28s1_inputLoads_eq (batch channel bx b t : Nat) :
    Filter3x3_Input28x28_Stride1.inputLoads (depthwiseShape batch channel 28 28 3 3 28 28 1 1) bx b t
      = (List.range 28).map (fun k => (t / 28 * 2 + t + 1 + 8 * 30 * k,
          bx * channel * 28 * 28 + b * 8 * 28 * 28 + t + 8 * 28 * k)) := rfl

theorem k28s1_copy_targets (batch channel bx b t : Nat) :
    (Filter3x3_Input28x28_Stride1.inputLoads (depthwiseShape batch channel 28 28 3 3 28 28 1 1) bx b t).map Prod.fst
      = (List.range 28).map (fun k => t / 28 * 2 + t + 1 + 8 * 30 * k) := by
  rw [k28s1_inputLoads_eq, List.map_map]
  rfl

/-- The zero fill of a lane of `Filter3x3_Input28x28_Stride1` performs exactly the stores listed by
`paddingStores`. -/
theorem k28s1_padding_stores [Zero α] (batch channel : Nat) (filter : Nat → α) (bx b t : Nat)
    (sh : Shared α) :
    (Filter3x3_Input28x28_Stride1.fillPhase filter (depthwiseShape batch channel 28 28 3 3 28 28 1 1) bx b t sh).inputData
      = writeList ((Filter3x3_Input28x28_Stride1.paddingStores (depthwiseShape batch channel 28 28 3 3 28 28 1 1) t).map (fun a => (a, (0 : α)))) sh.inputData :=
  rfl

/-- The bulk copy of a lane of `Filter3x3_Input28x28_Stride1` performs exactly the loads and stores listed
by `inputLoads`. -/
theorem k28s1_input_loads (batch channel : Nat) (input : Nat → α) (bx b t : Nat) (sh : Shared α) :
    (Filter3x3_Input28x28_Stride1.copyPhase input (depthwiseShape batch channel 28 28 3 3 28 28 1 1) bx b t sh).inputData
      = writeList ((Filter3x3_Input28x28_Stride1.inputLoads (depthwiseShape batch channel 28 28 3 3 28 28 1 1) bx b t).map (fun q => (q.1, input q.2)))
          sh.inputData :=
  rfl

/-- Every element of the tile of a group of `Filter3x3_Input28x28_Stride1` is written exactly once. -/
theorem k28s1_tile_once (batch channel bx b : Nat) :
    TileWrittenOnce 224 (8 * 28 * 30) (Filter3x3_Input28x28_Stride1.paddingStores (depthwiseShape batch channel 28 28 3 3 28 28 1 1))
      (fun t => (Filter3x3_Input28x28_Stride1.inputLoads (depthwiseShape batch channel 28 28 3 3 28 28 1 1) bx b t).map Prod.fst) := by
  intro a ha
  by_cases hc : 1 ≤ a % 30 ∧ a % 30 < 28 + 1
  · right
    constructor
    · intro t ht hm
      rw [k28s1_paddingStores_eq] at hm
      simp only [List.mem_cons, List.mem_singleton, List.not_mem_nil, or_false] at hm
      omega
    · refine storedOnce_of _ _ a (a / 30 % 8 * 28 + (a % 30 - 1)) (by omega) ?_ ?_ ?_
      · simp only [k28s1_copy_targets]
        exact nodup_map_range _ _ (fun k _ k' _ e => by omega)
      · simp only [k28s1_copy_targets]
        exact List.mem_map.2 ⟨a / 30 / 8, List.mem_range.2 (by omega), by omega⟩
      · intro t' ht' hm
        simp only [k28s1_copy_targets] at hm
        obtain ⟨k, hk, e⟩ := List.mem_map.1 hm
        rw [List.mem_range] at hk
        omega
  · left
    constructor
    · refine storedOnce_of _ _ a (a / 30 % 224) (by omega) ?_ ?_ ?_
      · rw [k28s1_paddingStores_eq]
        simp only [List.nodup_cons, List.mem_cons, List.mem_singleton, List.not_mem_nil,
          List.nodup_nil, or_false, and_true, not_false_eq_true]
        omega
      · rw [k28s1_paddingStores_eq]
        simp only [List.mem_cons, List.mem_singleton, List.not_mem_nil, or_false]
        omega
      · intro t' ht' hm
        rw [k28s1_paddingStores_eq] at hm
        simp only [List.mem_cons, List.mem_singleton, List.not_mem_nil, or_false] at hm
        omega
    · intro t ht hm
      simp only [k28s1_copy_targets] at hm
      obtain ⟨k, hk, e⟩ := List.mem_map.1 hm
      rw [List.mem_range] at hk
      omega

theorem k28s1_padding_bound (batch channel t : Nat) (ht : t < 224) (a : Nat)
    (ha : a ∈ Filter3x3_Input28x28_Stride1.paddingStores (depthwiseShape batch channel 28 28 3 3 28 28 1 1) t) : a < 8 * 28 * 30 := by
  rw [k28s1_paddingStores_eq] at ha
  simp only [List.mem_cons, List.mem_singleton, List.not_mem_nil, or_false] at ha
  omega

/-- Every input index a lane of `Filter3x3_Input28x28_Stride1` reads lies inside the input buffer. -/
theorem k28s1_loads_bound (batch channel bx b t : Nat) (hch : channel % 8 = 0) (hbx : bx < batch)
    (hb : b < channel / 8) (ht : t < 224) (q : Nat × Nat)
    (hq : q ∈ Filter3x3_Input28x28_Stride1.inputLoads (depthwiseShape batch channel 28 28 3 3 28 28 1 1) bx b t) :
    q.2 < batch * channel * 28 * 28 := by
  rw [k28s1_inputLoads_eq] at hq
  obtain ⟨k, hk, rfl⟩ := List.mem_map.1 hq
  rw [List.mem_range] at hk
  have h1 := mul_succ_le bx batch channel hbx
  simp only
  omega

/-- Every filter index a lane of `Filter3x3_Input28x28_Stride1` reads lies inside the filter bank. -/
theorem k28s1_filter_bound (batch channel b t : Nat) (hch : channel % 8 = 0)
    (hb : b < channel / 8) (ht : t < 224) (q : Nat × Nat)
    (hq : q ∈ Filter3x3_Input28x28_Stride1.filterStores (depthwiseShape batch channel 28 28 3 3 28 28 1 1) b t) :
    q.2 < channel * 3 * 3 := by
  simp only [Filter3x3_Input28x28_Stride1.filterStores, depthwiseShape] at hq
  split_ifs at hq <;>
    simp only [List.mem_cons, List.mem_singleton, List.not_mem_nil, or_false] at hq <;>
    (rcases hq with rfl | rfl | rfl | rfl <;> simp only <;> omega)

/-- What a lane of `Filter3x3_Input28x28_Stride1` computes depends on the scratch arrays only inside the
tile and the staged taps. -/
theorem k28s1_convolve_congr [Add α] [Mul α] [Zero α] (batch channel : Nat) (alpha beta : α)
    (bx b t : Nat) (ht : t < 224) (sh sh' : Shared α) (out : Nat → α)
    (hi : ∀ a < 8 * 28 * 30, sh.inputData a = sh'.inputData a)
    (hf : ∀ j < 8 * (3 * 3), sh.filterData j = sh'.filterData j) :
    Filter3x3_Input28x28_Stride1.convolve (depthwiseShape batch channel 28 28 3 3 28 28 1 1) alpha beta bx b t sh out
      = Filter3x3_Input28x28_Stride1.convolve (depthwiseShape batch channel 28 28 3 3 28 28 1 1) alpha beta bx b t sh' out := by
  have e : ∀ oh : Nat,
      taps 3 (fun i => sh.filterData (t / 28 * 3 * 3 + i))
        (fun r kw => sh.inputData (t / 28 * 30 * 28 + t % 28 + r * 30 + kw)) (tapRows 3 28 1 1 oh)
      = taps 3 (fun i => sh'.filterData (t / 28 * 3 * 3 + i))
        (fun r kw => sh'.inputData (t / 28 * 30 * 28 + t % 28 + r * 30 + kw)) (tapRows 3 28 1 1 oh) := by
    intro oh
    apply taps_congr
    intro q hq kw hkw
    obtain ⟨h1, h2, h3⟩ := (mem_tapRows _ _ _ _ _ q).1 hq
    exact ⟨hf _ (by omega), hi _ (by omega)⟩
  rw [k28s1_convolve_closed, k28s1_convolve_closed]
  simp only [e]

theorem k28s1_reads_only_written [Add α] [Mul α] [Zero α] (batch channel : Nat) (alpha beta : α)
    (bx b : Nat) :
    ReadsOnlyWritten 224 (8 * 28 * 30) (8 * (3 * 3))
      (Filter3x3_Input28x28_Stride1.paddingStores (depthwiseShape batch channel 28 28 3 3 28 28 1 1))
      (fun t => (Filter3x3_Input28x28_Stride1.inputLoads (depthwiseShape batch channel 28 28 3 3 28 28 1 1) bx b t).map Prod.fst)
      (Filter3x3_Input28x28_Stride1.filterStores (depthwiseShape batch channel 28 28 3 3 28 28 1 1) b)
      (fun t sh out => Filter3x3_Input28x28_Stride1.convolve (depthwiseShape batch channel 28 28 3 3 28 28 1 1) alpha beta bx b t sh (out : Nat → α)) :=
  ⟨writtenBy_of_once _ _ _ _ (k28s1_tile_once batch channel bx b),
    writtenOnce_mem _ _ _ (k28s1_filter_once batch channel b),
    fun t ht sh sh' out hi hf =>
      k28s1_convolve_congr batch channel alpha beta bx b t ht sh sh' out hi hf⟩

/-- The value of the `k`-th store of a lane of `Filter3x3_Input28x28_Stride1`: the left-nested sum of
the tap products, filter row by filter row and `kw` ascending inside a row, scaled and shifted. -/
theorem k28s1_stored_value [Add α] [Mul α] [Zero α] (batch channel : Nat) (alpha beta : α)
    (bx b t k : Nat) (hk : k < 28) (sh : Shared α) (out : Nat → α) :
    Filter3x3_Input28x28_Stride1.convolve (depthwiseShape batch channel 28 28 3 3 28 28 1 1) alpha beta bx b t sh out
        (Filter3x3_Input28x28_Stride1.outputIdx (depthwiseShape batch channel 28 28 3 3 28 28 1 1) bx b t k)
      = nestSum (taps 3 (fun i => sh.filterData (t / 28 * 3 * 3 + i))
          (fun r kw => sh.inputData (t / 28 * 30 * 28 + t % 28 + r * 30 + kw)) (tapRows 3 28 1 1 k)) * alpha + beta := by
  rw [k28s1_convolve_closed]
  refine writeRows_at _ 28 (by omega) _ out k _ ?_
  rw [List.getElem?_map, List.getElem?_range hk]
  rfl

end k28s1_tile

section k28s2_tile
variable {α : Type}

theorem k28s2_paddingStores_eq (batch channel t : Nat) :
    Filter3x3_Input28x28_Stride2.paddingStores (depthwiseShape batch channel 28 28 3 3 14 14 1 2) t = [t * 30, t * 30 + 29, t * 30 + 8 / 2 * 28 * 30, t * 30 + 8 / 2 * 28 * 30 + 29] := rfl

theorem k28s2_inputLoads_eq (batch channel bx b t : Nat) :
    Filter3x3_Input28x28_Stride2.inputLoads (depthwiseShape batch channel 28 28 3 3 14 14 1 2) bx b t
      = (List.range 56).map (fun k => (t / 28 * 2 + t + 1 + 4 * 30 * k,
          bx * channel * 28 * 28 + b * 8 * 28 * 28 + t + 4 * 28 * k)) := rfl

theorem k28s2_copy_targets (batch channel bx b t : Nat) :
    (Filter3x3_Input28x28_Stride2.inputLoads (depthwiseShape batch channel 28 28 3 3 14 14 1 2) bx b t).map Prod.fst
      = (List.range 56).map (fun k => t / 28 * 2 + t + 1 + 4 * 30 * k) := by
  rw [k28s2_inputLoads_eq, List.map_map]
  rfl

/-- The zero fill of a lane of `Filter3x3_Input28x28_Stride2` performs exactly the stores listed by
`paddingStores`. -/
theorem k28s2_padding_stores [Zero α] (batch channel : Nat) (filter : Nat → α) (bx b t : Nat)
    (sh : Shared α) :
    (Filter3x3_Input28x28_Stride2.fillPhase filter (depthwiseShape batch channel 28 28 3 3 14 14 1 2) bx b t sh).inputData
      = writeList ((Filter3x3_Input28x28_Stride2.paddingStores (depthwiseShape batch channel 28 28 3 3 14 14 1 2) t).map (fun a => (a, (0 : α)))) sh.inputData :=
  rfl

/-- The bulk copy of a lane of `Filter3x3_Input28x28_Stride2` performs exactly the loads and stores listed
by `inputLoads`. -/
theorem k28s2_input_loads (batch channel : Nat) (input : Nat → α) (bx b t : Nat) (sh : Shared α) :
    (Filter3x3_Input28x28_Stride2.copyPhase input (depthwiseShape batch channel 28 28 3 3 14 14 1 2) bx b t sh).inputData
      = writeList ((Filter3x3_Input28x28_Stride2.inputLoads (depthwiseShape batch channel 28 28 3 3 14 14 1 2) bx b t).map (fun q => (q.1, input q.2)))
          sh.inputData :=
  rfl

/-- Every element of the tile of a group of `Filter3x3_Input28x28_Stride2` is written exactly once. -/
theorem k28s2_tile_once (batch channel bx b : Nat) :
    TileWrittenOnce 112 (8 * 28 * 30) (Filter3x3_Input28x28_Stride2.paddingStores (depthwiseShape batch channel 28 28 3 3 14 14 1 2))
      (fun t => (Filter3x3_Input28x28_Stride2.inputLoads (depthwiseShape batch channel 28 28 3 3 14 14 1 2) bx b t).map Prod.fst) := by
  intro a ha
  by_cases hc : 1 ≤ a % 30 ∧ a % 30 < 28 + 1
  · right
    constructor
    · intro t ht hm
      rw [k28s2_paddingStores_eq] at hm
      simp only [List.mem_cons, List.mem_singleton, List.not_mem_nil, or_false] at hm
      omega
    · refine storedOnce_of _ _ a (a / 30 % 4 * 28 + (a % 30 - 1)) (by omega) ?_ ?_ ?_
      · simp only [k28s2_copy_targets]
        exact nodup_map_range _ _ (fun k _ k' _ e => by omega)
      · simp only [k28s2_copy_targets]
        exact List.mem_map.2 ⟨a / 30 / 4, List.mem_range.2 (by omega), by omega⟩
      · intro t' ht' hm
        simp only [k28s2_copy_targets] at hm
        obtain ⟨k, hk, e⟩ := List.mem_map.1 hm
        rw [List.mem_range] at hk
        omega
  · left
    constructor
    · refine storedOnce_of _ _ a (a / 30 % 112) (by omega) ?_ ?_ ?_
      · rw [k28s2_paddingStores_eq]
        simp only [List.nodup_cons, List.mem_cons, List.mem_singleton, List.not_mem_nil,
          List.nodup_nil, or_false, and_true, not_false_eq_true]
        omega
      · rw [k28s2_paddingStores_eq]
        simp only [List.mem_cons, List.mem_singleton, List.not_mem_nil, or_false]
        omega
      · intro t' ht' hm
        rw [k28s2_paddingStores_eq] at hm
        simp only [List.mem_cons, List.mem_singleton, List.not_mem_nil, or_false] at hm
        omega
    · intro t ht hm
      simp only [k28s2_copy_targets] at hm
      obtain ⟨k, hk, e⟩ := List.mem_map.1 hm
      rw [List.mem_range] at hk
      omega

theorem k28s2_padding_bound (batch channel t : Nat) (ht : t < 112) (a : Nat)
    (ha : a ∈ Filter3x3_Input28x28_Stride2.paddingStores (depthwiseShape batch channel 28 28 3 3 14 14 1 2) t) : a < 8 * 28 * 30 := by
  rw [k28s2_paddingStores_eq] at ha
  simp only [List.mem_cons, List.mem_singleton, List.not_mem_nil, or_false] at ha
  omega

/-- Every input index a lane of `Filter3x3_Input28x28_Stride2` reads lies inside the input buffer. -/
theorem k28s2_loads_bound (batch channel bx b t : Nat) (hch : channel % 8 = 0) (hbx : bx < batch)
    (hb : b < channel / 8) (ht : t < 112) (q : Nat × Nat)
    (hq : q ∈ Filter3x3_Input28x28_Stride2.inputLoads (depthwiseShape batch channel 28 28 3 3 14 14 1 2) bx b t) :
    q.2 < batch * channel * 28 * 28 := by
  rw [k28s2_inputLoads_eq] at hq
  obtain ⟨k, hk, rfl⟩ := List.mem_map.1 hq
  rw [List.mem_range] at hk
  have h1 := mul_succ_le bx batch channel hbx
  simp only
  omega

/-- Every filter index a lane of `Filter3x3_Input28x28_Stride2` reads lies inside the filter bank. -/
theorem k28s2_filter_bound (batch channel b t : Nat) (hch : channel % 8 = 0)
    (hb : b < channel / 8) (ht : t < 112) (q : Nat × Nat)
    (hq : q ∈ Filter3x3_Input28x28_Stride2.filterStores (depthwiseShape batch channel 28 28 3 3 14 14 1 2) b t) :
    q.2 < channel * 3 * 3 := by
  simp only [Filter3x3_Input28x28_Stride2.filterStores, depthwiseShape] at hq
  split_ifs at hq <;>
    simp only [List.mem_cons, List.mem_singleton, List.not_mem_nil, or_false] at hq <;>
    (rcases hq with rfl | rfl | rfl | rfl <;> simp only <;> omega)

/-- What a lane of `Filter3x3_Input28x28_Stride2` computes depends on the scratch arrays only inside the
tile and the staged taps. -/
theorem k28s2_convolve_congr [Add α] [Mul α] [Zero α] (batch channel : Nat) (alpha beta : α)
    (bx b t : Nat) (ht : t < 112) (sh sh' : Shared α) (out : Nat → α)
    (hi : ∀ a < 8 * 28 * 30, sh.inputData a = sh'.inputData a)
    (hf : ∀ j < 8 * (3 * 3), sh.filterData j = sh'.filterData j) :
    Filter3x3_Input28x28_Stride2.convolve (depthwiseShape batch channel 28 28 3 3 14 14 1 2) alpha beta bx b t sh out
      = Filter3x3_Input28x28_Stride2.convolve (depthwiseShape batch channel 28 28 3 3 14 14 1 2) alpha beta bx b t sh' out := by
  have e : ∀ oh : Nat,
      taps 3 (fun i => sh.filterData (t / 14 * 3 * 3 + i))
        (fun r kw => sh.inputData (t / 14 * 30 * 28 + t % 14 * 2 + r * 30 + kw)) (tapRows 3 28 1 2 oh)
      = taps 3 (fun i => sh'.filterData (t / 14 * 3 * 3 + i))
        (fun r kw => sh'.inputData (t / 14 * 30 * 28 + t % 14 * 2 + r * 30 + kw)) (tapRows 3 28 1 2 oh) := by
    intro oh
    apply taps_congr
    intro q hq kw hkw
    obtain ⟨h1, h2, h3⟩ := (mem_tapRows _ _ _ _ _ q).1 hq
    exact ⟨hf _ (by omega), hi _ (by omega)⟩
  rw [k28s2_convolve_closed, k28s2_convolve_closed]
  simp only [e]

theorem k28s2_reads_only_written [Add α] [Mul α] [Zero α] (batch channel : Nat) (alpha beta : α)
    (bx b : Nat) :
    ReadsOnlyWritten 112 (8 * 28 * 30) (8 * (3 * 3))
      (Filter3x3_Input28x28_Stride2.paddingStores (depthwiseShape batch channel 28 28 3 3 14 14 1 2))
      (fun t => (Filter3x3_Input28x28_Stride2.inputLoads (depthwiseShape batch channel 28 28 3 3 14 14 1 2) bx b t).map Prod.fst)
      (Filter3x3_Input28x28_Stride2.filterStores (depthwiseShape batch channel 28 28 3 3 14 14 1 2) b)
      (fun t sh out => Filter3x3_Input28x28_Stride2.convolve (depthwiseShape batch channel 28 28 3 3 14 14 1 2) alpha beta bx b t sh (out : Nat → α)) :=
  ⟨writtenBy_of_once _ _ _ _ (k28s2_tile_once batch channel bx b),
    writtenOnce_mem _ _ _ (k28s2_filter_once batch channel b),
    fun t ht sh sh' out hi hf =>
      k28s2_convolve_congr batch channel alpha beta bx b t ht sh sh' out hi hf⟩

/-- The value of the `k`-th store of a lane of `Filter3x3_Input28x28_Stride2`: the left-nested sum of
the tap products, filter row by filter row and `kw` ascending inside a row, scaled and shifted. -/
theorem k28s2_stored_value [Add α] [Mul α] [Zero α] (batch channel : Nat) (alpha beta : α)
    (bx b t k : Nat) (hk : k < 14) (sh : Shared α) (out : Nat → α) :
    Filter3x3_Input28x28_Stride2.convolve (depthwiseShape batch channel 28 28 3 3 14 14 1 2) alpha beta bx b t sh out
        (Filter3x3_Input28x28_Stride2.outputIdx (depthwiseShape batch channel 28 28 3 3 14 14 1 2) bx b t k)
      = nestSum (taps 3 (fun i => sh.filterData (t / 14 * 3 * 3 + i))
          (fun r kw => sh.inputData (t / 14 * 30 * 28 + t % 14 * 2 + r * 30 + kw)) (tapRows 3 28 1 2 k)) * alpha + beta := by
  rw [k28s2_convolve_closed]
  refine writeRows_at _ 14 (by omega) _ out k _ ?_
  rw [List.getElem?_map, List.getElem?_range hk]
  rfl

end k28s2_tile

section k56_tile
variable {α : Type}

theorem k56_mem_paddingStores (batch channel t a : Nat) :
    a ∈ Filter3x3_Input56x56_Stride1.paddingStores (depthwiseShape batch channel 56 56 3 3 56 56 1 1) t ↔
      (32 ≤ t ∧ t < 88 ∧ (a = (t - 31) * 58 ∨ a = (t - 31) * 58 + 57)) ∨
      (96 ≤ t ∧ t < 154 ∧ a = t - 96) ∨ (160 ≤ t ∧ t < 218 ∧ a = t - 160 + 58 * 57) := by
  simp only [Filter3x3_Input56x56_Stride1.paddingStores, List.mem_append]
  split_ifs <;> simp only [List.mem_cons, List.mem_singleton, List.not_mem_nil, or_false, false_or,
    or_false] <;> first | omega | (rw [false_iff]; omega)

theorem k56_nodup_paddingStores (batch channel t : Nat) :
    (Filter3x3_Input56x56_Stride1.paddingStores (depthwiseShape batch channel 56 56 3 3 56 56 1 1) t).Nodup := by
  simp only [Filter3x3_Input56x56_Stride1.paddingStores]
  split_ifs <;> simp <;> omega

theorem k56_inputLoads_eq (batch channel bx b t : Nat) :
    Filter3x3_Input56x56_Stride1.inputLoads (depthwiseShape batch channel 56 56 3 3 56 56 1 1) bx b t
      = (List.range 14).map (fun k => (t / 56 * 2 + t + 1 + 58 + 4 * 58 * k,
          bx * channel * 56 * 56 + b * 1 * 56 * 56 + t + 4 * 56 * k)) := rfl

theorem k56_copy_targets (batch channel bx b t : Nat) :
    (Filter3x3_Input56x56_Stride1.inputLoads (depthwiseShape batch channel 56 56 3 3 56 56 1 1) bx b t).map Prod.fst
      = (List.range 14).map (fun k => t / 56 * 2 + t + 1 + 58 + 4 * 58 * k) := by
  rw [k56_inputLoads_eq, List.map_map]
  rfl

/-- The zero fill of a lane of `Filter3x3_Input56x56_Stride1` performs exactly the stores listed
by `paddingStores`. -/
theorem k56_padding_stores [Zero α] (batch channel : Nat) (filter : Nat → α) (bx b t : Nat)
    (sh : Shared α) :
    (Filter3x3_Input56x56_Stride1.fillPhase filter (depthwiseShape batch channel 56 56 3 3 56 56 1 1) bx b t sh).inputData
      = writeList ((Filter3x3_Input56x56_Stride1.paddingStores
          (depthwiseShape batch channel 56 56 3 3 56 56 1 1) t).map (fun a => (a, (0 : α)))) sh.inputData := by
  simp only [Filter3x3_Input56x56_Stride1.fillPhase, Filter3x3_Input56x56_Stride1.paddingStores]
  split_ifs <;> rfl

/-- The bulk copy of a lane of `Filter3x3_Input56x56_Stride1` performs exactly the loads and
stores listed by `inputLoads`. -/
theorem k56_input_loads (batch channel : Nat) (input : Nat → α) (bx b t : Nat) (sh : Shared α) :
    (Filter3x3_Input56x56_Stride1.copyPhase input (depthwiseShape batch channel 56 56 3 3 56 56 1 1) bx b t sh).inputData
      = writeList ((Filter3x3_Input56x56_Stride1.inputLoads
          (depthwiseShape batch channel 56 56 3 3 56 56 1 1) bx b t).map (fun q => (q.1, input q.2)))
          sh.inputData :=
  rfl

/-- Every element of the 58 x 58 tile of `Filter3x3_Input56x56_Stride1` is written exactly once. -/
theorem k56_tile_once (batch channel bx b : Nat) :
    TileWrittenOnce 224 (58 * 58)
      (Filter3x3_Input56x56_Stride1.paddingStores (depthwiseShape batch channel 56 56 3 3 56 56 1 1))
      (fun t => (Filter3x3_Input56x56_Stride1.inputLoads
        (depthwiseShape batch channel 56 56 3 3 56 56 1 1) bx b t).map Prod.fst) := by
  intro a ha
  by_cases hc : (1 ≤ a / 58 ∧ a / 58 < 57) ∧ (1 ≤ a % 58 ∧ a % 58 < 57)
  · right
    constructor
    · intro t ht hm
      rw [k56_mem_paddingStores] at hm
      omega
    · refine storedOnce_of _ _ a ((a / 58 - 1) % 4 * 56 + (a % 58 - 1)) (by omega) ?_ ?_ ?_
      · simp only [k56_copy_targets]
        exact nodup_map_range _ _ (fun k _ k' _ e => by omega)
      · simp only [k56_copy_targets]
        exact List.mem_map.2 ⟨(a / 58 - 1) / 4, List.mem_range.2 (by omega), by omega⟩
      · intro t' ht' hm
        simp only [k56_copy_targets] at hm
        obtain ⟨k, hk, e⟩ := List.mem_map.1 hm
        rw [List.mem_range] at hk
        omega
  · left
    constructor
    · refine storedOnce_of _ _ a
        (if a / 58 = 0 then 96 + a % 58 else if a / 58 = 57 then 160 + a % 58 else 31 + a / 58)
        (by split_ifs <;> omega) (k56_nodup_paddingStores _ _ _) ?_ ?_
      · rw [k56_mem_paddingStores]
        split_ifs <;> omega
      · intro t' ht' hm
        rw [k56_mem_paddingStores] at hm
        split_ifs <;> omega
    · intro t ht hm
      simp only [k56_copy_targets] at hm
      obtain ⟨k, hk, e⟩ := List.mem_map.1 hm
      rw [List.mem_range] at hk
      omega

theorem k56_padding_bound (batch channel t : Nat) (ht : t < 224) (a : Nat)
    (ha : a ∈ Filter3x3_Input56x56_Stride1.paddingStores (depthwiseShape batch channel 56 56 3 3 56 56 1 1) t) :
    a < 58 * 58 := by
  rw [k56_mem_paddingStores] at ha
  omega

/-- Every input index a lane of `Filter3x3_Input56x56_Stride1` reads lies inside the input
buffer. -/
theorem k56_loads_bound (batch channel bx b t : Nat) (hbx : bx < batch)
    (hb : b < channel) (ht : t < 224) (q : Nat × Nat)
    (hq : q ∈ Filter3x3_Input56x56_Stride1.inputLoads (depthwiseShape batch channel 56 56 3 3 56 56 1 1) bx b t) :
    q.2 < batch * channel * 56 * 56 := by
  rw [k56_inputLoads_eq] at hq
  obtain ⟨k, hk, rfl⟩ := List.mem_map.1 hq
  rw [List.mem_range] at hk
  have h1 := mul_succ_le bx batch channel hbx
  simp only
  omega

/-- Every filter index a lane of `Filter3x3_Input56x56_Stride1` reads lies inside the filter
bank. -/
theorem k56_filter_bound (batch channel b t : Nat)
    (hb : b < channel) (ht : t < 224) (q : Nat × Nat)
    (hq : q ∈ Filter3x3_Input56x56_Stride1.filterStores (depthwiseShape batch channel 56 56 3 3 56 56 1 1) b t) :
    q.2 < channel * 3 * 3 := by
  simp only [Filter3x3_Input56x56_Stride1.filterStores, depthwiseShape] at hq
  split_ifs at hq <;>
    simp only [List.mem_cons, List.mem_singleton, List.not_mem_nil, or_false] at hq <;>
    (rcases hq with rfl | rfl | rfl | rfl <;> simp only <;> omega)

/-- What a lane of `Filter3x3_Input56x56_Stride1` computes depends on the scratch arrays only
inside the 58 x 58 tile and the 9 staged taps. -/
theorem k56_convolve_congr [Add α] [Mul α] [Zero α] (batch channel : Nat) (alpha beta : α)
    (bx b t : Nat) (ht : t < 224) (sh sh' : Shared α) (out : Nat → α)
    (hi : ∀ a < 58 * 58, sh.inputData a = sh'.inputData a)
    (hf : ∀ j < 9, sh.filterData j = sh'.filterData j) :
    Filter3x3_Input56x56_Stride1.convolve (depthwiseShape batch channel 56 56 3 3 56 56 1 1) alpha beta bx b t sh out
      = Filter3x3_Input56x56_Stride1.convolve (depthwiseShape batch channel 56 56 3 3 56 56 1 1) alpha beta bx b t sh' out := by
  have e : ∀ k : Nat,
      taps 3 (fun i => sh.filterData (0 + i))
        (fun r kw => sh.inputData (t / 56 * 58 * 14 + t % 56 + r * 58 + kw)) (tapRows 3 16 0 1 k)
      = taps 3 (fun i => sh'.filterData (0 + i))
        (fun r kw => sh'.inputData (t / 56 * 58 * 14 + t % 56 + r * 58 + kw)) (tapRows 3 16 0 1 k) := by
    intro k
    apply taps_congr
    intro q hq kw hkw
    obtain ⟨h1, h2, h3⟩ := (mem_tapRows _ _ _ _ _ q).1 hq
    exact ⟨hf _ (by omega), hi _ (by omega)⟩
  rw [k56_convolve_closed, k56_convolve_closed]
  simp only [e]

theorem k56_reads_only_written [Add α] [Mul α] [Zero α] (batch channel : Nat) (alpha beta : α)
    (bx b : Nat) :
    ReadsOnlyWritten 224 (58 * 58) 9
      (Filter3x3_Input56x56_Stride1.paddingStores (depthwiseShape batch channel 56 56 3 3 56 56 1 1))
      (fun t => (Filter3x3_Input56x56_Stride1.inputLoads
        (depthwiseShape batch channel 56 56 3 3 56 56 1 1) bx b t).map Prod.fst)
      (Filter3x3_Input56x56_Stride1.filterStores (depthwiseShape batch channel 56 56 3 3 56 56 1 1) b)
      (fun t sh out => Filter3x3_Input56x56_Stride1.convolve
        (depthwiseShape batch channel 56 56 3 3 56 56 1 1) alpha beta bx b t sh (out : Nat → α)) :=
  ⟨writtenBy_of_once _ _ _ _ (k56_tile_once batch channel bx b),
    writtenOnce_mem _ _ _ (k56_filter_once batch channel b),
    fun t ht sh sh' out hi hf => k56_convolve_congr batch channel alpha beta bx b t ht sh sh' out hi hf⟩

/-- The value of the `k`-th store of a lane of `Filter3x3_Input56x56_Stride1`: the left-nested
sum of the nine tap products, filter row by filter row and `kw` ascending inside a row, scaled
and shifted. -/
theorem k56_stored_value [Add α] [Mul α] [Zero α] (batch channel : Nat) (alpha beta : α)
    (bx b t k : Nat) (hk : k < 14) (sh : Shared α) (out : Nat → α) :
    Filter3x3_Input56x56_Stride1.convolve (depthwiseShape batch channel 56 56 3 3 56 56 1 1) alpha beta bx b t sh out
        (Filter3x3_Input56x56_Stride1.outputIdx (depthwiseShape batch channel 56 56 3 3 56 56 1 1) bx b t k)
      = nestSum (taps 3 (fun i => sh.filterData (0 + i))
          (fun r kw => sh.inputData (t / 56 * 58 * 14 + t % 56 + r * 58 + kw)) (tapRows 3 16 0 1 k)) * alpha + beta := by
  rw [k56_convolve_closed]
  refine writeRows_at _ 56 (by omega) _ out k _ ?_
  rw [List.getElem?_map, List.getElem?_range hk]
  rfl

end k56_tile

section k112_tile
variable {α : Type}

theorem k112_mem_paddingStores (batch channel t a : Nat) :
    a ∈ Filter3x3_Input112x112_Stride2.paddingStores (depthwiseShape batch channel 112 112 3 3 56 56 1 2) t ↔
      (32 ≤ t ∧ t < 90 ∧ (a = (t - 32) * 114 ∨ a = (t - 32) * 114 + 113)) ∨
      (112 ≤ t ∧ (a = t - 111 ∨ a = t - 111 + 57 * 114)) := by
  simp only [Filter3x3_Input112x112_Stride2.paddingStores, depthwiseShape, List.mem_append]
  split_ifs <;> simp only [List.mem_cons, List.mem_singleton, List.not_mem_nil, or_false, false_or,
    or_false] <;> first | omega | (rw [false_iff]; omega)

/-- The zero fill of a lane of `Filter3x3_Input112x112_Stride2` performs exactly the stores
listed by `paddingStores`. -/
theorem k112_padding_stores [Zero α] (batch channel : Nat) (filter : Nat → α) (bx b t : Nat)
    (sh : Shared α) :
    (Filter3x3_Input112x112_Stride2.fillPhase filter (depthwiseShape batch channel 112 112 3 3 56 56 1 2) bx b t sh).inputData
      = writeList ((Filter3x3_Input112x112_Stride2.paddingStores
          (depthwiseShape batch channel 112 112 3 3 56 56 1 2) t).map (fun a => (a, (0 : α)))) sh.inputData := by
  simp only [Filter3x3_Input112x112_Stride2.fillPhase, Filter3x3_Input112x112_Stride2.paddingStores]
  split_ifs <;> rfl

theorem k112_copy_targets_even (batch channel bx b t : Nat) (hb : b % 2 = 0) :
    (Filter3x3_Input112x112_Stride2.inputLoads (depthwiseShape batch channel 112 112 3 3 56 56 1 2) bx b t).map Prod.fst
      = (List.range 29).map (fun k => t / 112 * 2 + t + 1 + 114 + 2 * 114 * k) := by
  simp only [Filter3x3_Input112x112_Stride2.inputLoads, depthwiseShape, Nat.and_one_is_mod, hb]
  rfl

theorem k112_copy_targets_odd (batch channel bx b t : Nat) (hb : b % 2 = 1) :
    (Filter3x3_Input112x112_Stride2.inputLoads (depthwiseShape batch channel 112 112 3 3 56 56 1 2) bx b t).map Prod.fst
      = (List.range (if t < 112 then 29 else 28)).map (fun k => t / 112 * 2 + t + 1 + 2 * 114 * k) := by
  simp only [Filter3x3_Input112x112_Stride2.inputLoads, depthwiseShape, Nat.and_one_is_mod, hb]
  by_cases ht : t < 112
  · simp only [ht, if_true]
    rfl
  · simp only [ht, if_false]
    rfl

/-- Every tile element of the rows 0..56, the rows the compute phase reads, is written by some
lane of the group, in the zero fill or in the bulk copy. -/
theorem k112_written (batch channel bx b a : Nat) (ha : a < 57 * 114) :
    WrittenBy 224
      (Filter3x3_Input112x112_Stride2.paddingStores (depthwiseShape batch channel 112 112 3 3 56 56 1 2))
      (fun t => (Filter3x3_Input112x112_Stride2.inputLoads
        (depthwiseShape batch channel 112 112 3 3 56 56 1 2) bx b t).map Prod.fst) a := by
  by_cases h0 : a % 114 = 0 ∨ a % 114 = 113
  · exact ⟨32 + a / 114, by omega, Or.inl ((k112_mem_paddingStores _ _ _ _).2 (by omega))⟩
  · rcases Nat.mod_two_eq_zero_or_one b with hb | hb
    · by_cases hr : a / 114 = 0
      · exact ⟨111 + a % 114, by omega, Or.inl ((k112_mem_paddingStores _ _ _ _).2 (by omega))⟩
      · refine ⟨(a / 114 - 1) % 2 * 112 + (a % 114 - 1), by omega, Or.inr ?_⟩
        simp only [k112_copy_targets_even _ _ _ _ _ hb]
        exact List.mem_map.2 ⟨(a / 114 - 1) / 2, List.mem_range.2 (by omega), by omega⟩
    · refine ⟨a / 114 % 2 * 112 + (a % 114 - 1), by omega, Or.inr ?_⟩
      simp only [k112_copy_targets_odd _ _ _ _ _ hb]
      refine List.mem_map.2 ⟨a / 114 / 2, List.mem_range.2 ?_, by omega⟩
      split_ifs <;> omega

/-- Every filter index a lane of `Filter3x3_Input112x112_Stride2` reads lies inside the filter
bank. -/
theorem k112_filter_bound (batch channel b t : Nat)
    (hb : b < 2 * channel) (ht : t < 224) (q : Nat × Nat)
    (hq : q ∈ Filter3x3_Input112x112_Stride2.filterStores (depthwiseShape batch channel 112 112 3 3 56 56 1 2) b t) :
    q.2 < channel * 3 * 3 := by
  simp only [Filter3x3_Input112x112_Stride2.filterStores, depthwiseShape] at hq
  split_ifs at hq <;>
    simp only [List.mem_cons, List.mem_singleton, List.not_mem_nil, or_false] at hq <;>
    (rcases hq with rfl | rfl | rfl | rfl <;> simp only <;> omega)

/-- What a lane of `Filter3x3_Input112x112_Stride2` computes depends on the scratch arrays only
inside the tile rows 0..56 and the 9 staged taps. -/
theorem k112_convolve_congr [Add α] [Mul α] [Zero α] (batch channel : Nat) (alpha beta : α)
    (bx b t : Nat) (ht : t < 224) (sh sh' : Shared α) (out : Nat → α)
    (hi : ∀ a < 57 * 114, sh.inputData a = sh'.inputData a)
    (hf : ∀ j < 9, sh.filterData j = sh'.filterData j) :
    Filter3x3_Input112x112_Stride2.convolve (depthwiseShape batch channel 112 112 3 3 56 56 1 2) alpha beta bx b t sh out
      = Filter3x3_Input112x112_Stride2.convolve (depthwiseShape batch channel 112 112 3 3 56 56 1 2) alpha beta bx b t sh' out := by
  have e : ∀ k : Nat,
      taps 3 (fun i => sh.filterData i)
        (fun r kw => sh.inputData (t / 56 * 14 * 114 + t % 56 * 2 + r * 114 + kw)) (tapRows 3 15 0 2 k)
      = taps 3 (fun i => sh'.filterData i)
        (fun r kw => sh'.inputData (t / 56 * 14 * 114 + t % 56 * 2 + r * 114 + kw)) (tapRows 3 15 0 2 k) := by
    intro k
    apply taps_congr
    intro q hq kw hkw
    obtain ⟨h1, h2, h3⟩ := (mem_tapRows _ _ _ _ _ q).1 hq
    exact ⟨hf _ (by omega), hi _ (by omega)⟩
  rw [k112_convolve_closed, k112_convolve_closed]
  simp only [e]

theorem k112_reads_only_written [Add α] [Mul α] [Zero α] (batch channel : Nat) (alpha beta : α)
    (bx b : Nat) :
    ReadsOnlyWritten 224 (57 * 114) 9
      (Filter3x3_Input112x112_Stride2.paddingStores (depthwiseShape batch channel 112 112 3 3 56 56 1 2))
      (fun t => (Filter3x3_Input112x112_Stride2.inputLoads
        (depthwiseShape batch channel 112 112 3 3 56 56 1 2) bx b t).map Prod.fst)
      (Filter3x3_Input112x112_Stride2.filterStores (depthwiseShape batch channel 112 112 3 3 56 56 1 2) b)
      (fun t sh out => Filter3x3_Input112x112_Stride2.convolve
        (depthwiseShape batch channel 112 112 3 3 56 56 1 2) alpha beta bx b t sh (out : Nat → α)) :=
  ⟨fun a ha => k112_written batch channel bx b a ha,
    writtenOnce_mem _ _ _ (k112_filter_once batch channel b),
    fun t ht sh sh' out hi hf => k112_convolve_congr batch channel alpha beta bx b t ht sh sh' out hi hf⟩

theorem k112_fill_set57 [Zero α] (batch channel : Nat) (filter : Nat → α) (bx b j : Nat)
    (hj : j < 114) :
    ∃ t, t < 224 ∧ ∀ s : Shared α,
      (Filter3x3_Input112x112_Stride2.fillPhase filter (depthwiseShape batch channel 112 112 3 3 56 56 1 2) bx b t s).inputData (57 * 114 + j) = 0 := by
  by_cases h0 : j = 0 ∨ j = 113
  · refine ⟨89, by omega, fun s => ?_⟩
    simp only [Filter3x3_Input112x112_Stride2.fillPhase, depthwiseShape, ite_write2_apply, ite_write_apply]
    split_ifs <;> first | rfl | omega
  · refine ⟨111 + j, by omega, fun s => ?_⟩
    simp only [Filter3x3_Input112x112_Stride2.fillPhase, depthwiseShape, ite_write2_apply, ite_write_apply]
    split_ifs <;> first | rfl | omega

/-- Tile row 57 of an odd group stays zero: no lane of the group copies into it. -/
theorem k112_inputData_odd57In [Zero α] (batch channel : Nat) (fo co : List Nat)
    (hfo : ∀ t, t ∈ fo ↔ t < 224) (hco : ∀ t, t ∈ co ↔ t < 224)
    (input filter : Nat → α) (bx b : Nat) (sh : Shared α)
    (j : Nat) (hb : b % 2 = 1) (hj : j < 114) :
    (Filter3x3_Input112x112_Stride2.stagedIn fo co input filter (depthwiseShape batch channel 112 112 3 3 56 56 1 2) bx b sh).inputData (57 * 114 + j)
      = 0 := by
  unfold Filter3x3_Input112x112_Stride2.stagedIn
  refine Eq.trans (runLanes_stores_frame (fun sh => sh.inputData) 224 co hco _ _
    (fun t _ st => k112_copy_closed_odd batch channel input bx b t st hb) (57 * 114 + j) ?_ _) ?_
  rotate_left
  · obtain ⟨t, ht, hset⟩ := k112_fill_set57 batch channel filter bx b j hj
    exact runLanes_set 224 fo hfo _ (fun sh => sh.inputData (57 * 114 + j)) _ t ht hset
      (fun t _ s => k112_fill_keep batch channel filter bx b t _ s) sh
  · intro t ht q hq
    simp only [List.mem_map, List.mem_range] at hq
    obtain ⟨k, hk, rfl⟩ := hq
    simp only
    split_ifs at hk <;> omega

/-- The value of the `k`-th store of a lane of `Filter3x3_Input112x112_Stride2`: the left-nested
sum of the nine tap products, filter row by filter row and `kw` ascending inside a row, scaled
and shifted. -/
theorem k112_stored_value [Add α] [Mul α] [Zero α] (batch channel : Nat) (alpha beta : α)
    (bx b t k : Nat) (hk : k < 7) (sh : Shared α) (out : Nat → α) :
    Filter3x3_Input112x112_Stride2.convolve (depthwiseShape batch channel 112 112 3 3 56 56 1 2) alpha beta bx b t sh out
        (Filter3x3_Input112x112_Stride2.outputIdx (depthwiseShape batch channel 112 112 3 3 56 56 1 2) bx b t k)
      = nestSum (taps 3 (fun i => sh.filterData i)
          (fun r kw => sh.inputData (t / 56 * 14 * 114 + t % 56 * 2 + r * 114 + kw)) (tapRows 3 15 0 2 k)) * alpha + beta := by
  rw [k112_convolve_closed]
  refine writeRows_at _ 56 (by omega) _ out k _ ?_
  rw [List.getElem?_map, List.getElem?_range hk]
  rfl

end k112_tile

section LoadTraces
variable {α : Type}

/-- The load phase of `Filter3x3_Input14x14_Stride1` performs exactly the stores its traces list. -/
theorem k14s1_load_trace [Zero α] (batch channel : Nat) (input filter : Nat → α) (bx b : Nat) :
    LoadTrace (Filter3x3_Input14x14_Stride1.fillPhase filter (depthwiseShape batch channel 14 14 3 3 14 14 1 1) bx b)
        (Filter3x3_Input14x14_Stride1.copyPhase input (depthwiseShape batch channel 14 14 3 3 14 14 1 1) bx b)
        (Filter3x3_Input14x14_Stride1.paddingStores (depthwiseShape batch channel 14 14 3 3 14 14 1 1))
        (fun t => (Filter3x3_Input14x14_Stride1.inputLoads (depthwiseShape batch channel 14 14 3 3 14 14 1 1) bx b t).map (fun q => (q.1, input q.2)))
        (fun t => (Filter3x3_Input14x14_Stride1.filterStores (depthwiseShape batch channel 14 14 3 3 14 14 1 1) b t).map (fun q => (q.1, filter q.2))) :=
  ⟨fun t sh => k14s1_padding_stores batch channel filter bx b t sh,
    fun t sh => k14s1_filter_stores batch channel filter bx b t sh,
    fun t sh => k14s1_input_loads batch channel input bx b t sh,
    fun _ _ => rfl⟩

/-- The load phase of `Filter3x3_Input112x112_Stride2` performs exactly the stores its traces list. -/
theorem k112_load_trace [Zero α] (batch channel : Nat) (input filter : Nat → α) (bx b : Nat) :
    LoadTrace (Filter3x3_Input112x112_Stride2.fillPhase filter (depthwiseShape batch channel 112 112 3 3 56 56 1 2) bx b)
        (Filter3x3_Input112x112_Stride2.copyPhase input (depthwiseShape batch channel 112 112 3 3 56 56 1 2) bx b)
        (Filter3x3_Input112x112_Stride2.paddingStores (depthwiseShape batch channel 112 112 3 3 56 56 1 2))
        (fun t => (Filter3x3_Input112x112_Stride2.inputLoads (depthwiseShape batch channel 112 112 3 3 56 56 1 2) bx b t).map (fun q => (q.1, input q.2.toNat)))
        (fun t => (Filter3x3_Input112x112_Stride2.filterStores (depthwiseShape batch channel 112 112 3 3 56 56 1 2) b t).map (fun q => (q.1, filter q.2))) :=
  ⟨fun t sh => k112_padding_stores batch channel filter bx b t sh,
    fun t sh => k112_filter_stores batch channel filter bx b t sh,
    fun t sh => k112_input_loads batch channel input bx b t sh,
    fun _ _ => rfl⟩

/-- The load phase of `Filter5x5_Input14x14_Stride2` performs exactly the stores its traces list. -/
theorem k5x5_load_trace [Zero α] (batch channel : Nat) (input filter : Nat → α) (bx b : Nat) :
    LoadTrace (Filter5x5_Input14x14_Stride2.fillPhase filter (depthwiseShape batch channel 14 14 5 5 7 7 2 2) bx b)
        (Filter5x5_Input14x14_Stride2.copyPhase input (depthwiseShape batch channel 14 14 5 5 7 7 2 2) bx b)
        (Filter5x5_Input14x14_Stride2.paddingStores (depthwiseShape batch channel 14 14 5 5 7 7 2 2))
        (fun t => (Filter5x5_Input14x14_Stride2.inputLoads (depthwiseShape batch channel 14 14 5 5 7 7 2 2) bx b t).map (fun q => (q.1, input q.2)))
        (fun t => (Filter5x5_Input14x14_Stride2.filterStores (depthwiseShape batch channel 14 14 5 5 7 7 2 2) b t).map (fun q => (q.1, filter q.2))) :=
  ⟨fun t sh => k5x5_padding_stores batch channel filter bx b t sh,
    fun t sh => k5x5_filter_stores batch channel filter bx b t sh,
    fun t sh => k5x5_input_loads batch channel input bx b t sh,
    fun _ _ => rfl⟩

/-- The load phase of `Filter3x3_Input28x28_Stride2` performs exactly the stores its traces list. -/
theorem k28s2_load_trace [Zero α] (batch channel : Nat) (input filter : Nat → α) (bx b : Nat) :
    LoadTrace (Filter3x3_Input28x28_Stride2.fillPhase filter (depthwiseShape batch channel 28 28 3 3 14 14 1 2) bx b)
        (Filter3x3_Input28x28_Stride2.copyPhase input (depthwiseShape batch channel 28 28 3 3 14 14 1 2) bx b)
        (Filter3x3_Input28x28_Stride2.paddingStores (depthwiseShape batch channel 28 28 3 3 14 14 1 2))
        (fun t => (Filter3x3_Input28x28_Stride2.inputLoads (depthwiseShape batch channel 28 28 3 3 14 14 1 2) bx b t).map (fun q => (q.1, input q.2)))
        (fun t => (Filter3x3_Input28x28_Stride2.filterStores (depthwiseShape batch channel 28 28 3 3 14 14 1 2) b t).map (fun q => (q.1, filter q.2))) :=
  ⟨fun t sh => k28s2_padding_stores batch channel filter bx b t sh,
    fun t sh => k28s2_filter_stores batch channel filter bx b t sh,
    fun t sh => k28s2_input_loads batch channel input bx b t sh,
    fun _ _ => rfl⟩

/-- The load phase of `Filter3x3_Input14x14_Stride2` performs exactly the stores its traces list. -/
theorem k14s2_load_trace [Zero α] (batch channel : Nat) (input filter : Nat → α) (bx b : Nat) :
    LoadTrace (Filter3x3_Input14x14_Stride2.fillPhase filter (depthwiseShape batch channel 14 14 3 3 7 7 1 2) bx b)
        (Filter3x3_Input14x14_Stride2.copyPhase input (depthwiseShape batch channel 14 14 3 3 7 7 1 2) bx b)
        (Filter3x3_Input14x14_Stride2.paddingStores (depthwiseShape batch channel 14 14 3 3 7 7 1 2))
        (fun t => (Filter3x3_Input14x14_Stride2.inputLoads (depthwiseShape batch channel 14 14 3 3 7 7 1 2) bx b t).map (fun q => (q.1, input q.2)))
        (fun t => (Filter3x3_Input14x14_Stride2.filterStores (depthwiseShape batch channel 14 14 3 3 7 7 1 2) b t).map (fun q => (q.1, filter q.2))) :=
  ⟨fun t sh => k14s2_padding_stores batch channel filter bx b t sh,
    fun t sh => k14s2_filter_stores batch channel filter bx b t sh,
    fun t sh => k14s2_input_loads batch channel input bx b t sh,
    fun _ _ => rfl⟩

/-- The load phase of `Filter3x3_Input28x28_Stride1` performs exactly the stores its traces list. -/
theorem k28s1_load_trace [Zero α] (batch channel : Nat) (input filter : Nat → α) (bx b : Nat) :
    LoadTrace (Filter3x3_Input28x28_Stride1.fillPhase filter (depthwiseShape batch channel 28 28 3 3 28 28 1 1) bx b)
        (Filter3x3_Input28x28_Stride1.copyPhase input (depthwiseShape batch channel 28 28 3 3 28 28 1 1) bx b)
        (Filter3x3_Input28x28_Stride1.paddingStores (depthwiseShape batch channel 28 28 3 3 28 28 1 1))
        (fun t => (Filter3x3_Input28x28_Stride1.inputLoads (depthwiseShape batch channel 28 28 3 3 28 28 1 1) bx b t).map (fun q => (q.1, input q.2)))
        (fun t => (Filter3x3_Input28x28_Stride1.filterStores (depthwiseShape batch channel 28 28 3 3 28 28 1 1) b t).map (fun q => (q.1, filter q.2))) :=
  ⟨fun t sh => k28s1_padding_stores batch channel filter bx b t sh,
    fun t sh => k28s1_filter_stores batch channel filter bx b t sh,
    fun t sh => k28s1_input_loads batch channel input bx b t sh,
    fun _ _ => rfl⟩

/-- The load phase of `Filter3x3_Input56x56_Stride1` performs exactly the stores its traces list. -/
theorem k56_load_trace [Zero α] (batch channel : Nat) (input filter : Nat → α) (bx b : Nat) :
    LoadTrace (Filter3x3_Input56x56_Stride1.fillPhase filter (depthwiseShape batch channel 56 56 3 3 56 56 1 1) bx b)
        (Filter3x3_Input56x56_Stride1.copyPhase input (depthwiseShape batch channel 56 56 3 3 56 56 1 1) bx b)
        (Filter3x3_Input56x56_Stride1.paddingStores (depthwiseShape batch channel 56 56 3 3 56 56 1 1))
        (fun t => (Filter3x3_Input56x56_Stride1.inputLoads (depthwiseShape batch channel 56 56 3 3 56 56 1 1) bx b t).map (fun q => (q.1, input q.2)))
        (fun t => (Filter3x3_Input56x56_Stride1.filterStores (depthwiseShape batch channel 56 56 3 3 56 56 1 1) b t).map (fun q => (q.1, filter q.2))) :=
  ⟨fun t sh => k56_padding_stores batch channel filter bx b t sh,
    fun t sh => k56_filter_stores batch channel filter bx b t sh,
    fun t sh => k56_input_loads batch channel input bx b t sh,
    fun _ _ => rfl⟩

end LoadTraces

/-! ## The header shape of the two 14 x 14 stride-2 kernels -/

section HeaderShape
variable {α : Type}

/-- The lane of `Filter3x3_Input14x14_Stride2` under the shape its header comment names (output
14 x 14): still 7 stores, 14 apart. -/
theorem k14s2_convolve_closed_hdr [Add α] [Mul α] [Zero α] (batch channel : Nat) (alpha beta : α) (bx b t : Nat)
    (sh : Shared α) (out : Nat → α) :
    Filter3x3_Input14x14_Stride2.convolve (depthwiseShape batch channel 14 14 3 3 14 14 1 2) alpha beta bx b t sh out
    = writeRows (bx * channel * 14 * 14 + b * 32 * 14 * 14 + t / 14 * 14 * 14 + t % 14) 14
        ((List.range 7).map (fun oh => nestSum (taps 3 (fun i => sh.filterData (t / 14 * 3 * 3 + i))
            (fun r kw => sh.inputData (t / 14 * 16 * 14 + t % 14 * 2 + r * 16 + kw)) (tapRows 3 14 1 2 oh)) * alpha + beta)) out := by
  rfl

/-- Under the header's 14 x 14 output shape `Filter3x3_Input14x14_Stride2` never writes the rows
7..13 of an output plane. -/
theorem k14s2_hdr_untouched [Add α] [Mul α] [Zero α] (batch channel : Nat)
    (input filter output : Nat → α) (alpha beta : α) (shared : Nat → Nat → Shared α)
    (i : Nat) (hi : 98 ≤ i % 196) :
    Filter3x3_Input14x14_Stride2 batch (channel / 32) 224 input filter output
      (depthwiseShape batch channel 14 14 3 3 14 14 1 2) alpha beta shared i = output i := by
  rw [k14s2_launch_eq]
  unfold Filter3x3_Input14x14_Stride2.launchIn
  refine launch_rows_frame batch (channel / 32) 224 14 _ (mem_gridGroups _ _) _
    (fun _ _ _ => List.mem_range)
    (fun bx b t out => Filter3x3_Input14x14_Stride2.convolve
      (depthwiseShape batch channel 14 14 3 3 14 14 1 2) alpha beta bx b t
      (Filter3x3_Input14x14_Stride2.stagedIn (List.range 224) (List.range 224) input filter
        (depthwiseShape batch channel 14 14 3 3 14 14 1 2) bx b (shared bx b)) out)
    _ _
    (fun bx _ b _ t _ out => k14s2_convolve_closed_hdr batch channel alpha beta bx b t _ out)
    i ?_ output
  intro bx hbx b hb t ht k hk
  simp only [List.length_map, List.length_range] at hk
  omega

/-- The lane of `Filter5x5_Input14x14_Stride2` under the shape its header comment names (output
14 x 14): still 7 stores, 14 apart. -/
theorem k5x5_convolve_closed_hdr [Add α] [Mul α] [Zero α] (batch channel : Nat) (alpha beta : α) (bx b t : Nat)
    (sh : Shared α) (out : Nat → α) :
    Filter5x5_Input14x14_Stride2.convolve (depthwiseShape batch channel 14 14 5 5 14 14 2 2) alpha beta bx b t sh out
    = writeRows (bx * channel * 14 * 14 + b * 32 * 14 * 14 + t / 14 * 14 * 14 + t % 14) 14
        ((List.range 7).map (fun oh => nestSum (taps 5 (fun i => sh.filterData (t / 14 * 5 * 5 + i))
            (fun r kw => sh.inputData (t / 14 * 18 * 14 + t % 14 * 2 + kw + r * 18)) (tapRows 5 14 2 2 oh)) * alpha + beta)) out := by
  rfl

/-- Under the header's 14 x 14 output shape `Filter5x5_Input14x14_Stride2` never writes the rows
7..13 of an output plane. -/
theorem k5x5_hdr_untouched [Add α] [Mul α] [Zero α] (batch channel : Nat)
    (input filter output : Nat → α) (alpha beta : α) (shared : Nat → Nat → Shared α)
    (i : Nat) (hi : 98 ≤ i % 196) :
    Filter5x5_Input14x14_Stride2 batch (channel / 32) 224 input filter output
      (depthwiseShape batch channel 14 14 5 5 14 14 2 2) alpha beta shared i = output i := by
  rw [k5x5_launch_eq]
  unfold Filter5x5_Input14x14_Stride2.launchIn
  refine launch_rows_frame batch (channel / 32) 224 14 _ (mem_gridGroups _ _) _
    (fun _ _ _ => List.mem_range)
    (fun bx b t out => Filter5x5_Input14x14_Stride2.convolve
      (depthwiseShape batch channel 14 14 5 5 14 14 2 2) alpha beta bx b t
      (Filter5x5_Input14x14_Stride2.stagedIn (List.range 224) (List.range 224) input filter
        (depthwiseShape batch channel 14 14 5 5 14 14 2 2) bx b (shared bx b)) out)
    _ _
    (fun bx _ b _ t _ out => k5x5_convolve_closed_hdr batch channel alpha beta bx b t _ out)
    i ?_ output
  intro bx hbx b hb t ht k hk
  simp only [List.length_map, List.length_range] at hk
  omega

end HeaderShape

/-! ## The row loop of the 28 x 28 stride-1 kernel -/

section k28s1_loop
variable {α : Type}

/-- The lane program of `Filter3x3_Input28x28_Stride1` is the statements after the row loop, run
from the registers the eight iterations leave. -/
theorem k28s1_convolve_split [Add α] [Mul α] (p : Shape) (alpha beta : α) (bx b t : Nat)
    (sh : Shared α) (out : Nat → α) :
    Filter3x3_Input28x28_Stride1.convolve p alpha beta bx b t sh out
      = Filter3x3_Input28x28_Stride1.afterLoop p alpha beta bx b t sh
          (Filter3x3_Input28x28_Stride1.rowLoopEntry p alpha beta bx b t sh out 8) := rfl

theorem k28s1_rowLoop_step [Add α] [Mul α] (p : Shape) (alpha beta : α) (bx b t : Nat)
    (sh : Shared α) (out : Nat → α) (i : Nat) :
    Filter3x3_Input28x28_Stride1.rowLoopEntry p alpha beta bx b t sh out (i + 1)
      = Filter3x3_Input28x28_Stride1.rowLoopBody p alpha beta sh.filterData sh.inputData
          (p.inputWidth + 2 * p.padding)
          ((t / p.outputWidth) * (p.inputWidth + 2 * p.padding) * p.inputHeight + t % p.outputWidth)
          ((t / p.inputWidth) * p.filterHeight * p.filterWidth)
          (Filter3x3_Input28x28_Stride1.rowLoopEntry p alpha beta bx b t sh out i) := by
  simp only [Filter3x3_Input28x28_Stride1.rowLoopEntry, forLoop, List.range_succ, List.foldl_append,
    List.foldl_cons, List.foldl_nil]

theorem iterAdd_eq (n stride base : Nat) :
    (List.range n).foldl (fun a _ => a + stride) base = base + n * stride := by
  induction n with
  | zero => simp
  | succ n ih => rw [List.range_succ, List.foldl_append, ih]; simp only [List.foldl_cons, List.foldl_nil]; ring

theorem k28s1_rowLoop_entry_iter [Add α] [Mul α] [Zero α] (batch channel : Nat) (alpha beta : α)
    (bx b t : Nat) (sh : Shared α) (out : Nat → α) (i : Nat) (hi : i ≤ 8) :
    Filter3x3_Input28x28_Stride1.rowLoopEntry (depthwiseShape batch channel 28 28 3 3 28 28 1 1)
        alpha beta bx b t sh out i
      = { sum0 := nestSum (taps 3 (fun j => sh.filterData (t / 28 * 3 * 3 + j))
            (fun r kw => sh.inputData (t / 28 * 30 * 28 + t % 28 + r * 30 + kw))
            (if i = 0 then [(1, 0)] else [(0, 3 * i - 1), (1, 3 * i)])),
          sum1 := nestSum (taps 3 (fun j => sh.filterData (t / 28 * 3 * 3 + j))
            (fun r kw => sh.inputData (t / 28 * 30 * 28 + t % 28 + r * 30 + kw)) [(0, 3 * i)]),
          inputAccessOffset := 3 * i * 30,
          outputIdx := (List.range (3 * i)).foldl (fun a _ => a + 28)
            (Filter3x3_Input28x28_Stride1.outputIdx
              (depthwiseShape batch channel 28 28 3 3 28 28 1 1) bx b t 0),
          output := writeRows (Filter3x3_Input28x28_Stride1.outputIdx
              (depthwiseShape batch channel 28 28 3 3 28 28 1 1) bx b t 0) 28
            ((List.range (3 * i)).map (fun k =>
              nestSum (taps 3 (fun j => sh.filterData (t / 28 * 3 * 3 + j))
                (fun r kw => sh.inputData (t / 28 * 30 * 28 + t % 28 + r * 30 + kw))
                (tapRows 3 28 1 1 k)) * alpha + beta)) out } := by
  induction i with
  | zero => rfl
  | succ i ih =>
    rw [k28s1_rowLoop_step, ih (by omega)]
    have h7 : i ≤ 7 := by omega
    clear ih hi
    interval_cases i <;> rfl

/-- The registers on entry to iteration `i` of the row loop, in closed form: `sum0` holds the
products of filter rows 0 and 1 with tile rows `3 i - 1` and `3 i` (only filter row 1 with tile
row 0 when `i = 0`), `sum1` the products of filter row 0 with tile row `3 i`, and the output
buffer holds the rows `0 .. 3 i - 1`. -/
theorem k28s1_rowLoop_entry [Add α] [Mul α] [Zero α] (batch channel : Nat) (alpha beta : α)
    (bx b t : Nat) (sh : Shared α) (out : Nat → α) (i : Nat) (hi : i ≤ 8) :
    Filter3x3_Input28x28_Stride1.rowLoopEntry (depthwiseShape batch channel 28 28 3 3 28 28 1 1)
        alpha beta bx b t sh out i
      = { sum0 := nestSum (taps 3 (fun j => sh.filterData (t / 28 * 3 * 3 + j))
            (fun r kw => sh.inputData (t / 28 * 30 * 28 + t % 28 + r * 30 + kw))
            (if i = 0 then [(1, 0)] else [(0, 3 * i - 1), (1, 3 * i)])),
          sum1 := nestSum (taps 3 (fun j => sh.filterData (t / 28 * 3 * 3 + j))
            (fun r kw => sh.inputData (t / 28 * 30 * 28 + t % 28 + r * 30 + kw)) [(0, 3 * i)]),
          inputAccessOffset := 3 * i * 30,
          outputIdx := Filter3x3_Input28x28_Stride1.outputIdx
            (depthwiseShape batch channel 28 28 3 3 28 28 1 1) bx b t (3 * i),
          output := writeRows (Filter3x3_Input28x28_Stride1.outputIdx
              (depthwiseShape batch channel 28 28 3 3 28 28 1 1) bx b t 0) 28
            ((List.range (3 * i)).map (fun k =>
              nestSum (taps 3 (fun j => sh.filterData (t / 28 * 3 * 3 + j))
                (fun r kw => sh.inputData (t / 28 * 30 * 28 + t % 28 + r * 30 + kw))
                (tapRows 3 28 1 1 k)) * alpha + beta)) out } := by
  rw [k28s1_rowLoop_entry_iter batch channel alpha beta bx b t sh out i hi, iterAdd_eq]
  rfl

end k28s1_loop

/-! ## The row loop of the 28 x 28 stride-2 kernel -/

section k28s2_loop
variable {α : Type}

end k28s2_loop

/-! ## Scratch bounds and the pattern of the bulk copy -/

section ScratchBounds
variable {α : Type}

/-- Every tile index the bulk copy of a lane of `Filter3x3_Input14x14_Stride1` stores to lies inside the tile array. -/
theorem k14s1_copy_bound (batch channel bx b t : Nat) (ht : t < 224) (a : Nat)
    (ha : a ∈ (Filter3x3_Input14x14_Stride1.inputLoads (depthwiseShape batch channel 14 14 3 3 14 14 1 1) bx b t).map Prod.fst) : a < 16 * 14 * 16 := by
  rw [k14s1_copy_targets] at ha
  obtain ⟨k, hk, rfl⟩ := List.mem_map.1 ha
  rw [List.mem_range] at hk
  omega

/-- Every tile index the bulk copy of a lane of `Filter3x3_Input14x14_Stride2` stores to lies inside the tile array. -/
theorem k14s2_copy_bound (batch channel bx b t : Nat) (ht : t < 224) (a : Nat)
    (ha : a ∈ (Filter3x3_Input14x14_Stride2.inputLoads (depthwiseShape batch channel 14 14 3 3 7 7 1 2) bx b t).map Prod.fst) : a < 32 * 14 * 16 := by
  rw [k14s2_copy_targets] at ha
  obtain ⟨k, hk, rfl⟩ := List.mem_map.1 ha
  rw [List.mem_range] at hk
  omega

/-- Every tile index the bulk copy of a lane of `Filter5x5_Input14x14_Stride2` stores to lies inside the tile array. -/
theorem k5x5_copy_bound (batch channel bx b t : Nat) (ht : t < 224) (a : Nat)
    (ha : a ∈ (Filter5x5_Input14x14_Stride2.inputLoads (depthwiseShape batch channel 14 14 5 5 7 7 2 2) bx b t).map Prod.fst) : a < 32 * 14 * 18 := by
  rw [k5x5_copy_targets] at ha
  obtain ⟨k, hk, rfl⟩ := List.mem_map.1 ha
  rw [List.mem_range] at hk
  omega

/-- Every tile index the bulk copy of a lane of `Filter3x3_Input28x28_Stride1` stores to lies inside the tile array. -/
theorem k28s1_copy_bound (batch channel bx b t : Nat) (ht : t < 224) (a : Nat)
    (ha : a ∈ (Filter3x3_Input28x28_Stride1.inputLoads (depthwiseShape batch channel 28 28 3 3 28 28 1 1) bx b t).map Prod.fst) : a < 8 * 28 * 30 := by
  rw [k28s1_copy_targets] at ha
  obtain ⟨k, hk, rfl⟩ := List.mem_map.1 ha
  rw [List.mem_range] at hk
  omega

/-- Every tile index the bulk copy of a lane of `Filter3x3_Input28x28_Stride2` stores to lies inside the tile array. -/
theorem k28s2_copy_bound (batch channel bx b t : Nat) (ht : t < 112) (a : Nat)
    (ha : a ∈ (Filter3x3_Input28x28_Stride2.inputLoads (depthwiseShape batch channel 28 28 3 3 14 14 1 2) bx b t).map Prod.fst) : a < 8 * 28 * 30 := by
  rw [k28s2_copy_targets] at ha
  obtain ⟨k, hk, rfl⟩ := List.mem_map.1 ha
  rw [List.mem_range] at hk
  omega

theorem k56_copy_bound (batch channel bx b t : Nat) (ht : t < 224) (a : Nat)
    (ha : a ∈ (Filter3x3_Input56x56_Stride1.inputLoads (depthwiseShape batch channel 56 56 3 3 56 56 1 1) bx b t).map Prod.fst) : a < 58 * 58 := by
  rw [k56_copy_targets] at ha
  obtain ⟨k, hk, rfl⟩ := List.mem_map.1 ha
  rw [List.mem_range] at hk
  omega

theorem k112_padding_bound (batch channel t : Nat) (ht : t < 224) (a : Nat)
    (ha : a ∈ Filter3x3_Input112x112_Stride2.paddingStores (depthwiseShape batch channel 112 112 3 3 56 56 1 2) t) : a < 58 * 114 := by
  rw [k112_mem_paddingStores] at ha
  omega

/-- The bulk copy of an even group of `Filter3x3_Input112x112_Stride2` stores below `59 * 114`. -/
theorem k112_copy_bound_even (batch channel bx b t : Nat) (hb : b % 2 = 0) (ht : t < 224) (a : Nat)
    (ha : a ∈ (Filter3x3_Input112x112_Stride2.inputLoads (depthwiseShape batch channel 112 112 3 3 56 56 1 2) bx b t).map Prod.fst) : a < 59 * 114 := by
  rw [k112_copy_targets_even batch channel bx b t hb] at ha
  obtain ⟨k, hk, rfl⟩ := List.mem_map.1 ha
  rw [List.mem_range] at hk
  omega

/-- The bulk copy of an odd group of `Filter3x3_Input112x112_Stride2` stores below `57 * 114`. -/
theorem k112_copy_bound_odd (batch channel bx b t : Nat) (hb : b % 2 = 1) (ht : t < 224) (a : Nat)
    (ha : a ∈ (Filter3x3_Input112x112_Stride2.inputLoads (depthwiseShape batch channel 112 112 3 3 56 56 1 2) bx b t).map Prod.fst) : a < 57 * 114 := by
  rw [k112_copy_targets_odd batch channel bx b t hb] at ha
  obtain ⟨k, hk, rfl⟩ := List.mem_map.1 ha
  rw [List.mem_range] at hk
  split_ifs at hk <;> omega

theorem k112_copy_bound (batch channel bx b t : Nat) (ht : t < 224) (a : Nat)
    (ha : a ∈ (Filter3x3_Input112x112_Stride2.inputLoads (depthwiseShape batch channel 112 112 3 3 56 56 1 2) bx b t).map Prod.fst) : a < 59 * 114 := by
  rcases Nat.mod_two_eq_zero_or_one b with hb | hb
  · exact k112_copy_bound_even batch channel bx b t hb ht a ha
  · have := k112_copy_bound_odd batch channel bx b t hb ht a ha
    omega

end ScratchBounds

/-! ## The size of a launch and the 32-bit indices of the source -/

section Fits32

theorem int32_of_nat_lt (n : Nat) (h : n < 2147483648) : int32 (n : Int) = n := by
  unfold int32
  omega

theorem int32_of_bounds (x : Int) (h0 : 0 ≤ x) (h1 : x < 2147483648) : int32 x = x := by
  unfold int32
  omega

theorem int32_lt (x : Int) : int32 x < 2147483648 := by
  unfold int32
  omega

theorem int32_ne_of_le (x : Int) (n : Nat) (h : 2147483648 ≤ n) : int32 x ≠ (n : Int) := by
  have := int32_lt x
  omega

/-- Below `2^31` input elements no global index of `Filter3x3_Input14x14_Stride1` wraps. -/
theorem k14s1_fits32 (batch channel : Nat) (hch : channel % 16 = 0)
    (hsz : batch * channel * 14 * 14 < 2 ^ 31) :
    IndexFits32 batch (channel / 16) 224 14
      (fun bx b t => (Filter3x3_Input14x14_Stride1.inputLoads (depthwiseShape batch channel 14 14 3 3 14 14 1 1) bx b t).map (fun q => (q.2 : Int)))
      (Filter3x3_Input14x14_Stride1.outputIdx (depthwiseShape batch channel 14 14 3 3 14 14 1 1)) := by
  intro bx hbx b hb t ht
  constructor
  · intro i hi
    obtain ⟨q, hq, rfl⟩ := List.mem_map.1 hi
    have h := k14s1_loads_bound batch channel bx b t hch hbx hb ht q hq
    exact int32_of_nat_lt _ (by omega)
  · intro k hk
    have h := (k14s1_storeBijection batch channel hch).1 bx hbx b hb t ht k hk
    exact int32_of_nat_lt _ (by omega)

/-- Below `2^31` input elements no global index of `Filter3x3_Input112x112_Stride2` wraps. -/
theorem k112_fits32 (batch channel : Nat)
    (hsz : batch * channel * 112 * 112 < 2 ^ 31) :
    IndexFits32 batch (2 * channel) 224 7
      (fun bx b t => (Filter3x3_Input112x112_Stride2.inputLoads (depthwiseShape batch channel 112 112 3 3 56 56 1 2) bx b t).map Prod.snd)
      (Filter3x3_Input112x112_Stride2.outputIdx (depthwiseShape batch channel 112 112 3 3 56 56 1 2)) := by
  intro bx hbx b hb t ht
  constructor
  · intro i hi
    obtain ⟨q, hq, rfl⟩ := List.mem_map.1 hi
    have h := k112_input_loads_bound batch channel bx b t hbx hb ht q hq
    have hc : b / 2 < channel := by omega
    have hle := nchw_plane_le batch channel 112 112 bx (b / 2) hbx hc
    exact int32_of_bounds _ (by omega) (by omega)
  · intro k hk
    have h := (k112_storeBijection batch channel).1 bx hbx b hb t ht k hk
    exact int32_of_nat_lt _ (by omega)

/-- Below `2^31` input elements no global index of `Filter5x5_Input14x14_Stride2` wraps. -/
theorem k5x5_fits32 (batch channel : Nat) (hch : channel % 32 = 0)
    (hsz : batch * channel * 14 * 14 < 2 ^ 31) :
    IndexFits32 batch (channel / 32) 224 7
      (fun bx b t => (Filter5x5_Input14x14_Stride2.inputLoads (depthwiseShape batch channel 14 14 5 5 7 7 2 2) bx b t).map (fun q => (q.2 : Int)))
      (Filter5x5_Input14x14_Stride2.outputIdx (depthwiseShape batch channel 14 14 5 5 7 7 2 2)) := by
  intro bx hbx b hb t ht
  constructor
  · intro i hi
    obtain ⟨q, hq, rfl⟩ := List.mem_map.1 hi
    have h := k5x5_loads_bound batch channel bx b t hch hbx hb ht q hq
    exact int32_of_nat_lt _ (by omega)
  · intro k hk
    have h := (k5x5_storeBijection batch channel hch).1 bx hbx b hb t ht k hk
    exact int32_of_nat_lt _ (by omega)

/-- Below `2^31` input elements no global index of `Filter3x3_Input28x28_Stride2` wraps. -/
theorem k28s2_fits32 (batch channel : Nat) (hch : channel % 8 = 0)
    (hsz : batch * channel * 28 * 28 < 2 ^ 31) :
    IndexFits32 batch (channel / 8) 112 14
      (fun bx b t => (Filter3x3_Input28x28_Stride2.inputLoads (depthwiseShape batch channel 28 28 3 3 14 14 1 2) bx b t).map (fun q => (q.2 : Int)))
      (Filter3x3_Input28x28_Stride2.outputIdx (depthwiseShape batch channel 28 28 3 3 14 14 1 2)) := by
  intro bx hbx b hb t ht
  constructor
  · intro i hi
    obtain ⟨q, hq, rfl⟩ := List.mem_map.1 hi
    have h := k28s2_loads_bound batch channel bx b t hch hbx hb ht q hq
    exact int32_of_nat_lt _ (by omega)
  · intro k hk
    have h := (k28s2_storeBijection batch channel hch).1 bx hbx b hb t ht k hk
    exact int32_of_nat_lt _ (by omega)

/-- Below `2^31` input elements no global index of `Filter3x3_Input14x14_Stride2` wraps. -/
theorem k14s2_fits32 (batch channel : Nat) (hch : channel % 32 = 0)
    (hsz : batch * channel * 14 * 14 < 2 ^ 31) :
    IndexFits32 batch (channel / 32) 224 7
      (fun bx b t => (Filter3x3_Input14x14_Stride2.inputLoads (depthwiseShape batch channel 14 14 3 3 7 7 1 2) bx b t).map (fun q => (q.2 : Int)))
      (Filter3x3_Input14x14_Stride2.outputIdx (depthwiseShape batch channel 14 14 3 3 7 7 1 2)) := by
  intro bx hbx b hb t ht
  constructor
  · intro i hi
    obtain ⟨q, hq, rfl⟩ := List.mem_map.1 hi
    have h := k14s2_loads_bound batch channel bx b t hch hbx hb ht q hq
    exact int32_of_nat_lt _ (by omega)
  · intro k hk
    have h := (k14s2_storeBijection batch channel hch).1 bx hbx b hb t ht k hk
    exact int32_of_nat_lt _ (by omega)

/-- Below `2^31` input elements no global index of `Filter3x3_Input28x28_Stride1` wraps. -/
theorem k28s1_fits32 (batch channel : Nat) (hch : channel % 8 = 0)
    (hsz : batch * channel * 28 * 28 < 2 ^ 31) :
    IndexFits32 batch (channel / 8) 224 28
      (fun bx b t => (Filter3x3_Input28x28_Stride1.inputLoads (depthwiseShape batch channel 28 28 3 3 28 28 1 1) bx b t).map (fun q => (q.2 : Int)))
      (Filter3x3_Input28x28_Stride1.outputIdx (depthwiseShape batch channel 28 28 3 3 28 28 1 1)) := by
  intro bx hbx b hb t ht
  constructor
  · intro i hi
    obtain ⟨q, hq, rfl⟩ := List.mem_map.1 hi
    have h := k28s1_loads_bound batch channel bx b t hch hbx hb ht q hq
    exact int32_of_nat_lt _ (by omega)
  · intro k hk
    have h := (k28s1_storeBijection batch channel hch).1 bx hbx b hb t ht k hk
    exact int32_of_nat_lt _ (by omega)

/-- Below `2^31` input elements no global index of `Filter3x3_Input56x56_Stride1` wraps. -/
theorem k56_fits32 (batch channel : Nat)
    (hsz : batch * channel * 56 * 56 < 2 ^ 31) :
    IndexFits32 batch (channel) 224 14
      (fun bx b t => (Filter3x3_Input56x56_Stride1.inputLoads (depthwiseShape batch channel 56 56 3 3 56 56 1 1) bx b t).map (fun q => (q.2 : Int)))
      (Filter3x3_Input56x56_Stride1.outputIdx (depthwiseShape batch channel 56 56 3 3 56 56 1 1)) := by
  intro bx hbx b hb t ht
  constructor
  · intro i hi
    obtain ⟨q, hq, rfl⟩ := List.mem_map.1 hi
    have h := k56_loads_bound batch channel bx b t hbx hb ht q hq
    exact int32_of_nat_lt _ (by omega)
  · intro k hk
    have h := (k56_storeBijection batch channel).1 bx hbx b hb t ht k hk
    exact int32_of_nat_lt _ (by omega)

end Fits32

section k28s1_sums
variable {α : Type}

/-- In exact arithmetic the two accumulators of the row loop of `Filter3x3_Input28x28_Stride1`
are sums of 3-tap row products on entry to iteration `i`. -/
theorem k28s1_rowLoop_sums [CommRing α] (batch channel : Nat) (alpha beta : α)
    (bx b t : Nat) (sh : Shared α) (out : Nat → α) (i : Nat) (hi : i < 8) :
    (Filter3x3_Input28x28_Stride1.rowLoopEntry (depthwiseShape batch channel 28 28 3 3 28 28 1 1)
        alpha beta bx b t sh out i).sum0
      = (if i = 0 then 0 else rowDot (fun j => sh.filterData (t / 28 * 3 * 3 + j))
          (fun r kw => sh.inputData (t / 28 * 30 * 28 + t % 28 + r * 30 + kw)) 0 (3 * i - 1))
        + rowDot (fun j => sh.filterData (t / 28 * 3 * 3 + j))
          (fun r kw => sh.inputData (t / 28 * 30 * 28 + t % 28 + r * 30 + kw)) 1 (3 * i) ∧
    (Filter3x3_Input28x28_Stride1.rowLoopEntry (depthwiseShape batch channel 28 28 3 3 28 28 1 1)
        alpha beta bx b t sh out i).sum1
      = rowDot (fun j => sh.filterData (t / 28 * 3 * 3 + j))
          (fun r kw => sh.inputData (t / 28 * 30 * 28 + t % 28 + r * 30 + kw)) 0 (3 * i) := by
  have h0 := k28s1_rowLoop_entry batch channel alpha beta bx b t sh out i (by omega)
  constructor
  · have e : (Filter3x3_Input28x28_Stride1.rowLoopEntry (depthwiseShape batch channel 28 28 3 3 28 28 1 1)
        alpha beta bx b t sh out i).sum0
        = nestSum (taps 3 (fun j => sh.filterData (t / 28 * 3 * 3 + j))
            (fun r kw => sh.inputData (t / 28 * 30 * 28 + t % 28 + r * 30 + kw))
            (if i = 0 then [(1, 0)] else [(0, 3 * i - 1), (1, 3 * i)])) := by
      rw [h0]
    rw [e]
    by_cases hz : i = 0
    · subst hz
      rw [if_pos rfl, if_pos rfl, zero_add]
      exact nestSum_taps_one (fun j => sh.filterData (t / 28 * 3 * 3 + j))
        (fun r kw => sh.inputData (t / 28 * 30 * 28 + t % 28 + r * 30 + kw)) 1 0
    · rw [if_neg hz, if_neg hz]
      exact nestSum_taps_two (fun j => sh.filterData (t / 28 * 3 * 3 + j))
        (fun r kw => sh.inputData (t / 28 * 30 * 28 + t % 28 + r * 30 + kw)) 0 (3 * i - 1) 1 (3 * i)
  · have e : (Filter3x3_Input28x28_Stride1.rowLoopEntry (depthwiseShape batch channel 28 28 3 3 28 28 1 1)
        alpha beta bx b t sh out i).sum1
        = nestSum (taps 3 (fun j => sh.filterData (t / 28 * 3 * 3 + j))
            (fun r kw => sh.inputData (t / 28 * 30 * 28 + t % 28 + r * 30 + kw)) [(0, 3 * i)]) := by
      rw [h0]
    rw [e]
    exact nestSum_taps_one (fun j => sh.filterData (t / 28 * 3 * 3 + j))
      (fun r kw => sh.inputData (t / 28 * 30 * 28 + t % 28 + r * 30 + kw)) 0 (3 * i)

end k28s1_sums

/-! ## Consequences of the reference equation -/

section ClaimHelpers
variable {α : Type}

end ClaimHelpers

/-! ## Claims C1 - C7: each kernel computes the reference convolution -/

section Claims
variable {α : Type}

/-- Counterexample to claim C1 as stated (the equation would hold for every `n < batch`, with no
bound on the size of the launch): with batch 684786 and 16 channels the flat index of output
element `[684785, 0, 0, 0]` is 2147485760, which is `2^31` or more.  Store 0 of lane 0 of group
`(684785, 0)` is the store for this element.  The index `outputIdx` of the lane is `2^31` or more
from its first store on; the source computes it in 32-bit arithmetic and holds it in an `int`,
whose value is then -2147481536, a position before the buffer, and no 32-bit index of any lane
equals 2147485760: the element is never written and keeps the content it had before the launch. -/
theorem Filter3x3_Input14x14_Stride1_store_index_wraps :
    (16 % 16 = 0 ∧ 684785 < 684786 ∧ 0 < 16 ∧ 0 < 14 ∧ 0 < 14) ∧
    ¬ (684786 * 16 * 14 * 14 < 2 ^ 31) ∧
    2 ^ 31 ≤ Filter3x3_Input14x14_Stride1.outputIdx (depthwiseShape 684786 16 14 14 3 3 14 14 1 1) 684785 0 0 0 ∧
    Filter3x3_Input14x14_Stride1.outputIdx (depthwiseShape 684786 16 14 14 3 3 14 14 1 1) 684785 0 0 0
      = nchw 16 14 14 684785 0 0 0 ∧
    nchw 16 14 14 684785 0 0 0 = 2147485760 ∧
    int32 (Filter3x3_Input14x14_Stride1.outputIdx (depthwiseShape 684786 16 14 14 3 3 14 14 1 1) 684785 0 0 0) = -2147481536 ∧
    (∀ bx b t k, int32 (Filter3x3_Input14x14_Stride1.outputIdx (depthwiseShape 684786 16 14 14 3 3 14 14 1 1) bx b t k)
      ≠ nchw 16 14 14 684785 0 0 0) :=
  ⟨by decide, by decide, by decide, by decide, by decide, by decide,
    fun bx b t k => int32_ne_of_le _ _ (by decide)⟩

/-- Claim C1, amended: `Filter3x3_Input14x14_Stride1` with 224 lanes per group on a grid of
(batch, channel / 16) groups, channel a multiple of 16, shape 14x14 -> 14x14, filter 3x3,
padding 1, stride 1: for a launch of fewer than `2^31` input elements
(`batch * channel * 14 * 14 < 2 ^ 31`) every global index a lane computes is the value of the
32-bit `int` the source holds it in (`IndexFits32`: no index wraps), and, over a commutative
ring (exact arithmetic), for every input, filter, alpha, beta, initial output buffer and initial
scratch contents, and every n < batch, c < channel, oh < 14, ow < 14, the output element
[n, c, oh, ow] is alpha * (sum over kh, kw < 3 of
filter[c,kh,kw] * paddedInput[n,c,oh+kh-1,ow+kw-1]) + beta. -/
theorem Filter3x3_Input14x14_Stride1_eq_reference [CommRing α] (batch channel : Nat)
    (input filter output : Nat → α) (alpha beta : α) (shared : Nat → Nat → Shared α)
    (n c oh ow : Nat) (hch : channel % 16 = 0) (hn : n < batch) (hc : c < channel)
    (hoh : oh < 14) (how : ow < 14) (hsz : batch * channel * 14 * 14 < 2 ^ 31) :
    IndexFits32 batch (channel / 16) 224 14
      (fun bx b t => (Filter3x3_Input14x14_Stride1.inputLoads (depthwiseShape batch channel 14 14 3 3 14 14 1 1) bx b t).map (fun q => (q.2 : Int)))
      (Filter3x3_Input14x14_Stride1.outputIdx (depthwiseShape batch channel 14 14 3 3 14 14 1 1)) ∧
    Filter3x3_Input14x14_Stride1 batch (channel / 16) 224 input filter output
        (depthwiseShape batch channel 14 14 3 3 14 14 1 1) alpha beta shared
        (nchw channel 14 14 n c oh ow)
      = depthwiseRef input filter channel 14 14 3 3 1 1 alpha beta n c oh ow :=
  ⟨k14s1_fits32 batch channel hch hsz,
    k14s1_correct batch channel input filter output alpha beta shared n c oh ow hch hn hc hoh how⟩

theorem Filter3x3_Input14x14_Stride1_eq_reference_witness :
    (16 % 16 = 0 ∧ 0 < 1 ∧ 3 < 16 ∧ 0 < 14 ∧ 13 < 14 ∧ 1 * 16 * 14 * 14 < 2 ^ 31) ∧
    Filter3x3_Input14x14_Stride1 1 (16 / 16) 224 (fun i => (i : Int)) (fun i => (i : Int) + 1) (fun _ => 0)
        (depthwiseShape 1 16 14 14 3 3 14 14 1 1) 2 5 (fun _ _ => ⟨fun _ => 7, fun _ => 7⟩)
        (nchw 16 14 14 0 3 0 13)
      = depthwiseRef (fun i => (i : Int)) (fun i => (i : Int) + 1) 16 14 14 3 3 1 1 2 5 0 3 0 13 :=
  ⟨by decide, (Filter3x3_Input14x14_Stride1_eq_reference 1 16 _ _ _ 2 5 _ 0 3 0 13 (by decide) (by decide) (by decide) (by decide) (by decide) (by decide)).2⟩

/-- Counterexample to claim C2 as stated (the equation would hold for every `n < batch`, with no
bound on the size of the launch): with batch 171198 and 1 channel the output indices still fit
a 32-bit `int`, but the flat index of input element `[171197, 0, 0, 0]` is 2147495168, which is `2^31`
or more.  Lane 0 of group `(171197, 0)` stages this element into tile position 115 with its
first load, at the index `inputLoadSrcIdx`; the source computes that index in 32-bit arithmetic
and holds it in an `int`, whose value is then -2147472128, so the lane reads before the input
buffer and the outputs computed from this tile position are not the reference values. -/
theorem Filter3x3_Input112x112_Stride2_read_index_wraps :
    (171197 < 171198 ∧ 0 < 1 ∧ 0 < 112 ∧ 0 < 112) ∧
    ¬ (171198 * 1 * 112 * 112 < 2 ^ 31) ∧
    171198 * 1 * 56 * 56 < 2 ^ 31 ∧
    (Filter3x3_Input112x112_Stride2.inputLoads (depthwiseShape 171198 1 112 112 3 3 56 56 1 2) 171197 0 0).head? = some ((115, 2147495168) : Nat × Int) ∧
    (2147495168 : Int) = (nchw 1 112 112 171197 0 0 0 : Nat) ∧
    int32 2147495168 = -2147472128 ∧ int32 2147495168 < 0 :=
  ⟨by decide, by decide, by decide, by decide, by decide, by decide, by decide⟩

/-- Claim C2, amended: `Filter3x3_Input112x112_Stride2` with 224 lanes per group on a grid of
(batch, 2 * channel) groups, shape 112x112 -> 56x56, filter 3x3, padding 1, stride 2:
for a launch of fewer than `2^31` input elements
(`batch * channel * 112 * 112 < 2 ^ 31`) every global index a lane computes is the value of the
32-bit `int` the source holds it in (`IndexFits32`: no index wraps), and, over a commutative
ring (exact arithmetic), for every n < batch, c < channel, oh < 56, ow < 56 (so also for rows
27 and 28 on either side of the split between the two cooperating groups), the output element
[n, c, oh, ow] is alpha * (sum over kh, kw < 3 of filter[c,kh,kw] *
paddedInput[n,c,2*oh+kh-1,2*ow+kw-1]) + beta. -/
theorem Filter3x3_Input112x112_Stride2_eq_reference [CommRing α] (batch channel : Nat)
    (input filter output : Nat → α) (alpha beta : α) (shared : Nat → Nat → Shared α)
    (n c oh ow : Nat) (hn : n < batch) (hc : c < channel)
    (hoh : oh < 56) (how : ow < 56) (hsz : batch * channel * 112 * 112 < 2 ^ 31) :
    IndexFits32 batch (2 * channel) 224 7
      (fun bx b t => (Filter3x3_Input112x112_Stride2.inputLoads (depthwiseShape batch channel 112 112 3 3 56 56 1 2) bx b t).map Prod.snd)
      (Filter3x3_Input112x112_Stride2.outputIdx (depthwiseShape batch channel 112 112 3 3 56 56 1 2)) ∧
    Filter3x3_Input112x112_Stride2 batch (2 * channel) 224 input filter output
        (depthwiseShape batch channel 112 112 3 3 56 56 1 2) alpha beta shared
        (nchw channel 56 56 n c oh ow)
      = depthwiseRef input filter channel 112 112 3 3 1 2 alpha beta n c oh ow :=
  ⟨k112_fits32 batch channel hsz,
    k112_correct batch channel input filter output alpha beta shared n c oh ow hn hc hoh how⟩

theorem Filter3x3_Input112x112_Stride2_eq_reference_witness :
    (1 < 2 ∧ 2 < 3 ∧ 28 < 56 ∧ 55 < 56 ∧ 2 * 3 * 112 * 112 < 2 ^ 31) ∧
    Filter3x3_Input112x112_Stride2 2 (2 * 3) 224 (fun i => (i : Int)) (fun i => (i : Int) + 1) (fun _ => 0)
        (depthwiseShape 2 3 112 112 3 3 56 56 1 2) 2 5 (fun _ _ => ⟨fun _ => 7, fun _ => 7⟩)
        (nchw 3 56 56 1 2 28 55)
      = depthwiseRef (fun i => (i : Int)) (fun i => (i : Int) + 1) 3 112 112 3 3 1 2 2 5 1 2 28 55 :=
  ⟨by decide, (Filter3x3_Input112x112_Stride2_eq_reference 2 3 _ _ _ 2 5 _ 1 2 28 55 (by decide) (by decide) (by decide) (by decide) (by decide)).2⟩

/-- Counterexample to claim C3 as stated (the equation would hold for every `n < batch`, with no
bound on the size of the launch): with batch 342394 and 32 channels the output indices still fit
a 32-bit `int`, but the flat index of input element `[342393, 0, 0, 0]` is 2147488896, which is `2^31`
or more.  Lane 0 of group `(342393, 0)` stages this element into tile position 2 with its
first load, at the index `inputLoadSrcIdx`; the source computes that index in 32-bit arithmetic
and holds it in an `int`, whose value is then -2147478400, so the lane reads before the input
buffer and the outputs computed from this tile position are not the reference values. -/
theorem Filter5x5_Input14x14_Stride2_read_index_wraps :
    (32 % 32 = 0 ∧ 342393 < 342394 ∧ 0 < 32 ∧ 0 < 14 ∧ 0 < 14) ∧
    ¬ (342394 * 32 * 14 * 14 < 2 ^ 31) ∧
    342394 * 32 * 7 * 7 < 2 ^ 31 ∧
    (Filter5x5_Input14x14_Stride2.inputLoads (depthwiseShape 342394 32 14 14 5 5 7 7 2 2) 342393 0 0).head? = some ((2, 2147488896) : Nat × Nat) ∧
    2147488896 = nchw 32 14 14 342393 0 0 0 ∧
    int32 2147488896 = -2147478400 ∧ int32 2147488896 < 0 :=
  ⟨by decide, by decide, by decide, by decide, by decide, by decide, by decide⟩

/-- Claim C3, amended: `Filter5x5_Input14x14_Stride2` with 224 lanes per group on a grid of
(batch, channel / 32) groups, channel a multiple of 32, shape 14x14 -> 7x7, filter 5x5,
padding 2, stride 2: for a launch of fewer than `2^31` input elements
(`batch * channel * 14 * 14 < 2 ^ 31`) every global index a lane computes is the value of the
32-bit `int` the source holds it in (`IndexFits32`: no index wraps), and, over a commutative
ring (exact arithmetic), for every n < batch, c < channel, oh < 7,
ow < 7, the output element [n, c, oh, ow] is alpha * (sum over kh, kw < 5 of
filter[c,kh,kw] * paddedInput[n,c,2*oh+kh-2,2*ow+kw-2]) + beta. -/
theorem Filter5x5_Input14x14_Stride2_eq_reference [CommRing α] (batch channel : Nat)
    (input filter output : Nat → α) (alpha beta : α) (shared : Nat → Nat → Shared α)
    (n c oh ow : Nat) (hch : channel % 32 = 0) (hn : n < batch) (hc : c < channel)
    (hoh : oh < 7) (how : ow < 7) (hsz : batch * channel * 14 * 14 < 2 ^ 31) :
    IndexFits32 batch (channel / 32) 224 7
      (fun bx b t => (Filter5x5_Input14x14_Stride2.inputLoads (depthwiseShape batch channel 14 14 5 5 7 7 2 2) bx b t).map (fun q => (q.2 : Int)))
      (Filter5x5_Input14x14_Stride2.outputIdx (depthwiseShape batch channel 14 14 5 5 7 7 2 2)) ∧
    Filter5x5_Input14x14_Stride2 batch (channel / 32) 224 input filter output
        (depthwiseShape batch channel 14 14 5 5 7 7 2 2) alpha beta shared
        (nchw channel 7 7 n c oh ow)
      = depthwiseRef input filter channel 14 14 5 5 2 2 alpha beta n c oh ow :=
  ⟨k5x5_fits32 batch channel hch hsz,
    k5x5_correct batch channel input filter output alpha beta shared n c oh ow hch hn hc hoh how⟩

theorem Filter5x5_Input14x14_Stride2_eq_reference_witness :
    (32 % 32 = 0 ∧ 0 < 1 ∧ 31 < 32 ∧ 6 < 7 ∧ 0 < 7 ∧ 1 * 32 * 14 * 14 < 2 ^ 31) ∧
    Filter5x5_Input14x14_Stride2 1 (32 / 32) 224 (fun i => (i : Int)) (fun i => (i : Int) + 1) (fun _ => 0)
        (depthwiseShape 1 32 14 14 5 5 7 7 2 2) 2 5 (fun _ _ => ⟨fun _ => 7, fun _ => 7⟩)
        (nchw 32 7 7 0 31 6 0)
      = depthwiseRef (fun i => (i : Int)) (fun i => (i : Int) + 1) 32 14 14 5 5 2 2 2 5 0 31 6 0 :=
  ⟨by decide, (Filter5x5_Input14x14_Stride2_eq_reference 1 32 _ _ _ 2 5 _ 0 31 6 0 (by decide) (by decide) (by decide) (by decide) (by decide) (by decide)).2⟩

/-- Counterexample to claim C4 as stated (the equation would hold for every `n < batch`, with no
bound on the size of the launch): with batch 342394 and 8 channels the output indices still fit
a 32-bit `int`, but the flat index of input element `[342393, 0, 0, 0]` is 2147488896, which is `2^31`
or more.  Lane 0 of group `(342393, 0)` stages this element into tile position 1 with its
first load, at the index `inputLoadSrcIdx`; the source computes that index in 32-bit arithmetic
and holds it in an `int`, whose value is then -2147478400, so the lane reads before the input
buffer and the outputs computed from this tile position are not the reference values. -/
theorem Filter3x3_Input28x28_Stride2_read_index_wraps :
    (8 % 8 = 0 ∧ 342393 < 342394 ∧ 0 < 8 ∧ 0 < 28 ∧ 0 < 28) ∧
    ¬ (342394 * 8 * 28 * 28 < 2 ^ 31) ∧
    342394 * 8 * 14 * 14 < 2 ^ 31 ∧
    (Filter3x3_Input28x28_Stride2.inputLoads (depthwiseShape 342394 8 28 28 3 3 14 14 1 2) 342393 0 0).head? = some ((1, 2147488896) : Nat × Nat) ∧
    2147488896 = nchw 8 28 28 342393 0 0 0 ∧
    int32 2147488896 = -2147478400 ∧ int32 2147488896 < 0 :=
  ⟨by decide, by decide, by decide, by decide, by decide, by decide, by decide⟩

/-- Claim C4, amended: `Filter3x3_Input28x28_Stride2` with 112 lanes per group on a grid of
(batch, channel / 8) groups, channel a multiple of 8, shape 28x28 -> 14x14, filter 3x3,
padding 1, stride 2: for a launch of fewer than `2^31` input elements
(`batch * channel * 28 * 28 < 2 ^ 31`) every global index a lane computes is the value of the
32-bit `int` the source holds it in (`IndexFits32`: no index wraps), and, over a commutative
ring (exact arithmetic), for every n < batch, c < channel, oh < 14,
ow < 14, the output element [n, c, oh, ow] is alpha * (sum over kh, kw < 3 of
filter[c,kh,kw] * paddedInput[n,c,2*oh+kh-1,2*ow+kw-1]) + beta. -/
theorem Filter3x3_Input28x28_Stride2_eq_reference [CommRing α] (batch channel : Nat)
    (input filter output : Nat → α) (alpha beta : α) (shared : Nat → Nat → Shared α)
    (n c oh ow : Nat) (hch : channel % 8 = 0) (hn : n < batch) (hc : c < channel)
    (hoh : oh < 14) (how : ow < 14) (hsz : batch * channel * 28 * 28 < 2 ^ 31) :
    IndexFits32 batch (channel / 8) 112 14
      (fun bx b t => (Filter3x3_Input28x28_Stride2.inputLoads (depthwiseShape batch channel 28 28 3 3 14 14 1 2) bx b t).map (fun q => (q.2 : Int)))
      (Filter3x3_Input28x28_Stride2.outputIdx (depthwiseShape batch channel 28 28 3 3 14 14 1 2)) ∧
    Filter3x3_Input28x28_Stride2 batch (channel / 8) 112 input filter output
        (depthwiseShape batch channel 28 28 3 3 14 14 1 2) alpha beta shared
        (nchw channel 14 14 n c oh ow)
      = depthwiseRef input filter channel 28 28 3 3 1 2 alpha beta n c oh ow :=
  ⟨k28s2_fits32 batch channel hch hsz,
    k28s2_correct batch channel input filter output alpha beta shared n c oh ow hch hn hc hoh how⟩

theorem Filter3x3_Input28x28_Stride2_eq_reference_witness :
    (8 % 8 = 0 ∧ 0 < 1 ∧ 7 < 8 ∧ 13 < 14 ∧ 13 < 14 ∧ 1 * 8 * 28 * 28 < 2 ^ 31) ∧
    Filter3x3_Input28x28_Stride2 1 (8 / 8) 112 (fun i => (i : Int)) (fun i => (i : Int) + 1) (fun _ => 0)
        (depthwiseShape 1 8 28 28 3 3 14 14 1 2) 2 5 (fun _ _ => ⟨fun _ => 7, fun _ => 7⟩)
        (nchw 8 14 14 0 7 13 13)
      = depthwiseRef (fun i => (i : Int)) (fun i => (i : Int) + 1) 8 28 28 3 3 1 2 2 5 0 7 13 13 :=
  ⟨by decide, (Filter3x3_Input28x28_Stride2_eq_reference 1 8 _ _ _ 2 5 _ 0 7 13 13 (by decide) (by decide) (by decide) (by decide) (by decide) (by decide)).2⟩

/-- Counterexample to claim C5 as stated (the equation would hold for every `n < batch`, with no
bound on the size of the launch): with batch 342394 and 32 channels the output indices still fit
a 32-bit `int`, but the flat index of input element `[342393, 0, 0, 0]` is 2147488896, which is `2^31`
or more.  Lane 0 of group `(342393, 0)` stages this element into tile position 1 with its
first load, at the index `inputLoadSrcIdx`; the source computes that index in 32-bit arithmetic
and holds it in an `int`, whose value is then -2147478400, so the lane reads before the input
buffer and the outputs computed from this tile position are not the reference values. -/
theorem Filter3x3_Input14x14_Stride2_read_index_wraps :
    (32 % 32 = 0 ∧ 342393 < 342394 ∧ 0 < 32 ∧ 0 < 14 ∧ 0 < 14) ∧
    ¬ (342394 * 32 * 14 * 14 < 2 ^ 31) ∧
    342394 * 32 * 7 * 7 < 2 ^ 31 ∧
    (Filter3x3_Input14x14_Stride2.inputLoads (depthwiseShape 342394 32 14 14 3 3 7 7 1 2) 342393 0 0).head? = some ((1, 2147488896) : Nat × Nat) ∧
    2147488896 = nchw 32 14 14 342393 0 0 0 ∧
    int32 2147488896 = -2147478400 ∧ int32 2147488896 < 0 :=
  ⟨by decide, by decide, by decide, by decide, by decide, by decide, by decide⟩

/-- Claim C5, amended: `Filter3x3_Input14x14_Stride2` with 224 lanes per group on a grid of
(batch, channel / 32) groups, channel a multiple of 32, shape 14x14 -> 7x7, filter 3x3,
padding 1, stride 2: for a launch of fewer than `2^31` input elements
(`batch * channel * 14 * 14 < 2 ^ 31`) every global index a lane computes is the value of the
32-bit `int` the source holds it in (`IndexFits32`: no index wraps), and, over a commutative
ring (exact arithmetic), for every n < batch, c < channel, oh < 7,
ow < 7, the output element [n, c, oh, ow] is alpha * (sum over kh, kw < 3 of
filter[c,kh,kw] * paddedInput[n,c,2*oh+kh-1,2*ow+kw-1]) + beta. -/
theorem Filter3x3_Input14x14_Stride2_eq_reference [CommRing α] (batch channel : Nat)
    (input filter output : Nat → α) (alpha beta : α) (shared : Nat → Nat → Shared α)
    (n c oh ow : Nat) (hch : channel % 32 = 0) (hn : n < batch) (hc : c < channel)
    (hoh : oh < 7) (how : ow < 7) (hsz : batch * channel * 14 * 14 < 2 ^ 31) :
    IndexFits32 batch (channel / 32) 224 7
      (fun bx b t => (Filter3x3_Input14x14_Stride2.inputLoads (depthwiseShape batch channel 14 14 3 3 7 7 1 2) bx b t).map (fun q => (q.2 : Int)))
      (Filter3x3_Input14x14_Stride2.outputIdx (depthwiseShape batch channel 14 14 3 3 7 7 1 2)) ∧
    Filter3x3_Input14x14_Stride2 batch (channel / 32) 224 input filter output
        (depthwiseShape batch channel 14 14 3 3 7 7 1 2) alpha beta shared
        (nchw channel 7 7 n c oh ow)
      = depthwiseRef input filter channel 14 14 3 3 1 2 alpha beta n c oh ow :=
  ⟨k14s2_fits32 batch channel hch hsz,
    k14s2_correct batch channel input filter output alpha beta shared n c oh ow hch hn hc hoh how⟩

theorem Filter3x3_Input14x14_Stride2_eq_reference_witness :
    (32 % 32 = 0 ∧ 0 < 1 ∧ 17 < 32 ∧ 6 < 7 ∧ 6 < 7 ∧ 1 * 32 * 14 * 14 < 2 ^ 31) ∧
    Filter3x3_Input14x14_Stride2 1 (32 / 32) 224 (fun i => (i : Int)) (fun i => (i : Int) + 1) (fun _ => 0)
        (depthwiseShape 1 32 14 14 3 3 7 7 1 2) 2 5 (fun _ _ => ⟨fun _ => 7, fun _ => 7⟩)
        (nchw 32 7 7 0 17 6 6)
      = depthwiseRef (fun i => (i : Int)) (fun i => (i : Int) + 1) 32 14 14 3 3 1 2 2 5 0 17 6 6 :=
  ⟨by decide, (Filter3x3_Input14x14_Stride2_eq_reference 1 32 _ _ _ 2 5 _ 0 17 6 6 (by decide) (by decide) (by decide) (by decide) (by decide) (by decide)).2⟩

/-- Counterexample to claim C6 as stated (the equation would hold for every `n < batch`, with no
bound on the size of the launch): with batch 342393 and 8 channels the flat index of output
element `[342392, 7, 0, 27]` is 2147488139, which is `2^31` or more.  Store 0 of lane 223 of group
`(342392, 0)` is the store for this element.  The index `outputIdx` of the lane is `2^31` or more
from its first store on; the source computes it in 32-bit arithmetic and holds it in an `int`,
whose value is then -2147479157, a position before the buffer, and no 32-bit index of any lane
equals 2147488139: the element is never written and keeps the content it had before the launch. -/
theorem Filter3x3_Input28x28_Stride1_store_index_wraps :
    (8 % 8 = 0 ∧ 342392 < 342393 ∧ 7 < 8 ∧ 0 < 28 ∧ 27 < 28) ∧
    ¬ (342393 * 8 * 28 * 28 < 2 ^ 31) ∧
    2 ^ 31 ≤ Filter3x3_Input28x28_Stride1.outputIdx (depthwiseShape 342393 8 28 28 3 3 28 28 1 1) 342392 0 223 0 ∧
    Filter3x3_Input28x28_Stride1.outputIdx (depthwiseShape 342393 8 28 28 3 3 28 28 1 1) 342392 0 223 0
      = nchw 8 28 28 342392 7 0 27 ∧
    nchw 8 28 28 342392 7 0 27 = 2147488139 ∧
    int32 (Filter3x3_Input28x28_Stride1.outputIdx (depthwiseShape 342393 8 28 28 3 3 28 28 1 1) 342392 0 223 0) = -2147479157 ∧
    (∀ bx b t k, int32 (Filter3x3_Input28x28_Stride1.outputIdx (depthwiseShape 342393 8 28 28 3 3 28 28 1 1) bx b t k)
      ≠ nchw 8 28 28 342392 7 0 27) :=
  ⟨by decide, by decide, by decide, by decide, by decide, by decide,
    fun bx b t k => int32_ne_of_le _ _ (by decide)⟩

/-- Claim C6, amended: `Filter3x3_Input28x28_Stride1` with 224 lanes per group on a grid of
(batch, channel / 8) groups, channel a multiple of 8, shape 28x28 -> 28x28, filter 3x3,
padding 1, stride 1: for a launch of fewer than `2^31` input elements
(`batch * channel * 28 * 28 < 2 ^ 31`) every global index a lane computes is the value of the
32-bit `int` the source holds it in (`IndexFits32`: no index wraps), and, over a commutative
ring (exact arithmetic), for every n < batch, c < channel, oh < 28,
ow < 28, the output element [n, c, oh, ow] is alpha * (sum over kh, kw < 3 of
filter[c,kh,kw] * paddedInput[n,c,oh+kh-1,ow+kw-1]) + beta. -/
theorem Filter3x3_Input28x28_Stride1_eq_reference [CommRing α] (batch channel : Nat)
    (input filter output : Nat → α) (alpha beta : α) (shared : Nat → Nat → Shared α)
    (n c oh ow : Nat) (hch : channel % 8 = 0) (hn : n < batch) (hc : c < channel)
    (hoh : oh < 28) (how : ow < 28) (hsz : batch * channel * 28 * 28 < 2 ^ 31) :
    IndexFits32 batch (channel / 8) 224 28
      (fun bx b t => (Filter3x3_Input28x28_Stride1.inputLoads (depthwiseShape batch channel 28 28 3 3 28 28 1 1) bx b t).map (fun q => (q.2 : Int)))
      (Filter3x3_Input28x28_Stride1.outputIdx (depthwiseShape batch channel 28 28 3 3 28 28 1 1)) ∧
    Filter3x3_Input28x28_Stride1 batch (channel / 8) 224 input filter output
        (depthwiseShape batch channel 28 28 3 3 28 28 1 1) alpha beta shared
        (nchw channel 28 28 n c oh ow)
      = depthwiseRef input filter channel 28 28 3 3 1 1 alpha beta n c oh ow :=
  ⟨k28s1_fits32 batch channel hch hsz,
    k28s1_correct batch channel input filter output alpha beta shared n c oh ow hch hn hc hoh how⟩

theorem Filter3x3_Input28x28_Stride1_eq_reference_witness :
    (16 % 8 = 0 ∧ 1 < 2 ∧ 9 < 16 ∧ 27 < 28 ∧ 0 < 28 ∧ 2 * 16 * 28 * 28 < 2 ^ 31) ∧
    Filter3x3_Input28x28_Stride1 2 (16 / 8) 224 (fun i => (i : Int)) (fun i => (i : Int) + 1) (fun _ => 0)
        (depthwiseShape 2 16 28 28 3 3 28 28 1 1) 2 5 (fun _ _ => ⟨fun _ => 7, fun _ => 7⟩)
        (nchw 16 28 28 1 9 27 0)
      = depthwiseRef (fun i => (i : Int)) (fun i => (i : Int) + 1) 16 28 28 3 3 1 1 2 5 1 9 27 0 :=
  ⟨by decide, (Filter3x3_Input28x28_Stride1_eq_reference 2 16 _ _ _ 2 5 _ 1 9 27 0 (by decide) (by decide) (by decide) (by decide) (by decide) (by decide)).2⟩

/-- Counterexample to claim C7 as stated (the equation would hold for every `n < batch`, with no
bound on the size of the launch): with batch 684786 and 1 channel the flat index of output
element `[684785, 0, 0, 0]` is 2147485760, which is `2^31` or more.  Store 0 of lane 0 of group
`(684785, 0)` is the store for this element.  The index `outputIdx` of the lane is `2^31` or more
from its first store on; the source computes it in 32-bit arithmetic and holds it in an `int`,
whose value is then -2147481536, a position before the buffer, and no 32-bit index of any lane
equals 2147485760: the element is never written and keeps the content it had before the launch. -/
theorem Filter3x3_Input56x56_Stride1_store_index_wraps :
    (684785 < 684786 ∧ 0 < 1 ∧ 0 < 56 ∧ 0 < 56) ∧
    ¬ (684786 * 1 * 56 * 56 < 2 ^ 31) ∧
    2 ^ 31 ≤ Filter3x3_Input56x56_Stride1.outputIdx (depthwiseShape 684786 1 56 56 3 3 56 56 1 1) 684785 0 0 0 ∧
    Filter3x3_Input56x56_Stride1.outputIdx (depthwiseShape 684786 1 56 56 3 3 56 56 1 1) 684785 0 0 0
      = nchw 1 56 56 684785 0 0 0 ∧
    nchw 1 56 56 684785 0 0 0 = 2147485760 ∧
    int32 (Filter3x3_Input56x56_Stride1.outputIdx (depthwiseShape 684786 1 56 56 3 3 56 56 1 1) 684785 0 0 0) = -2147481536 ∧
    (∀ bx b t k, int32 (Filter3x3_Input56x56_Stride1.outputIdx (depthwiseShape 684786 1 56 56 3 3 56 56 1 1) bx b t k)
      ≠ nchw 1 56 56 684785 0 0 0) :=
  ⟨by decide, by decide, by decide, by decide, by decide, by decide,
    fun bx b t k => int32_ne_of_le _ _ (by decide)⟩

/-- Claim C7, amended: `Filter3x3_Input56x56_Stride1` with 224 lanes per group on a grid of
(batch, channel) groups, shape 56x56 -> 56x56, filter 3x3, padding 1, stride 1:
for a launch of fewer than `2^31` input elements
(`batch * channel * 56 * 56 < 2 ^ 31`) every global index a lane computes is the value of the
32-bit `int` the source holds it in (`IndexFits32`: no index wraps), and, over a commutative
ring (exact arithmetic), for every n < batch, c < channel, oh < 56, ow < 56 (so also at the rows
13/14, 27/28 and 41/42 where one lane group's 14 rows end and the next begin), the output
element [n, c, oh, ow] is alpha * (sum over kh, kw < 3 of filter[c,kh,kw] *
paddedInput[n,c,oh+kh-1,ow+kw-1]) + beta. -/
theorem Filter3x3_Input56x56_Stride1_eq_reference [CommRing α] (batch channel : Nat)
    (input filter output : Nat → α) (alpha beta : α) (shared : Nat → Nat → Shared α)
    (n c oh ow : Nat) (hn : n < batch) (hc : c < channel)
    (hoh : oh < 56) (how : ow < 56) (hsz : batch * channel * 56 * 56 < 2 ^ 31) :
    IndexFits32 batch (channel) 224 14
      (fun bx b t => (Filter3x3_Input56x56_Stride1.inputLoads (depthwiseShape batch channel 56 56 3 3 56 56 1 1) bx b t).map (fun q => (q.2 : Int)))
      (Filter3x3_Input56x56_Stride1.outputIdx (depthwiseShape batch channel 56 56 3 3 56 56 1 1)) ∧
    Filter3x3_Input56x56_Stride1 batch (channel) 224 input filter output
        (depthwiseShape batch channel 56 56 3 3 56 56 1 1) alpha beta shared
        (nchw channel 56 56 n c oh ow)
      = depthwiseRef input filter channel 56 56 3 3 1 1 alpha beta n c oh ow :=
  ⟨k56_fits32 batch channel hsz,
    k56_correct batch channel input filter output alpha beta shared n c oh ow hn hc hoh how⟩

theorem Filter3x3_Input56x56_Stride1_eq_reference_witness :
    (0 < 1 ∧ 1 < 2 ∧ 14 < 56 ∧ 55 < 56 ∧ 1 * 2 * 56 * 56 < 2 ^ 31) ∧
    Filter3x3_Input56x56_Stride1 1 (2) 224 (fun i => (i : Int)) (fun i => (i : Int) + 1) (fun _ => 0)
        (depthwiseShape 1 2 56 56 3 3 56 56 1 1) 2 5 (fun _ _ => ⟨fun _ => 7, fun _ => 7⟩)
        (nchw 2 56 56 0 1 14 55)
      = depthwiseRef (fun i => (i : Int)) (fun i => (i : Int) + 1) 2 56 56 3 3 1 1 2 5 0 1 14 55 :=
  ⟨by decide, (Filter3x3_Input56x56_Stride1_eq_reference 1 2 _ _ _ 2 5 _ 0 1 14 55 (by decide) (by decide) (by decide) (by decide) (by decide)).2⟩

/-! ## Claim C8: the all-ones scenario -/

end Claims

section Claims2
variable {α : Type}

/-! ## Claim C11: taps on the padding read zero -/

/-- Counterexample to claim C12 as stated (the written index would lie in
`[0, batch * channel * 56 * 56)` for every launch): with batch 684786 and 1 channel the flat
index of output element `[684785, 0, 55, 55]` is 2147488895, which is `2^31` or more.  Store 6 of
lane 223 of group `(684785, 1)` is the store for it; the source computes its index in a 32-bit
`int`, which then holds -2147478401: the written index is negative, so outside the range, and no
32-bit index of any lane equals 2147488895, so the map is not onto the range. -/
theorem Filter3x3_Input112x112_Stride2_store_index_wraps :
    (684785 < 684786 ∧ 0 < 1 ∧ 55 < 56 ∧ 55 < 56) ∧
    ¬ (684786 * 1 * 112 * 112 < 2 ^ 31) ∧
    2 ^ 31 ≤ Filter3x3_Input112x112_Stride2.outputIdx (depthwiseShape 684786 1 112 112 3 3 56 56 1 2) 684785 1 223 0 ∧
    Filter3x3_Input112x112_Stride2.outputIdx (depthwiseShape 684786 1 112 112 3 3 56 56 1 2) 684785 1 223 6
      = nchw 1 56 56 684785 0 55 55 ∧
    nchw 1 56 56 684785 0 55 55 = 2147488895 ∧
    int32 (Filter3x3_Input112x112_Stride2.outputIdx (depthwiseShape 684786 1 112 112 3 3 56 56 1 2) 684785 1 223 6) = -2147478401 ∧
    (∀ bx b t k, int32 (Filter3x3_Input112x112_Stride2.outputIdx (depthwiseShape 684786 1 112 112 3 3 56 56 1 2) bx b t k)
      ≠ nchw 1 56 56 684785 0 55 55) :=
  ⟨by decide, by decide, by decide, by decide, by decide, by decide,
    fun bx b t k => int32_ne_of_le _ _ (by decide)⟩

/-- Claim C12, amended: in `Filter3x3_Input112x112_Stride2` on a grid of (batch, 2 * channel) groups of 224
lanes, for a launch of fewer than `2^31` input elements (`batch * channel * 112 * 112 < 2 ^ 31`),
every global index a lane computes is the value of the 32-bit `int` the source holds it in
(`IndexFits32`), and every lane performs exactly 7 output stores, at the indices `outputIdx ... k`, k = 0..6;
the map from (blockIdx.x, blockIdx.y, lane, k) to the stored index is a bijection onto the
indices below `batch * channel * 56 * 56`; and the groups `2 * c` and `2 * c + 1` write channel
`c`: lane `t` of the even group stores element `[n, c, t / 56 * 7 + k, t % 56]` (rows 0..27),
lane `t` of the odd group element `[n, c, 28 + t / 56 * 7 + k, t % 56]` (rows 28..55). -/
theorem Filter3x3_Input112x112_Stride2_store_bijection [Add α] [Mul α] [Zero α]
    (batch channel : Nat) (hsz : batch * channel * 112 * 112 < 2 ^ 31) :
    IndexFits32 batch (2 * channel) 224 7
      (fun bx b t => (Filter3x3_Input112x112_Stride2.inputLoads (depthwiseShape batch channel 112 112 3 3 56 56 1 2) bx b t).map Prod.snd)
      (Filter3x3_Input112x112_Stride2.outputIdx (depthwiseShape batch channel 112 112 3 3 56 56 1 2)) ∧
    (∀ (alpha beta : α) (bx b t : Nat) (sh : Shared α),
      StoresAt (Filter3x3_Input112x112_Stride2.convolve (depthwiseShape batch channel 112 112 3 3 56 56 1 2) alpha beta bx b t sh) 7
        (Filter3x3_Input112x112_Stride2.outputIdx (depthwiseShape batch channel 112 112 3 3 56 56 1 2) bx b t)) ∧
    StoreBijection batch (2 * channel) 224 7 (batch * channel * 56 * 56)
      (Filter3x3_Input112x112_Stride2.outputIdx (depthwiseShape batch channel 112 112 3 3 56 56 1 2)) ∧
    (∀ n c t k, t < 224 → k < 7 →
      (Filter3x3_Input112x112_Stride2.outputIdx (depthwiseShape batch channel 112 112 3 3 56 56 1 2) n (2 * c) t k
          = ((n * channel + c) * 56 + (t / 56 * 7 + k)) * 56 + t % 56 ∧ t / 56 * 7 + k < 28) ∧
      (Filter3x3_Input112x112_Stride2.outputIdx (depthwiseShape batch channel 112 112 3 3 56 56 1 2) n (2 * c + 1) t k
          = ((n * channel + c) * 56 + (28 + t / 56 * 7 + k)) * 56 + t % 56 ∧
        28 + t / 56 * 7 + k < 56)) := by
  refine ⟨k112_fits32 batch channel hsz,
    fun alpha beta bx b t sh => k112_convolve_stores batch channel alpha beta bx b t sh,
    k112_storeBijection batch channel, ?_⟩
  intro n c t k ht hk
  rw [k112_outputIdx_eq, k112_outputIdx_eq]
  unfold nchw
  have h1 : 2 * c / 2 = c := by omega
  have h2 : 2 * c % 2 = 0 := by omega
  have h3 : (2 * c + 1) / 2 = c := by omega
  have h4 : (2 * c + 1) % 2 = 1 := by omega
  rw [h1, h2, h3, h4]
  refine ⟨⟨?_, ?_⟩, ?_, ?_⟩ <;> omega

theorem Filter3x3_Input112x112_Stride2_store_bijection_witness :
    (2 * 3 * 112 * 112 < 2 ^ 31 ∧ 223 < 224 ∧ 6 < 7) ∧
    Filter3x3_Input112x112_Stride2.outputIdx (depthwiseShape 2 3 112 112 3 3 56 56 1 2) 1 (2 * 2 + 1) 223 6
      = ((1 * 3 + 2) * 56 + (28 + 223 / 56 * 7 + 6)) * 56 + 223 % 56 :=
  ⟨by decide, ((((Filter3x3_Input112x112_Stride2_store_bijection 2 3 (by decide) :
    _ ∧ (∀ (alpha beta : Int) (bx b t : Nat) (sh : Shared Int), _) ∧ _).2.2.2) 1 2 223 6
      (by decide) (by decide)).2).1⟩

/-! ## Claim C13: output stores of the six other kernels -/

/-- Counterexample to claim C13 as stated (the written index would be the NCHW index, inside
`[0, batch * channel * outH * outW)`, for every launch): for `Filter3x3_Input14x14_Stride2`
with batch 1369570 and 32 channels the flat index of output element `[1369569, 0, 0, 0]` is
2147484192, which is `2^31` or more.  Store 0 of lane 0 of group `(1369569, 0)` is the store for
it; the source computes its index in 32-bit arithmetic and holds it in an `int`, whose value
is then -2147483104: the written index is not the NCHW index, it is outside the range, and
no 32-bit index of any lane equals 2147484192, so the map is not onto the range. -/
theorem Filter3x3_Input14x14_Stride2_store_index_wraps :
    (32 % 32 = 0 ∧ 1369569 < 1369570 ∧ 0 < 32 ∧ 0 < 7 ∧ 0 < 7) ∧
    ¬ (1369570 * 32 * 14 * 14 < 2 ^ 31) ∧
    2 ^ 31 ≤ Filter3x3_Input14x14_Stride2.outputIdx (depthwiseShape 1369570 32 14 14 3 3 7 7 1 2) 1369569 0 0 0 ∧
    Filter3x3_Input14x14_Stride2.outputIdx (depthwiseShape 1369570 32 14 14 3 3 7 7 1 2) 1369569 0 0 0
      = nchw 32 7 7 1369569 0 0 0 ∧
    nchw 32 7 7 1369569 0 0 0 = 2147484192 ∧
    int32 (Filter3x3_Input14x14_Stride2.outputIdx (depthwiseShape 1369570 32 14 14 3 3 7 7 1 2) 1369569 0 0 0) = -2147483104 ∧
    (∀ bx b t k, int32 (Filter3x3_Input14x14_Stride2.outputIdx (depthwiseShape 1369570 32 14 14 3 3 7 7 1 2) bx b t k)
      ≠ nchw 32 7 7 1369569 0 0 0) :=
  ⟨by decide, by decide, by decide, by decide, by decide, by decide,
    fun bx b t k => int32_ne_of_le _ _ (by decide)⟩

/-- Claim C13, amended: for each of the six variants that do not split a plane between groups,
under its grid, lane-count and channel-multiple preconditions and for launches of fewer than `2^31` input elements
(`batch * channel * inH * inW < 2 ^ 31` for each variant: hypotheses `hs16`, `hs32`, `hs8`, `hs56`),
every global index a lane computes is the value of the 32-bit `int` the source holds it in
(`IndexFits32`), and every lane performs exactly its
compiled-in number of output stores, at the indices `outputIdx ... k`; the map from (group, lane,
k) to the stored index is a bijection onto the indices below `batch * channel * outH * outW`;
and the index stored to for element `[n, c, oh, ow]` (lane `t` of group `(n, b)` stores, at its
`k`-th store, the element named on the right) is `((n * channel + c) * outH + oh) * outW + ow`. -/
theorem output_index_bijection [Add α] [Mul α] [Zero α] (batch c16 c32 c8 c1 : Nat)
    (h16 : c16 % 16 = 0) (h32 : c32 % 32 = 0) (h8 : c8 % 8 = 0)
    (hs16 : batch * c16 * 14 * 14 < 2 ^ 31) (hs32 : batch * c32 * 14 * 14 < 2 ^ 31)
    (hs8 : batch * c8 * 28 * 28 < 2 ^ 31) (hs56 : batch * c1 * 56 * 56 < 2 ^ 31) :
    ((IndexFits32 batch (c16 / 16) 224 14
      (fun bx b t => (Filter3x3_Input14x14_Stride1.inputLoads (depthwiseShape batch c16 14 14 3 3 14 14 1 1) bx b t).map (fun q => (q.2 : Int)))
      (Filter3x3_Input14x14_Stride1.outputIdx (depthwiseShape batch c16 14 14 3 3 14 14 1 1))) ∧
     (IndexFits32 batch (c32 / 32) 224 7
      (fun bx b t => (Filter5x5_Input14x14_Stride2.inputLoads (depthwiseShape batch c32 14 14 5 5 7 7 2 2) bx b t).map (fun q => (q.2 : Int)))
      (Filter5x5_Input14x14_Stride2.outputIdx (depthwiseShape batch c32 14 14 5 5 7 7 2 2))) ∧
     (IndexFits32 batch (c8 / 8) 112 14
      (fun bx b t => (Filter3x3_Input28x28_Stride2.inputLoads (depthwiseShape batch c8 28 28 3 3 14 14 1 2) bx b t).map (fun q => (q.2 : Int)))
      (Filter3x3_Input28x28_Stride2.outputIdx (depthwiseShape batch c8 28 28 3 3 14 14 1 2))) ∧
     (IndexFits32 batch (c32 / 32) 224 7
      (fun bx b t => (Filter3x3_Input14x14_Stride2.inputLoads (depthwiseShape batch c32 14 14 3 3 7 7 1 2) bx b t).map (fun q => (q.2 : Int)))
      (Filter3x3_Input14x14_Stride2.outputIdx (depthwiseShape batch c32 14 14 3 3 7 7 1 2))) ∧
     (IndexFits32 batch (c8 / 8) 224 28
      (fun bx b t => (Filter3x3_Input28x28_Stride1.inputLoads (depthwiseShape batch c8 28 28 3 3 28 28 1 1) bx b t).map (fun q => (q.2 : Int)))
      (Filter3x3_Input28x28_Stride1.outputIdx (depthwiseShape batch c8 28 28 3 3 28 28 1 1))) ∧
     (IndexFits32 batch (c1) 224 14
      (fun bx b t => (Filter3x3_Input56x56_Stride1.inputLoads (depthwiseShape batch c1 56 56 3 3 56 56 1 1) bx b t).map (fun q => (q.2 : Int)))
      (Filter3x3_Input56x56_Stride1.outputIdx (depthwiseShape batch c1 56 56 3 3 56 56 1 1)))) ∧
    ((∀ (alpha beta : α) (bx b t : Nat) (sh : Shared α),
        StoresAt (Filter3x3_Input14x14_Stride1.convolve (depthwiseShape batch c16 14 14 3 3 14 14 1 1) alpha beta bx b t sh) 14
          (Filter3x3_Input14x14_Stride1.outputIdx (depthwiseShape batch c16 14 14 3 3 14 14 1 1) bx b t)) ∧
      StoreBijection batch (c16 / 16) 224 14 (batch * c16 * 14 * 14)
        (Filter3x3_Input14x14_Stride1.outputIdx (depthwiseShape batch c16 14 14 3 3 14 14 1 1)) ∧
      (∀ n b t k, Filter3x3_Input14x14_Stride1.outputIdx (depthwiseShape batch c16 14 14 3 3 14 14 1 1) n b t k
        = ((n * c16 + (b * 16 + t / 14)) * 14 + (k)) * 14 + t % 14)) ∧
    ((∀ (alpha beta : α) (bx b t : Nat) (sh : Shared α),
        StoresAt (Filter5x5_Input14x14_Stride2.convolve (depthwiseShape batch c32 14 14 5 5 7 7 2 2) alpha beta bx b t sh) 7
          (Filter5x5_Input14x14_Stride2.outputIdx (depthwiseShape batch c32 14 14 5 5 7 7 2 2) bx b t)) ∧
      StoreBijection batch (c32 / 32) 224 7 (batch * c32 * 7 * 7)
        (Filter5x5_Input14x14_Stride2.outputIdx (depthwiseShape batch c32 14 14 5 5 7 7 2 2)) ∧
      (∀ n b t k, Filter5x5_Input14x14_Stride2.outputIdx (depthwiseShape batch c32 14 14 5 5 7 7 2 2) n b t k
        = ((n * c32 + (b * 32 + t / 7)) * 7 + (k)) * 7 + t % 7)) ∧
    ((∀ (alpha beta : α) (bx b t : Nat) (sh : Shared α),
        StoresAt (Filter3x3_Input28x28_Stride2.convolve (depthwiseShape batch c8 28 28 3 3 14 14 1 2) alpha beta bx b t sh) 14
          (Filter3x3_Input28x28_Stride2.outputIdx (depthwiseShape batch c8 28 28 3 3 14 14 1 2) bx b t)) ∧
      StoreBijection batch (c8 / 8) 112 14 (batch * c8 * 14 * 14)
        (Filter3x3_Input28x28_Stride2.outputIdx (depthwiseShape batch c8 28 28 3 3 14 14 1 2)) ∧
      (∀ n b t k, Filter3x3_Input28x28_Stride2.outputIdx (depthwiseShape batch c8 28 28 3 3 14 14 1 2) n b t k
        = ((n * c8 + (b * 8 + t / 14)) * 14 + (k)) * 14 + t % 14)) ∧
    ((∀ (alpha beta : α) (bx b t : Nat) (sh : Shared α),
        StoresAt (Filter3x3_Input14x14_Stride2.convolve (depthwiseShape batch c32 14 14 3 3 7 7 1 2) alpha beta bx b t sh) 7
          (Filter3x3_Input14x14_Stride2.outputIdx (depthwiseShape batch c32 14 14 3 3 7 7 1 2) bx b t)) ∧
      StoreBijection batch (c32 / 32) 224 7 (batch * c32 * 7 * 7)
        (Filter3x3_Input14x14_Stride2.outputIdx (depthwiseShape batch c32 14 14 3 3 7 7 1 2)) ∧
      (∀ n b t k, Filter3x3_Input14x14_Stride2.outputIdx (depthwiseShape batch c32 14 14 3 3 7 7 1 2) n b t k
        = ((n * c32 + (b * 32 + t / 7)) * 7 + (k)) * 7 + t % 7)) ∧
    ((∀ (alpha beta : α) (bx b t : Nat) (sh : Shared α),
        StoresAt (Filter3x3_Input28x28_Stride1.convolve (depthwiseShape batch c8 28 28 3 3 28 28 1 1) alpha beta bx b t sh) 28
          (Filter3x3_Input28x28_Stride1.outputIdx (depthwiseShape batch c8 28 28 3 3 28 28 1 1) bx b t)) ∧
      StoreBijection batch (c8 / 8) 224 28 (batch * c8 * 28 * 28)
        (Filter3x3_Input28x28_Stride1.outputIdx (depthwiseShape batch c8 28 28 3 3 28 28 1 1)) ∧
      (∀ n b t k, Filter3x3_Input28x28_Stride1.outputIdx (depthwiseShape batch c8 28 28 3 3 28 28 1 1) n b t k
        = ((n * c8 + (b * 8 + t / 28)) * 28 + (k)) * 28 + t % 28)) ∧
    ((∀ (alpha beta : α) (bx b t : Nat) (sh : Shared α),
        StoresAt (Filter3x3_Input56x56_Stride1.convolve (depthwiseShape batch c1 56 56 3 3 56 56 1 1) alpha beta bx b t sh) 14
          (Filter3x3_Input56x56_Stride1.outputIdx (depthwiseShape batch c1 56 56 3 3 56 56 1 1) bx b t)) ∧
      StoreBijection batch (c1) 224 14 (batch * c1 * 56 * 56)
        (Filter3x3_Input56x56_Stride1.outputIdx (depthwiseShape batch c1 56 56 3 3 56 56 1 1)) ∧
      (∀ n b t k, Filter3x3_Input56x56_Stride1.outputIdx (depthwiseShape batch c1 56 56 3 3 56 56 1 1) n b t k
        = ((n * c1 + (b)) * 56 + (t / 56 * 14 + k)) * 56 + t % 56)) := by
  refine ⟨⟨k14s1_fits32 batch c16 h16 hs16, k5x5_fits32 batch c32 h32 hs32, k28s2_fits32 batch c8 h8 hs8, k14s2_fits32 batch c32 h32 hs32, k28s1_fits32 batch c8 h8 hs8, k56_fits32 batch c1 hs56⟩, ?_, ?_, ?_, ?_, ?_, ?_⟩
  · exact ⟨fun alpha beta bx b t sh => k14s1_convolve_stores batch c16 alpha beta bx b t sh,
      k14s1_storeBijection batch c16 h16, fun n b t k => k14s1_outputIdx_eq batch c16 n b t k⟩
  · exact ⟨fun alpha beta bx b t sh => k5x5_convolve_stores batch c32 alpha beta bx b t sh,
      k5x5_storeBijection batch c32 h32, fun n b t k => k5x5_outputIdx_eq batch c32 n b t k⟩
  · exact ⟨fun alpha beta bx b t sh => k28s2_convolve_stores batch c8 alpha beta bx b t sh,
      k28s2_storeBijection batch c8 h8, fun n b t k => k28s2_outputIdx_eq batch c8 n b t k⟩
  · exact ⟨fun alpha beta bx b t sh => k14s2_convolve_stores batch c32 alpha beta bx b t sh,
      k14s2_storeBijection batch c32 h32, fun n b t k => k14s2_outputIdx_eq batch c32 n b t k⟩
  · exact ⟨fun alpha beta bx b t sh => k28s1_convolve_stores batch c8 alpha beta bx b t sh,
      k28s1_storeBijection batch c8 h8, fun n b t k => k28s1_outputIdx_eq batch c8 n b t k⟩
  · exact ⟨fun alpha beta bx b t sh => k56_convolve_stores batch c1 alpha beta bx b t sh,
      k56_storeBijection batch c1, fun n b t k => k56_outputIdx_eq batch c1 n b t k⟩

theorem output_index_bijection_witness :
    (32 % 16 = 0 ∧ 64 % 32 = 0 ∧ 16 % 8 = 0 ∧ 2 * 32 * 14 * 14 < 2 ^ 31 ∧ 2 * 64 * 14 * 14 < 2 ^ 31 ∧ 2 * 16 * 28 * 28 < 2 ^ 31 ∧ 2 * 2 * 56 * 56 < 2 ^ 31) ∧
    Filter3x3_Input14x14_Stride1.outputIdx (depthwiseShape 2 32 14 14 3 3 14 14 1 1) 1 1 223 13
      = ((1 * 32 + (1 * 16 + 223 / 14)) * 14 + (13)) * 14 + 223 % 14 ∧
    Filter5x5_Input14x14_Stride2.outputIdx (depthwiseShape 2 64 14 14 5 5 7 7 2 2) 1 1 223 6
      = ((1 * 64 + (1 * 32 + 223 / 7)) * 7 + (6)) * 7 + 223 % 7 ∧
    Filter3x3_Input28x28_Stride2.outputIdx (depthwiseShape 2 16 28 28 3 3 14 14 1 2) 1 1 111 13
      = ((1 * 16 + (1 * 8 + 111 / 14)) * 14 + (13)) * 14 + 111 % 14 ∧
    Filter3x3_Input14x14_Stride2.outputIdx (depthwiseShape 2 64 14 14 3 3 7 7 1 2) 1 1 223 6
      = ((1 * 64 + (1 * 32 + 223 / 7)) * 7 + (6)) * 7 + 223 % 7 ∧
    Filter3x3_Input28x28_Stride1.outputIdx (depthwiseShape 2 16 28 28 3 3 28 28 1 1) 1 1 223 27
      = ((1 * 16 + (1 * 8 + 223 / 28)) * 28 + (27)) * 28 + 223 % 28 ∧
    Filter3x3_Input56x56_Stride1.outputIdx (depthwiseShape 2 2 56 56 3 3 56 56 1 1) 1 1 223 13
      = ((1 * 2 + (1)) * 56 + (223 / 56 * 14 + 13)) * 56 + 223 % 56 :=
  ⟨by decide,
    (((output_index_bijection 2 32 64 16 2 (by decide) (by decide) (by decide) (by decide) (by decide) (by decide) (by decide) :
      _ ∧ ((∀ (alpha beta : Int) (bx b t : Nat) (sh : Shared Int), _) ∧ _) ∧ _).2.1).2.2) 1 1 223 13,
    (((output_index_bijection 2 32 64 16 2 (by decide) (by decide) (by decide) (by decide) (by decide) (by decide) (by decide) :
      _ ∧ ((∀ (alpha beta : Int) (bx b t : Nat) (sh : Shared Int), _) ∧ _) ∧ _).2.2.1).2.2) 1 1 223 6,
    (((output_index_bijection 2 32 64 16 2 (by decide) (by decide) (by decide) (by decide) (by decide) (by decide) (by decide) :
      _ ∧ ((∀ (alpha beta : Int) (bx b t : Nat) (sh : Shared Int), _) ∧ _) ∧ _).2.2.2.1).2.2) 1 1 111 13,
    (((output_index_bijection 2 32 64 16 2 (by decide) (by decide) (by decide) (by decide) (by decide) (by decide) (by decide) :
      _ ∧ ((∀ (alpha beta : Int) (bx b t : Nat) (sh : Shared Int), _) ∧ _) ∧ _).2.2.2.2.1).2.2) 1 1 223 6,
    (((output_index_bijection 2 32 64 16 2 (by decide) (by decide) (by decide) (by decide) (by decide) (by decide) (by decide) :
      _ ∧ ((∀ (alpha beta : Int) (bx b t : Nat) (sh : Shared Int), _) ∧ _) ∧ _).2.2.2.2.2.1).2.2) 1 1 223 27,
    (((output_index_bijection 2 32 64 16 2 (by decide) (by decide) (by decide) (by decide) (by decide) (by decide) (by decide) :
      _ ∧ ((∀ (alpha beta : Int) (bx b t : Nat) (sh : Shared Int), _) ∧ _) ∧ _).2.2.2.2.2.2).2.2) 1 1 223 13⟩

/-! ## Claim C14: the output does not depend on the buffer's previous contents -/

/-- Counterexample to claim C15 as stated (the outputs on plane `[n, c]` would be determined by
plane `[n, c]` of the input for every launch): for `Filter3x3_Input14x14_Stride1` with batch
684786 and 16 channels the flat index of input element `[684785, 1, 1, 13]` is 2147485983, which
is `2^31` or more.  Lane 223 of group `(684785, 0)` stages this element into tile position
254 with its first load; the source computes the read index in 32-bit arithmetic and holds
it in an `int`, whose value is then -2147481313: the lane reads before the input buffer, so
what output plane `[684785, 1]` is computed from is not plane `[684785, 1]` of the input, and
two runs that agree on that plane need not agree on the output plane. -/
theorem Filter3x3_Input14x14_Stride1_read_index_wraps :
    (16 % 16 = 0 ∧ 684785 < 684786 ∧ 1 < 16 ∧ 1 < 14 ∧ 13 < 14) ∧
    ¬ (684786 * 16 * 14 * 14 < 2 ^ 31) ∧
    (Filter3x3_Input14x14_Stride1.inputLoads (depthwiseShape 684786 16 14 14 3 3 14 14 1 1) 684785 0 223).head? = some ((254, 2147485983) : Nat × Nat) ∧
    2147485983 = nchw 16 14 14 684785 1 1 13 ∧
    int32 2147485983 = -2147481313 ∧ int32 2147485983 < 0 :=
  ⟨by decide, by decide, by decide, by decide, by decide, by decide⟩

/-- Claim C15, amended: for each of the five channel-grouped variants (group sizes 16, 32, 32,
8, 8) and for launches of fewer than `2^31` input elements
(`batch * channel * inH * inW < 2 ^ 31` for each variant: hypotheses `hs16`, `hs32`, `hs8`),
every global index a lane computes is the value of the 32-bit `int` the source holds it in
(`IndexFits32`), and with no property of `+`
and `*` assumed: if two runs use inputs that agree on plane `[n, c]`
and filters that agree on the taps of channel `c`, with the same alpha and beta, then their
outputs agree on plane `[n, c]`, whatever the other planes, the other channels of the group,
the other filters, the initial output buffers and the initial scratch contents are. -/
theorem channel_isolation [Add α] [Mul α] [Zero α] (batch c16 c32 c8 : Nat)
    (input input' filter filter' output output' : Nat → α) (alpha beta : α)
    (shared shared' : Nat → Nat → Shared α)
    (h16 : c16 % 16 = 0) (h32 : c32 % 32 = 0) (h8 : c8 % 8 = 0)
    (hs16 : batch * c16 * 14 * 14 < 2 ^ 31) (hs32 : batch * c32 * 14 * 14 < 2 ^ 31)
    (hs8 : batch * c8 * 28 * 28 < 2 ^ 31) :
    ((IndexFits32 batch (c16 / 16) 224 14
      (fun bx b t => (Filter3x3_Input14x14_Stride1.inputLoads (depthwiseShape batch c16 14 14 3 3 14 14 1 1) bx b t).map (fun q => (q.2 : Int)))
      (Filter3x3_Input14x14_Stride1.outputIdx (depthwiseShape batch c16 14 14 3 3 14 14 1 1))) ∧
     (IndexFits32 batch (c32 / 32) 224 7
      (fun bx b t => (Filter5x5_Input14x14_Stride2.inputLoads (depthwiseShape batch c32 14 14 5 5 7 7 2 2) bx b t).map (fun q => (q.2 : Int)))
      (Filter5x5_Input14x14_Stride2.outputIdx (depthwiseShape batch c32 14 14 5 5 7 7 2 2))) ∧
     (IndexFits32 batch (c8 / 8) 112 14
      (fun bx b t => (Filter3x3_Input28x28_Stride2.inputLoads (depthwiseShape batch c8 28 28 3 3 14 14 1 2) bx b t).map (fun q => (q.2 : Int)))
      (Filter3x3_Input28x28_Stride2.outputIdx (depthwiseShape batch c8 28 28 3 3 14 14 1 2))) ∧
     (IndexFits32 batch (c32 / 32) 224 7
      (fun bx b t => (Filter3x3_Input14x14_Stride2.inputLoads (depthwiseShape batch c32 14 14 3 3 7 7 1 2) bx b t).map (fun q => (q.2 : Int)))
      (Filter3x3_Input14x14_Stride2.outputIdx (depthwiseShape batch c32 14 14 3 3 7 7 1 2))) ∧
     (IndexFits32 batch (c8 / 8) 224 28
      (fun bx b t => (Filter3x3_Input28x28_Stride1.inputLoads (depthwiseShape batch c8 28 28 3 3 28 28 1 1) bx b t).map (fun q => (q.2 : Int)))
      (Filter3x3_Input28x28_Stride1.outputIdx (depthwiseShape batch c8 28 28 3 3 28 28 1 1)))) ∧
    (∀ n c, n < batch → c < c16 →
      (∀ h, h < 14 → ∀ w, w < 14 →
        input (nchw c16 14 14 n c h w) = input' (nchw c16 14 14 n c h w)) →
      (∀ i, i < 3 * 3 → filter (c * 3 * 3 + i) = filter' (c * 3 * 3 + i)) →
      ∀ oh, oh < 14 → ∀ ow, ow < 14 →
        Filter3x3_Input14x14_Stride1 batch (c16 / 16) 224 input filter output
          (depthwiseShape batch c16 14 14 3 3 14 14 1 1) alpha beta shared
          (nchw c16 14 14 n c oh ow)
        = Filter3x3_Input14x14_Stride1 batch (c16 / 16) 224 input' filter' output'
          (depthwiseShape batch c16 14 14 3 3 14 14 1 1) alpha beta shared'
          (nchw c16 14 14 n c oh ow)) ∧
    (∀ n c, n < batch → c < c32 →
      (∀ h, h < 14 → ∀ w, w < 14 →
        input (nchw c32 14 14 n c h w) = input' (nchw c32 14 14 n c h w)) →
      (∀ i, i < 5 * 5 → filter (c * 5 * 5 + i) = filter' (c * 5 * 5 + i)) →
      ∀ oh, oh < 7 → ∀ ow, ow < 7 →
        Filter5x5_Input14x14_Stride2 batch (c32 / 32) 224 input filter output
          (depthwiseShape batch c32 14 14 5 5 7 7 2 2) alpha beta shared
          (nchw c32 7 7 n c oh ow)
        = Filter5x5_Input14x14_Stride2 batch (c32 / 32) 224 input' filter' output'
          (depthwiseShape batch c32 14 14 5 5 7 7 2 2) alpha beta shared'
          (nchw c32 7 7 n c oh ow)) ∧
    (∀ n c, n < batch → c < c8 →
      (∀ h, h < 28 → ∀ w, w < 28 →
        input (nchw c8 28 28 n c h w) = input' (nchw c8 28 28 n c h w)) →
      (∀ i, i < 3 * 3 → filter (c * 3 * 3 + i) = filter' (c * 3 * 3 + i)) →
      ∀ oh, oh < 14 → ∀ ow, ow < 14 →
        Filter3x3_Input28x28_Stride2 batch (c8 / 8) 112 input filter output
          (depthwiseShape batch c8 28 28 3 3 14 14 1 2) alpha beta shared
          (nchw c8 14 14 n c oh ow)
        = Filter3x3_Input28x28_Stride2 batch (c8 / 8) 112 input' filter' output'
          (depthwiseShape batch c8 28 28 3 3 14 14 1 2) alpha beta shared'
          (nchw c8 14 14 n c oh ow)) ∧
    (∀ n c, n < batch → c < c32 →
      (∀ h, h < 14 → ∀ w, w < 14 →
        input (nchw c32 14 14 n c h w) = input' (nchw c32 14 14 n c h w)) →
      (∀ i, i < 3 * 3 → filter (c * 3 * 3 + i) = filter' (c * 3 * 3 + i)) →
      ∀ oh, oh < 7 → ∀ ow, ow < 7 →
        Filter3x3_Input14x14_Stride2 batch (c32 / 32) 224 input filter output
          (depthwiseShape batch c32 14 14 3 3 7 7 1 2) alpha beta shared
          (nchw c32 7 7 n c oh ow)
        = Filter3x3_Input14x14_Stride2 batch (c32 / 32) 224 input' filter' output'
          (depthwiseShape batch c32 14 14 3 3 7 7 1 2) alpha beta shared'
          (nchw c32 7 7 n c oh ow)) ∧
    (∀ n c, n < batch → c < c8 →
      (∀ h, h < 28 → ∀ w, w < 28 →
        input (nchw c8 28 28 n c h w) = input' (nchw c8 28 28 n c h w)) →
      (∀ i, i < 3 * 3 → filter (c * 3 * 3 + i) = filter' (c * 3 * 3 + i)) →
      ∀ oh, oh < 28 → ∀ ow, ow < 28 →
        Filter3x3_Input28x28_Stride1 batch (c8 / 8) 224 input filter output
          (depthwiseShape batch c8 28 28 3 3 28 28 1 1) alpha beta shared
          (nchw c8 28 28 n c oh ow)
        = Filter3x3_Input28x28_Stride1 batch (c8 / 8) 224 input' filter' output'
          (depthwiseShape batch c8 28 28 3 3 28 28 1 1) alpha beta shared'
          (nchw c8 28 28 n c oh ow)) := by
  refine ⟨⟨k14s1_fits32 batch c16 h16 hs16, k5x5_fits32 batch c32 h32 hs32, k28s2_fits32 batch c8 h8 hs8, k14s2_fits32 batch c32 h32 hs32, k28s1_fits32 batch c8 h8 hs8⟩, ?_, ?_, ?_, ?_, ?_⟩
  · intro n c hn hc hin hf oh hoh ow how
    rw [k14s1_launch_eq, k14s1_launch_eq,
      k14s1_elemIn batch c16 _ _ _ _ (mem_gridGroups _ _) (fun _ _ _ => List.mem_range)
        (fun _ _ _ => List.mem_range) (fun _ _ _ => List.mem_range) input filter output alpha beta
        shared n c oh ow h16 hn hc hoh how,
      k14s1_elemIn batch c16 _ _ _ _ (mem_gridGroups _ _) (fun _ _ _ => List.mem_range)
        (fun _ _ _ => List.mem_range) (fun _ _ _ => List.mem_range) input' filter' output' alpha beta
        shared' n c oh ow h16 hn hc hoh how]
    exact tapValue_congr input input' filter filter' c16 14 14 3 3 1 1 alpha beta _ _ n c ow
      (fun q hq => ((mem_tapRows _ _ _ _ _ q).1 hq).1) hin hf
  · intro n c hn hc hin hf oh hoh ow how
    rw [k5x5_launch_eq, k5x5_launch_eq,
      k5x5_elemIn batch c32 _ _ _ _ (mem_gridGroups _ _) (fun _ _ _ => List.mem_range)
        (fun _ _ _ => List.mem_range) (fun _ _ _ => List.mem_range) input filter output alpha beta
        shared n c oh ow h32 hn hc hoh how,
      k5x5_elemIn batch c32 _ _ _ _ (mem_gridGroups _ _) (fun _ _ _ => List.mem_range)
        (fun _ _ _ => List.mem_range) (fun _ _ _ => List.mem_range) input' filter' output' alpha beta
        shared' n c oh ow h32 hn hc hoh how]
    exact tapValue_congr input input' filter filter' c32 14 14 5 5 2 2 alpha beta _ _ n c ow
      (fun q hq => ((mem_tapRows _ _ _ _ _ q).1 hq).1) hin hf
  · intro n c hn hc hin hf oh hoh ow how
    rw [k28s2_launch_eq, k28s2_launch_eq,
      k28s2_elemIn batch c8 _ _ _ _ (mem_gridGroups _ _) (fun _ _ _ => List.mem_range)
        (fun _ _ _ => List.mem_range) (fun _ _ _ => List.mem_range) input filter output alpha beta
        shared n c oh ow h8 hn hc hoh how,
      k28s2_elemIn batch c8 _ _ _ _ (mem_gridGroups _ _) (fun _ _ _ => List.mem_range)
        (fun _ _ _ => List.mem_range) (fun _ _ _ => List.mem_range) input' filter' output' alpha beta
        shared' n c oh ow h8 hn hc hoh how]
    exact tapValue_congr input input' filter filter' c8 28 28 3 3 1 2 alpha beta _ _ n c ow
      (fun q hq => ((mem_tapRows _ _ _ _ _ q).1 hq).1) hin hf
  · intro n c hn hc hin hf oh hoh ow how
    rw [k14s2_launch_eq, k14s2_launch_eq,
      k14s2_elemIn batch c32 _ _ _ _ (mem_gridGroups _ _) (fun _ _ _ => List.mem_range)
        (fun _ _ _ => List.mem_range) (fun _ _ _ => List.mem_range) input filter output alpha beta
        shared n c oh ow h32 hn hc hoh how,
      k14s2_elemIn batch c32 _ _ _ _ (mem_gridGroups _ _) (fun _ _ _ => List.mem_range)
        (fun _ _ _ => List.mem_range) (fun _ _ _ => List.mem_range) input' filter' output' alpha beta
        shared' n c oh ow h32 hn hc hoh how]
    exact tapValue_congr input input' filter filter' c32 14 14 3 3 1 2 alpha beta _ _ n c ow
      (fun q hq => ((mem_tapRows _ _ _ _ _ q).1 hq).1) hin hf
  · intro n c hn hc hin hf oh hoh ow how
    rw [k28s1_launch_eq, k28s1_launch_eq,
      k28s1_elemIn batch c8 _ _ _ _ (mem_gridGroups _ _) (fun _ _ _ => List.mem_range)
        (fun _ _ _ => List.mem_range) (fun _ _ _ => List.mem_range) input filter output alpha beta
        shared n c oh ow h8 hn hc hoh how,
      k28s1_elemIn batch c8 _ _ _ _ (mem_gridGroups _ _) (fun _ _ _ => List.mem_range)
        (fun _ _ _ => List.mem_range) (fun _ _ _ => List.mem_range) input' filter' output' alpha beta
        shared' n c oh ow h8 hn hc hoh how]
    exact tapValue_congr input input' filter filter' c8 28 28 3 3 1 1 alpha beta _ _ n c ow
      (fun q hq => ((mem_tapRows _ _ _ _ _ q).1 hq).1) hin hf

theorem channel_isolation_witness :
    (16 % 16 = 0 ∧ 32 % 32 = 0 ∧ 8 % 8 = 0 ∧ 1 * 16 * 14 * 14 < 2 ^ 31 ∧ 1 * 32 * 14 * 14 < 2 ^ 31 ∧ 1 * 8 * 28 * 28 < 2 ^ 31) ∧
    Filter3x3_Input14x14_Stride1 1 (16 / 16) 224 (fun i => (i : Int)) (fun i => (i : Int) + 1) (fun _ => 0)
        (depthwiseShape 1 16 14 14 3 3 14 14 1 1) (2 : Int) 5 (fun _ _ => ⟨fun _ => 7, fun _ => 7⟩) (nchw 16 14 14 0 1 13 0)
      = Filter3x3_Input14x14_Stride1 1 (16 / 16) 224 (fun i => if 196 ≤ i ∧ i < 392 then (i : Int) else 0)
        (fun i => if 9 ≤ i ∧ i < 18 then (i : Int) + 1 else 3) (fun _ => 9)
        (depthwiseShape 1 16 14 14 3 3 14 14 1 1) 2 5 (fun _ _ => ⟨fun _ => 1, fun _ => 2⟩) (nchw 16 14 14 0 1 13 0) ∧
    Filter5x5_Input14x14_Stride2 1 (32 / 32) 224 (fun i => (i : Int)) (fun i => (i : Int) + 1) (fun _ => 0)
        (depthwiseShape 1 32 14 14 5 5 7 7 2 2) (2 : Int) 5 (fun _ _ => ⟨fun _ => 7, fun _ => 7⟩) (nchw 32 7 7 0 1 6 0)
      = Filter5x5_Input14x14_Stride2 1 (32 / 32) 224 (fun i => if 196 ≤ i ∧ i < 392 then (i : Int) else 0)
        (fun i => if 25 ≤ i ∧ i < 50 then (i : Int) + 1 else 3) (fun _ => 9)
        (depthwiseShape 1 32 14 14 5 5 7 7 2 2) 2 5 (fun _ _ => ⟨fun _ => 1, fun _ => 2⟩) (nchw 32 7 7 0 1 6 0) ∧
    Filter3x3_Input28x28_Stride2 1 (8 / 8) 112 (fun i => (i : Int)) (fun i => (i : Int) + 1) (fun _ => 0)
        (depthwiseShape 1 8 28 28 3 3 14 14 1 2) (2 : Int) 5 (fun _ _ => ⟨fun _ => 7, fun _ => 7⟩) (nchw 8 14 14 0 1 13 0)
      = Filter3x3_Input28x28_Stride2 1 (8 / 8) 112 (fun i => if 784 ≤ i ∧ i < 1568 then (i : Int) else 0)
        (fun i => if 9 ≤ i ∧ i < 18 then (i : Int) + 1 else 3) (fun _ => 9)
        (depthwiseShape 1 8 28 28 3 3 14 14 1 2) 2 5 (fun _ _ => ⟨fun _ => 1, fun _ => 2⟩) (nchw 8 14 14 0 1 13 0) ∧
    Filter3x3_Input14x14_Stride2 1 (32 / 32) 224 (fun i => (i : Int)) (fun i => (i : Int) + 1) (fun _ => 0)
        (depthwiseShape 1 32 14 14 3 3 7 7 1 2) (2 : Int) 5 (fun _ _ => ⟨fun _ => 7, fun _ => 7⟩) (nchw 32 7 7 0 1 6 0)
      = Filter3x3_Input14x14_Stride2 1 (32 / 32) 224 (fun i => if 196 ≤ i ∧ i < 392 then (i : Int) else 0)
        (fun i => if 9 ≤ i ∧ i < 18 then (i : Int) + 1 else 3) (fun _ => 9)
        (depthwiseShape 1 32 14 14 3 3 7 7 1 2) 2 5 (fun _ _ => ⟨fun _ => 1, fun _ => 2⟩) (nchw 32 7 7 0 1 6 0) ∧
    Filter3x3_Input28x28_Stride1 1 (8 / 8) 224 (fun i => (i : Int)) (fun i => (i : Int) + 1) (fun _ => 0)
        (depthwiseShape 1 8 28 28 3 3 28 28 1 1) (2 : Int) 5 (fun _ _ => ⟨fun _ => 7, fun _ => 7⟩) (nchw 8 28 28 0 1 27 0)
      = Filter3x3_Input28x28_Stride1 1 (8 / 8) 224 (fun i => if 784 ≤ i ∧ i < 1568 then (i : Int) else 0)
        (fun i => if 9 ≤ i ∧ i < 18 then (i : Int) + 1 else 3) (fun _ => 9)
        (depthwiseShape 1 8 28 28 3 3 28 28 1 1) 2 5 (fun _ _ => ⟨fun _ => 1, fun _ => 2⟩) (nchw 8 28 28 0 1 27 0) :=
  ⟨by decide,
    (channel_isolation 1 16 32 8 (fun i => (i : Int)) (fun i => if 196 ≤ i ∧ i < 392 then (i : Int) else 0)
      (fun i => (i : Int) + 1) (fun i => if 9 ≤ i ∧ i < 18 then (i : Int) + 1 else 3) (fun _ => 0) (fun _ => 9) 2 5
      (fun _ _ => ⟨fun _ => 7, fun _ => 7⟩) (fun _ _ => ⟨fun _ => 1, fun _ => 2⟩)
      (by decide) (by decide) (by decide) (by decide) (by decide) (by decide)).2.1 0 1 (by decide) (by decide)
      (fun h hh w hw => by unfold nchw; rw [if_pos (by omega)])
      (fun i hi => by show _ = ite _ _ _; rw [if_pos (by omega)]) 13 (by decide) 0 (by decide),
    (channel_isolation 1 16 32 8 (fun i => (i : Int)) (fun i => if 196 ≤ i ∧ i < 392 then (i : Int) else 0)
      (fun i => (i : Int) + 1) (fun i => if 25 ≤ i ∧ i < 50 then (i : Int) + 1 else 3) (fun _ => 0) (fun _ => 9) 2 5
      (fun _ _ => ⟨fun _ => 7, fun _ => 7⟩) (fun _ _ => ⟨fun _ => 1, fun _ => 2⟩)
      (by decide) (by decide) (by decide) (by decide) (by decide) (by decide)).2.2.1 0 1 (by decide) (by decide)
      (fun h hh w hw => by unfold nchw; rw [if_pos (by omega)])
      (fun i hi => by show _ = ite _ _ _; rw [if_pos (by omega)]) 6 (by decide) 0 (by decide),
    (channel_isolation 1 16 32 8 (fun i => (i : Int)) (fun i => if 784 ≤ i ∧ i < 1568 then (i : Int) else 0)
      (fun i => (i : Int) + 1) (fun i => if 9 ≤ i ∧ i < 18 then (i : Int) + 1 else 3) (fun _ => 0) (fun _ => 9) 2 5
      (fun _ _ => ⟨fun _ => 7, fun _ => 7⟩) (fun _ _ => ⟨fun _ => 1, fun _ => 2⟩)
      (by decide) (by decide) (by decide) (by decide) (by decide) (by decide)).2.2.2.1 0 1 (by decide) (by decide)
      (fun h hh w hw => by unfold nchw; rw [if_pos (by omega)])
      (fun i hi => by show _ = ite _ _ _; rw [if_pos (by omega)]) 13 (by decide) 0 (by decide),
    (channel_isolation 1 16 32 8 (fun i => (i : Int)) (fun i => if 196 ≤ i ∧ i < 392 then (i : Int) else 0)
      (fun i => (i : Int) + 1) (fun i => if 9 ≤ i ∧ i < 18 then (i : Int) + 1 else 3) (fun _ => 0) (fun _ => 9) 2 5
      (fun _ _ => ⟨fun _ => 7, fun _ => 7⟩) (fun _ _ => ⟨fun _ => 1, fun _ => 2⟩)
      (by decide) (by decide) (by decide) (by decide) (by decide) (by decide)).2.2.2.2.1 0 1 (by decide) (by decide)
      (fun h hh w hw => by unfold nchw; rw [if_pos (by omega)])
      (fun i hi => by show _ = ite _ _ _; rw [if_pos (by omega)]) 6 (by decide) 0 (by decide),
    (channel_isolation 1 16 32 8 (fun i => (i : Int)) (fun i => if 784 ≤ i ∧ i < 1568 then (i : Int) else 0)
      (fun i => (i : Int) + 1) (fun i => if 9 ≤ i ∧ i < 18 then (i : Int) + 1 else 3) (fun _ => 0) (fun _ => 9) 2 5
      (fun _ _ => ⟨fun _ => 7, fun _ => 7⟩) (fun _ _ => ⟨fun _ => 1, fun _ => 2⟩)
      (by decide) (by decide) (by decide) (by decide) (by decide) (by decide)).2.2.2.2.2 0 1 (by decide) (by decide)
      (fun h hh w hw => by unfold nchw; rw [if_pos (by omega)])
      (fun i hi => by show _ = ite _ _ _; rw [if_pos (by omega)]) 27 (by decide) 0 (by decide)⟩

/-! ## Claim C16: output extent -/

/-- Counterexample to claim C17 as stated (the values written to output row 13 would not
depend on filter row 2): on an all-ones image, two filter banks that differ only in tap 6 of
channel 0 (filter row 2, column 0) give different values at output element `[0, 0, 13, 1]`. -/
theorem Filter3x3_Input28x28_Stride2_last_row_needs_filter_row2 :
    (∀ i, i ≠ 6 → (fun _ => (0 : Int)) i = (fun i => if i = 6 then (1 : Int) else 0) i) ∧
    Filter3x3_Input28x28_Stride2 1 (8 / 8) 112 (fun _ => (1 : Int)) (fun _ => 0) (fun _ => 0)
        (depthwiseShape 1 8 28 28 3 3 14 14 1 2) 1 0 (fun _ _ => ⟨fun _ => 0, fun _ => 0⟩)
        (nchw 8 14 14 0 0 13 1) = 0 ∧
    Filter3x3_Input28x28_Stride2 1 (8 / 8) 112 (fun _ => (1 : Int)) (fun i => if i = 6 then 1 else 0)
        (fun _ => 0) (depthwiseShape 1 8 28 28 3 3 14 14 1 2) 1 0 (fun _ _ => ⟨fun _ => 0, fun _ => 0⟩)
        (nchw 8 14 14 0 0 13 1) = 1 := by
  refine ⟨fun i hi => (if_neg hi).symm, ?_, ?_⟩
  · rw [k28s2_correct 1 8 _ _ _ 1 0 _ 0 0 13 1 (by decide) (by decide) (by decide) (by decide)
      (by decide)]
    exact depthwiseRef_eq_beta _ _ _ _ _ _ _ _ _ _ _ _ _ _ _ (fun _ _ _ _ => Or.inl rfl)
  · rw [k28s2_correct 1 8 _ _ _ 1 0 _ 0 0 13 1 (by decide) (by decide) (by decide) (by decide)
      (by decide)]
    simp [depthwiseRef, depthwiseConv, Finset.sum_range_succ, paddedInput]

/-- Claim C17, amended: in the 3x3 / 28x28 / stride 2 / padding 1 kernel, for a launch of fewer
than `2^31` input elements (`batch * channel * 28 * 28 < 2 ^ 31`), every global index a lane
computes is the value of the 32-bit `int` the source holds it in (`IndexFits32`), and the last
output row (row 13) applies all three filter rows, to the image rows 25, 26 and 27: over a
commutative ring, output element `[n, c, 13, ow]` is alpha * (sum over kh, kw < 3 of filter[c,kh,kw] *
paddedInput[n,c,25+kh,2*ow+kw-1]) + beta; and the value a lane stores at its last store reads
the scratch tile only in rows 25, 26 and 27 of the lane's own channel, with filter rows 0, 1
and 2: no bottom halo row is read. -/
theorem Filter3x3_Input28x28_Stride2_last_row [CommRing α] (batch channel : Nat)
    (input filter output : Nat → α) (alpha beta : α) (shared : Nat → Nat → Shared α)
    (n c ow : Nat) (hch : channel % 8 = 0) (hn : n < batch) (hc : c < channel) (how : ow < 14)
    (hsz : batch * channel * 28 * 28 < 2 ^ 31) :
    IndexFits32 batch (channel / 8) 112 14
      (fun bx b t => (Filter3x3_Input28x28_Stride2.inputLoads (depthwiseShape batch channel 28 28 3 3 14 14 1 2) bx b t).map (fun q => (q.2 : Int)))
      (Filter3x3_Input28x28_Stride2.outputIdx (depthwiseShape batch channel 28 28 3 3 14 14 1 2)) ∧
    Filter3x3_Input28x28_Stride2 batch (channel / 8) 112 input filter output
        (depthwiseShape batch channel 28 28 3 3 14 14 1 2) alpha beta shared
        (nchw channel 14 14 n c 13 ow)
      = alpha * (∑ kh in Finset.range 3, ∑ kw in Finset.range 3,
          filter ((c * 3 + kh) * 3 + kw) *
            paddedInput input channel 28 28 n c (25 + (kh : Int)) (2 * (ow : Int) + kw - 1)) + beta ∧
    (∀ (bx b t : Nat) (sh : Shared α) (out : Nat → α),
      Filter3x3_Input28x28_Stride2.convolve (depthwiseShape batch channel 28 28 3 3 14 14 1 2) alpha beta bx b t sh out
          (Filter3x3_Input28x28_Stride2.outputIdx (depthwiseShape batch channel 28 28 3 3 14 14 1 2) bx b t 13)
        = nestSum (taps 3 (fun i => sh.filterData (t / 14 * 3 * 3 + i))
            (fun r kw => sh.inputData (t / 14 * 30 * 28 + t % 14 * 2 + r * 30 + kw))
            [(0, 25), (1, 26), (2, 27)]) * alpha + beta) := by
  refine ⟨k28s2_fits32 batch channel hch hsz, ?_⟩
  constructor
  · rw [k28s2_correct batch channel input filter output alpha beta shared n c 13 ow hch hn hc
      (by omega) how]
    unfold depthwiseRef depthwiseConv
    congr 2
    apply Finset.sum_congr rfl
    intro kh _
    apply Finset.sum_congr rfl
    intro kw _
    congr 2
    · push_cast
      ring
    · push_cast
      ring
  · intro bx b t sh out
    rw [k28s2_convolve_closed]
    exact writeRows_at _ 14 (by omega) _ out 13 _ rfl

theorem Filter3x3_Input28x28_Stride2_last_row_witness :
    (8 % 8 = 0 ∧ 0 < 1 ∧ 0 < 8 ∧ 1 < 14 ∧ 1 * 8 * 28 * 28 < 2 ^ 31) ∧
    Filter3x3_Input28x28_Stride2 1 (8 / 8) 112 (fun _ => (1 : Int)) (fun i => if i = 6 then 1 else 0)
        (fun _ => 0) (depthwiseShape 1 8 28 28 3 3 14 14 1 2) 1 0 (fun _ _ => ⟨fun _ => 0, fun _ => 0⟩)
        (nchw 8 14 14 0 0 13 1)
      = 1 * (∑ kh in Finset.range 3, ∑ kw in Finset.range 3,
          (fun i => if i = 6 then (1 : Int) else 0) ((0 * 3 + kh) * 3 + kw) *
            paddedInput (fun _ => (1 : Int)) 8 28 28 0 0 (25 + (kh : Int)) (2 * ((1 : Nat) : Int) + kw - 1)) + 0 :=
  ⟨by decide, (Filter3x3_Input28x28_Stride2_last_row 1 8 _ _ _ 1 0 _ 0 0 1 (by decide) (by decide)
    (by decide) (by decide) (by decide)).2.1⟩

/-! ## Claim C18: the output does not depend on the schedule -/

/-- Claim C19: for every variant, group `(bx, b)` and initial scratch contents: the filter
staging lines of a lane perform the stores listed by `filterStores`; after the staging, scratch
entry `c * K + k` holds `filter[(g * G + c) * K + k]` for every `c < G` and `k < K`, where `K`
is the number of taps, `G` the group size and `g = b` the group index (`g = b / 2`, `G = 1` for
the 112 x 112 variant); every scratch entry below `G * K` is written by exactly one store of
exactly one lane.  Where the lanes are fewer than the `G * K` entries the copy takes
`ceil(G * K / laneCount)` passes: in the 3x3/14/s2 variant every lane stores once and the
lanes below 64 a second time (2 = ceil(288 / 224) passes), in the 5x5/14/s2 variant the
lanes below 200 store four times (4 = ceil(800 / 224) passes) and the other lanes not at all. -/
theorem filter_staging [Zero α] (batch channel : Nat) (input filter : Nat → α) (bx b : Nat)
    (sh : Shared α) :
    FilterStaged (Filter3x3_Input14x14_Stride1.fillPhase filter (depthwiseShape batch channel 14 14 3 3 14 14 1 1) bx b)
      (Filter3x3_Input14x14_Stride1.staged 224 input filter
        (depthwiseShape batch channel 14 14 3 3 14 14 1 1) bx b sh).filterData
      filter 224 16 (3 * 3) (b) (Filter3x3_Input14x14_Stride1.filterStores (depthwiseShape batch channel 14 14 3 3 14 14 1 1) b) ∧
    FilterStaged (Filter3x3_Input112x112_Stride2.fillPhase filter (depthwiseShape batch channel 112 112 3 3 56 56 1 2) bx b)
      (Filter3x3_Input112x112_Stride2.staged 224 input filter
        (depthwiseShape batch channel 112 112 3 3 56 56 1 2) bx b sh).filterData
      filter 224 1 (3 * 3) (b / 2) (Filter3x3_Input112x112_Stride2.filterStores (depthwiseShape batch channel 112 112 3 3 56 56 1 2) b) ∧
    FilterStaged (Filter5x5_Input14x14_Stride2.fillPhase filter (depthwiseShape batch channel 14 14 5 5 7 7 2 2) bx b)
      (Filter5x5_Input14x14_Stride2.staged 224 input filter
        (depthwiseShape batch channel 14 14 5 5 7 7 2 2) bx b sh).filterData
      filter 224 32 (5 * 5) (b) (Filter5x5_Input14x14_Stride2.filterStores (depthwiseShape batch channel 14 14 5 5 7 7 2 2) b) ∧
    FilterStaged (Filter3x3_Input28x28_Stride2.fillPhase filter (depthwiseShape batch channel 28 28 3 3 14 14 1 2) bx b)
      (Filter3x3_Input28x28_Stride2.staged 112 input filter
        (depthwiseShape batch channel 28 28 3 3 14 14 1 2) bx b sh).filterData
      filter 112 8 (3 * 3) (b) (Filter3x3_Input28x28_Stride2.filterStores (depthwiseShape batch channel 28 28 3 3 14 14 1 2) b) ∧
    FilterStaged (Filter3x3_Input14x14_Stride2.fillPhase filter (depthwiseShape batch channel 14 14 3 3 7 7 1 2) bx b)
      (Filter3x3_Input14x14_Stride2.staged 224 input filter
        (depthwiseShape batch channel 14 14 3 3 7 7 1 2) bx b sh).filterData
      filter 224 32 (3 * 3) (b) (Filter3x3_Input14x14_Stride2.filterStores (depthwiseShape batch channel 14 14 3 3 7 7 1 2) b) ∧
    FilterStaged (Filter3x3_Input28x28_Stride1.fillPhase filter (depthwiseShape batch channel 28 28 3 3 28 28 1 1) bx b)
      (Filter3x3_Input28x28_Stride1.staged 224 input filter
        (depthwiseShape batch channel 28 28 3 3 28 28 1 1) bx b sh).filterData
      filter 224 8 (3 * 3) (b) (Filter3x3_Input28x28_Stride1.filterStores (depthwiseShape batch channel 28 28 3 3 28 28 1 1) b) ∧
    FilterStaged (Filter3x3_Input56x56_Stride1.fillPhase filter (depthwiseShape batch channel 56 56 3 3 56 56 1 1) bx b)
      (Filter3x3_Input56x56_Stride1.staged 224 input filter
        (depthwiseShape batch channel 56 56 3 3 56 56 1 1) bx b sh).filterData
      filter 224 1 (3 * 3) (b) (Filter3x3_Input56x56_Stride1.filterStores (depthwiseShape batch channel 56 56 3 3 56 56 1 1) b) ∧
    ((∀ t, (Filter3x3_Input14x14_Stride2.filterStores (depthwiseShape batch channel 14 14 3 3 7 7 1 2) b t).length
        = if t < 64 then 2 else 1) ∧ (32 * (3 * 3) + 224 - 1) / 224 = 2) ∧
    ((∀ t, (Filter5x5_Input14x14_Stride2.filterStores (depthwiseShape batch channel 14 14 5 5 7 7 2 2) b t).length
        = if t < 200 then 4 else 0) ∧ (32 * (5 * 5) + 224 - 1) / 224 = 4) := by
  refine ⟨?_, ?_, ?_, ?_, ?_, ?_, ?_, ?_, ?_⟩
  · refine ⟨fun t sh => k14s1_filter_stores batch channel filter bx b t sh, ?_,
      k14s1_filter_once batch channel b⟩
    intro c hc k hk
    rw [k14s1_filterData batch channel input filter bx b sh _ (by omega)]
    congr 1
    omega
  · refine ⟨fun t sh => k112_filter_stores batch channel filter bx b t sh, ?_,
      k112_filter_once batch channel b⟩
    intro c hc k hk
    rw [k112_filterData batch channel input filter bx b sh _ (by omega)]
    congr 1
    omega
  · refine ⟨fun t sh => k5x5_filter_stores batch channel filter bx b t sh, ?_,
      k5x5_filter_once batch channel b⟩
    intro c hc k hk
    rw [k5x5_filterData batch channel input filter bx b sh _ (by omega)]
    congr 1
    omega
  · refine ⟨fun t sh => k28s2_filter_stores batch channel filter bx b t sh, ?_,
      k28s2_filter_once batch channel b⟩
    intro c hc k hk
    rw [k28s2_filterData batch channel input filter bx b sh _ (by omega)]
    congr 1
    omega
  · refine ⟨fun t sh => k14s2_filter_stores batch channel filter bx b t sh, ?_,
      k14s2_filter_once batch channel b⟩
    intro c hc k hk
    rw [k14s2_filterData batch channel input filter bx b sh _ (by omega)]
    congr 1
    omega
  · refine ⟨fun t sh => k28s1_filter_stores batch channel filter bx b t sh, ?_,
      k28s1_filter_once batch channel b⟩
    intro c hc k hk
    rw [k28s1_filterData batch channel input filter bx b sh _ (by omega)]
    congr 1
    omega
  · refine ⟨fun t sh => k56_filter_stores batch channel filter bx b t sh, ?_,
      k56_filter_once batch channel b⟩
    intro c hc k hk
    rw [k56_filterData batch channel input filter bx b sh _ (by omega)]
    congr 1
    omega
  · refine ⟨fun t => ?_, by decide⟩
    simp only [Filter3x3_Input14x14_Stride2.filterStores, depthwiseShape]
    split_ifs <;> rfl
  · refine ⟨fun t => ?_, by decide⟩
    simp only [Filter5x5_Input14x14_Stride2.filterStores, depthwiseShape]
    split_ifs <;> rfl

theorem filter_staging_witness :
    (31 < 32 ∧ 8 < 3 * 3) ∧
    (Filter3x3_Input14x14_Stride2.staged 224 (fun i => (i : Int)) (fun i => (i : Int) + 1)
        (depthwiseShape 1 64 14 14 3 3 7 7 1 2) 0 1 ⟨fun _ => 7, fun _ => 7⟩).filterData (31 * (3 * 3) + 8)
      = (fun i => (i : Int) + 1) ((1 * 32 + 31) * (3 * 3) + 8) :=
  ⟨by decide, ((filter_staging 1 64 (fun i => (i : Int)) (fun i => (i : Int) + 1) 0 1
    ⟨fun _ => 7, fun _ => 7⟩).2.2.2.2.1).2.1 31 (by decide) 8 (by decide)⟩

/-! ## Claim C20: input reads of the 112 x 112 kernel stay in bounds -/

/-- Counterexample to claim C20 as stated (every index read from the input buffer would lie in
`[0, batch * channel * 112 * 112)`, for every launch): with batch 171198 and 1 channel the
flat index of input element `[171197, 0, 55, 0]` is 2147501328, which is `2^31` or more.  Lane
0 of the odd group `(171197, 1)` stages this element into tile position 1 with its first
load; the source computes the read index in 32-bit arithmetic and holds it in an `int`, whose
value is then -2147465968: the lane reads at a negative index, outside the range. -/
theorem Filter3x3_Input112x112_Stride2_read_before_buffer :
    (171197 < 171198 ∧ 0 < 1 ∧ 55 < 112 ∧ 0 < 112) ∧
    ¬ (171198 * 1 * 112 * 112 < 2 ^ 31) ∧
    (Filter3x3_Input112x112_Stride2.inputLoads (depthwiseShape 171198 1 112 112 3 3 56 56 1 2) 171197 1 0).head? = some ((1, 2147501328) : Nat × Int) ∧
    (2147501328 : Int) = (nchw 1 112 112 171197 0 55 0 : Nat) ∧
    int32 2147501328 = -2147465968 ∧ int32 2147501328 < 0 :=
  ⟨by decide, by decide, by decide, by decide, by decide, by decide⟩

/-- Claim C20, amended: in `Filter3x3_Input112x112_Stride2` on a grid of (batch, 2 * channel) groups of 224
lanes, for a launch of fewer than `2^31` input elements (`batch * channel * 112 * 112 < 2 ^ 31`),
every global index a lane computes is the value of the 32-bit `int` the source holds it in
(`IndexFits32`), and the copy phase of a lane reads the global input buffer exactly at the indices listed by
`inputLoads` (the 28 copy rounds and the extra-row load); every one of these indices, computed
in the integers, lies inside the plane of the group's channel, hence in
`[0, batch * channel * 112 * 112)`; and the lanes 112..223 of an odd group perform 28 loads,
skipping the extra one, all other lanes 29. -/
theorem Filter3x3_Input112x112_Stride2_input_reads_in_bounds (batch channel : Nat)
    (hsz : batch * channel * 112 * 112 < 2 ^ 31) :
    IndexFits32 batch (2 * channel) 224 7
      (fun bx b t => (Filter3x3_Input112x112_Stride2.inputLoads (depthwiseShape batch channel 112 112 3 3 56 56 1 2) bx b t).map Prod.snd)
      (Filter3x3_Input112x112_Stride2.outputIdx (depthwiseShape batch channel 112 112 3 3 56 56 1 2)) ∧
    (∀ (input : Nat → α) (bx b t : Nat) (sh : Shared α),
      (Filter3x3_Input112x112_Stride2.copyPhase input (depthwiseShape batch channel 112 112 3 3 56 56 1 2) bx b t sh).inputData
        = writeList ((Filter3x3_Input112x112_Stride2.inputLoads (depthwiseShape batch channel 112 112 3 3 56 56 1 2) bx b t).map
            (fun q => (q.1, input q.2.toNat))) sh.inputData) ∧
    (∀ bx b t, bx < batch → b < 2 * channel → t < 224 →
      ∀ q ∈ Filter3x3_Input112x112_Stride2.inputLoads (depthwiseShape batch channel 112 112 3 3 56 56 1 2) bx b t,
        ((nchw channel 112 112 bx (b / 2) 0 0 : Nat) : Int) ≤ q.2 ∧
        q.2 < ((nchw channel 112 112 bx (b / 2) 0 0 + 112 * 112 : Nat) : Int) ∧
        0 ≤ q.2 ∧ q.2 < ((batch * channel * 112 * 112 : Nat) : Int)) ∧
    (∀ bx b t, (Filter3x3_Input112x112_Stride2.inputLoads (depthwiseShape batch channel 112 112 3 3 56 56 1 2) bx b t).length
      = if b % 2 = 1 ∧ 112 ≤ t then 28 else 29) := by
  refine ⟨k112_fits32 batch channel hsz,
    fun input bx b t sh => k112_input_loads batch channel input bx b t sh, ?_,
    fun bx b t => k112_input_loads_length batch channel bx b t⟩
  intro bx b t hbx hb ht q hq
  have h := k112_input_loads_bound batch channel bx b t hbx hb ht q hq
  have hp := nchw_plane_le batch channel 112 112 bx (b / 2) hbx (by omega)
  refine ⟨h.1, ?_, ?_, ?_⟩
  · push_cast
    exact h.2
  · omega
  · have h2 := h.2
    omega

theorem Filter3x3_Input112x112_Stride2_input_reads_in_bounds_witness :
    (2 * 3 * 112 * 112 < 2 ^ 31 ∧ 1 < 2 ∧ 5 < 2 * 3 ∧ 111 < 224 ∧
      ((1 + 228 * 28 + 111 : Nat), (75263 : Int)) ∈
        Filter3x3_Input112x112_Stride2.inputLoads (depthwiseShape 2 3 112 112 3 3 56 56 1 2) 1 5 111) ∧
    (0 ≤ (75263 : Int) ∧ (75263 : Int) < ((2 * 3 * 112 * 112 : Nat) : Int)) :=
  ⟨⟨by decide, by decide, by decide, by decide, by decide⟩,
    ((((Filter3x3_Input112x112_Stride2_input_reads_in_bounds 2 3 (by decide) :
      _ ∧ (∀ (input : Nat → Int) (bx b t : Nat) (sh : Shared Int), _) ∧ _).2.2.1) 1 5 111
        (by decide) (by decide) (by decide) ((1 + 228 * 28 + 111 : Nat), (75263 : Int)) (by decide)).2.2)⟩

end Claims2

section Claims3
variable {α : Type}

/-! ## Claim C21: global accesses stay in bounds -/

/-- Counterexample to claim C21 as stated (every global input read index would lie in
`[0, batch * channel * inH * inW)`, for every launch): for `Filter3x3_Input28x28_Stride2` with
batch 342394 and 8 channels the flat index of input element `[342393, 0, 3, 27]` is
2147489007, which is `2^31` or more.  Lane 111 of group `(342393, 0)` stages this element into
tile position 118 with its first load; the source computes the read index in 32-bit
arithmetic and holds it in an `int`, whose value is then -2147478289: the lane reads at a
negative index, an out-of-bounds global access. -/
theorem Filter3x3_Input28x28_Stride2_read_before_buffer :
    (8 % 8 = 0 ∧ 342393 < 342394 ∧ 0 < 8 ∧ 3 < 28 ∧ 27 < 28) ∧
    ¬ (342394 * 8 * 28 * 28 < 2 ^ 31) ∧
    (Filter3x3_Input28x28_Stride2.inputLoads (depthwiseShape 342394 8 28 28 3 3 14 14 1 2) 342393 0 111).head? = some ((118, 2147489007) : Nat × Nat) ∧
    2147489007 = nchw 8 28 28 342393 0 3 27 ∧
    int32 2147489007 = -2147478289 ∧ int32 2147489007 < 0 :=
  ⟨by decide, by decide, by decide, by decide, by decide, by decide⟩

/-- Claim C21, amended: for each of the six variants that do not split a plane between groups
(`c16`, `c32`, `c8`, `c1` are the channel counts of the variants whose channel group has 16, 32,
8 and 1 channels), when the channel count is a multiple of the group size, the grid is
(batch, channel / groupSize) and the lane count is the variant's, for launches of fewer than `2^31` input elements
(`batch * channel * inH * inW < 2 ^ 31` for each variant: hypotheses `hs16`, `hs32`, `hs8`, `hs56`),
every global index a lane computes is the value of the 32-bit `int` the source holds it in
(`IndexFits32`), and the load phase reads the
global input exactly at the indices listed by `inputLoads` and the filter bank exactly at the
indices listed by `filterStores`, the compute phase writes the output exactly at the indices
`outputIdx`, and every such input index is below `batch * channel * inH * inW`, every filter
index below `channel * filterH * filterW` and every output index below
`batch * channel * outH * outW`.  The launch itself is a function defined on all arguments. -/
theorem global_access_in_bounds [Add α] [Mul α] [Zero α] (batch c16 c32 c8 c1 : Nat)
    (h16 : c16 % 16 = 0) (h32 : c32 % 32 = 0) (h8 : c8 % 8 = 0)
    (hs16 : batch * c16 * 14 * 14 < 2 ^ 31) (hs32 : batch * c32 * 14 * 14 < 2 ^ 31)
    (hs8 : batch * c8 * 28 * 28 < 2 ^ 31) (hs56 : batch * c1 * 56 * 56 < 2 ^ 31) :
    ((IndexFits32 batch (c16 / 16) 224 14
      (fun bx b t => (Filter3x3_Input14x14_Stride1.inputLoads (depthwiseShape batch c16 14 14 3 3 14 14 1 1) bx b t).map (fun q => (q.2 : Int)))
      (Filter3x3_Input14x14_Stride1.outputIdx (depthwiseShape batch c16 14 14 3 3 14 14 1 1))) ∧
     (IndexFits32 batch (c32 / 32) 224 7
      (fun bx b t => (Filter5x5_Input14x14_Stride2.inputLoads (depthwiseShape batch c32 14 14 5 5 7 7 2 2) bx b t).map (fun q => (q.2 : Int)))
      (Filter5x5_Input14x14_Stride2.outputIdx (depthwiseShape batch c32 14 14 5 5 7 7 2 2))) ∧
     (IndexFits32 batch (c8 / 8) 112 14
      (fun bx b t => (Filter3x3_Input28x28_Stride2.inputLoads (depthwiseShape batch c8 28 28 3 3 14 14 1 2) bx b t).map (fun q => (q.2 : Int)))
      (Filter3x3_Input28x28_Stride2.outputIdx (depthwiseShape batch c8 28 28 3 3 14 14 1 2))) ∧
     (IndexFits32 batch (c32 / 32) 224 7
      (fun bx b t => (Filter3x3_Input14x14_Stride2.inputLoads (depthwiseShape batch c32 14 14 3 3 7 7 1 2) bx b t).map (fun q => (q.2 : Int)))
      (Filter3x3_Input14x14_Stride2.outputIdx (depthwiseShape batch c32 14 14 3 3 7 7 1 2))) ∧
     (IndexFits32 batch (c8 / 8) 224 28
      (fun bx b t => (Filter3x3_Input28x28_Stride1.inputLoads (depthwiseShape batch c8 28 28 3 3 28 28 1 1) bx b t).map (fun q => (q.2 : Int)))
      (Filter3x3_Input28x28_Stride1.outputIdx (depthwiseShape batch c8 28 28 3 3 28 28 1 1))) ∧
     (IndexFits32 batch (c1) 224 14
      (fun bx b t => (Filter3x3_Input56x56_Stride1.inputLoads (depthwiseShape batch c1 56 56 3 3 56 56 1 1) bx b t).map (fun q => (q.2 : Int)))
      (Filter3x3_Input56x56_Stride1.outputIdx (depthwiseShape batch c1 56 56 3 3 56 56 1 1)))) ∧
    ((∀ (input filter : Nat → α) (bx b : Nat),
        LoadTrace (Filter3x3_Input14x14_Stride1.fillPhase filter (depthwiseShape batch c16 14 14 3 3 14 14 1 1) bx b)
        (Filter3x3_Input14x14_Stride1.copyPhase input (depthwiseShape batch c16 14 14 3 3 14 14 1 1) bx b)
        (Filter3x3_Input14x14_Stride1.paddingStores (depthwiseShape batch c16 14 14 3 3 14 14 1 1))
        (fun t => (Filter3x3_Input14x14_Stride1.inputLoads (depthwiseShape batch c16 14 14 3 3 14 14 1 1) bx b t).map (fun q => (q.1, input q.2)))
        (fun t => (Filter3x3_Input14x14_Stride1.filterStores (depthwiseShape batch c16 14 14 3 3 14 14 1 1) b t).map (fun q => (q.1, filter q.2)))) ∧
      (∀ (alpha beta : α) (bx b t : Nat) (sh : Shared α),
        StoresAt (Filter3x3_Input14x14_Stride1.convolve (depthwiseShape batch c16 14 14 3 3 14 14 1 1) alpha beta bx b t sh) 14
          (Filter3x3_Input14x14_Stride1.outputIdx (depthwiseShape batch c16 14 14 3 3 14 14 1 1) bx b t)) ∧
      AccessInBounds batch (c16 / 16) 224 14 (batch * c16 * 14 * 14) (c16 * 3 * 3)
        (batch * c16 * 14 * 14)
        (Filter3x3_Input14x14_Stride1.inputLoads (depthwiseShape batch c16 14 14 3 3 14 14 1 1))
        (Filter3x3_Input14x14_Stride1.filterStores (depthwiseShape batch c16 14 14 3 3 14 14 1 1))
        (Filter3x3_Input14x14_Stride1.outputIdx (depthwiseShape batch c16 14 14 3 3 14 14 1 1))) ∧
    ((∀ (input filter : Nat → α) (bx b : Nat),
        LoadTrace (Filter5x5_Input14x14_Stride2.fillPhase filter (depthwiseShape batch c32 14 14 5 5 7 7 2 2) bx b)
        (Filter5x5_Input14x14_Stride2.copyPhase input (depthwiseShape batch c32 14 14 5 5 7 7 2 2) bx b)
        (Filter5x5_Input14x14_Stride2.paddingStores (depthwiseShape batch c32 14 14 5 5 7 7 2 2))
        (fun t => (Filter5x5_Input14x14_Stride2.inputLoads (depthwiseShape batch c32 14 14 5 5 7 7 2 2) bx b t).map (fun q => (q.1, input q.2)))
        (fun t => (Filter5x5_Input14x14_Stride2.filterStores (depthwiseShape batch c32 14 14 5 5 7 7 2 2) b t).map (fun q => (q.1, filter q.2)))) ∧
      (∀ (alpha beta : α) (bx b t : Nat) (sh : Shared α),
        StoresAt (Filter5x5_Input14x14_Stride2.convolve (depthwiseShape batch c32 14 14 5 5 7 7 2 2) alpha beta bx b t sh) 7
          (Filter5x5_Input14x14_Stride2.outputIdx (depthwiseShape batch c32 14 14 5 5 7 7 2 2) bx b t)) ∧
      AccessInBounds batch (c32 / 32) 224 7 (batch * c32 * 14 * 14) (c32 * 5 * 5)
        (batch * c32 * 7 * 7)
        (Filter5x5_Input14x14_Stride2.inputLoads (depthwiseShape batch c32 14 14 5 5 7 7 2 2))
        (Filter5x5_Input14x14_Stride2.filterStores (depthwiseShape batch c32 14 14 5 5 7 7 2 2))
        (Filter5x5_Input14x14_Stride2.outputIdx (depthwiseShape batch c32 14 14 5 5 7 7 2 2))) ∧
    ((∀ (input filter : Nat → α) (bx b : Nat),
        LoadTrace (Filter3x3_Input28x28_Stride2.fillPhase filter (depthwiseShape batch c8 28 28 3 3 14 14 1 2) bx b)
        (Filter3x3_Input28x28_Stride2.copyPhase input (depthwiseShape batch c8 28 28 3 3 14 14 1 2) bx b)
        (Filter3x3_Input28x28_Stride2.paddingStores (depthwiseShape batch c8 28 28 3 3 14 14 1 2))
        (fun t => (Filter3x3_Input28x28_Stride2.inputLoads (depthwiseShape batch c8 28 28 3 3 14 14 1 2) bx b t).map (fun q => (q.1, input q.2)))
        (fun t => (Filter3x3_Input28x28_Stride2.filterStores (depthwiseShape batch c8 28 28 3 3 14 14 1 2) b t).map (fun q => (q.1, filter q.2)))) ∧
      (∀ (alpha beta : α) (bx b t : Nat) (sh : Shared α),
        StoresAt (Filter3x3_Input28x28_Stride2.convolve (depthwiseShape batch c8 28 28 3 3 14 14 1 2) alpha beta bx b t sh) 14
          (Filter3x3_Input28x28_Stride2.outputIdx (depthwiseShape batch c8 28 28 3 3 14 14 1 2) bx b t)) ∧
      AccessInBounds batch (c8 / 8) 112 14 (batch * c8 * 28 * 28) (c8 * 3 * 3)
        (batch * c8 * 14 * 14)
        (Filter3x3_Input28x28_Stride2.inputLoads (depthwiseShape batch c8 28 28 3 3 14 14 1 2))
        (Filter3x3_Input28x28_Stride2.filterStores (depthwiseShape batch c8 28 28 3 3 14 14 1 2))
        (Filter3x3_Input28x28_Stride2.outputIdx (depthwiseShape batch c8 28 28 3 3 14 14 1 2))) ∧
    ((∀ (input filter : Nat → α) (bx b : Nat),
        LoadTrace (Filter3x3_Input14x14_Stride2.fillPhase filter (depthwiseShape batch c32 14 14 3 3 7 7 1 2) bx b)
        (Filter3x3_Input14x14_Stride2.copyPhase input (depthwiseShape batch c32 14 14 3 3 7 7 1 2) bx b)
        (Filter3x3_Input14x14_Stride2.paddingStores (depthwiseShape batch c32 14 14 3 3 7 7 1 2))
        (fun t => (Filter3x3_Input14x14_Stride2.inputLoads (depthwiseShape batch c32 14 14 3 3 7 7 1 2) bx b t).map (fun q => (q.1, input q.2)))
        (fun t => (Filter3x3_Input14x14_Stride2.filterStores (depthwiseShape batch c32 14 14 3 3 7 7 1 2) b t).map (fun q => (q.1, filter q.2)))) ∧
      (∀ (alpha beta : α) (bx b t : Nat) (sh : Shared α),
        StoresAt (Filter3x3_Input14x14_Stride2.convolve (depthwiseShape batch c32 14 14 3 3 7 7 1 2) alpha beta bx b t sh) 7
          (Filter3x3_Input14x14_Stride2.outputIdx (depthwiseShape batch c32 14 14 3 3 7 7 1 2) bx b t)) ∧
      AccessInBounds batch (c32 / 32) 224 7 (batch * c32 * 14 * 14) (c32 * 3 * 3)
        (batch * c32 * 7 * 7)
        (Filter3x3_Input14x14_Stride2.inputLoads (depthwiseShape batch c32 14 14 3 3 7 7 1 2))
        (Filter3x3_Input14x14_Stride2.filterStores (depthwiseShape batch c32 14 14 3 3 7 7 1 2))
        (Filter3x3_Input14x14_Stride2.outputIdx (depthwiseShape batch c32 14 14 3 3 7 7 1 2))) ∧
    ((∀ (input filter : Nat → α) (bx b : Nat),
        LoadTrace (Filter3x3_Input28x28_Stride1.fillPhase filter (depthwiseShape batch c8 28 28 3 3 28 28 1 1) bx b)
        (Filter3x3_Input28x28_Stride1.copyPhase input (depthwiseShape batch c8 28 28 3 3 28 28 1 1) bx b)
        (Filter3x3_Input28x28_Stride1.paddingStores (depthwiseShape batch c8 28 28 3 3 28 28 1 1))
        (fun t => (Filter3x3_Input28x28_Stride1.inputLoads (depthwiseShape batch c8 28 28 3 3 28 28 1 1) bx b t).map (fun q => (q.1, input q.2)))
        (fun t => (Filter3x3_Input28x28_Stride1.filterStores (depthwiseShape batch c8 28 28 3 3 28 28 1 1) b t).map (fun q => (q.1, filter q.2)))) ∧
      (∀ (alpha beta : α) (bx b t : Nat) (sh : Shared α),
        StoresAt (Filter3x3_Input28x28_Stride1.convolve (depthwiseShape batch c8 28 28 3 3 28 28 1 1) alpha beta bx b t sh) 28
          (Filter3x3_Input28x28_Stride1.outputIdx (depthwiseShape batch c8 28 28 3 3 28 28 1 1) bx b t)) ∧
      AccessInBounds batch (c8 / 8) 224 28 (batch * c8 * 28 * 28) (c8 * 3 * 3)
        (batch * c8 * 28 * 28)
        (Filter3x3_Input28x28_Stride1.inputLoads (depthwiseShape batch c8 28 28 3 3 28 28 1 1))
        (Filter3x3_Input28x28_Stride1.filterStores (depthwiseShape batch c8 28 28 3 3 28 28 1 1))
        (Filter3x3_Input28x28_Stride1.outputIdx (depthwiseShape batch c8 28 28 3 3 28 28 1 1))) ∧
    ((∀ (input filter : Nat → α) (bx b : Nat),
        LoadTrace (Filter3x3_Input56x56_Stride1.fillPhase filter (depthwiseShape batch c1 56 56 3 3 56 56 1 1) bx b)
        (Filter3x3_Input56x56_Stride1.copyPhase input (depthwiseShape batch c1 56 56 3 3 56 56 1 1) bx b)
        (Filter3x3_Input56x56_Stride1.paddingStores (depthwiseShape batch c1 56 56 3 3 56 56 1 1))
        (fun t => (Filter3x3_Input56x56_Stride1.inputLoads (depthwiseShape batch c1 56 56 3 3 56 56 1 1) bx b t).map (fun q => (q.1, input q.2)))
        (fun t => (Filter3x3_Input56x56_Stride1.filterStores (depthwiseShape batch c1 56 56 3 3 56 56 1 1) b t).map (fun q => (q.1, filter q.2)))) ∧
      (∀ (alpha beta : α) (bx b t : Nat) (sh : Shared α),
        StoresAt (Filter3x3_Input56x56_Stride1.convolve (depthwiseShape batch c1 56 56 3 3 56 56 1 1) alpha beta bx b t sh) 14
          (Filter3x3_Input56x56_Stride1.outputIdx (depthwiseShape batch c1 56 56 3 3 56 56 1 1) bx b t)) ∧
      AccessInBounds batch (c1) 224 14 (batch * c1 * 56 * 56) (c1 * 3 * 3)
        (batch * c1 * 56 * 56)
        (Filter3x3_Input56x56_Stride1.inputLoads (depthwiseShape batch c1 56 56 3 3 56 56 1 1))
        (Filter3x3_Input56x56_Stride1.filterStores (depthwiseShape batch c1 56 56 3 3 56 56 1 1))
        (Filter3x3_Input56x56_Stride1.outputIdx (depthwiseShape batch c1 56 56 3 3 56 56 1 1))) := by
  refine ⟨⟨k14s1_fits32 batch c16 h16 hs16, k5x5_fits32 batch c32 h32 hs32, k28s2_fits32 batch c8 h8 hs8, k14s2_fits32 batch c32 h32 hs32, k28s1_fits32 batch c8 h8 hs8, k56_fits32 batch c1 hs56⟩, ?_, ?_, ?_, ?_, ?_, ?_⟩
  · refine ⟨fun input filter bx b => k14s1_load_trace batch c16 input filter bx b,
      fun alpha beta bx b t sh => k14s1_convolve_stores batch c16 alpha beta bx b t sh, ?_⟩
    intro bx hbx b hb t ht
    exact ⟨fun q hq => k14s1_loads_bound batch c16 bx b t h16 hbx hb ht q hq,
      fun q hq => k14s1_filter_bound batch c16 b t h16 hb ht q hq,
      fun k hk => (k14s1_storeBijection batch c16 h16).1 bx hbx b hb t ht k hk⟩
  · refine ⟨fun input filter bx b => k5x5_load_trace batch c32 input filter bx b,
      fun alpha beta bx b t sh => k5x5_convolve_stores batch c32 alpha beta bx b t sh, ?_⟩
    intro bx hbx b hb t ht
    exact ⟨fun q hq => k5x5_loads_bound batch c32 bx b t h32 hbx hb ht q hq,
      fun q hq => k5x5_filter_bound batch c32 b t h32 hb ht q hq,
      fun k hk => (k5x5_storeBijection batch c32 h32).1 bx hbx b hb t ht k hk⟩
  · refine ⟨fun input filter bx b => k28s2_load_trace batch c8 input filter bx b,
      fun alpha beta bx b t sh => k28s2_convolve_stores batch c8 alpha beta bx b t sh, ?_⟩
    intro bx hbx b hb t ht
    exact ⟨fun q hq => k28s2_loads_bound batch c8 bx b t h8 hbx hb ht q hq,
      fun q hq => k28s2_filter_bound batch c8 b t h8 hb ht q hq,
      fun k hk => (k28s2_storeBijection batch c8 h8).1 bx hbx b hb t ht k hk⟩
  · refine ⟨fun input filter bx b => k14s2_load_trace batch c32 input filter bx b,
      fun alpha beta bx b t sh => k14s2_convolve_stores batch c32 alpha beta bx b t sh, ?_⟩
    intro bx hbx b hb t ht
    exact ⟨fun q hq => k14s2_loads_bound batch c32 bx b t h32 hbx hb ht q hq,
      fun q hq => k14s2_filter_bound batch c32 b t h32 hb ht q hq,
      fun k hk => (k14s2_storeBijection batch c32 h32).1 bx hbx b hb t ht k hk⟩
  · refine ⟨fun input filter bx b => k28s1_load_trace batch c8 input filter bx b,
      fun alpha beta bx b t sh => k28s1_convolve_stores batch c8 alpha beta bx b t sh, ?_⟩
    intro bx hbx b hb t ht
    exact ⟨fun q hq => k28s1_loads_bound batch c8 bx b t h8 hbx hb ht q hq,
      fun q hq => k28s1_filter_bound batch c8 b t h8 hb ht q hq,
      fun k hk => (k28s1_storeBijection batch c8 h8).1 bx hbx b hb t ht k hk⟩
  · refine ⟨fun input filter bx b => k56_load_trace batch c1 input filter bx b,
      fun alpha beta bx b t sh => k56_convolve_stores batch c1 alpha beta bx b t sh, ?_⟩
    intro bx hbx b hb t ht
    exact ⟨fun q hq => k56_loads_bound batch c1 bx b t hbx hb ht q hq,
      fun q hq => k56_filter_bound batch c1 b t hb ht q hq,
      fun k hk => (k56_storeBijection batch c1).1 bx hbx b hb t ht k hk⟩

theorem global_access_in_bounds_witness :
    (16 % 16 = 0 ∧ 32 % 32 = 0 ∧ 8 % 8 = 0 ∧ 1 * 16 * 14 * 14 < 2 ^ 31 ∧ 1 * 32 * 14 * 14 < 2 ^ 31 ∧ 1 * 8 * 28 * 28 < 2 ^ 31 ∧ 1 * 1 * 56 * 56 < 2 ^ 31) ∧
    (((6718 : Nat), (6271 : Nat)) ∈
        Filter3x3_Input28x28_Stride2.inputLoads (depthwiseShape 1 8 28 28 3 3 14 14 1 2) 0 0 111 ∧
      (6271 : Nat) < 1 * 8 * 28 * 28) ∧
    Filter5x5_Input14x14_Stride2.outputIdx (depthwiseShape 1 32 14 14 5 5 7 7 2 2) 0 0 223 6
      < 1 * 32 * 7 * 7 :=
  ⟨by decide,
    ⟨by decide,
      ((((@global_access_in_bounds Int _ _ _ 1 16 32 8 1 (by decide) (by decide) (by decide) (by decide) (by decide) (by decide) (by decide)).2.2.2.1).2.2
        0 (by decide) 0 (by decide) 111 (by decide)).1) ((6718 : Nat), (6271 : Nat)) (by decide)⟩,
    ((((@global_access_in_bounds Int _ _ _ 1 16 32 8 1 (by decide) (by decide) (by decide) (by decide) (by decide) (by decide) (by decide)).2.2.1).2.2
      0 (by decide) 0 (by decide) 223 (by decide)).2.2) 6 (by decide)⟩

/-! ## Claim C22: the output planes of the two 14 x 14 stride-2 kernels -/

/-- Counterexample to claim C22 as stated (each output plane written by the 3x3 / 14x14 /
stride 2 kernel and by the 5x5 / 14x14 / stride 2 kernel would have 14 rows of 14 columns, as
the header comments say): with 576 (672) channels the output stores do not write the planes of
a 14 x 14 output, neither with the 7 x 7 output shape of the convolution nor when the shape
record is given the 14 x 14 output size of the header; in the second case a launch leaves
row 7 of plane `[0, 0]` (index 98) as it was. -/
theorem stride2_14x14_header_planes_not_written :
    ¬ WritesPlanes 1 (576 / 32) 224 7
        (Filter3x3_Input14x14_Stride2.outputIdx (depthwiseShape 1 576 14 14 3 3 7 7 1 2)) 1 576 14 14 ∧
    ¬ WritesPlanes 1 (576 / 32) 224 7
        (Filter3x3_Input14x14_Stride2.outputIdx (depthwiseShape 1 576 14 14 3 3 14 14 1 2)) 1 576 14 14 ∧
    ¬ WritesPlanes 1 (672 / 32) 224 7
        (Filter5x5_Input14x14_Stride2.outputIdx (depthwiseShape 1 672 14 14 5 5 7 7 2 2)) 1 672 14 14 ∧
    ¬ WritesPlanes 1 (672 / 32) 224 7
        (Filter5x5_Input14x14_Stride2.outputIdx (depthwiseShape 1 672 14 14 5 5 14 14 2 2)) 1 672 14 14 ∧
    Filter3x3_Input14x14_Stride2 1 (576 / 32) 224 (fun _ => (1 : Int)) (fun _ => 1) (fun _ => 7)
        (depthwiseShape 1 576 14 14 3 3 14 14 1 2) 1 0 (fun _ _ => ⟨fun _ => 0, fun _ => 0⟩)
        (nchw 576 14 14 0 0 7 0) = 7 ∧
    Filter5x5_Input14x14_Stride2 1 (672 / 32) 224 (fun _ => (1 : Int)) (fun _ => 1) (fun _ => 7)
        (depthwiseShape 1 672 14 14 5 5 14 14 2 2) 1 0 (fun _ _ => ⟨fun _ => 0, fun _ => 0⟩)
        (nchw 672 14 14 0 0 7 0) = 7 := by
  refine ⟨?_, ?_, ?_, ?_, ?_, ?_⟩
  · intro h
    obtain ⟨bx, hbx, b, hb, t, ht, k, hk, e, _⟩ :=
      h.2 0 (by decide) 575 (by decide) 13 (by decide) 13 (by decide)
    have hlt := (k14s2_storeBijection 1 576 (by decide)).1 bx hbx b hb t ht k hk
    rw [e] at hlt
    exact absurd hlt (by decide)
  · intro h
    obtain ⟨bx, hbx, b, hb, t, ht, k, hk, e, _⟩ :=
      h.2 0 (by decide) 0 (by decide) 13 (by decide) 13 (by decide)
    simp only [Filter3x3_Input14x14_Stride2.outputIdx, depthwiseShape, nchw] at e
    omega
  · intro h
    obtain ⟨bx, hbx, b, hb, t, ht, k, hk, e, _⟩ :=
      h.2 0 (by decide) 671 (by decide) 13 (by decide) 13 (by decide)
    have hlt := (k5x5_storeBijection 1 672 (by decide)).1 bx hbx b hb t ht k hk
    rw [e] at hlt
    exact absurd hlt (by decide)
  · intro h
    obtain ⟨bx, hbx, b, hb, t, ht, k, hk, e, _⟩ :=
      h.2 0 (by decide) 0 (by decide) 13 (by decide) 13 (by decide)
    simp only [Filter5x5_Input14x14_Stride2.outputIdx, depthwiseShape, nchw] at e
    omega
  · exact k14s2_hdr_untouched 1 576 _ _ _ 1 0 _ _ (by decide)
  · exact k5x5_hdr_untouched 1 672 _ _ _ 1 0 _ _ (by decide)

/-- Claim C22, amended: the 3x3 / 14x14 / stride 2 kernel and the 5x5 / 14x14 / stride 2
kernel map a 14 x 14 image per channel to a 7 x 7 output plane per channel (the header
comments, which give 14 x 14 as the output size, state the input size): with the channel
count a multiple of 32 and a launch of fewer than `2^31` input elements
(`batch * channel * 14 * 14 < 2 ^ 31`), every global index a lane computes is the value of the
32-bit `int` the source holds it in (`IndexFits32`), every lane performs 7 stores, the stores write in every plane exactly
7 rows of 7 columns, every element once, 7 being `floor((14 + 2 * padding - filterH) / 2) + 1`,
and a launch leaves the output buffer unchanged from index `batch * channel * 7 * 7` on. -/
theorem stride2_14x14_output_planes [Add α] [Mul α] [Zero α] (batch channel : Nat)
    (input filter output : Nat → α) (alpha beta : α) (shared : Nat → Nat → Shared α)
    (hch : channel % 32 = 0) (hsz : batch * channel * 14 * 14 < 2 ^ 31) :
    ((IndexFits32 batch (channel / 32) 224 7
      (fun bx b t => (Filter3x3_Input14x14_Stride2.inputLoads (depthwiseShape batch channel 14 14 3 3 7 7 1 2) bx b t).map (fun q => (q.2 : Int)))
      (Filter3x3_Input14x14_Stride2.outputIdx (depthwiseShape batch channel 14 14 3 3 7 7 1 2))) ∧
     (IndexFits32 batch (channel / 32) 224 7
      (fun bx b t => (Filter5x5_Input14x14_Stride2.inputLoads (depthwiseShape batch channel 14 14 5 5 7 7 2 2) bx b t).map (fun q => (q.2 : Int)))
      (Filter5x5_Input14x14_Stride2.outputIdx (depthwiseShape batch channel 14 14 5 5 7 7 2 2)))) ∧
    ((∀ (bx b t : Nat) (sh : Shared α),
        StoresAt (Filter3x3_Input14x14_Stride2.convolve (depthwiseShape batch channel 14 14 3 3 7 7 1 2) alpha beta bx b t sh) 7
          (Filter3x3_Input14x14_Stride2.outputIdx (depthwiseShape batch channel 14 14 3 3 7 7 1 2) bx b t)) ∧
      WritesPlanes batch (channel / 32) 224 7
        (Filter3x3_Input14x14_Stride2.outputIdx (depthwiseShape batch channel 14 14 3 3 7 7 1 2)) batch channel 7 7 ∧
      outDim 14 1 3 2 = 7 ∧
      (∀ i, batch * channel * 7 * 7 ≤ i →
        Filter3x3_Input14x14_Stride2 batch (channel / 32) 224 input filter output
          (depthwiseShape batch channel 14 14 3 3 7 7 1 2) alpha beta shared i = output i)) ∧
    ((∀ (bx b t : Nat) (sh : Shared α),
        StoresAt (Filter5x5_Input14x14_Stride2.convolve (depthwiseShape batch channel 14 14 5 5 7 7 2 2) alpha beta bx b t sh) 7
          (Filter5x5_Input14x14_Stride2.outputIdx (depthwiseShape batch channel 14 14 5 5 7 7 2 2) bx b t)) ∧
      WritesPlanes batch (channel / 32) 224 7
        (Filter5x5_Input14x14_Stride2.outputIdx (depthwiseShape batch channel 14 14 5 5 7 7 2 2)) batch channel 7 7 ∧
      outDim 14 2 5 2 = 7 ∧
      (∀ i, batch * channel * 7 * 7 ≤ i →
        Filter5x5_Input14x14_Stride2 batch (channel / 32) 224 input filter output
          (depthwiseShape batch channel 14 14 5 5 7 7 2 2) alpha beta shared i = output i)) := by
  refine ⟨⟨k14s2_fits32 batch channel hch hsz, k5x5_fits32 batch channel hch hsz⟩,
    ⟨fun bx b t sh => k14s2_convolve_stores batch channel alpha beta bx b t sh,
      writesPlanes_of_bijection _ _ _ _ _ batch channel 7 7 (k14s2_storeBijection batch channel hch),
      rfl, ?_⟩,
    ⟨fun bx b t sh => k5x5_convolve_stores batch channel alpha beta bx b t sh,
      writesPlanes_of_bijection _ _ _ _ _ batch channel 7 7 (k5x5_storeBijection batch channel hch),
      rfl, ?_⟩⟩
  · intro i hi
    rw [k14s2_launch_eq]
    exact k14s2_frameIn batch channel _ _ _ _ (mem_gridGroups _ _) (fun _ _ _ => List.mem_range)
      input filter output alpha beta shared i hch hi
  · intro i hi
    rw [k5x5_launch_eq]
    exact k5x5_frameIn batch channel _ _ _ _ (mem_gridGroups _ _) (fun _ _ _ => List.mem_range)
      input filter output alpha beta shared i hch hi

theorem stride2_14x14_output_planes_witness :
    (576 % 32 = 0 ∧ 1 * 576 * 14 * 14 < 2 ^ 31 ∧ 1 * 576 * 7 * 7 ≤ nchw 576 14 14 0 144 0 0) ∧
    Filter3x3_Input14x14_Stride2 1 (576 / 32) 224 (fun _ => (1 : Int)) (fun _ => 1) (fun _ => 7)
        (depthwiseShape 1 576 14 14 3 3 7 7 1 2) 1 0 (fun _ _ => ⟨fun _ => 0, fun _ => 0⟩)
        (nchw 576 14 14 0 144 0 0) = 7 :=
  ⟨⟨by decide, by decide, by decide⟩,
    (stride2_14x14_output_planes 1 576 (fun _ => (1 : Int)) (fun _ => 1) (fun _ => 7) 1 0
      (fun _ _ => ⟨fun _ => 0, fun _ => 0⟩) (by decide) (by decide)).2.1.2.2.2 (nchw 576 14 14 0 144 0 0) (by decide)⟩

/-! ## Claim C23: the staged tile of the channel-grouped kernels -/

/-- Counterexample to claim C24 as stated (tile row `T` of the even group would hold image row
`T - 1`, for every launch): with batch 171198 and 1 channel the flat index of input
element `[171197, 0, 0, 1]` is 2147495169, which is `2^31` or more.  With its first load, lane
1 of the even group `(171197, 0)` stores into tile position 116 = 1 * 114 + 2 (tile row 1,
column 2) what it reads at the index the source computes in 32-bit arithmetic and holds in an
`int`, whose value is then -2147472127: tile row 1 holds what lies before the input buffer,
not image row 0. -/
theorem Filter3x3_Input112x112_Stride2_tile_row_read_wraps :
    (171197 < 171198 ∧ 0 < 1 ∧ 0 < 112 ∧ 1 < 112) ∧
    ¬ (171198 * 1 * 112 * 112 < 2 ^ 31) ∧
    (Filter3x3_Input112x112_Stride2.inputLoads (depthwiseShape 171198 1 112 112 3 3 56 56 1 2) 171197 0 1).head? = some ((116, 2147495169) : Nat × Int) ∧
    (2147495169 : Int) = (nchw 1 112 112 171197 0 0 1 : Nat) ∧
    int32 2147495169 = -2147472127 ∧ int32 2147495169 < 0 :=
  ⟨by decide, by decide, by decide, by decide, by decide, by decide⟩

/-- Claim C24, amended: in `Filter3x3_Input112x112_Stride2`, for a launch of fewer than `2^31` input
elements (`batch * channel * 112 * 112 < 2 ^ 31`), every global index a lane computes is the
value of the 32-bit `int` the source holds it in (`IndexFits32`), and, for `n < batch` and
`c < channel`, after the load phase of the groups
`2 c` (even) and `2 c + 1` (odd) of plane `(n, c)`, in whatever order the lanes ran inside each
of its two steps (rows of the tile are 114 elements long): in the even group tile row 0 is zero
in columns 0..112 and tile row `T`, 1 <= T <= 56, holds image row `T - 1` in columns 1..112;
in the odd group tile row `T`, 0 <= T <= 56, holds image row `55 + T` in columns 1..112 and
tile row 57 is zero; in both groups column 0 of the rows 0..56 is zero. -/
theorem Filter3x3_Input112x112_Stride2_tile_rows [Zero α] (batch channel : Nat) (fo co : List Nat)
    (hfo : ∀ t, t ∈ fo ↔ t < 224) (hco : ∀ t, t ∈ co ↔ t < 224)
    (input filter : Nat → α) (n c : Nat) (sh : Shared α)
    (hn : n < batch) (hc : c < channel) (hsz : batch * channel * 112 * 112 < 2 ^ 31) :
    IndexFits32 batch (2 * channel) 224 7
      (fun bx b t => (Filter3x3_Input112x112_Stride2.inputLoads (depthwiseShape batch channel 112 112 3 3 56 56 1 2) bx b t).map Prod.snd)
      (Filter3x3_Input112x112_Stride2.outputIdx (depthwiseShape batch channel 112 112 3 3 56 56 1 2)) ∧
    (∀ j, j ≤ 112 → (Filter3x3_Input112x112_Stride2.stagedIn fo co input filter
          (depthwiseShape batch channel 112 112 3 3 56 56 1 2) n (2 * c) sh).inputData (0 * 114 + j) = 0) ∧
    (∀ T j, 1 ≤ T → T ≤ 56 → 1 ≤ j → j ≤ 112 →
      (Filter3x3_Input112x112_Stride2.stagedIn fo co input filter
          (depthwiseShape batch channel 112 112 3 3 56 56 1 2) n (2 * c) sh).inputData (T * 114 + j)
        = input (nchw channel 112 112 n c (T - 1) (j - 1))) ∧
    (∀ T j, T ≤ 56 → 1 ≤ j → j ≤ 112 →
      (Filter3x3_Input112x112_Stride2.stagedIn fo co input filter
          (depthwiseShape batch channel 112 112 3 3 56 56 1 2) n (2 * c + 1) sh).inputData (T * 114 + j)
        = input (nchw channel 112 112 n c (55 + T) (j - 1))) ∧
    (∀ j, j < 114 → (Filter3x3_Input112x112_Stride2.stagedIn fo co input filter
          (depthwiseShape batch channel 112 112 3 3 56 56 1 2) n (2 * c + 1) sh).inputData (57 * 114 + j) = 0) ∧
    (∀ T, T ≤ 56 →
      (Filter3x3_Input112x112_Stride2.stagedIn fo co input filter
          (depthwiseShape batch channel 112 112 3 3 56 56 1 2) n (2 * c) sh).inputData (T * 114 + 0) = 0 ∧
      (Filter3x3_Input112x112_Stride2.stagedIn fo co input filter
          (depthwiseShape batch channel 112 112 3 3 56 56 1 2) n (2 * c + 1) sh).inputData (T * 114 + 0) = 0) := by
  have he : 2 * c / 2 = c := by omega
  have ho : (2 * c + 1) / 2 = c := by omega
  refine ⟨k112_fits32 batch channel hsz, ?_, ?_, ?_, ?_, ?_⟩
  · intro j hj
    rw [k112_inputData_evenIn batch channel fo co hfo hco input filter n (2 * c) sh 0 j (by omega)
      (by omega) (by omega)]
    exact if_neg (by omega)
  · intro T j h1 h2 h3 h4
    rw [k112_inputData_evenIn batch channel fo co hfo hco input filter n (2 * c) sh T j (by omega)
      (by omega) (by omega), if_pos ⟨h1, h3⟩, he]
    congr 1
    unfold nchw
    ring
  · intro T j h2 h3 h4
    rw [k112_inputData_oddIn batch channel fo co hfo hco input filter n (2 * c + 1) sh T j
      (by omega) (by omega) (by omega), if_pos h3, ho]
    congr 1
    unfold nchw
    ring
  · intro j hj
    exact k112_inputData_odd57In batch channel fo co hfo hco input filter n (2 * c + 1) sh j
      (by omega) hj
  · intro T hT
    constructor
    · rw [k112_inputData_evenIn batch channel fo co hfo hco input filter n (2 * c) sh T 0
        (by omega) (by omega) (by omega)]
      exact if_neg (by omega)
    · rw [k112_inputData_oddIn batch channel fo co hfo hco input filter n (2 * c + 1) sh T 0
        (by omega) (by omega) (by omega)]
      exact if_neg (by omega)

theorem Filter3x3_Input112x112_Stride2_tile_rows_witness :
    ((∀ t, t ∈ List.range 224 ↔ t < 224) ∧ 1 < 2 ∧ 2 < 3 ∧ 2 * 3 * 112 * 112 < 2 ^ 31 ∧
      56 ≤ 56 ∧ 1 ≤ 112 ∧ 112 ≤ 112) ∧
    (Filter3x3_Input112x112_Stride2.stagedIn (List.range 224) (List.range 224) (fun i => (i : Int) + 1)
        (fun _ => 0) (depthwiseShape 2 3 112 112 3 3 56 56 1 2) 1 (2 * 2 + 1)
        ⟨fun _ => 7, fun _ => 7⟩).inputData (56 * 114 + 112)
      = (fun i => (i : Int) + 1) (nchw 3 112 112 1 2 (55 + 56) (112 - 1)) :=
  ⟨⟨fun _ => List.mem_range, by decide, by decide, by decide, by decide, by decide, by decide⟩,
    (Filter3x3_Input112x112_Stride2_tile_rows 2 3 (List.range 224) (List.range 224)
      (fun _ => List.mem_range) (fun _ => List.mem_range) (fun i => (i : Int) + 1) (fun _ => 0) 1 2
      ⟨fun _ => 7, fun _ => 7⟩ (by decide) (by decide) (by decide)).2.2.2.1 56 112 (by decide) (by decide) (by decide)⟩

/-! ## Claim C25: targets of the zero fill and of the bulk copy -/

/-- Claim C27: for every variant (`c16`, `c32`, `c8`, `c1` are the channel counts of the
variants whose channel group has 16, 32, 8 and 1 channels) and every group: the load phase
performs exactly the stores its traces list; every tile position and every filter-scratch
position inside the region the compute phase reads (what a lane computes does not change when
the scratch arrays are changed outside it) is the target of a store of some lane of the load
phase of the same group; and, under the variant's preconditions, the output buffer of a launch
does not depend on the initial contents `shared`, `shared'` of the scratch arrays. -/
theorem compute_reads_only_staged [Add α] [Mul α] [Zero α] (batch c16 c32 c8 c1 : Nat)
    (input filter output : Nat → α) (alpha beta : α) (shared shared' : Nat → Nat → Shared α)
    (h16 : c16 % 16 = 0) (h32 : c32 % 32 = 0) (h8 : c8 % 8 = 0) :
    ((∀ bx b : Nat,
        LoadTrace (Filter3x3_Input14x14_Stride1.fillPhase filter (depthwiseShape batch c16 14 14 3 3 14 14 1 1) bx b)
        (Filter3x3_Input14x14_Stride1.copyPhase input (depthwiseShape batch c16 14 14 3 3 14 14 1 1) bx b)
        (Filter3x3_Input14x14_Stride1.paddingStores (depthwiseShape batch c16 14 14 3 3 14 14 1 1))
        (fun t => (Filter3x3_Input14x14_Stride1.inputLoads (depthwiseShape batch c16 14 14 3 3 14 14 1 1) bx b t).map (fun q => (q.1, input q.2)))
        (fun t => (Filter3x3_Input14x14_Stride1.filterStores (depthwiseShape batch c16 14 14 3 3 14 14 1 1) b t).map (fun q => (q.1, filter q.2))) ∧
        ReadsOnlyWritten 224 (16 * 14 * 16) (16 * (3 * 3))
          (Filter3x3_Input14x14_Stride1.paddingStores (depthwiseShape batch c16 14 14 3 3 14 14 1 1))
          (fun t => (Filter3x3_Input14x14_Stride1.inputLoads (depthwiseShape batch c16 14 14 3 3 14 14 1 1) bx b t).map Prod.fst)
          (Filter3x3_Input14x14_Stride1.filterStores (depthwiseShape batch c16 14 14 3 3 14 14 1 1) b)
          (fun t sh out => Filter3x3_Input14x14_Stride1.convolve (depthwiseShape batch c16 14 14 3 3 14 14 1 1) alpha beta bx b t sh (out : Nat → α))) ∧
      Filter3x3_Input14x14_Stride1 batch (c16 / 16) 224 input filter output
          (depthwiseShape batch c16 14 14 3 3 14 14 1 1) alpha beta shared
        = Filter3x3_Input14x14_Stride1 batch (c16 / 16) 224 input filter output
          (depthwiseShape batch c16 14 14 3 3 14 14 1 1) alpha beta shared') ∧
    ((∀ bx b : Nat,
        LoadTrace (Filter3x3_Input112x112_Stride2.fillPhase filter (depthwiseShape batch c1 112 112 3 3 56 56 1 2) bx b)
        (Filter3x3_Input112x112_Stride2.copyPhase input (depthwiseShape batch c1 112 112 3 3 56 56 1 2) bx b)
        (Filter3x3_Input112x112_Stride2.paddingStores (depthwiseShape batch c1 112 112 3 3 56 56 1 2))
        (fun t => (Filter3x3_Input112x112_Stride2.inputLoads (depthwiseShape batch c1 112 112 3 3 56 56 1 2) bx b t).map (fun q => (q.1, input q.2.toNat)))
        (fun t => (Filter3x3_Input112x112_Stride2.filterStores (depthwiseShape batch c1 112 112 3 3 56 56 1 2) b t).map (fun q => (q.1, filter q.2))) ∧
        ReadsOnlyWritten 224 (57 * 114) (9)
          (Filter3x3_Input112x112_Stride2.paddingStores (depthwiseShape batch c1 112 112 3 3 56 56 1 2))
          (fun t => (Filter3x3_Input112x112_Stride2.inputLoads (depthwiseShape batch c1 112 112 3 3 56 56 1 2) bx b t).map Prod.fst)
          (Filter3x3_Input112x112_Stride2.filterStores (depthwiseShape batch c1 112 112 3 3 56 56 1 2) b)
          (fun t sh out => Filter3x3_Input112x112_Stride2.convolve (depthwiseShape batch c1 112 112 3 3 56 56 1 2) alpha beta bx b t sh (out : Nat → α))) ∧
      Filter3x3_Input112x112_Stride2 batch (2 * c1) 224 input filter output
          (depthwiseShape batch c1 112 112 3 3 56 56 1 2) alpha beta shared
        = Filter3x3_Input112x112_Stride2 batch (2 * c1) 224 input filter output
          (depthwiseShape batch c1 112 112 3 3 56 56 1 2) alpha beta shared') ∧
    ((∀ bx b : Nat,
        LoadTrace (Filter5x5_Input14x14_Stride2.fillPhase filter (depthwiseShape batch c32 14 14 5 5 7 7 2 2) bx b)
        (Filter5x5_Input14x14_Stride2.copyPhase input (depthwiseShape batch c32 14 14 5 5 7 7 2 2) bx b)
        (Filter5x5_Input14x14_Stride2.paddingStores (depthwiseShape batch c32 14 14 5 5 7 7 2 2))
        (fun t => (Filter5x5_Input14x14_Stride2.inputLoads (depthwiseShape batch c32 14 14 5 5 7 7 2 2) bx b t).map (fun q => (q.1, input q.2)))
        (fun t => (Filter5x5_Input14x14_Stride2.filterStores (depthwiseShape batch c32 14 14 5 5 7 7 2 2) b t).map (fun q => (q.1, filter q.2))) ∧
        ReadsOnlyWritten 224 (32 * 14 * 18) (32 * (5 * 5))
          (Filter5x5_Input14x14_Stride2.paddingStores (depthwiseShape batch c32 14 14 5 5 7 7 2 2))
          (fun t => (Filter5x5_Input14x14_Stride2.inputLoads (depthwiseShape batch c32 14 14 5 5 7 7 2 2) bx b t).map Prod.fst)
          (Filter5x5_Input14x14_Stride2.filterStores (depthwiseShape batch c32 14 14 5 5 7 7 2 2) b)
          (fun t sh out => Filter5x5_Input14x14_Stride2.convolve (depthwiseShape batch c32 14 14 5 5 7 7 2 2) alpha beta bx b t sh (out : Nat → α))) ∧
      Filter5x5_Input14x14_Stride2 batch (c32 / 32) 224 input filter output
          (depthwiseShape batch c32 14 14 5 5 7 7 2 2) alpha beta shared
        = Filter5x5_Input14x14_Stride2 batch (c32 / 32) 224 input filter output
          (depthwiseShape batch c32 14 14 5 5 7 7 2 2) alpha beta shared') ∧
    ((∀ bx b : Nat,
        LoadTrace (Filter3x3_Input28x28_Stride2.fillPhase filter (depthwiseShape batch c8 28 28 3 3 14 14 1 2) bx b)
        (Filter3x3_Input28x28_Stride2.copyPhase input (depthwiseShape batch c8 28 28 3 3 14 14 1 2) bx b)
        (Filter3x3_Input28x28_Stride2.paddingStores (depthwiseShape batch c8 28 28 3 3 14 14 1 2))
        (fun t => (Filter3x3_Input28x28_Stride2.inputLoads (depthwiseShape batch c8 28 28 3 3 14 14 1 2) bx b t).map (fun q => (q.1, input q.2)))
        (fun t => (Filter3x3_Input28x28_Stride2.filterStores (depthwiseShape batch c8 28 28 3 3 14 14 1 2) b t).map (fun q => (q.1, filter q.2))) ∧
        ReadsOnlyWritten 112 (8 * 28 * 30) (8 * (3 * 3))
          (Filter3x3_Input28x28_Stride2.paddingStores (depthwiseShape batch c8 28 28 3 3 14 14 1 2))
          (fun t => (Filter3x3_Input28x28_Stride2.inputLoads (depthwiseShape batch c8 28 28 3 3 14 14 1 2) bx b t).map Prod.fst)
          (Filter3x3_Input28x28_Stride2.filterStores (depthwiseShape batch c8 28 28 3 3 14 14 1 2) b)
          (fun t sh out => Filter3x3_Input28x28_Stride2.convolve (depthwiseShape batch c8 28 28 3 3 14 14 1 2) alpha beta bx b t sh (out : Nat → α))) ∧
      Filter3x3_Input28x28_Stride2 batch (c8 / 8) 112 input filter output
          (depthwiseShape batch c8 28 28 3 3 14 14 1 2) alpha beta shared
        = Filter3x3_Input28x28_Stride2 batch (c8 / 8) 112 input filter output
          (depthwiseShape batch c8 28 28 3 3 14 14 1 2) alpha beta shared') ∧
    ((∀ bx b : Nat,
        LoadTrace (Filter3x3_Input14x14_Stride2.fillPhase filter (depthwiseShape batch c32 14 14 3 3 7 7 1 2) bx b)
        (Filter3x3_Input14x14_Stride2.copyPhase input (depthwiseShape batch c32 14 14 3 3 7 7 1 2) bx b)
        (Filter3x3_Input14x14_Stride2.paddingStores (depthwiseShape batch c32 14 14 3 3 7 7 1 2))
        (fun t => (Filter3x3_Input14x14_Stride2.inputLoads (depthwiseShape batch c32 14 14 3 3 7 7 1 2) bx b t).map (fun q => (q.1, input q.2)))
        (fun t => (Filter3x3_Input14x14_Stride2.filterStores (depthwiseShape batch c32 14 14 3 3 7 7 1 2) b t).map (fun q => (q.1, filter q.2))) ∧
        ReadsOnlyWritten 224 (32 * 14 * 16) (32 * (3 * 3))
          (Filter3x3_Input14x14_Stride2.paddingStores (depthwiseShape batch c32 14 14 3 3 7 7 1 2))
          (fun t => (Filter3x3_Input14x14_Stride2.inputLoads (depthwiseShape batch c32 14 14 3 3 7 7 1 2) bx b t).map Prod.fst)
          (Filter3x3_Input14x14_Stride2.filterStores (depthwiseShape batch c32 14 14 3 3 7 7 1 2) b)
          (fun t sh out => Filter3x3_Input14x14_Stride2.convolve (depthwiseShape batch c32 14 14 3 3 7 7 1 2) alpha beta bx b t sh (out : Nat → α))) ∧
      Filter3x3_Input14x14_Stride2 batch (c32 / 32) 224 input filter output
          (depthwiseShape batch c32 14 14 3 3 7 7 1 2) alpha beta shared
        = Filter3x3_Input14x14_Stride2 batch (c32 / 32) 224 input filter output
          (depthwiseShape batch c32 14 14 3 3 7 7 1 2) alpha beta shared') ∧
    ((∀ bx b : Nat,
        LoadTrace (Filter3x3_Input28x28_Stride1.fillPhase filter (depthwiseShape batch c8 28 28 3 3 28 28 1 1) bx b)
        (Filter3x3_Input28x28_Stride1.copyPhase input (depthwiseShape batch c8 28 28 3 3 28 28 1 1) bx b)
        (Filter3x3_Input28x28_Stride1.paddingStores (depthwiseShape batch c8 28 28 3 3 28 28 1 1))
        (fun t => (Filter3x3_Input28x28_Stride1.inputLoads (depthwiseShape batch c8 28 28 3 3 28 28 1 1) bx b t).map (fun q => (q.1, input q.2)))
        (fun t => (Filter3x3_Input28x28_Stride1.filterStores (depthwiseShape batch c8 28 28 3 3 28 28 1 1) b t).map (fun q => (q.1, filter q.2))) ∧
        ReadsOnlyWritten 224 (8 * 28 * 30) (8 * (3 * 3))
          (Filter3x3_Input28x28_Stride1.paddingStores (depthwiseShape batch c8 28 28 3 3 28 28 1 1))
          (fun t => (Filter3x3_Input28x28_Stride1.inputLoads (depthwiseShape batch c8 28 28 3 3 28 28 1 1) bx b t).map Prod.fst)
          (Filter3x3_Input28x28_Stride1.filterStores (depthwiseShape batch c8 28 28 3 3 28 28 1 1) b)
          (fun t sh out => Filter3x3_Input28x28_Stride1.convolve (depthwiseShape batch c8 28 28 3 3 28 28 1 1) alpha beta bx b t sh (out : Nat → α))) ∧
      Filter3x3_Input28x28_Stride1 batch (c8 / 8) 224 input filter output
          (depthwiseShape batch c8 28 28 3 3 28 28 1 1) alpha beta shared
        = Filter3x3_Input28x28_Stride1 batch (c8 / 8) 224 input filter output
          (depthwiseShape batch c8 28 28 3 3 28 28 1 1) alpha beta shared') ∧
    ((∀ bx b : Nat,
        LoadTrace (Filter3x3_Input56x56_Stride1.fillPhase filter (depthwiseShape batch c1 56 56 3 3 56 56 1 1) bx b)
        (Filter3x3_Input56x56_Stride1.copyPhase input (depthwiseShape batch c1 56 56 3 3 56 56 1 1) bx b)
        (Filter3x3_Input56x56_Stride1.paddingStores (depthwiseShape batch c1 56 56 3 3 56 56 1 1))
        (fun t => (Filter3x3_Input56x56_Stride1.inputLoads (depthwiseShape batch c1 56 56 3 3 56 56 1 1) bx b t).map (fun q => (q.1, input q.2)))
        (fun t => (Filter3x3_Input56x56_Stride1.filterStores (depthwiseShape batch c1 56 56 3 3 56 56 1 1) b t).map (fun q => (q.1, filter q.2))) ∧
        ReadsOnlyWritten 224 (58 * 58) (9)
          (Filter3x3_Input56x56_Stride1.paddingStores (depthwiseShape batch c1 56 56 3 3 56 56 1 1))
          (fun t => (Filter3x3_Input56x56_Stride1.inputLoads (depthwiseShape batch c1 56 56 3 3 56 56 1 1) bx b t).map Prod.fst)
          (Filter3x3_Input56x56_Stride1.filterStores (depthwiseShape batch c1 56 56 3 3 56 56 1 1) b)
          (fun t sh out => Filter3x3_Input56x56_Stride1.convolve (depthwiseShape batch c1 56 56 3 3 56 56 1 1) alpha beta bx b t sh (out : Nat → α))) ∧
      Filter3x3_Input56x56_Stride1 batch (c1) 224 input filter output
          (depthwiseShape batch c1 56 56 3 3 56 56 1 1) alpha beta shared
        = Filter3x3_Input56x56_Stride1 batch (c1) 224 input filter output
          (depthwiseShape batch c1 56 56 3 3 56 56 1 1) alpha beta shared') := by
  refine ⟨?_, ?_, ?_, ?_, ?_, ?_, ?_⟩
  · refine ⟨fun bx b => ⟨k14s1_load_trace batch c16 input filter bx b,
      k14s1_reads_only_written batch c16 alpha beta bx b⟩, ?_⟩
    rw [k14s1_launch_eq]
    exact k14s1_schedule_eq batch c16 h16 _ _ _ _ (isSchedule_grid _ _ _) input filter output
      alpha beta shared shared'
  · refine ⟨fun bx b => ⟨k112_load_trace batch c1 input filter bx b,
      k112_reads_only_written batch c1 alpha beta bx b⟩, ?_⟩
    rw [k112_launch_eq]
    exact k112_schedule_eq batch c1 _ _ _ _ (isSchedule_grid _ _ _) input filter output
      alpha beta shared shared'
  · refine ⟨fun bx b => ⟨k5x5_load_trace batch c32 input filter bx b,
      k5x5_reads_only_written batch c32 alpha beta bx b⟩, ?_⟩
    rw [k5x5_launch_eq]
    exact k5x5_schedule_eq batch c32 h32 _ _ _ _ (isSchedule_grid _ _ _) input filter output
      alpha beta shared shared'
  · refine ⟨fun bx b => ⟨k28s2_load_trace batch c8 input filter bx b,
      k28s2_reads_only_written batch c8 alpha beta bx b⟩, ?_⟩
    rw [k28s2_launch_eq]
    exact k28s2_schedule_eq batch c8 h8 _ _ _ _ (isSchedule_grid _ _ _) input filter output
      alpha beta shared shared'
  · refine ⟨fun bx b => ⟨k14s2_load_trace batch c32 input filter bx b,
      k14s2_reads_only_written batch c32 alpha beta bx b⟩, ?_⟩
    rw [k14s2_launch_eq]
    exact k14s2_schedule_eq batch c32 h32 _ _ _ _ (isSchedule_grid _ _ _) input filter output
      alpha beta shared shared'
  · refine ⟨fun bx b => ⟨k28s1_load_trace batch c8 input filter bx b,
      k28s1_reads_only_written batch c8 alpha beta bx b⟩, ?_⟩
    rw [k28s1_launch_eq]
    exact k28s1_schedule_eq batch c8 h8 _ _ _ _ (isSchedule_grid _ _ _) input filter output
      alpha beta shared shared'
  · refine ⟨fun bx b => ⟨k56_load_trace batch c1 input filter bx b,
      k56_reads_only_written batch c1 alpha beta bx b⟩, ?_⟩
    rw [k56_launch_eq]
    exact k56_schedule_eq batch c1 _ _ _ _ (isSchedule_grid _ _ _) input filter output
      alpha beta shared shared'

theorem compute_reads_only_staged_witness :
    (16 % 16 = 0 ∧ 32 % 32 = 0 ∧ 8 % 8 = 0) ∧
    Filter3x3_Input112x112_Stride2 1 (2 * 1) 224 (fun i => (i : Int) + 1) (fun i => (i : Int) + 2)
        (fun _ => 0) (depthwiseShape 1 1 112 112 3 3 56 56 1 2) 3 5 (fun _ _ => ⟨fun _ => 7, fun _ => 7⟩)
      = Filter3x3_Input112x112_Stride2 1 (2 * 1) 224 (fun i => (i : Int) + 1) (fun i => (i : Int) + 2)
        (fun _ => 0) (depthwiseShape 1 1 112 112 3 3 56 56 1 2) 3 5
        (fun bx b => ⟨fun i => bx + b + i, fun i => 2 * i + 1⟩) :=
  ⟨⟨by decide, by decide, by decide⟩,
    ((compute_reads_only_staged 1 16 32 8 1 (fun i => (i : Int) + 1) (fun i => (i : Int) + 2)
      (fun _ => 0) 3 5 (fun _ _ => ⟨fun _ => 7, fun _ => 7⟩)
      (fun bx b => ⟨fun i => bx + b + i, fun i => 2 * i + 1⟩)
      (by decide) (by decide) (by decide)).2.1).2⟩

/-! ## Claim C28: the order of accumulation -/

/-- Counterexample to claim C30 as stated (on entry to iteration `i` the register `sum0` would
be `F(0).R(3 i - 1) + F(1).R(3 i)`, the sum of two 3-tap product sums, with no restriction to
exact arithmetic): in binary32 arithmetic, for lane 0 with all filter taps 1 and a tile whose
window of row 2 is `16777216, 0, 0` (`16777216 = 2^24`) and whose window of row 3 is `1, 1, 0`,
on entry to iteration 1 the register holds `16777216` (each `+ 1` is rounded away when the
six products are added one after the other), whereas `F(0).R(2) = 16777216` and `F(1).R(3) = 2`
add up to `16777218`. -/
theorem Filter3x3_Input28x28_Stride1_sum0_is_not_sum_of_row_dots :
    (Filter3x3_Input28x28_Stride1.rowLoopEntry (depthwiseShape 1 8 28 28 3 3 28 28 1 1) (Flt.fin 1) (Flt.fin 0) 0 0 0
        (⟨fun _ => Flt.fin 1, fun a => if a = 60 then Flt.fin 16777216 else if a = 90 ∨ a = 91 then Flt.fin 1 else Flt.fin 0⟩ : Shared Flt)
        (fun _ => Flt.fin 0) 1).sum0 = Flt.fin 16777216 ∧
    nestSum (taps 3 (fun j => (⟨fun _ => Flt.fin 1, fun a => if a = 60 then Flt.fin 16777216 else if a = 90 ∨ a = 91 then Flt.fin 1 else Flt.fin 0⟩ : Shared Flt).filterData (0 / 28 * 3 * 3 + j))
        (fun r kw => (⟨fun _ => Flt.fin 1, fun a => if a = 60 then Flt.fin 16777216 else if a = 90 ∨ a = 91 then Flt.fin 1 else Flt.fin 0⟩ : Shared Flt).inputData (0 / 28 * 30 * 28 + 0 % 28 + r * 30 + kw)) [(0, 3 * 1 - 1)]) = Flt.fin 16777216 ∧
    nestSum (taps 3 (fun j => (⟨fun _ => Flt.fin 1, fun a => if a = 60 then Flt.fin 16777216 else if a = 90 ∨ a = 91 then Flt.fin 1 else Flt.fin 0⟩ : Shared Flt).filterData (0 / 28 * 3 * 3 + j))
        (fun r kw => (⟨fun _ => Flt.fin 1, fun a => if a = 60 then Flt.fin 16777216 else if a = 90 ∨ a = 91 then Flt.fin 1 else Flt.fin 0⟩ : Shared Flt).inputData (0 / 28 * 30 * 28 + 0 % 28 + r * 30 + kw)) [(1, 3 * 1)]) = Flt.fin 2 ∧
    (Filter3x3_Input28x28_Stride1.rowLoopEntry (depthwiseShape 1 8 28 28 3 3 28 28 1 1) (Flt.fin 1) (Flt.fin 0) 0 0 0
        (⟨fun _ => Flt.fin 1, fun a => if a = 60 then Flt.fin 16777216 else if a = 90 ∨ a = 91 then Flt.fin 1 else Flt.fin 0⟩ : Shared Flt)
        (fun _ => Flt.fin 0) 1).sum0
      ≠ nestSum (taps 3 (fun j => (⟨fun _ => Flt.fin 1, fun a => if a = 60 then Flt.fin 16777216 else if a = 90 ∨ a = 91 then Flt.fin 1 else Flt.fin 0⟩ : Shared Flt).filterData (0 / 28 * 3 * 3 + j))
          (fun r kw => (⟨fun _ => Flt.fin 1, fun a => if a = 60 then Flt.fin 16777216 else if a = 90 ∨ a = 91 then Flt.fin 1 else Flt.fin 0⟩ : Shared Flt).inputData (0 / 28 * 30 * 28 + 0 % 28 + r * 30 + kw)) [(0, 3 * 1 - 1)])
        + nestSum (taps 3 (fun j => (⟨fun _ => Flt.fin 1, fun a => if a = 60 then Flt.fin 16777216 else if a = 90 ∨ a = 91 then Flt.fin 1 else Flt.fin 0⟩ : Shared Flt).filterData (0 / 28 * 3 * 3 + j))
          (fun r kw => (⟨fun _ => Flt.fin 1, fun a => if a = 60 then Flt.fin 16777216 else if a = 90 ∨ a = 91 then Flt.fin 1 else Flt.fin 0⟩ : Shared Flt).inputData (0 / 28 * 30 * 28 + 0 % 28 + r * 30 + kw)) [(1, 3 * 1)]) := by
  rw [k28s1_rowLoop_entry 1 8 _ _ 0 0 0 _ _ 1 (by decide)]
  refine ⟨by decide, by decide, by decide, by decide⟩

/-- Claim C30, amended: in `Filter3x3_Input28x28_Stride1`, for a lane `t` with staged arrays `sh`,
write `R r kw` for element `kw` of the lane's window of tile row `r` of its channel and `F j`
for tap `j` of its channel.  The lane program is the statements before the row loop, eight runs
of the loop body and the statements after it.  With no property of `+` and `*` assumed, on
entry to iteration `i < 8`: `sum0` is the left-nested sum of the six products
`F(0..2) * R(3 i - 1)`, `F(3..5) * R(3 i)` in this order (of the three products
`F(3..5) * R(0)` when `i = 0`), `sum1` is the left-nested sum of the three products
`F(0..2) * R(3 i)`, and the output buffer is the initial one with exactly the rows
`0 .. 3 i - 1` of the lane's column written.  The loop body writes the output rows `3 i`,
`3 i + 1` and `3 i + 2` (and nothing else), and the same relation holds for `i + 1`.  In exact
arithmetic (over every commutative ring) these sums are
`sum0 = rowDot F R 0 (3 i - 1) + rowDot F R 1 (3 i)` (the first term absent when `i = 0`) and
`sum1 = rowDot F R 0 (3 i)`, where `rowDot F R k r` is the 3-tap product sum of filter row `k`
with tile row `r`. -/
theorem Filter3x3_Input28x28_Stride1_row_loop_invariant [Add α] [Mul α] [Zero α] (batch channel : Nat)
    (alpha beta : α) (bx b t : Nat) (sh : Shared α) (out : Nat → α) (i : Nat) (hi : i < 8) :
    Filter3x3_Input28x28_Stride1.convolve (depthwiseShape batch channel 28 28 3 3 28 28 1 1) alpha beta bx b t sh out
      = Filter3x3_Input28x28_Stride1.afterLoop (depthwiseShape batch channel 28 28 3 3 28 28 1 1) alpha beta bx b t sh
          (Filter3x3_Input28x28_Stride1.rowLoopEntry (depthwiseShape batch channel 28 28 3 3 28 28 1 1)
        alpha beta bx b t sh out 8) ∧
    ((Filter3x3_Input28x28_Stride1.rowLoopEntry (depthwiseShape batch channel 28 28 3 3 28 28 1 1)
        alpha beta bx b t sh out i).sum0
        = nestSum (taps 3 (fun j => sh.filterData (t / 28 * 3 * 3 + j))
            (fun r kw => sh.inputData (t / 28 * 30 * 28 + t % 28 + r * 30 + kw))
            (if i = 0 then [(1, 0)] else [(0, 3 * i - 1), (1, 3 * i)])) ∧
      (Filter3x3_Input28x28_Stride1.rowLoopEntry (depthwiseShape batch channel 28 28 3 3 28 28 1 1)
        alpha beta bx b t sh out i).sum1
        = nestSum (taps 3 (fun j => sh.filterData (t / 28 * 3 * 3 + j))
            (fun r kw => sh.inputData (t / 28 * 30 * 28 + t % 28 + r * 30 + kw)) [(0, 3 * i)]) ∧
      (Filter3x3_Input28x28_Stride1.rowLoopEntry (depthwiseShape batch channel 28 28 3 3 28 28 1 1)
        alpha beta bx b t sh out i).output
        = writeRows (Filter3x3_Input28x28_Stride1.outputIdx (depthwiseShape batch channel 28 28 3 3 28 28 1 1) bx b t 0) 28
          ((List.range (3 * i)).map (fun k => nestSum (taps 3 (fun j => sh.filterData (t / 28 * 3 * 3 + j))
            (fun r kw => sh.inputData (t / 28 * 30 * 28 + t % 28 + r * 30 + kw)) (tapRows 3 28 1 1 k)) * alpha + beta)) out) ∧
    (Filter3x3_Input28x28_Stride1.rowLoopEntry (depthwiseShape batch channel 28 28 3 3 28 28 1 1)
        alpha beta bx b t sh out (i + 1))
      = Filter3x3_Input28x28_Stride1.rowLoopBody (depthwiseShape batch channel 28 28 3 3 28 28 1 1) alpha beta sh.filterData sh.inputData
          30 (t / 28 * 30 * 28 + t % 28) (t / 28 * 3 * 3)
          (Filter3x3_Input28x28_Stride1.rowLoopEntry (depthwiseShape batch channel 28 28 3 3 28 28 1 1)
        alpha beta bx b t sh out i) ∧
    (Filter3x3_Input28x28_Stride1.rowLoopEntry (depthwiseShape batch channel 28 28 3 3 28 28 1 1)
        alpha beta bx b t sh out (i + 1)).output
      = writeRows (Filter3x3_Input28x28_Stride1.outputIdx (depthwiseShape batch channel 28 28 3 3 28 28 1 1) bx b t (3 * i)) 28
          [(fun k => nestSum (taps 3 (fun j => sh.filterData (t / 28 * 3 * 3 + j))
            (fun r kw => sh.inputData (t / 28 * 30 * 28 + t % 28 + r * 30 + kw)) (tapRows 3 28 1 1 k)) * alpha + beta) (3 * i),
            (fun k => nestSum (taps 3 (fun j => sh.filterData (t / 28 * 3 * 3 + j))
            (fun r kw => sh.inputData (t / 28 * 30 * 28 + t % 28 + r * 30 + kw)) (tapRows 3 28 1 1 k)) * alpha + beta) (3 * i + 1),
            (fun k => nestSum (taps 3 (fun j => sh.filterData (t / 28 * 3 * 3 + j))
            (fun r kw => sh.inputData (t / 28 * 30 * 28 + t % 28 + r * 30 + kw)) (tapRows 3 28 1 1 k)) * alpha + beta) (3 * i + 2)]
          (Filter3x3_Input28x28_Stride1.rowLoopEntry (depthwiseShape batch channel 28 28 3 3 28 28 1 1)
        alpha beta bx b t sh out i).output ∧
    ((Filter3x3_Input28x28_Stride1.rowLoopEntry (depthwiseShape batch channel 28 28 3 3 28 28 1 1)
        alpha beta bx b t sh out (i + 1)).sum0
        = nestSum (taps 3 (fun j => sh.filterData (t / 28 * 3 * 3 + j))
            (fun r kw => sh.inputData (t / 28 * 30 * 28 + t % 28 + r * 30 + kw))
            [(0, 3 * (i + 1) - 1), (1, 3 * (i + 1))]) ∧
      (Filter3x3_Input28x28_Stride1.rowLoopEntry (depthwiseShape batch channel 28 28 3 3 28 28 1 1)
        alpha beta bx b t sh out (i + 1)).sum1
        = nestSum (taps 3 (fun j => sh.filterData (t / 28 * 3 * 3 + j))
            (fun r kw => sh.inputData (t / 28 * 30 * 28 + t % 28 + r * 30 + kw)) [(0, 3 * (i + 1))]) ∧
      (Filter3x3_Input28x28_Stride1.rowLoopEntry (depthwiseShape batch channel 28 28 3 3 28 28 1 1)
        alpha beta bx b t sh out (i + 1)).output
        = writeRows (Filter3x3_Input28x28_Stride1.outputIdx (depthwiseShape batch channel 28 28 3 3 28 28 1 1) bx b t 0) 28
          ((List.range (3 * (i + 1))).map (fun k => nestSum (taps 3 (fun j => sh.filterData (t / 28 * 3 * 3 + j))
            (fun r kw => sh.inputData (t / 28 * 30 * 28 + t % 28 + r * 30 + kw)) (tapRows 3 28 1 1 k)) * alpha + beta)) out) ∧
    (∀ (β : Type) [CommRing β] (alpha' beta' : β) (sh' : Shared β) (out' : Nat → β),
      (Filter3x3_Input28x28_Stride1.rowLoopEntry (depthwiseShape batch channel 28 28 3 3 28 28 1 1)
          alpha' beta' bx b t sh' out' i).sum0
        = (if i = 0 then 0 else rowDot (fun j => sh'.filterData (t / 28 * 3 * 3 + j))
            (fun r kw => sh'.inputData (t / 28 * 30 * 28 + t % 28 + r * 30 + kw)) 0 (3 * i - 1))
          + rowDot (fun j => sh'.filterData (t / 28 * 3 * 3 + j))
            (fun r kw => sh'.inputData (t / 28 * 30 * 28 + t % 28 + r * 30 + kw)) 1 (3 * i) ∧
      (Filter3x3_Input28x28_Stride1.rowLoopEntry (depthwiseShape batch channel 28 28 3 3 28 28 1 1)
          alpha' beta' bx b t sh' out' i).sum1
        = rowDot (fun j => sh'.filterData (t / 28 * 3 * 3 + j))
            (fun r kw => sh'.inputData (t / 28 * 30 * 28 + t % 28 + r * 30 + kw)) 0 (3 * i)) := by
  have h0 := k28s1_rowLoop_entry batch channel alpha beta bx b t sh out i (by omega)
  have h1 := k28s1_rowLoop_entry batch channel alpha beta bx b t sh out (i + 1) (by omega)
  have hb : Filter3x3_Input28x28_Stride1.outputIdx (depthwiseShape batch channel 28 28 3 3 28 28 1 1) bx b t 0 + 3 * i * 28
      = Filter3x3_Input28x28_Stride1.outputIdx (depthwiseShape batch channel 28 28 3 3 28 28 1 1) bx b t (3 * i) := by
    simp only [Filter3x3_Input28x28_Stride1.outputIdx, depthwiseShape]
    omega
  have hz1 : ¬ (i + 1 = 0) := by omega
  refine ⟨k28s1_convolve_split _ alpha beta bx b t sh out, ⟨?_, ?_, ?_⟩,
    k28s1_rowLoop_step _ alpha beta bx b t sh out i, ?_, ⟨?_, ?_, ?_⟩, ?_⟩
  · rw [h0]
  · rw [h0]
  · rw [h0]
  · rw [h1, h0]
    show writeRows _ 28 ((List.range (3 * i + 3)).map _) out = _
    rw [writeRows_range_three, hb]
  · have e : (Filter3x3_Input28x28_Stride1.rowLoopEntry (depthwiseShape batch channel 28 28 3 3 28 28 1 1)
        alpha beta bx b t sh out (i + 1)).sum0
        = nestSum (taps 3 (fun j => sh.filterData (t / 28 * 3 * 3 + j))
            (fun r kw => sh.inputData (t / 28 * 30 * 28 + t % 28 + r * 30 + kw))
            (if i + 1 = 0 then [(1, 0)] else [(0, 3 * (i + 1) - 1), (1, 3 * (i + 1))])) := by
      rw [h1]
    rw [e, if_neg hz1]
  · rw [h1]
  · rw [h1]
  · intro β _ alpha' beta' sh' out'
    exact k28s1_rowLoop_sums batch channel alpha' beta' bx b t sh' out' i hi

theorem Filter3x3_Input28x28_Stride1_row_loop_invariant_witness :
    7 < 8 ∧
    (Filter3x3_Input28x28_Stride1.rowLoopEntry (depthwiseShape 1 8 28 28 3 3 28 28 1 1) (3 : Int) 5 0 0 223
        ⟨fun i => (i : Int) + 1, fun i => 2 * (i : Int) + 1⟩ (fun _ => 0) 7).sum0
      = nestSum (taps 3 (fun j => (⟨fun i => (i : Int) + 1, fun i => 2 * (i : Int) + 1⟩ : Shared Int).filterData
            (223 / 28 * 3 * 3 + j))
          (fun r kw => (⟨fun i => (i : Int) + 1, fun i => 2 * (i : Int) + 1⟩ : Shared Int).inputData
            (223 / 28 * 30 * 28 + 223 % 28 + r * 30 + kw))
          (if 7 = 0 then [(1, 0)] else [(0, 3 * 7 - 1), (1, 3 * 7)])) :=
  ⟨by decide,
    (Filter3x3_Input28x28_Stride1_row_loop_invariant 1 8 (3 : Int) 5 0 0 223
      ⟨fun i => (i : Int) + 1, fun i => 2 * (i : Int) + 1⟩ (fun _ => 0) 7 (by decide)).2.1.1⟩

end Claims3

section Claims4
variable {α : Type}

/-! ## Claim C31: the row loop of the 28 x 28 stride-2 kernel -/

/-- Counterexample to claim C32 as stated (the write address would equal the NCHW output address
for every launch): with batch 684786 and 1 channel the NCHW address of output element
`[684785, 0, 55, 55]` is 2147488895, which is `2^31` or more.  Store 13 of lane 223 = 56 * 3 + 55
of group `(684785, 0)` is the store for it; the source computes the write address, from the
input base index and `inputWidth`, in a 32-bit `int`, which then holds -2147478401: the
write address is not the NCHW address, and no 32-bit index of any lane equals 2147488895. -/
theorem Filter3x3_Input56x56_Stride1_write_address_wraps :
    (684785 < 684786 ∧ 0 < 1 ∧ 55 < 56 ∧ 55 < 56) ∧
    ¬ (684786 * 1 * 56 * 56 < 2 ^ 31) ∧
    2 ^ 31 ≤ Filter3x3_Input56x56_Stride1.outputIdx (depthwiseShape 684786 1 56 56 3 3 56 56 1 1) 684785 0 223 0 ∧
    Filter3x3_Input56x56_Stride1.outputIdx (depthwiseShape 684786 1 56 56 3 3 56 56 1 1) 684785 0 223 13
      = nchw 1 56 56 684785 0 55 55 ∧
    nchw 1 56 56 684785 0 55 55 = 2147488895 ∧
    int32 (Filter3x3_Input56x56_Stride1.outputIdx (depthwiseShape 684786 1 56 56 3 3 56 56 1 1) 684785 0 223 13) = -2147478401 ∧
    (∀ bx b t k, int32 (Filter3x3_Input56x56_Stride1.outputIdx (depthwiseShape 684786 1 56 56 3 3 56 56 1 1) bx b t k)
      ≠ nchw 1 56 56 684785 0 55 55) :=
  ⟨by decide, by decide, by decide, by decide, by decide, by decide,
    fun bx b t k => int32_ne_of_le _ _ (by decide)⟩

/-- Claim C32, amended: in `Filter3x3_Input56x56_Stride1`, for a launch of fewer than `2^31`
elements (`batch * channel * 56 * 56 < 2 ^ 31`), every global index a lane computes is the
value of the 32-bit `int` the source holds it in (`IndexFits32`); every lane performs exactly
14 output stores, at the indices `outputIdx ... k`, k = 0..13, which the source computes from
the input base index and `inputWidth`; the 224 lanes form 4 groups of 56: lane `56 g + j` (g < 4, j < 56) stores,
at its `k`-th store, to the NCHW output address `((n * channel + c) * 56 + (14 g + k)) * 56 + j`
of group `(n, c)`, that is row `14 g + k`, column `j`; and the lanes `56 g .. 56 g + 55` write
exactly the output rows `14 g .. 14 g + 13`: an element `[n, c, oh, ow]` is stored to by a
lane of lane group `g` if and only if `14 g <= oh < 14 g + 14`; and for every group `(n, c)` of
the grid the 32-bit `int` holding the write address has the value of the NCHW address. -/
theorem Filter3x3_Input56x56_Stride1_lane_groups [Add α] [Mul α] [Zero α] (batch channel : Nat)
    (hsz : batch * channel * 56 * 56 < 2 ^ 31) :
    IndexFits32 batch (channel) 224 14
      (fun bx b t => (Filter3x3_Input56x56_Stride1.inputLoads (depthwiseShape batch channel 56 56 3 3 56 56 1 1) bx b t).map (fun q => (q.2 : Int)))
      (Filter3x3_Input56x56_Stride1.outputIdx (depthwiseShape batch channel 56 56 3 3 56 56 1 1)) ∧
    (∀ (alpha beta : α) (bx b t : Nat) (sh : Shared α),
      StoresAt (Filter3x3_Input56x56_Stride1.convolve (depthwiseShape batch channel 56 56 3 3 56 56 1 1) alpha beta bx b t sh) 14
        (Filter3x3_Input56x56_Stride1.outputIdx (depthwiseShape batch channel 56 56 3 3 56 56 1 1) bx b t)) ∧
    (∀ n c g j k, g < 4 → j < 56 → k < 14 →
      Filter3x3_Input56x56_Stride1.outputIdx (depthwiseShape batch channel 56 56 3 3 56 56 1 1) n c (56 * g + j) k
        = ((n * channel + c) * 56 + (14 * g + k)) * 56 + j) ∧
    (∀ n c g oh ow, g < 4 → oh < 56 → ow < 56 →
      ((∃ j < 56, ∃ k < 14,
          Filter3x3_Input56x56_Stride1.outputIdx (depthwiseShape batch channel 56 56 3 3 56 56 1 1) n c (56 * g + j) k
            = ((n * channel + c) * 56 + oh) * 56 + ow) ↔
        (14 * g ≤ oh ∧ oh < 14 * g + 14))) ∧
    (∀ n c g j k, n < batch → c < channel → g < 4 → j < 56 → k < 14 →
      int32 (Filter3x3_Input56x56_Stride1.outputIdx (depthwiseShape batch channel 56 56 3 3 56 56 1 1) n c (56 * g + j) k)
        = ((((n * channel + c) * 56 + (14 * g + k)) * 56 + j : Nat) : Int)) := by
  have key : ∀ n c g j k, g < 4 → j < 56 → k < 14 →
      Filter3x3_Input56x56_Stride1.outputIdx (depthwiseShape batch channel 56 56 3 3 56 56 1 1) n c (56 * g + j) k
        = ((n * channel + c) * 56 + (14 * g + k)) * 56 + j := by
    intro n c g j k hg hj hk
    rw [k56_outputIdx_eq]
    unfold nchw
    have e1 : (56 * g + j) / 56 = g := by omega
    have e2 : (56 * g + j) % 56 = j := by omega
    rw [e1, e2]
    ring
  refine ⟨k56_fits32 batch channel hsz,
    fun alpha beta bx b t sh => k56_convolve_stores batch channel alpha beta bx b t sh,
    key, ?_, ?_⟩
  · intro n c g oh ow hg hoh how
    constructor
    · rintro ⟨j, hj, k, hk, e⟩
      rw [key n c g j k hg hj hk] at e
      omega
    · intro h
      refine ⟨ow, how, oh - 14 * g, by omega, ?_⟩
      rw [key n c g ow (oh - 14 * g) hg how (by omega)]
      have e : 14 * g + (oh - 14 * g) = oh := by omega
      rw [e]
  · intro n c g j k hn hc hg hj hk
    rw [(k56_fits32 batch channel hsz n hn c hc (56 * g + j) (by omega)).2 k hk,
      key n c g j k hg hj hk]

theorem Filter3x3_Input56x56_Stride1_lane_groups_witness :
    (2 * 3 * 56 * 56 < 2 ^ 31 ∧ 1 < 2 ∧ 2 < 3 ∧ 3 < 4 ∧ 55 < 56 ∧ 13 < 14) ∧
    int32 (Filter3x3_Input56x56_Stride1.outputIdx (depthwiseShape 2 3 56 56 3 3 56 56 1 1) 1 2 (56 * 3 + 55) 13)
      = ((((1 * 3 + 2) * 56 + (14 * 3 + 13)) * 56 + 55 : Nat) : Int) :=
  ⟨by decide, (@Filter3x3_Input56x56_Stride1_lane_groups Int _ _ _ 2 3 (by decide)).2.2.2.2 1 2 3 55 13
    (by decide) (by decide) (by decide) (by decide) (by decide)⟩

/-! ## Claim C33: the extent of the tile of the 112 x 112 kernel -/

/-- Counterexample to claim C33 as stated (every write into `inputData` of
`Filter3x3_Input112x112_Stride2` would land below `58 * 114`): in the even group 0, lane 112 stores,
in the load of the extra row, to tile index `58 * 114 + 1` (row 58, column 1). -/
theorem Filter3x3_Input112x112_Stride2_tile_write_in_row_58 :
    58 * 114 + 1 ∈ (Filter3x3_Input112x112_Stride2.inputLoads (depthwiseShape 1 1 112 112 3 3 56 56 1 2) 0 0 112).map Prod.fst ∧
    ¬ (∀ b t, t < 224 → ∀ a ∈ (Filter3x3_Input112x112_Stride2.inputLoads (depthwiseShape 1 1 112 112 3 3 56 56 1 2) 0 b t).map Prod.fst,
        a < 58 * 114) := by
  have h : 58 * 114 + 1 ∈ (Filter3x3_Input112x112_Stride2.inputLoads (depthwiseShape 1 1 112 112 3 3 56 56 1 2) 0 0 112).map Prod.fst := by
    decide
  exact ⟨h, fun hall => absurd (hall 0 112 (by decide) _ h) (by decide)⟩

/-- Claim C33, amended: in `Filter3x3_Input112x112_Stride2` the tile of an even group occupies 59
rows of 114 elements and the tile of an odd group 58 rows, inside the `59 * 114` elements the
source declares (the comment's 58 rows leave out the extra row of the even group): the load
phase performs exactly the stores listed by `paddingStores` and `inputLoads`; every store of
the zero fill lands below `58 * 114`; every store of the bulk copy lands below `59 * 114`, and
below `57 * 114` in an odd group; and in an even group every lane `t >= 112` stores, in its last
load, to index `t / 112 * 2 + t + 1 + 114 + 2 * 114 * 28`, which is in row 58. -/
theorem Filter3x3_Input112x112_Stride2_tile_extent [Zero α] (batch channel : Nat)
    (input filter : Nat → α) (bx b t : Nat) (ht : t < 224) :
    LoadTrace (Filter3x3_Input112x112_Stride2.fillPhase filter (depthwiseShape batch channel 112 112 3 3 56 56 1 2) bx b)
        (Filter3x3_Input112x112_Stride2.copyPhase input (depthwiseShape batch channel 112 112 3 3 56 56 1 2) bx b)
        (Filter3x3_Input112x112_Stride2.paddingStores (depthwiseShape batch channel 112 112 3 3 56 56 1 2))
        (fun t => (Filter3x3_Input112x112_Stride2.inputLoads (depthwiseShape batch channel 112 112 3 3 56 56 1 2) bx b t).map (fun q => (q.1, input q.2.toNat)))
        (fun t => (Filter3x3_Input112x112_Stride2.filterStores (depthwiseShape batch channel 112 112 3 3 56 56 1 2) b t).map (fun q => (q.1, filter q.2))) ∧
    (∀ a ∈ Filter3x3_Input112x112_Stride2.paddingStores (depthwiseShape batch channel 112 112 3 3 56 56 1 2) t, a < 58 * 114) ∧
    (∀ a ∈ (Filter3x3_Input112x112_Stride2.inputLoads (depthwiseShape batch channel 112 112 3 3 56 56 1 2) bx b t).map Prod.fst, a < 59 * 114) ∧
    (b % 2 = 1 → ∀ a ∈ (Filter3x3_Input112x112_Stride2.inputLoads (depthwiseShape batch channel 112 112 3 3 56 56 1 2) bx b t).map Prod.fst, a < 57 * 114) ∧
    (b % 2 = 0 → 112 ≤ t →
      t / 112 * 2 + t + 1 + 114 + 2 * 114 * 28
          ∈ (Filter3x3_Input112x112_Stride2.inputLoads (depthwiseShape batch channel 112 112 3 3 56 56 1 2) bx b t).map Prod.fst ∧
        58 * 114 ≤ t / 112 * 2 + t + 1 + 114 + 2 * 114 * 28) := by
  refine ⟨k112_load_trace batch channel input filter bx b,
    fun a ha => k112_padding_bound batch channel t ht a ha,
    fun a ha => k112_copy_bound batch channel bx b t ht a ha,
    fun hb a ha => k112_copy_bound_odd batch channel bx b t hb ht a ha, ?_⟩
  intro hb h112
  refine ⟨?_, by omega⟩
  rw [k112_copy_targets_even batch channel bx b t hb]
  exact List.mem_map.2 ⟨28, List.mem_range.2 (by omega), rfl⟩

theorem Filter3x3_Input112x112_Stride2_tile_extent_witness :
    (223 < 224 ∧ 0 % 2 = 0 ∧ 112 ≤ 223) ∧
    (223 / 112 * 2 + 223 + 1 + 114 + 2 * 114 * 28
        ∈ (Filter3x3_Input112x112_Stride2.inputLoads (depthwiseShape 1 1 112 112 3 3 56 56 1 2) 0 0 223).map Prod.fst ∧
      58 * 114 ≤ 223 / 112 * 2 + 223 + 1 + 114 + 2 * 114 * 28) :=
  ⟨by decide, (@Filter3x3_Input112x112_Stride2_tile_extent Int _ 1 1 (fun _ => 0) (fun _ => 0) 0 0 223
    (by decide)).2.2.2.2 (by decide) (by decide)⟩

/-! ## Claim C34: scratch accesses stay inside the declared arrays -/

/-- Claim C34: for every variant at its lane count (224, or 112 for 3x3/28/s2) and every
group `(bx, b)`: the load phase performs exactly the stores its traces list; every tile index
stored to by the zero fill or by the bulk copy lies below the declared size of `inputData`
(`16*14*16`, `59*114`, `32*14*18`, `8*28*30`, `32*14*16`, `8*28*30`, `58*58` in the order of the
conjuncts) and every filter-scratch index stored to lies below `groupSize * filterH * filterW`;
the value a lane stores at its `k`-th output store reads `filterData` and `inputData` exactly
at the indices displayed, every one of which lies below these sizes; and what a lane computes
does not change when the scratch arrays are changed at or above these sizes. -/
theorem scratch_access_in_bounds [Add α] [Mul α] [Zero α] (batch channel : Nat)
    (input filter : Nat → α) (alpha beta : α) (bx b : Nat) :
    (LoadTrace (Filter3x3_Input14x14_Stride1.fillPhase filter (depthwiseShape batch channel 14 14 3 3 14 14 1 1) bx b)
        (Filter3x3_Input14x14_Stride1.copyPhase input (depthwiseShape batch channel 14 14 3 3 14 14 1 1) bx b)
        (Filter3x3_Input14x14_Stride1.paddingStores (depthwiseShape batch channel 14 14 3 3 14 14 1 1))
        (fun t => (Filter3x3_Input14x14_Stride1.inputLoads (depthwiseShape batch channel 14 14 3 3 14 14 1 1) bx b t).map (fun q => (q.1, input q.2)))
        (fun t => (Filter3x3_Input14x14_Stride1.filterStores (depthwiseShape batch channel 14 14 3 3 14 14 1 1) b t).map (fun q => (q.1, filter q.2))) ∧
      ScratchInBounds 224 (16 * 14 * 16) (16 * (3 * 3))
        (Filter3x3_Input14x14_Stride1.paddingStores (depthwiseShape batch channel 14 14 3 3 14 14 1 1))
        (fun t => (Filter3x3_Input14x14_Stride1.inputLoads (depthwiseShape batch channel 14 14 3 3 14 14 1 1) bx b t).map Prod.fst)
        (Filter3x3_Input14x14_Stride1.filterStores (depthwiseShape batch channel 14 14 3 3 14 14 1 1) b)
        (fun t sh out => Filter3x3_Input14x14_Stride1.convolve (depthwiseShape batch channel 14 14 3 3 14 14 1 1) alpha beta bx b t sh (out : Nat → α)) ∧
      (∀ (t k : Nat) (sh : Shared α) (out : Nat → α), t < 224 → k < 14 →
        Filter3x3_Input14x14_Stride1.convolve (depthwiseShape batch channel 14 14 3 3 14 14 1 1) alpha beta bx b t sh out
            (Filter3x3_Input14x14_Stride1.outputIdx (depthwiseShape batch channel 14 14 3 3 14 14 1 1) bx b t k)
          = nestSum (taps 3 (fun i => sh.filterData (t / 14 * 3 * 3 + i))
              (fun r kw => sh.inputData (t / 14 * 16 * 14 + t % 14 + r * 16 + kw))
              (tapRows 3 14 1 1 k)) * alpha + beta ∧
        ∀ q ∈ tapRows 3 14 1 1 k, ∀ kw < 3,
          t / 14 * 3 * 3 + (q.1 * 3 + kw) < 16 * (3 * 3) ∧
          t / 14 * 16 * 14 + t % 14 + q.2 * 16 + kw < 16 * 14 * 16)) ∧
    (LoadTrace (Filter3x3_Input112x112_Stride2.fillPhase filter (depthwiseShape batch channel 112 112 3 3 56 56 1 2) bx b)
        (Filter3x3_Input112x112_Stride2.copyPhase input (depthwiseShape batch channel 112 112 3 3 56 56 1 2) bx b)
        (Filter3x3_Input112x112_Stride2.paddingStores (depthwiseShape batch channel 112 112 3 3 56 56 1 2))
        (fun t => (Filter3x3_Input112x112_Stride2.inputLoads (depthwiseShape batch channel 112 112 3 3 56 56 1 2) bx b t).map (fun q => (q.1, input q.2.toNat)))
        (fun t => (Filter3x3_Input112x112_Stride2.filterStores (depthwiseShape batch channel 112 112 3 3 56 56 1 2) b t).map (fun q => (q.1, filter q.2))) ∧
      ScratchInBounds 224 (59 * 114) (1 * (3 * 3))
        (Filter3x3_Input112x112_Stride2.paddingStores (depthwiseShape batch channel 112 112 3 3 56 56 1 2))
        (fun t => (Filter3x3_Input112x112_Stride2.inputLoads (depthwiseShape batch channel 112 112 3 3 56 56 1 2) bx b t).map Prod.fst)
        (Filter3x3_Input112x112_Stride2.filterStores (depthwiseShape batch channel 112 112 3 3 56 56 1 2) b)
        (fun t sh out => Filter3x3_Input112x112_Stride2.convolve (depthwiseShape batch channel 112 112 3 3 56 56 1 2) alpha beta bx b t sh (out : Nat → α)) ∧
      (∀ (t k : Nat) (sh : Shared α) (out : Nat → α), t < 224 → k < 7 →
        Filter3x3_Input112x112_Stride2.convolve (depthwiseShape batch channel 112 112 3 3 56 56 1 2) alpha beta bx b t sh out
            (Filter3x3_Input112x112_Stride2.outputIdx (depthwiseShape batch channel 112 112 3 3 56 56 1 2) bx b t k)
          = nestSum (taps 3 (fun i => sh.filterData (i))
              (fun r kw => sh.inputData (t / 56 * 14 * 114 + t % 56 * 2 + r * 114 + kw))
              (tapRows 3 15 0 2 k)) * alpha + beta ∧
        ∀ q ∈ tapRows 3 15 0 2 k, ∀ kw < 3,
          (q.1 * 3 + kw) < 1 * (3 * 3) ∧
          t / 56 * 14 * 114 + t % 56 * 2 + q.2 * 114 + kw < 59 * 114)) ∧
    (LoadTrace (Filter5x5_Input14x14_Stride2.fillPhase filter (depthwiseShape batch channel 14 14 5 5 7 7 2 2) bx b)
        (Filter5x5_Input14x14_Stride2.copyPhase input (depthwiseShape batch channel 14 14 5 5 7 7 2 2) bx b)
        (Filter5x5_Input14x14_Stride2.paddingStores (depthwiseShape batch channel 14 14 5 5 7 7 2 2))
        (fun t => (Filter5x5_Input14x14_Stride2.inputLoads (depthwiseShape batch channel 14 14 5 5 7 7 2 2) bx b t).map (fun q => (q.1, input q.2)))
        (fun t => (Filter5x5_Input14x14_Stride2.filterStores (depthwiseShape batch channel 14 14 5 5 7 7 2 2) b t).map (fun q => (q.1, filter q.2))) ∧
      ScratchInBounds 224 (32 * 14 * 18) (32 * (5 * 5))
        (Filter5x5_Input14x14_Stride2.paddingStores (depthwiseShape batch channel 14 14 5 5 7 7 2 2))
        (fun t => (Filter5x5_Input14x14_Stride2.inputLoads (depthwiseShape batch channel 14 14 5 5 7 7 2 2) bx b t).map Prod.fst)
        (Filter5x5_Input14x14_Stride2.filterStores (depthwiseShape batch channel 14 14 5 5 7 7 2 2) b)
        (fun t sh out => Filter5x5_Input14x14_Stride2.convolve (depthwiseShape batch channel 14 14 5 5 7 7 2 2) alpha beta bx b t sh (out : Nat → α)) ∧
      (∀ (t k : Nat) (sh : Shared α) (out : Nat → α), t < 224 → k < 7 →
        Filter5x5_Input14x14_Stride2.convolve (depthwiseShape batch channel 14 14 5 5 7 7 2 2) alpha beta bx b t sh out
            (Filter5x5_Input14x14_Stride2.outputIdx (depthwiseShape batch channel 14 14 5 5 7 7 2 2) bx b t k)
          = nestSum (taps 5 (fun i => sh.filterData (t / 7 * 5 * 5 + i))
              (fun r kw => sh.inputData (t / 7 * 18 * 14 + t % 7 * 2 + kw + r * 18))
              (tapRows 5 14 2 2 k)) * alpha + beta ∧
        ∀ q ∈ tapRows 5 14 2 2 k, ∀ kw < 5,
          t / 7 * 5 * 5 + (q.1 * 5 + kw) < 32 * (5 * 5) ∧
          t / 7 * 18 * 14 + t % 7 * 2 + kw + q.2 * 18 < 32 * 14 * 18)) ∧
    (LoadTrace (Filter3x3_Input28x28_Stride2.fillPhase filter (depthwiseShape batch channel 28 28 3 3 14 14 1 2) bx b)
        (Filter3x3_Input28x28_Stride2.copyPhase input (depthwiseShape batch channel 28 28 3 3 14 14 1 2) bx b)
        (Filter3x3_Input28x28_Stride2.paddingStores (depthwiseShape batch channel 28 28 3 3 14 14 1 2))
        (fun t => (Filter3x3_Input28x28_Stride2.inputLoads (depthwiseShape batch channel 28 28 3 3 14 14 1 2) bx b t).map (fun q => (q.1, input q.2)))
        (fun t => (Filter3x3_Input28x28_Stride2.filterStores (depthwiseShape batch channel 28 28 3 3 14 14 1 2) b t).map (fun q => (q.1, filter q.2))) ∧
      ScratchInBounds 112 (8 * 28 * 30) (8 * (3 * 3))
        (Filter3x3_Input28x28_Stride2.paddingStores (depthwiseShape batch channel 28 28 3 3 14 14 1 2))
        (fun t => (Filter3x3_Input28x28_Stride2.inputLoads (depthwiseShape batch channel 28 28 3 3 14 14 1 2) bx b t).map Prod.fst)
        (Filter3x3_Input28x28_Stride2.filterStores (depthwiseShape batch channel 28 28 3 3 14 14 1 2) b)
        (fun t sh out => Filter3x3_Input28x28_Stride2.convolve (depthwiseShape batch channel 28 28 3 3 14 14 1 2) alpha beta bx b t sh (out : Nat → α)) ∧
      (∀ (t k : Nat) (sh : Shared α) (out : Nat → α), t < 112 → k < 14 →
        Filter3x3_Input28x28_Stride2.convolve (depthwiseShape batch channel 28 28 3 3 14 14 1 2) alpha beta bx b t sh out
            (Filter3x3_Input28x28_Stride2.outputIdx (depthwiseShape batch channel 28 28 3 3 14 14 1 2) bx b t k)
          = nestSum (taps 3 (fun i => sh.filterData (t / 14 * 3 * 3 + i))
              (fun r kw => sh.inputData (t / 14 * 30 * 28 + t % 14 * 2 + r * 30 + kw))
              (tapRows 3 28 1 2 k)) * alpha + beta ∧
        ∀ q ∈ tapRows 3 28 1 2 k, ∀ kw < 3,
          t / 14 * 3 * 3 + (q.1 * 3 + kw) < 8 * (3 * 3) ∧
          t / 14 * 30 * 28 + t % 14 * 2 + q.2 * 30 + kw < 8 * 28 * 30)) ∧
    (LoadTrace (Filter3x3_Input14x14_Stride2.fillPhase filter (depthwiseShape batch channel 14 14 3 3 7 7 1 2) bx b)
        (Filter3x3_Input14x14_Stride2.copyPhase input (depthwiseShape batch channel 14 14 3 3 7 7 1 2) bx b)
        (Filter3x3_Input14x14_Stride2.paddingStores (depthwiseShape batch channel 14 14 3 3 7 7 1 2))
        (fun t => (Filter3x3_Input14x14_Stride2.inputLoads (depthwiseShape batch channel 14 14 3 3 7 7 1 2) bx b t).map (fun q => (q.1, input q.2)))
        (fun t => (Filter3x3_Input14x14_Stride2.filterStores (depthwiseShape batch channel 14 14 3 3 7 7 1 2) b t).map (fun q => (q.1, filter q.2))) ∧
      ScratchInBounds 224 (32 * 14 * 16) (32 * (3 * 3))
        (Filter3x3_Input14x14_Stride2.paddingStores (depthwiseShape batch channel 14 14 3 3 7 7 1 2))
        (fun t => (Filter3x3_Input14x14_Stride2.inputLoads (depthwiseShape batch channel 14 14 3 3 7 7 1 2) bx b t).map Prod.fst)
        (Filter3x3_Input14x14_Stride2.filterStores (depthwiseShape batch channel 14 14 3 3 7 7 1 2) b)
        (fun t sh out => Filter3x3_Input14x14_Stride2.convolve (depthwiseShape batch channel 14 14 3 3 7 7 1 2) alpha beta bx b t sh (out : Nat → α)) ∧
      (∀ (t k : Nat) (sh : Shared α) (out : Nat → α), t < 224 → k < 7 →
        Filter3x3_Input14x14_Stride2.convolve (depthwiseShape batch channel 14 14 3 3 7 7 1 2) alpha beta bx b t sh out
            (Filter3x3_Input14x14_Stride2.outputIdx (depthwiseShape batch channel 14 14 3 3 7 7 1 2) bx b t k)
          = nestSum (taps 3 (fun i => sh.filterData (t / 7 * 3 * 3 + i))
              (fun r kw => sh.inputData (t / 7 * 16 * 14 + t % 7 * 2 + r * 16 + kw))
              (tapRows 3 14 1 2 k)) * alpha + beta ∧
        ∀ q ∈ tapRows 3 14 1 2 k, ∀ kw < 3,
          t / 7 * 3 * 3 + (q.1 * 3 + kw) < 32 * (3 * 3) ∧
          t / 7 * 16 * 14 + t % 7 * 2 + q.2 * 16 + kw < 32 * 14 * 16)) ∧
    (LoadTrace (Filter3x3_Input28x28_Stride1.fillPhase filter (depthwiseShape batch channel 28 28 3 3 28 28 1 1) bx b)
        (Filter3x3_Input28x28_Stride1.copyPhase input (depthwiseShape batch channel 28 28 3 3 28 28 1 1) bx b)
        (Filter3x3_Input28x28_Stride1.paddingStores (depthwiseShape batch channel 28 28 3 3 28 28 1 1))
        (fun t => (Filter3x3_Input28x28_Stride1.inputLoads (depthwiseShape batch channel 28 28 3 3 28 28 1 1) bx b t).map (fun q => (q.1, input q.2)))
        (fun t => (Filter3x3_Input28x28_Stride1.filterStores (depthwiseShape batch channel 28 28 3 3 28 28 1 1) b t).map (fun q => (q.1, filter q.2))) ∧
      ScratchInBounds 224 (8 * 28 * 30) (8 * (3 * 3))
        (Filter3x3_Input28x28_Stride1.paddingStores (depthwiseShape batch channel 28 28 3 3 28 28 1 1))
        (fun t => (Filter3x3_Input28x28_Stride1.inputLoads (depthwiseShape batch channel 28 28 3 3 28 28 1 1) bx b t).map Prod.fst)
        (Filter3x3_Input28x28_Stride1.filterStores (depthwiseShape batch channel 28 28 3 3 28 28 1 1) b)
        (fun t sh out => Filter3x3_Input28x28_Stride1.convolve (depthwiseShape batch channel 28 28 3 3 28 28 1 1) alpha beta bx b t sh (out : Nat → α)) ∧
      (∀ (t k : Nat) (sh : Shared α) (out : Nat → α), t < 224 → k < 28 →
        Filter3x3_Input28x28_Stride1.convolve (depthwiseShape batch channel 28 28 3 3 28 28 1 1) alpha beta bx b t sh out
            (Filter3x3_Input28x28_Stride1.outputIdx (depthwiseShape batch channel 28 28 3 3 28 28 1 1) bx b t k)
          = nestSum (taps 3 (fun i => sh.filterData (t / 28 * 3 * 3 + i))
              (fun r kw => sh.inputData (t / 28 * 30 * 28 + t % 28 + r * 30 + kw))
              (tapRows 3 28 1 1 k)) * alpha + beta ∧
        ∀ q ∈ tapRows 3 28 1 1 k, ∀ kw < 3,
          t / 28 * 3 * 3 + (q.1 * 3 + kw) < 8 * (3 * 3) ∧
          t / 28 * 30 * 28 + t % 28 + q.2 * 30 + kw < 8 * 28 * 30)) ∧
    (LoadTrace (Filter3x3_Input56x56_Stride1.fillPhase filter (depthwiseShape batch channel 56 56 3 3 56 56 1 1) bx b)
        (Filter3x3_Input56x56_Stride1.copyPhase input (depthwiseShape batch channel 56 56 3 3 56 56 1 1) bx b)
        (Filter3x3_Input56x56_Stride1.paddingStores (depthwiseShape batch channel 56 56 3 3 56 56 1 1))
        (fun t => (Filter3x3_Input56x56_Stride1.inputLoads (depthwiseShape batch channel 56 56 3 3 56 56 1 1) bx b t).map (fun q => (q.1, input q.2)))
        (fun t => (Filter3x3_Input56x56_Stride1.filterStores (depthwiseShape batch channel 56 56 3 3 56 56 1 1) b t).map (fun q => (q.1, filter q.2))) ∧
      ScratchInBounds 224 (58 * 58) (1 * (3 * 3))
        (Filter3x3_Input56x56_Stride1.paddingStores (depthwiseShape batch channel 56 56 3 3 56 56 1 1))
        (fun t => (Filter3x3_Input56x56_Stride1.inputLoads (depthwiseShape batch channel 56 56 3 3 56 56 1 1) bx b t).map Prod.fst)
        (Filter3x3_Input56x56_Stride1.filterStores (depthwiseShape batch channel 56 56 3 3 56 56 1 1) b)
        (fun t sh out => Filter3x3_Input56x56_Stride1.convolve (depthwiseShape batch channel 56 56 3 3 56 56 1 1) alpha beta bx b t sh (out : Nat → α)) ∧
      (∀ (t k : Nat) (sh : Shared α) (out : Nat → α), t < 224 → k < 14 →
        Filter3x3_Input56x56_Stride1.convolve (depthwiseShape batch channel 56 56 3 3 56 56 1 1) alpha beta bx b t sh out
            (Filter3x3_Input56x56_Stride1.outputIdx (depthwiseShape batch channel 56 56 3 3 56 56 1 1) bx b t k)
          = nestSum (taps 3 (fun i => sh.filterData (0 + i))
              (fun r kw => sh.inputData (t / 56 * 58 * 14 + t % 56 + r * 58 + kw))
              (tapRows 3 16 0 1 k)) * alpha + beta ∧
        ∀ q ∈ tapRows 3 16 0 1 k, ∀ kw < 3,
          0 + (q.1 * 3 + kw) < 1 * (3 * 3) ∧
          t / 56 * 58 * 14 + t % 56 + q.2 * 58 + kw < 58 * 58)) := by
  refine ⟨?_, ?_, ?_, ?_, ?_, ?_, ?_⟩
  · refine ⟨k14s1_load_trace batch channel input filter bx b,
      ⟨fun t ht => ⟨fun a ha => k14s1_padding_bound batch channel t ht a ha,
        fun a ha => k14s1_copy_bound batch channel bx b t ht a ha,
        fun q hq => (k14s1_filter_once batch channel b).1 t ht q hq⟩,
      fun t ht sh sh' out hi hf =>
        k14s1_convolve_congr batch channel alpha beta bx b t ht sh sh' out hi hf⟩, ?_⟩
    intro t k sh out ht hk
    refine ⟨k14s1_stored_value batch channel alpha beta bx b t k hk sh out, ?_⟩
    intro q hq kw hkw
    obtain ⟨h1, h2, h3⟩ := (mem_tapRows _ _ _ _ _ q).1 hq
    constructor <;> omega
  · refine ⟨k112_load_trace batch channel input filter bx b,
      ⟨fun t ht => ⟨fun a ha => Nat.lt_trans (k112_padding_bound batch channel t ht a ha) (by decide),
        fun a ha => k112_copy_bound batch channel bx b t ht a ha,
        fun q hq => (k112_filter_once batch channel b).1 t ht q hq⟩,
      fun t ht sh sh' out hi hf =>
        k112_convolve_congr batch channel alpha beta bx b t ht sh sh' out
          (fun a ha => hi a (by omega)) hf⟩, ?_⟩
    intro t k sh out ht hk
    refine ⟨k112_stored_value batch channel alpha beta bx b t k hk sh out, ?_⟩
    intro q hq kw hkw
    obtain ⟨h1, h2, h3⟩ := (mem_tapRows _ _ _ _ _ q).1 hq
    constructor <;> omega
  · refine ⟨k5x5_load_trace batch channel input filter bx b,
      ⟨fun t ht => ⟨fun a ha => k5x5_padding_bound batch channel t ht a ha,
        fun a ha => k5x5_copy_bound batch channel bx b t ht a ha,
        fun q hq => (k5x5_filter_once batch channel b).1 t ht q hq⟩,
      fun t ht sh sh' out hi hf =>
        k5x5_convolve_congr batch channel alpha beta bx b t ht sh sh' out hi hf⟩, ?_⟩
    intro t k sh out ht hk
    refine ⟨k5x5_stored_value batch channel alpha beta bx b t k hk sh out, ?_⟩
    intro q hq kw hkw
    obtain ⟨h1, h2, h3⟩ := (mem_tapRows _ _ _ _ _ q).1 hq
    constructor <;> omega
  · refine ⟨k28s2_load_trace batch channel input filter bx b,
      ⟨fun t ht => ⟨fun a ha => k28s2_padding_bound batch channel t ht a ha,
        fun a ha => k28s2_copy_bound batch channel bx b t ht a ha,
        fun q hq => (k28s2_filter_once batch channel b).1 t ht q hq⟩,
      fun t ht sh sh' out hi hf =>
        k28s2_convolve_congr batch channel alpha beta bx b t ht sh sh' out hi hf⟩, ?_⟩
    intro t k sh out ht hk
    refine ⟨k28s2_stored_value batch channel alpha beta bx b t k hk sh out, ?_⟩
    intro q hq kw hkw
    obtain ⟨h1, h2, h3⟩ := (mem_tapRows _ _ _ _ _ q).1 hq
    constructor <;> omega
  · refine ⟨k14s2_load_trace batch channel input filter bx b,
      ⟨fun t ht => ⟨fun a ha => k14s2_padding_bound batch channel t ht a ha,
        fun a ha => k14s2_copy_bound batch channel bx b t ht a ha,
        fun q hq => (k14s2_filter_once batch channel b).1 t ht q hq⟩,
      fun t ht sh sh' out hi hf =>
        k14s2_convolve_congr batch channel alpha beta bx b t ht sh sh' out hi hf⟩, ?_⟩
    intro t k sh out ht hk
    refine ⟨k14s2_stored_value batch channel alpha beta bx b t k hk sh out, ?_⟩
    intro q hq kw hkw
    obtain ⟨h1, h2, h3⟩ := (mem_tapRows _ _ _ _ _ q).1 hq
    constructor <;> omega
  · refine ⟨k28s1_load_trace batch channel input filter bx b,
      ⟨fun t ht => ⟨fun a ha => k28s1_padding_bound batch channel t ht a ha,
        fun a ha => k28s1_copy_bound batch channel bx b t ht a ha,
        fun q hq => (k28s1_filter_once batch channel b).1 t ht q hq⟩,
      fun t ht sh sh' out hi hf =>
        k28s1_convolve_congr batch channel alpha beta bx b t ht sh sh' out hi hf⟩, ?_⟩
    intro t k sh out ht hk
    refine ⟨k28s1_stored_value batch channel alpha beta bx b t k hk sh out, ?_⟩
    intro q hq kw hkw
    obtain ⟨h1, h2, h3⟩ := (mem_tapRows _ _ _ _ _ q).1 hq
    constructor <;> omega
  · refine ⟨k56_load_trace batch channel input filter bx b,
      ⟨fun t ht => ⟨fun a ha => k56_padding_bound batch channel t ht a ha,
        fun a ha => k56_copy_bound batch channel bx b t ht a ha,
        fun q hq => (k56_filter_once batch channel b).1 t ht q hq⟩,
      fun t ht sh sh' out hi hf =>
        k56_convolve_congr batch channel alpha beta bx b t ht sh sh' out hi hf⟩, ?_⟩
    intro t k sh out ht hk
    refine ⟨k56_stored_value batch channel alpha beta bx b t k hk sh out, ?_⟩
    intro q hq kw hkw
    obtain ⟨h1, h2, h3⟩ := (mem_tapRows _ _ _ _ _ q).1 hq
    constructor <;> omega

theorem scratch_access_in_bounds_witness :
    (223 < 224 ∧ (2, 14) ∈ tapRows 3 15 0 2 6 ∧ 2 < 3) ∧
    223 / 56 * 14 * 114 + 223 % 56 * 2 + 14 * 114 + 2 < 59 * 114 :=
  ⟨⟨by decide, by decide, by decide⟩,
    ((((@scratch_access_in_bounds Int _ _ _ 1 1 (fun _ => 0) (fun _ => 0) 1 0 0 0).2.1).2.2
      223 6 ⟨fun _ => 0, fun _ => 0⟩ (fun _ => 0) (by decide) (by decide)).2 (2, 14) (by decide) 2
      (by decide)).2⟩

/-! ## Claim C35: additivity in the input -/

end Claims4
